import Mathlib

/-!
Accelio session layer and TCP transport: a verification development.

Shallow embedding of `src/common/xio_session.c` and
`src/usr/transport/tcp/xio_tcp_management.c`.

Conventions of the embedding:

* machine integers are naturals (or integers) with the reduction modulo
  `2 ^ width` written out where the C code can wrap;
* pointers are addresses (naturals); the object a pointer refers to is passed
  to the function that dereferences it and handed back in its result;
* a call that leaves the two source files (a user callback, a function of
  another module, a log line) is recorded, in program order, in a list of
  `xio_call` values carried by the result; what the callee does to the objects
  is not part of these two files and is not modelled, with two exceptions:
  a value the code reads back after the call is an explicit input, and the
  queue operations the specification describes (enqueue in the io-queue,
  removal from the in-flight queue, the sessions cache and the user-object
  table) act on the modelled queues and tables. In particular the state a
  handler returns is the state it hands to its last call
  (`xio_connection_xmit_msgs` for the receive paths).
-/

namespace Accelio

/-! ## Bytes in a buffer -/

/-- Big-endian (network order) bytes of the low `8 * n` bits of `v`. -/
def be_bytes : Nat → Nat → List Nat
  | 0, _ => []
  | n + 1, v => (v / 256 ^ n) % 256 :: be_bytes n v

/-- Value of a big-endian byte string. -/
def be_value (bs : List Nat) : Nat :=
  bs.foldl (fun acc b => acc * 256 + b) 0

/-- Store the bytes `bs` in `buf` from index `pos` on. -/
def mem_store : List Nat → Nat → List Nat → List Nat
  | buf, _, [] => buf
  | buf, pos, b :: bs => mem_store (buf.set pos b) (pos + 1) bs

/-- Load `n` bytes of `buf` from index `pos` on. -/
def mem_load (buf : List Nat) : Nat → Nat → List Nat
  | _, 0 => []
  | pos, n + 1 => buf.getD pos 0 :: mem_load buf (pos + 1) n

/-! ## Session header (`struct xio_session_hdr`) -/

/-- The session header as the code holds it in host order. The widths are
those of section 6 of the specification: `serial_num` 64 bits,
`dest_session_id`, `flags`, `receipt_result` 32 bits, `sn`, `ack_sn`,
`credits` 16 bits. -/
structure xio_session_hdr where
  serial_num : Nat
  dest_session_id : Nat
  flags : Nat
  receipt_result : Nat
  sn : Nat
  ack_sn : Nat
  credits : Nat
deriving DecidableEq

/-- Every field of the header fits its width. -/
def xio_session_hdr.wf (h : xio_session_hdr) : Prop :=
  h.serial_num < 2 ^ 64 ∧ h.dest_session_id < 2 ^ 32 ∧ h.flags < 2 ^ 32 ∧
  h.receipt_result < 2 ^ 32 ∧ h.sn < 2 ^ 16 ∧ h.ack_sn < 2 ^ 16 ∧
  h.credits < 2 ^ 16

instance (h : xio_session_hdr) : Decidable h.wf := by
  unfold xio_session_hdr.wf; infer_instance

/-- Modelled from the spec: `struct xio_session_hdr` is declared in
xio_protocol.h, which is not among the sources. Section 6 gives the wire
layout: the fields in the order serial_num, dest_session_id, flags,
receipt_result, sn, ack_sn, credits with no padding. Offset of serial_num. -/
def off_serial_num : Nat := 0
/-- Modelled from the spec: offset of dest_session_id in the session header. -/
def off_dest_session_id : Nat := 8
/-- Modelled from the spec: offset of flags in the session header. -/
def off_flags : Nat := 12
/-- Modelled from the spec: offset of receipt_result in the session header. -/
def off_receipt_result : Nat := 16
/-- Modelled from the spec: offset of sn in the session header. -/
def off_sn : Nat := 20
/-- Modelled from the spec: offset of ack_sn in the session header. -/
def off_ack_sn : Nat := 22
/-- Modelled from the spec: offset of credits in the session header. -/
def off_credits : Nat := 24
/-- Modelled from the spec: `sizeof(struct xio_session_hdr)`, the sum of the
field sizes of section 6 (8 + 4 + 4 + 4 + 2 + 2 + 2). -/
def sizeof_xio_session_hdr : Nat := 26

/-- Modelled from the spec: the macros PACK_SVAL, PACK_LVAL, PACK_LLVAL come
from xio_common.h, which is not among the sources. Section 6 says the header
is big-endian on the wire: the macro stores the 16-bit field at its place in
the target header in network byte order. -/
def PACK_SVAL (buf : List Nat) (tmp_hdr off v : Nat) : List Nat :=
  mem_store buf (tmp_hdr + off) (be_bytes 2 v)
/-- Modelled from the spec: PACK_LVAL, the 32-bit store in network order. -/
def PACK_LVAL (buf : List Nat) (tmp_hdr off v : Nat) : List Nat :=
  mem_store buf (tmp_hdr + off) (be_bytes 4 v)
/-- Modelled from the spec: PACK_LLVAL, the 64-bit store in network order. -/
def PACK_LLVAL (buf : List Nat) (tmp_hdr off v : Nat) : List Nat :=
  mem_store buf (tmp_hdr + off) (be_bytes 8 v)
/-- Modelled from the spec: UNPACK_SVAL, the 16-bit load from network order. -/
def UNPACK_SVAL (buf : List Nat) (tmp_hdr off : Nat) : Nat :=
  be_value (mem_load buf (tmp_hdr + off) 2)
/-- Modelled from the spec: UNPACK_LVAL, the 32-bit load from network order. -/
def UNPACK_LVAL (buf : List Nat) (tmp_hdr off : Nat) : Nat :=
  be_value (mem_load buf (tmp_hdr + off) 4)
/-- Modelled from the spec: UNPACK_LLVAL, the 64-bit load from network order. -/
def UNPACK_LLVAL (buf : List Nat) (tmp_hdr off : Nat) : Nat :=
  be_value (mem_load buf (tmp_hdr + off) 8)

/-- The message buffer of a task: the bytes and the cursor (`curr`). -/
structure xio_mbuf where
  buf : List Nat
  curr : Nat
deriving DecidableEq

/-- Declarations the two source files use but do not contain (they live in
headers outside the sources). They are parameters of the embedding.

* `xio_mbuf_set_session_hdr` (xio_mbuf.h): positions the cursor at the start
  of the session header and yields that position; the function gives the
  position for a buffer.
* the flag masks of libxio.h and xio_protocol.h. -/
structure xio_decls where
  xio_mbuf_set_session_hdr : xio_mbuf → Nat
  XIO_MSG_FLAG_REQUEST_READ_RECEIPT : Nat
  XIO_MSG_FLAG_LAST_IN_BATCH : Nat
  XIO_MSG_RSP_FLAG_FIRST : Nat
  XIO_MSG_RSP_FLAG_LAST : Nat

/-- Mbuf part of `xio_session_write_header`: pack the seven fields at the
session header, then `xio_mbuf_inc` by the header size. -/
def xio_session_write_header_mbuf (D : xio_decls) (mbuf : xio_mbuf)
    (hdr : xio_session_hdr) : xio_mbuf :=
  let tmp_hdr := D.xio_mbuf_set_session_hdr mbuf
  let b1 := PACK_LVAL mbuf.buf tmp_hdr off_dest_session_id hdr.dest_session_id
  let b2 := PACK_LLVAL b1 tmp_hdr off_serial_num hdr.serial_num
  let b3 := PACK_LVAL b2 tmp_hdr off_flags hdr.flags
  let b4 := PACK_LVAL b3 tmp_hdr off_receipt_result hdr.receipt_result
  let b5 := PACK_SVAL b4 tmp_hdr off_sn hdr.sn
  let b6 := PACK_SVAL b5 tmp_hdr off_ack_sn hdr.ack_sn
  let b7 := PACK_SVAL b6 tmp_hdr off_credits hdr.credits
  { buf := b7, curr := tmp_hdr + sizeof_xio_session_hdr }

/-- Mbuf part of `xio_session_read_header`: unpack the seven fields at the
session header, then `xio_mbuf_inc` by the header size. -/
def xio_session_read_header_mbuf (D : xio_decls) (mbuf : xio_mbuf) :
    xio_mbuf × xio_session_hdr :=
  let tmp_hdr := D.xio_mbuf_set_session_hdr mbuf
  let hdr : xio_session_hdr :=
    { serial_num := UNPACK_LLVAL mbuf.buf tmp_hdr off_serial_num
      dest_session_id := UNPACK_LVAL mbuf.buf tmp_hdr off_dest_session_id
      flags := UNPACK_LVAL mbuf.buf tmp_hdr off_flags
      receipt_result := UNPACK_LVAL mbuf.buf tmp_hdr off_receipt_result
      sn := UNPACK_SVAL mbuf.buf tmp_hdr off_sn
      ack_sn := UNPACK_SVAL mbuf.buf tmp_hdr off_ack_sn
      credits := UNPACK_SVAL mbuf.buf tmp_hdr off_credits }
  ({ buf := mbuf.buf, curr := tmp_hdr + sizeof_xio_session_hdr }, hdr)

/-! ## Tasks, messages and connections -/

/-- TLV types of section 6 (the enumeration is declared in xio_protocol.h);
`OTHER` stands for any value that is none of the named types. -/
inductive xio_tlv_type
  | XIO_MSG_REQ | XIO_MSG_RSP | XIO_ONE_WAY_REQ | XIO_ONE_WAY_RSP | XIO_ACK_REQ
  | XIO_FIN_REQ | XIO_FIN_RSP | XIO_SESSION_SETUP_REQ | XIO_SESSION_SETUP_RSP
  | XIO_CONNECTION_HELLO_REQ | XIO_CONNECTION_HELLO_RSP
  | XIO_CANCEL_REQ | XIO_CANCEL_RSP
  | OTHER (v : Nat)
deriving DecidableEq

/-- Connection states the session layer tests for; `OTHER` stands for every
other enumerator of `enum xio_connection_state` (xio_connection.h). -/
inductive xio_connection_state
  | XIO_CONNECTION_STATE_ONLINE
  | XIO_CONNECTION_STATE_FIN_WAIT_1
  | XIO_CONNECTION_STATE_CLOSED
  | OTHER (v : Nat)
deriving DecidableEq

/-- Task states; the session layer only tests for `DELIVERED`. -/
inductive xio_task_state
  | XIO_TASK_STATE_INIT
  | XIO_TASK_STATE_DELIVERED
  | OTHER (v : Nat)
deriving DecidableEq

/-- One side of a user message (`struct xio_vmsg`): the header length and the
lengths of the scatter-gather entries. -/
structure xio_vmsg where
  header_iov_len : Nat
  sgl_type : Nat
  sgl : List Nat
deriving DecidableEq

/-- Modelled from the spec: `tbl_length` (xio_sg_table.h, not among the
sources) is the total length of the entries of a scatter-gather table. -/
def tbl_length (v : xio_vmsg) : Nat := v.sgl.sum

/-- A user message (`struct xio_msg`), with the fields the session layer
touches. `addr` is the address of the object, `in_` is the C field `in`. -/
structure xio_msg where
  addr : Nat
  sn : Nat
  flags : Nat
  next : Option Nat
  timestamp : Nat
  type : xio_tlv_type
  receipt_res : Nat
  request : Option Nat
  in_ : xio_vmsg
deriving DecidableEq

/-- A task (`struct xio_task`), with the fields the session layer touches. -/
structure xio_task where
  addr : Nat
  tlv_type : xio_tlv_type
  mbuf : xio_mbuf
  imsg : xio_msg
  imsg_flags : Nat
  omsg : Option Nat
  omsg_flags : Nat
  in_receipt : xio_vmsg
  status : Nat
  state : xio_task_state
  session : Option Nat
  connection : Option Nat
  sender_task : Option Nat
deriving DecidableEq

/-- Counters of `struct xio_statistics` the receive paths update. -/
inductive xio_stat
  | XIO_STAT_RX_MSG | XIO_STAT_RX_BYTES | XIO_STAT_DELAY
deriving DecidableEq

/-- Error codes the two files pass to `xio_set_error`. -/
inductive xio_error
  | EPERM | ENOMEM | EBUSY | EINVAL
  | XIO_E_NOT_SUPPORTED | XIO_E_USER_OBJ_NOT_FOUND
deriving DecidableEq

/-- What `kfree` is applied to during session teardown. -/
inductive xio_freed
  | service (p : Nat) | portal (p : Nat)
  | services_array | portals_array | hs_private_data | uri | session
deriving DecidableEq

/-- Calls that leave xio_session.c, recorded in program order. The user
callbacks carry the message as it is when the callback is entered. -/
inductive xio_call
  | ERROR_LOG_sn (expected arrived : Nat)
  | ERROR_LOG_first_flag (flags : Nat)
  | ERROR_LOG_connections_open
  | ERROR_LOG_session_not_found (session : Nat)
  | DEBUG_LOG_offline
  | xio_connection_queue_io_task (task : Nat)
  | xio_connection_remove_in_flight (msg : Nat)
  | xio_connection_send_read_receipt (msg : Nat)
  | xio_connection_xmit_msgs
  | xio_task_addref (task : Nat)
  | xio_tasks_pool_put (task : Nat)
  | xio_release_response_task (task : Nat)
  | xio_stat_inc (counter : xio_stat)
  | xio_stat_add (counter : xio_stat) (v : Nat)
  | on_msg (msg : xio_msg)
  | on_msg_error (status : Nat) (msg : xio_msg)
  | on_msg_delivered (msg : xio_msg)
  | on_ow_msg_send_complete (msg : xio_msg)
  | xio_idr_remove_uobj (session : Nat)
  | xio_sessions_cache_remove (session_id : Nat)
  | kfree (what : xio_freed)
  | XIO_OBSERVER_DESTROY
  | mutex_destroy
deriving DecidableEq

/-- The callbacks of `struct xio_session_ops` the receive paths use.

`on_msg` is called without a null check (the check is commented out in the
source), so it is a callback that is always there; the others are optional.
The code reads `task->state` once the upper layer has returned from `on_msg`
or `on_msg_error` (the upper layer may release the message or answer it from
inside the callback): the function gives the state the callback leaves the
task in. The other callbacks are only invoked: `true` means installed. -/
structure xio_session_ops where
  on_msg : xio_task_state → xio_task_state
  on_msg_error : Option (xio_task_state → xio_task_state)
  on_msg_delivered : Bool
  on_ow_msg_send_complete : Bool

/-- Modelled from the spec: `struct xio_connection` is declared in
xio_connection.h, which is not among the sources. The sequence numbers and
credit counters are 16-bit unsigned like the header fields they are compared
with and assigned from; `tx_queued_msgs` is a signed counter. `in_flight` is
the in-flight queue (addresses of the messages) and `io_tasks` the io-queue
(addresses of the tasks) of section 3. -/
structure xio_connection where
  addr : Nat
  session : Nat
  state : xio_connection_state
  ses_ops : xio_session_ops
  exp_sn : Nat
  ack_sn : Nat
  credits : Nat
  peer_credits : Nat
  tx_queued_msgs : Int
  in_flight : List Nat
  io_tasks : List Nat

/-- The 16-bit counters of a connection hold 16-bit values. -/
def xio_connection.wf (c : xio_connection) : Prop :=
  c.exp_sn < 2 ^ 16 ∧ c.ack_sn < 2 ^ 16 ∧ c.credits < 2 ^ 16 ∧
  c.peer_credits < 2 ^ 16

instance (c : xio_connection) : Decidable c.wf := by
  unfold xio_connection.wf; infer_instance

/-- Values the environment hands back to the receive paths: the cycle counter
read by `get_cycles()` and the return value of `xio_connection_xmit_msgs`. -/
structure xio_env where
  get_cycles : Nat
  xio_connection_xmit_msgs : Int

/-- Modelled from the spec: `xio_connection_queue_io_task` (xio_connection.c,
not among the sources) enqueues the task in the connection's io-queue. -/
def xio_connection_queue_io_task (c : xio_connection) (task : Nat) :
    xio_connection :=
  { c with io_tasks := c.io_tasks ++ [task] }

/-- Modelled from the spec: `xio_connection_remove_in_flight`
(xio_connection.c, not among the sources) removes the message from the
connection's in-flight queue. -/
def xio_connection_remove_in_flight (c : xio_connection) (msg : Nat) :
    xio_connection :=
  { c with in_flight := c.in_flight.erase msg }

/-- Modelled from the spec: `test_bits(mask, addr)` (a macro of the
portability headers, not among the sources): some bit of `mask` is set. -/
def test_bits (mask word : Nat) : Bool := (word &&& mask) != 0

/-- Modelled from the spec: `set_bits(mask, addr)`: the bits of `mask` are set
in the word. -/
def set_bits (mask word : Nat) : Nat := word ||| mask

/-- The function `xio_session_write_header` on a task. -/
def xio_session_write_header (D : xio_decls) (task : xio_task)
    (hdr : xio_session_hdr) : xio_task :=
  { task with mbuf := xio_session_write_header_mbuf D task.mbuf hdr }

/-- The function `xio_session_read_header` on a task. -/
def xio_session_read_header (D : xio_decls) (task : xio_task) :
    xio_task × xio_session_hdr :=
  let r := xio_session_read_header_mbuf D task.mbuf
  ({ task with mbuf := r.1 }, r.2)

/-- The window update the three receive paths share (xio_on_req_recv lines
489-496, xio_on_rsp_recv lines 588-595, xio_on_credits_ack_recv lines
770-777): on a matching sn, `exp_sn++`, `ack_sn = hdr.sn`,
`peer_credits += hdr.credits` in 16-bit arithmetic; otherwise only the log
line. -/
def xio_update_window (c : xio_connection) (hdr : xio_session_hdr) :
    xio_connection × List xio_call :=
  if c.exp_sn = hdr.sn then
    ({ c with exp_sn := (c.exp_sn + 1) % 2 ^ 16
              ack_sn := hdr.sn
              peer_credits := (c.peer_credits + hdr.credits) % 2 ^ 16 }, [])
  else
    (c, [xio_call.ERROR_LOG_sn c.exp_sn hdr.sn])

/-- The function `xio_session_notify_msg_error`: the callback is invoked when
installed; the second component is the task state the callback leaves. -/
def xio_session_notify_msg_error (c : xio_connection) (msg : xio_msg)
    (result : Nat) (st : xio_task_state) : List xio_call × xio_task_state :=
  match c.ses_ops.on_msg_error with
  | some f => ([xio_call.on_msg_error result msg], f st)
  | none => ([], st)

/-- Result of a receive path: the connection and the task as the handler
leaves them, the calls it made and its return value. -/
structure xio_recv_result where
  connection : xio_connection
  task : xio_task
  calls : List xio_call
  ret : Int

/-- The function `xio_on_req_recv`. -/
def xio_on_req_recv (D : xio_decls) (E : xio_env) (connection : xio_connection)
    (task : xio_task) : xio_recv_result :=
  /- read session header -/
  let rd := xio_session_read_header D task
  let task := rd.1
  let hdr := rd.2
  let w := xio_update_window connection hdr
  let connection := w.1
  let calls := w.2
  let msg : xio_msg := { task.imsg with sn := hdr.serial_num, flags := 0, next := none }
  let msg : xio_msg :=
    if test_bits D.XIO_MSG_FLAG_LAST_IN_BATCH task.imsg_flags then
      { msg with flags := set_bits D.XIO_MSG_FLAG_LAST_IN_BATCH msg.flags }
    else msg
  let connection := xio_connection_queue_io_task connection task.addr
  let calls := calls ++ [xio_call.xio_connection_queue_io_task task.addr]
  let task := { task with state := xio_task_state.XIO_TASK_STATE_DELIVERED }
  let receipt : Bool := (hdr.flags &&& D.XIO_MSG_FLAG_REQUEST_READ_RECEIPT) != 0
  let calls := if receipt then calls ++ [xio_call.xio_task_addref task.addr] else calls
  let msg : xio_msg := { msg with timestamp := E.get_cycles }
  let calls := calls ++ [xio_call.xio_stat_inc xio_stat.XIO_STAT_RX_MSG,
    xio_call.xio_stat_add xio_stat.XIO_STAT_RX_BYTES
      (msg.in_.header_iov_len + tbl_length msg.in_)]
  /- notify the upper layer -/
  let up : List xio_call × xio_task :=
    if task.status ≠ 0 then
      let n := xio_session_notify_msg_error connection msg task.status task.state
      (n.1, { task with imsg := msg, state := n.2, status := 0 })
    else
      ([xio_call.on_msg msg],
       { task with imsg := msg, state := connection.ses_ops.on_msg task.state })
  let calls := calls ++ up.1
  let task := up.2
  let calls :=
    if receipt then
      if task.state = xio_task_state.XIO_TASK_STATE_DELIVERED then
        calls ++ [xio_call.xio_connection_send_read_receipt msg.addr]
      else
        calls ++ [xio_call.xio_tasks_pool_put task.addr]
    else calls
  /- now try to send -/
  { connection := connection, task := task,
    calls := calls ++ [xio_call.xio_connection_xmit_msgs], ret := 0 }

/-- Result of the response path: besides the connection and the response
task, the sender task and the original message (`sender_task->omsg`). -/
structure xio_rsp_result where
  connection : xio_connection
  task : xio_task
  sender_task : xio_task
  omsg : xio_msg
  calls : List xio_call
  ret : Int

/-- First part of `xio_on_rsp_recv` for an open connection (lines 578-627):
the header is read, the window updated, the original message taken out of the
in-flight queue unless the response is a standalone receipt, and the response
task cached in the io-queue. The components of the result are the connection,
the task, the original message, the header and the calls made. -/
def xio_on_rsp_recv_head (D : xio_decls) (E : xio_env) (connection : xio_connection)
    (task : xio_task) (omsg : xio_msg) :
    xio_connection × xio_task × xio_msg × xio_session_hdr × List xio_call :=
  /- read session header -/
  let rd := xio_session_read_header D task
  let task := rd.1
  let hdr := rd.2
  /- standalone receipt -/
  let standalone_receipt : Bool :=
    (hdr.flags &&& (D.XIO_MSG_RSP_FLAG_FIRST ||| D.XIO_MSG_RSP_FLAG_LAST))
      == D.XIO_MSG_RSP_FLAG_FIRST
  /- update receive + send window -/
  let w := xio_update_window connection hdr
  let connection := w.1
  let calls := w.2
  let msg : xio_msg := { task.imsg with sn := hdr.serial_num }
  let calls := calls ++ [xio_call.xio_stat_add xio_stat.XIO_STAT_DELAY
      ((E.get_cycles + 2 ^ 64 - omsg.timestamp % 2 ^ 64) % 2 ^ 64),
    xio_call.xio_stat_inc xio_stat.XIO_STAT_RX_MSG]
  let omsg : xio_msg := { omsg with next := none }
  let task := { task with imsg := msg, connection := some connection.addr,
                          session := some connection.session }
  /- remove only if not response with "read receipt" -/
  let rm : Bool :=
    if !standalone_receipt then true
    else if task.tlv_type = xio_tlv_type.XIO_ONE_WAY_RSP then
      (hdr.flags &&& D.XIO_MSG_RSP_FLAG_FIRST) != 0
    else false
  let connection :=
    if rm then xio_connection_remove_in_flight connection omsg.addr else connection
  let calls :=
    if rm then calls ++ [xio_call.xio_connection_remove_in_flight omsg.addr]
    else calls
  let omsg : xio_msg := { omsg with type := task.tlv_type }
  /- cache the task in io queue -/
  let connection := xio_connection_queue_io_task connection task.addr
  let calls := calls ++ [xio_call.xio_connection_queue_io_task task.addr]
  (connection, task, omsg, hdr, calls)

/-- The branch of `xio_on_rsp_recv` for `XIO_ONE_WAY_RSP` (lines 631-656),
up to the final `xio_connection_xmit_msgs`. -/
def xio_on_rsp_recv_one_way (D : xio_decls) (hdr : xio_session_hdr)
    (connection : xio_connection) (task sender_task : xio_task) (omsg : xio_msg)
    (calls : List xio_call) : xio_rsp_result :=
  /- one way message with "read receipt" -/
  let calls :=
    if (hdr.flags &&& D.XIO_MSG_RSP_FLAG_FIRST) == 0 then
      calls ++ [xio_call.ERROR_LOG_first_flag hdr.flags]
    else calls
  let omsg : xio_msg := { omsg with sn := task.imsg.sn, receipt_res := hdr.receipt_result }
  let connection := { connection with tx_queued_msgs := connection.tx_queued_msgs - 1 }
  let calls :=
    if (sender_task.omsg_flags &&& D.XIO_MSG_FLAG_REQUEST_READ_RECEIPT) != 0 then
      if connection.ses_ops.on_msg_delivered then
        calls ++ [xio_call.on_msg_delivered omsg]
      else calls
    else
      if connection.ses_ops.on_ow_msg_send_complete then
        calls ++ [xio_call.on_ow_msg_send_complete omsg]
      else calls
  { connection := connection, task := task,
    sender_task := { sender_task with omsg := none }, omsg := omsg,
    calls := calls ++ [xio_call.xio_release_response_task task.addr],
    ret := 0 }

/-- The part of the `XIO_MSG_RSP` branch of `xio_on_rsp_recv` guarded by
`hdr.flags & XIO_MSG_RSP_FLAG_FIRST` (lines 658-678): the receipt is
delivered; for a standalone receipt the "in" side of the original message is
restored and the receipt task recycled. -/
def xio_on_rsp_recv_first (D : xio_decls) (hdr : xio_session_hdr)
    (connection : xio_connection) (task sender_task : xio_task) (omsg : xio_msg)
    (calls : List xio_call) : xio_msg × List xio_call :=
  if (hdr.flags &&& D.XIO_MSG_RSP_FLAG_FIRST) != 0 then
    let d : xio_msg × List xio_call :=
      if connection.ses_ops.on_msg_delivered then
        let o : xio_msg := { omsg with receipt_res := hdr.receipt_result,
                                       sn := hdr.serial_num }
        (o, calls ++ [xio_call.on_msg_delivered o])
      else (omsg, calls)
    /- standalone receipt -/
    if (hdr.flags &&& (D.XIO_MSG_RSP_FLAG_FIRST ||| D.XIO_MSG_RSP_FLAG_LAST))
        == D.XIO_MSG_RSP_FLAG_FIRST then
      ({ d.1 with in_ := sender_task.in_receipt },
       d.2 ++ [xio_call.xio_tasks_pool_put task.addr])
    else d
  else (omsg, calls)

/-- The part of the `XIO_MSG_RSP` branch of `xio_on_rsp_recv` guarded by
`hdr.flags & XIO_MSG_RSP_FLAG_LAST` (lines 679-705): the response is attached
to the original message and delivered. -/
def xio_on_rsp_recv_last (D : xio_decls) (hdr : xio_session_hdr)
    (connection : xio_connection) (task : xio_task) (omsg : xio_msg)
    (calls : List xio_call) : xio_msg × xio_task × List xio_call :=
  if (hdr.flags &&& D.XIO_MSG_RSP_FLAG_LAST) != 0 then
    let calls := calls ++ [xio_call.xio_stat_add xio_stat.XIO_STAT_RX_BYTES
      (task.imsg.in_.header_iov_len + tbl_length task.imsg.in_)]
    let omsg : xio_msg := { omsg with request := some task.imsg.addr }
    if task.status ≠ 0 then
      let n := xio_session_notify_msg_error connection omsg task.status task.state
      (omsg, { task with state := n.2, status := 0 }, calls ++ n.1)
    else
      (omsg, { task with state := connection.ses_ops.on_msg task.state },
       calls ++ [xio_call.on_msg omsg])
  else (omsg, task, calls)

/-- The function `xio_on_rsp_recv`. `sender_task` is the object
`task->sender_task` points to and `omsg` the object `sender_task->omsg`
points to. -/
def xio_on_rsp_recv (D : xio_decls) (E : xio_env) (connection : xio_connection)
    (task sender_task : xio_task) (omsg : xio_msg) : xio_rsp_result :=
  if connection.state ≠ xio_connection_state.XIO_CONNECTION_STATE_ONLINE ∧
     connection.state ≠ xio_connection_state.XIO_CONNECTION_STATE_FIN_WAIT_1 then
    { connection := connection, task := task, sender_task := sender_task,
      omsg := omsg,
      calls := [xio_call.DEBUG_LOG_offline,
                xio_call.xio_release_response_task task.addr,
                xio_call.xio_connection_xmit_msgs],
      ret := 0 }
  else
    let hd := xio_on_rsp_recv_head D E connection task omsg
    let r : xio_rsp_result :=
      if hd.2.1.tlv_type = xio_tlv_type.XIO_ONE_WAY_RSP then
        xio_on_rsp_recv_one_way D hd.2.2.2.1 hd.1 hd.2.1 sender_task hd.2.2.1 hd.2.2.2.2
      else
        let s1 := xio_on_rsp_recv_first D hd.2.2.2.1 hd.1 hd.2.1 sender_task
          hd.2.2.1 hd.2.2.2.2
        let s2 := xio_on_rsp_recv_last D hd.2.2.2.1 hd.1 hd.2.1 s1.1 s1.2
        { connection := hd.1, task := s2.2.1, sender_task := sender_task,
          omsg := s2.1, calls := s2.2.2, ret := 0 }
    /- now try to send -/
    { connection := r.connection, task := r.task, sender_task := r.sender_task,
      omsg := r.omsg, calls := r.calls ++ [xio_call.xio_connection_xmit_msgs],
      ret := 0 }

/-- The function `xio_on_credits_ack_recv`. -/
def xio_on_credits_ack_recv (D : xio_decls) (E : xio_env)
    (connection : xio_connection) (task : xio_task) : xio_recv_result :=
  /- read session header -/
  let rd := xio_session_read_header D task
  let task := rd.1
  let hdr := rd.2
  let w := xio_update_window connection hdr
  let connection := { w.1 with credits := (w.1.credits + 1) % 2 ^ 16 }
  { connection := connection, task := task,
    calls := w.2 ++ [xio_call.xio_tasks_pool_put task.addr,
                     xio_call.xio_connection_xmit_msgs],
    ret := E.xio_connection_xmit_msgs }

/-- An incoming message as `xio_on_new_message` hands it to one of the three
receive paths that update the window. -/
inductive xio_rx
  | req (task : xio_task)
  | rsp (task sender_task : xio_task) (omsg : xio_msg)
  | ack (task : xio_task)

/-- The connection after one reception. -/
def xio_rx_step (D : xio_decls) (E : xio_env) (c : xio_connection) :
    xio_rx → xio_connection
  | xio_rx.req task => (xio_on_req_recv D E c task).connection
  | xio_rx.rsp task sender_task omsg =>
      (xio_on_rsp_recv D E c task sender_task omsg).connection
  | xio_rx.ack task => (xio_on_credits_ack_recv D E c task).connection

/-- The connection after a sequence of receptions. -/
def xio_rx_run (D : xio_decls) (E : xio_env) (c : xio_connection)
    (l : List xio_rx) : xio_connection :=
  l.foldl (xio_rx_step D E) c

/-! ## Sessions: teardown and destroy -/

/-- Session lifecycle states (section 3). -/
inductive xio_session_state
  | XIO_SESSION_STATE_INIT | XIO_SESSION_STATE_CONNECT
  | XIO_SESSION_STATE_ONLINE | XIO_SESSION_STATE_REDIRECTED
  | XIO_SESSION_STATE_ACCEPTED | XIO_SESSION_STATE_REJECTED
  | XIO_SESSION_STATE_REFUSED | XIO_SESSION_STATE_CLOSING
  | XIO_SESSION_STATE_CLOSED
deriving DecidableEq

/-- A session (`struct xio_session`), with the fields teardown touches. The
arrays hold the addresses of their entries; `connections_list` holds the
addresses of the connections. -/
structure xio_session where
  addr : Nat
  session_id : Nat
  state : xio_session_state
  in_notify : Bool
  connections_list : List Nat
  connections_nr : Int
  services_array : List Nat
  portals_array : List Nat
deriving DecidableEq

/-- Process-wide state the session layer reaches through other modules: the
sessions cache (session id and address of the session), the table of user
objects (addresses) and the error indicator written by `xio_set_error`. -/
structure xio_session_globals where
  sessions_cache : List (Nat × Nat)
  idr : List Nat
  xio_errno : Option xio_error
deriving DecidableEq

/-- Modelled from the spec: `xio_sessions_cache_remove(id)`
(xio_sessions_cache.c, not among the sources) removes the entry keyed by the
session id from the process-wide table (section 4.3). -/
def xio_sessions_cache_remove (G : xio_session_globals) (session_id : Nat) :
    xio_session_globals :=
  { G with sessions_cache := G.sessions_cache.filter (fun e => e.1 != session_id) }

/-- Modelled from the spec: `xio_sessions_cache_lookup(id)`, the session
registered under the id, if any (section 4.3). -/
def xio_sessions_cache_lookup (G : xio_session_globals) (session_id : Nat) :
    Option Nat :=
  (G.sessions_cache.find? (fun e => e.1 == session_id)).map (fun e => e.2)

/-- Modelled from the spec: `xio_idr_lookup_uobj(obj)` (xio_idr.c, not among
the sources) tells whether the object is in the user-object table. -/
def xio_idr_lookup_uobj (G : xio_session_globals) (obj : Nat) : Bool :=
  G.idr.contains obj

/-- Modelled from the spec: `xio_idr_remove_uobj(obj)` takes the object out of
the user-object table. -/
def xio_idr_remove_uobj (G : xio_session_globals) (obj : Nat) :
    xio_session_globals :=
  { G with idr := G.idr.filter (fun o => o != obj) }

/-- The function `xio_set_error` on the session-layer globals. -/
def xio_set_error (G : xio_session_globals) (e : xio_error) : xio_session_globals :=
  { G with xio_errno := some e }

/-- The function `xio_session_pre_teardown`: the globals and the session it
leaves, and the calls it makes. -/
def xio_session_pre_teardown (G : xio_session_globals) (session : xio_session) :
    xio_session_globals × xio_session × List xio_call :=
  /- unregister session from context -/
  let G := xio_sessions_cache_remove G session.session_id
  let calls := [xio_call.xio_sessions_cache_remove session.session_id]
    ++ session.services_array.map (fun p => xio_call.kfree (xio_freed.service p))
    ++ session.portals_array.map (fun p => xio_call.kfree (xio_freed.portal p))
    ++ [xio_call.kfree xio_freed.services_array,
        xio_call.kfree xio_freed.portals_array,
        xio_call.kfree xio_freed.hs_private_data,
        xio_call.kfree xio_freed.uri]
  let session := { session with state := xio_session_state.XIO_SESSION_STATE_CLOSED }
  (G, session, calls ++ [xio_call.XIO_OBSERVER_DESTROY])

/-- The function `xio_session_post_teardown`: whether the session was released
(mutex destroyed and memory freed), and the calls it makes. -/
def xio_session_post_teardown (session : xio_session) : Bool × List xio_call :=
  if session.state = xio_session_state.XIO_SESSION_STATE_CLOSED then
    (true, [xio_call.mutex_destroy, xio_call.kfree xio_freed.session])
  else
    (false, [])

/-- Result of `xio_session_destroy`: the globals, the session as last written
(`none` for a NULL argument), the values assigned to `session->state` in
order, whether the session was released, the calls and the return value. -/
structure xio_destroy_result where
  globals : xio_session_globals
  session : Option xio_session
  states : List xio_session_state
  released : Bool
  calls : List xio_call
  ret : Int
deriving DecidableEq

/-- The function `xio_session_destroy`; `none` is the NULL pointer. -/
def xio_session_destroy (G : xio_session_globals) :
    Option xio_session → xio_destroy_result
  | none =>
    { globals := G, session := none, states := [], released := false,
      calls := [], ret := 0 }
  | some session =>
    if !session.connections_list.isEmpty then
      { globals := xio_set_error G xio_error.EBUSY, session := some session,
        states := [], released := false,
        calls := [xio_call.ERROR_LOG_connections_open], ret := -1 }
    else
      let found := xio_idr_lookup_uobj G session.addr
      if !found then
        { globals := xio_set_error G xio_error.XIO_E_USER_OBJ_NOT_FOUND,
          session := some session, states := [], released := false,
          calls := [xio_call.ERROR_LOG_session_not_found session.addr], ret := -1 }
      else
        let G := xio_idr_remove_uobj G session.addr
        let session := { session with state := xio_session_state.XIO_SESSION_STATE_CLOSING }
        let pre := xio_session_pre_teardown G session
        let post : Bool × List xio_call :=
          if !pre.2.1.in_notify then xio_session_post_teardown pre.2.1
          else (false, [])
        { globals := pre.1, session := some pre.2.1,
          states := [xio_session_state.XIO_SESSION_STATE_CLOSING, pre.2.1.state],
          released := post.1,
          calls := [xio_call.xio_idr_remove_uobj session.addr] ++ pre.2.2 ++ post.2,
          ret := 0 }

/-! ## TCP transport: options and handle creation -/

/-- Option names `xio_tcp_set_opt` and `xio_tcp_get_opt` switch on; `OTHER`
stands for every other value of `optname`. -/
inductive xio_optname
  | XIO_OPTNAME_ENABLE_MEM_POOL | XIO_OPTNAME_ENABLE_DMA_LATENCY
  | XIO_OPTNAME_TRANS_BUF_THRESHOLD | XIO_OPTNAME_MAX_IN_IOVLEN
  | XIO_OPTNAME_MAX_OUT_IOVLEN | XIO_OPTNAME_TCP_ENABLE_MR_CHECK
  | XIO_OPTNAME_TCP_NO_DELAY | XIO_OPTNAME_TCP_SO_SNDBUF
  | XIO_OPTNAME_TCP_SO_RCVBUF | XIO_OPTNAME_TCP_DUAL_STREAM
  | OTHER (v : Int)
deriving DecidableEq

/-- The global `tcp_options` (`struct xio_tcp_options`). -/
structure xio_tcp_options where
  enable_mem_pool : Int
  enable_dma_latency : Int
  enable_mr_check : Int
  tcp_buf_threshold : Int
  tcp_buf_attr_rdonly : Int
  max_in_iovsz : Int
  max_out_iovsz : Int
  tcp_no_delay : Int
  tcp_so_sndbuf : Int
  tcp_so_rcvbuf : Int
  tcp_dual_sock : Int
deriving DecidableEq

/-- Constants and sizes xio_tcp_management.c takes from headers that are not
among the sources. -/
structure xio_tcp_decls where
  SEND_BUF_SZ : Int
  XIO_IOVLEN : Int
  XIO_TRANSPORT_OFFSET : Int
  sizeof_xio_tcp_req_hdr : Int
  sizeof_xio_tcp_rsp_hdr : Int
  sizeof_xio_sge : Int

def XIO_OPTVAL_MIN_TCP_BUF_THRESHOLD : Int := 256
def XIO_OPTVAL_MAX_TCP_BUF_THRESHOLD : Int := 65536

/-- The initial value of the global `tcp_options`. -/
def tcp_options_init (T : xio_tcp_decls) : xio_tcp_options :=
  { enable_mem_pool := 1
    enable_dma_latency := 0
    enable_mr_check := 0
    tcp_buf_threshold := T.SEND_BUF_SZ
    tcp_buf_attr_rdonly := 0
    max_in_iovsz := T.XIO_IOVLEN
    max_out_iovsz := T.XIO_IOVLEN
    tcp_no_delay := 0
    tcp_so_sndbuf := 4194304
    tcp_so_rcvbuf := 4194304
    tcp_dual_sock := 1 }

/-- Process-wide state of the TCP provider: `tcp_options`, the field
`g_options.trans_buf_threshold` and the error indicator. -/
structure xio_tcp_globals where
  tcp_options : xio_tcp_options
  trans_buf_threshold : Int
  xio_errno : Option xio_error
deriving DecidableEq

/-- Size of an `int` option value. -/
def sizeof_int : Int := 4

/-- Modelled from the spec: VALIDATE_SZ is a macro of xio_common.h, which is
not among the sources. An option value whose length is not the expected size
is an invalid argument (section 7): the macro lets the call go on exactly when
`optlen` equals the size, and makes it fail with EINVAL otherwise. -/
def VALIDATE_SZ (optlen sz : Int) : Bool := optlen == sz

/-- The function `xio_tcp_set_opt`: the globals it leaves and its return
value. `optval` is the `int` read through the pointer. -/
def xio_tcp_set_opt (G : xio_tcp_globals) (optname : xio_optname) (optval : Int)
    (optlen : Int) : xio_tcp_globals × Int :=
  let o := G.tcp_options
  let invalid : xio_tcp_globals × Int := ({ G with xio_errno := some xio_error.EINVAL }, -1)
  match optname with
  | xio_optname.XIO_OPTNAME_ENABLE_MEM_POOL =>
    if !VALIDATE_SZ optlen sizeof_int then invalid
    else ({ G with tcp_options := { o with enable_mem_pool := optval } }, 0)
  | xio_optname.XIO_OPTNAME_ENABLE_DMA_LATENCY =>
    if !VALIDATE_SZ optlen sizeof_int then invalid
    else ({ G with tcp_options := { o with enable_dma_latency := optval } }, 0)
  | xio_optname.XIO_OPTNAME_TRANS_BUF_THRESHOLD =>
    if !VALIDATE_SZ optlen sizeof_int then invalid
    /- changing the parameter is not allowed -/
    else if o.tcp_buf_attr_rdonly ≠ 0 then
      ({ G with xio_errno := some xio_error.EPERM }, -1)
    else if optval < 0 ∨ optval > XIO_OPTVAL_MAX_TCP_BUF_THRESHOLD then
      ({ G with xio_errno := some xio_error.EINVAL }, -1)
    else
      ({ G with tcp_options := { o with tcp_buf_threshold := optval },
                trans_buf_threshold := optval }, 0)
  | xio_optname.XIO_OPTNAME_MAX_IN_IOVLEN =>
    if !VALIDATE_SZ optlen sizeof_int then invalid
    else ({ G with tcp_options := { o with max_in_iovsz := optval } }, 0)
  | xio_optname.XIO_OPTNAME_MAX_OUT_IOVLEN =>
    if !VALIDATE_SZ optlen sizeof_int then invalid
    else ({ G with tcp_options := { o with max_out_iovsz := optval } }, 0)
  | xio_optname.XIO_OPTNAME_TCP_ENABLE_MR_CHECK =>
    if !VALIDATE_SZ optlen sizeof_int then invalid
    else ({ G with tcp_options := { o with enable_mr_check := optval } }, 0)
  | xio_optname.XIO_OPTNAME_TCP_NO_DELAY =>
    if !VALIDATE_SZ optlen sizeof_int then invalid
    else ({ G with tcp_options := { o with tcp_no_delay := optval } }, 0)
  | xio_optname.XIO_OPTNAME_TCP_SO_SNDBUF =>
    if !VALIDATE_SZ optlen sizeof_int then invalid
    else ({ G with tcp_options := { o with tcp_so_sndbuf := optval } }, 0)
  | xio_optname.XIO_OPTNAME_TCP_SO_RCVBUF =>
    if !VALIDATE_SZ optlen sizeof_int then invalid
    else ({ G with tcp_options := { o with tcp_so_rcvbuf := optval } }, 0)
  | xio_optname.XIO_OPTNAME_TCP_DUAL_STREAM =>
    if !VALIDATE_SZ optlen sizeof_int then invalid
    else ({ G with tcp_options := { o with tcp_dual_sock := optval } }, 0)
  | xio_optname.OTHER _ =>
    ({ G with xio_errno := some xio_error.XIO_E_NOT_SUPPORTED }, -1)

/-- The function `xio_tcp_get_opt`: the globals it leaves, the value and the
length it writes (when it writes them) and its return value. -/
def xio_tcp_get_opt (G : xio_tcp_globals) (optname : xio_optname) :
    xio_tcp_globals × Option (Int × Int) × Int :=
  let o := G.tcp_options
  match optname with
  | xio_optname.XIO_OPTNAME_ENABLE_MEM_POOL => (G, some (o.enable_mem_pool, sizeof_int), 0)
  | xio_optname.XIO_OPTNAME_ENABLE_DMA_LATENCY => (G, some (o.enable_dma_latency, sizeof_int), 0)
  | xio_optname.XIO_OPTNAME_TRANS_BUF_THRESHOLD => (G, some (o.tcp_buf_threshold, sizeof_int), 0)
  | xio_optname.XIO_OPTNAME_MAX_IN_IOVLEN => (G, some (o.max_in_iovsz, sizeof_int), 0)
  | xio_optname.XIO_OPTNAME_MAX_OUT_IOVLEN => (G, some (o.max_out_iovsz, sizeof_int), 0)
  | xio_optname.XIO_OPTNAME_TCP_ENABLE_MR_CHECK => (G, some (o.enable_mr_check, sizeof_int), 0)
  | xio_optname.XIO_OPTNAME_TCP_NO_DELAY => (G, some (o.tcp_no_delay, sizeof_int), 0)
  | xio_optname.XIO_OPTNAME_TCP_SO_SNDBUF => (G, some (o.tcp_so_sndbuf, sizeof_int), 0)
  | xio_optname.XIO_OPTNAME_TCP_SO_RCVBUF => (G, some (o.tcp_so_rcvbuf, sizeof_int), 0)
  | xio_optname.XIO_OPTNAME_TCP_DUAL_STREAM => (G, some (o.tcp_dual_sock, sizeof_int), 0)
  | xio_optname.OTHER _ =>
    ({ G with xio_errno := some xio_error.XIO_E_NOT_SUPPORTED }, none, -1)

/-- Modelled from the spec: ALIGN (a macro of the portability headers, not
among the sources) rounds its first argument up to a multiple of the
second. -/
def ALIGN (x a : Int) : Int := ((x + a - 1) / a) * a

/-- The function `xio_tcp_get_max_header_size`. -/
def xio_tcp_get_max_header_size (T : xio_tcp_decls) (o : xio_tcp_options) : Int :=
  let req_hdr := T.XIO_TRANSPORT_OFFSET + T.sizeof_xio_tcp_req_hdr
  let rsp_hdr := T.XIO_TRANSPORT_OFFSET + T.sizeof_xio_tcp_rsp_hdr
  let iovsz := o.max_out_iovsz + o.max_in_iovsz
  let req_hdr := req_hdr + iovsz * T.sizeof_xio_sge
  let rsp_hdr := rsp_hdr + o.max_out_iovsz * T.sizeof_xio_sge
  max req_hdr rsp_hdr

/-- Which socket operations a handle uses. -/
inductive xio_tcp_socket_ops
  | single_sock_ops | dual_sock_ops
deriving DecidableEq

/-- What the environment answers during `xio_tcp_transport_create`: whether
`ucalloc` gives memory, whether `xio_transport_mempool_get` gives a pool, and
the return value of the socket `open` operation. -/
structure xio_create_env where
  ucalloc_ok : Bool
  mempool : Option Nat
  sock_open : Int
deriving DecidableEq

/-- The fields of `struct xio_tcp_transport` that `xio_tcp_transport_create`
sets. The lists hold addresses. -/
structure xio_tcp_transport where
  tcp_mempool : Option Nat
  portal_uri : Option Nat
  kref : Nat
  transport : Nat
  ctx : Nat
  is_listen : Int
  tx_ready_tasks_num : Int
  tx_comp_cnt : Int
  sock_ops : Option xio_tcp_socket_ops
  max_send_buf_sz : Int
  membuf_sz : Int
  observers : List Nat
  in_flight_list : List Nat
  tx_ready_list : List Nat
  tx_comp_list : List Nat
  rx_list : List Nat
  io_list : List Nat
  pending_conns : List Nat
deriving DecidableEq

/-- The function `xio_tcp_transport_create`: the globals it leaves and the
handle (`none` for NULL). -/
def xio_tcp_transport_create (T : xio_tcp_decls) (V : xio_create_env)
    (G : xio_tcp_globals) (transport ctx : Nat) (observer : Option Nat)
    (create_socket : Bool) : xio_tcp_globals × Option xio_tcp_transport :=
  /- allocate tcp handl -/
  if !V.ucalloc_ok then
    ({ G with xio_errno := some xio_error.ENOMEM }, none)
  else if G.tcp_options.enable_mem_pool ≠ 0 ∧ V.mempool = none then
    ({ G with xio_errno := some xio_error.ENOMEM }, none)
  else
    let tcp_mempool := if G.tcp_options.enable_mem_pool ≠ 0 then V.mempool else none
    let xio_hdr_size := xio_tcp_get_max_header_size T G.tcp_options
    let xio_hdr_size := ALIGN xio_hdr_size 64
    /- create tcp socket -/
    let sock_ops : Option xio_tcp_socket_ops :=
      if create_socket then
        some (if G.tcp_options.tcp_dual_sock ≠ 0 then xio_tcp_socket_ops.dual_sock_ops
              else xio_tcp_socket_ops.single_sock_ops)
      else none
    if create_socket ∧ V.sock_open ≠ 0 then
      (G, none)
    else
      /- from now on don't allow changes -/
      let G := { G with tcp_options := { G.tcp_options with tcp_buf_attr_rdonly := 1 } }
      let max_send_buf_sz := G.tcp_options.tcp_buf_threshold + xio_hdr_size
      let max_send_buf_sz := ALIGN max_send_buf_sz 64
      (G, some
        { tcp_mempool := tcp_mempool
          portal_uri := none
          kref := 1
          transport := transport
          ctx := ctx
          is_listen := 0
          tx_ready_tasks_num := 0
          tx_comp_cnt := 0
          sock_ops := sock_ops
          max_send_buf_sz := max_send_buf_sz
          membuf_sz := max_send_buf_sz
          observers := match observer with
            | some ob => [ob]
            | none => []
          in_flight_list := []
          tx_ready_list := []
          tx_comp_list := []
          rx_list := []
          io_list := []
          pending_conns := [] })

/-- The function `xio_tcp_open`: `xio_tcp_transport_create` with a socket. -/
def xio_tcp_open (T : xio_tcp_decls) (V : xio_create_env) (G : xio_tcp_globals)
    (transport ctx : Nat) (observer : Option Nat) :
    xio_tcp_globals × Option xio_tcp_transport :=
  xio_tcp_transport_create T V G transport ctx observer true

/-- The operations of xio_tcp_management.c that read or write `tcp_options`
after start-up: setting an option, reading an option, and creating a handle
(through `xio_tcp_open` with a socket, or for a child on accept without). -/
inductive xio_tcp_op
  | set_opt (optname : xio_optname) (optval optlen : Int)
  | get_opt (optname : xio_optname)
  | transport_create (V : xio_create_env) (transport ctx : Nat)
      (observer : Option Nat) (create_socket : Bool)
deriving DecidableEq

/-- The globals after one operation. -/
def xio_tcp_step (T : xio_tcp_decls) (G : xio_tcp_globals) : xio_tcp_op → xio_tcp_globals
  | xio_tcp_op.set_opt optname optval optlen => (xio_tcp_set_opt G optname optval optlen).1
  | xio_tcp_op.get_opt optname => (xio_tcp_get_opt G optname).1
  | xio_tcp_op.transport_create V transport ctx observer create_socket =>
      (xio_tcp_transport_create T V G transport ctx observer create_socket).1

/-- The globals after a sequence of operations. -/
def xio_tcp_run (T : xio_tcp_decls) (G : xio_tcp_globals) (l : List xio_tcp_op) :
    xio_tcp_globals :=
  l.foldl (xio_tcp_step T) G

/-! ## Predicates and concrete objects used in the statements -/

/-- The task an incoming message arrives in. -/
def xio_rx.task : xio_rx → xio_task
  | xio_rx.req task => task
  | xio_rx.rsp task _ _ => task
  | xio_rx.ack task => task

/-- The reception takes the branch that advances the window: the sn of the
header equals `exp_sn`, and for a response the connection is Online or
FIN_WAIT_1 (otherwise the response is released before its header is read). -/
def xio_rx_accepted (D : xio_decls) (c : xio_connection) (m : xio_rx) : Prop :=
  (xio_session_read_header D m.task).2.sn = c.exp_sn ∧
  match m with
  | xio_rx.rsp _ _ _ =>
      c.state = xio_connection_state.XIO_CONNECTION_STATE_ONLINE ∨
      c.state = xio_connection_state.XIO_CONNECTION_STATE_FIN_WAIT_1
  | _ => True

/-- The call is an invocation of the user's `on_msg`. -/
def xio_call.is_on_msg : xio_call → Bool
  | xio_call.on_msg _ => true
  | _ => false

/-- The call is an invocation of one of the user callbacks of the receive
paths. -/
def xio_call.is_user_callback : xio_call → Bool
  | xio_call.on_msg _ => true
  | xio_call.on_msg_error _ _ => true
  | xio_call.on_msg_delivered _ => true
  | xio_call.on_ow_msg_send_complete _ => true
  | _ => false

/-- The operation creates a transport handle. -/
def xio_tcp_op.is_create : xio_tcp_op → Bool
  | xio_tcp_op.transport_create _ _ _ _ _ => true
  | _ => false

/-- Concrete declarations: the session header starts at byte 8 of the buffer;
the flag masks are distinct bits. -/
def ex_decls : xio_decls :=
  { xio_mbuf_set_session_hdr := fun _ => 8
    XIO_MSG_FLAG_REQUEST_READ_RECEIPT := 1
    XIO_MSG_FLAG_LAST_IN_BATCH := 4
    XIO_MSG_RSP_FLAG_FIRST := 1
    XIO_MSG_RSP_FLAG_LAST := 2 }

/-- A concrete environment. -/
def ex_env : xio_env := { get_cycles := 1000, xio_connection_xmit_msgs := 0 }

/-- Callbacks of an upper layer that leaves the task as it is. -/
def ex_ops : xio_session_ops :=
  { on_msg := fun st => st
    on_msg_error := some (fun st => st)
    on_msg_delivered := true
    on_ow_msg_send_complete := true }

/-- An empty message side. -/
def ex_vmsg : xio_vmsg := { header_iov_len := 0, sgl_type := 0, sgl := [] }

/-- A message at the given address. -/
def ex_msg (addr : Nat) : xio_msg :=
  { addr := addr, sn := 0, flags := 0, next := none, timestamp := 0,
    type := xio_tlv_type.XIO_MSG_REQ, receipt_res := 0, request := none,
    in_ := ex_vmsg }

/-- A fresh task of the given type with a zeroed 64-byte buffer. -/
def ex_blank_task (tlv_type : xio_tlv_type) : xio_task :=
  { addr := 100, tlv_type := tlv_type,
    mbuf := { buf := List.replicate 64 0, curr := 0 },
    imsg := ex_msg 101, imsg_flags := 0, omsg := none, omsg_flags := 0,
    in_receipt := ex_vmsg, status := 0,
    state := xio_task_state.XIO_TASK_STATE_INIT,
    session := none, connection := none, sender_task := none }

/-- An incoming task of the given type whose buffer carries the header. -/
def ex_task (tlv_type : xio_tlv_type) (hdr : xio_session_hdr) : xio_task :=
  xio_session_write_header ex_decls (ex_blank_task tlv_type) hdr

/-- A header with the given sn and credits. -/
def ex_hdr (sn credits : Nat) : xio_session_hdr :=
  { serial_num := 77, dest_session_id := 3, flags := 0, receipt_result := 0,
    sn := sn, ack_sn := 0, credits := credits }

/-- A connection in the given state with the given window. -/
def ex_connection (state : xio_connection_state) (exp_sn peer_credits : Nat) :
    xio_connection :=
  { addr := 200, session := 300, state := state, ses_ops := ex_ops,
    exp_sn := exp_sn, ack_sn := 0, credits := 0, peer_credits := peer_credits,
    tx_queued_msgs := 1, in_flight := [401], io_tasks := [] }

/-- A session with the given connections and notification flag. -/
def ex_session (connections_list : List Nat) (in_notify : Bool) : xio_session :=
  { addr := 300, session_id := 5,
    state := xio_session_state.XIO_SESSION_STATE_ONLINE, in_notify := in_notify,
    connections_list := connections_list,
    connections_nr := connections_list.length,
    services_array := [], portals_array := [] }

/-- Globals in which the session `ex_session` is registered. -/
def ex_session_globals : xio_session_globals :=
  { sessions_cache := [(5, 300)], idr := [300], xio_errno := none }

/-- Concrete sizes for the TCP provider. -/
def ex_tcp_decls : xio_tcp_decls :=
  { SEND_BUF_SZ := 8192, XIO_IOVLEN := 6, XIO_TRANSPORT_OFFSET := 48,
    sizeof_xio_tcp_req_hdr := 32, sizeof_xio_tcp_rsp_hdr := 24, sizeof_xio_sge := 16 }

/-- The globals of the TCP provider at process start. -/
def ex_tcp_globals : xio_tcp_globals :=
  { tcp_options := tcp_options_init ex_tcp_decls, trans_buf_threshold := 8192,
    xio_errno := none }

/-- An environment in which handle creation succeeds. -/
def ex_create_env : xio_create_env :=
  { ucalloc_ok := true, mempool := some 1, sock_open := 0 }

/-- The window of a connection: `exp_sn`, `ack_sn`, `peer_credits`. -/
def xio_connection.window (c : xio_connection) : Nat × Nat × Nat :=
  (c.exp_sn, c.ack_sn, c.peer_credits)

/-- The connection is Online or FIN_WAIT_1: the states in which
`xio_on_rsp_recv` processes a response. -/
def xio_connection.rsp_open (c : xio_connection) : Prop :=
  c.state = xio_connection_state.XIO_CONNECTION_STATE_ONLINE ∨
  c.state = xio_connection_state.XIO_CONNECTION_STATE_FIN_WAIT_1

instance (c : xio_connection) : Decidable c.rsp_open := by
  unfold xio_connection.rsp_open; infer_instance

/-! ## Predicates on calls and further concrete objects -/

/-- The call is an invocation of the user's `on_msg_error`. -/
def xio_call.is_on_msg_error : xio_call → Bool
  | xio_call.on_msg_error _ _ => true
  | _ => false

/-- The call is an invocation of the user's `on_msg_delivered`. -/
def xio_call.is_on_msg_delivered : xio_call → Bool
  | xio_call.on_msg_delivered _ => true
  | _ => false

/-- The call is an invocation of the user's `on_ow_msg_send_complete`. -/
def xio_call.is_on_ow_msg_send_complete : xio_call → Bool
  | xio_call.on_ow_msg_send_complete _ => true
  | _ => false

/-- The call is `xio_connection_remove_in_flight`. -/
def xio_call.is_remove_in_flight : xio_call → Bool
  | xio_call.xio_connection_remove_in_flight _ => true
  | _ => false

/-- The call is `xio_task_addref`. -/
def xio_call.is_task_addref : xio_call → Bool
  | xio_call.xio_task_addref _ => true
  | _ => false

/-- The call is `xio_connection_send_read_receipt`. -/
def xio_call.is_send_read_receipt : xio_call → Bool
  | xio_call.xio_connection_send_read_receipt _ => true
  | _ => false

/-- The call is `xio_tasks_pool_put`. -/
def xio_call.is_tasks_pool_put : xio_call → Bool
  | xio_call.xio_tasks_pool_put _ => true
  | _ => false

/-- The header the handler reads from the task. -/
def xio_task.hdr (D : xio_decls) (task : xio_task) : xio_session_hdr :=
  (xio_session_read_header D task).2

/-- The flag masks are usable: the two response flags are non-zero and share
no bit, and the receipt flag is non-zero. -/
def xio_decls.masks_ok (D : xio_decls) : Prop :=
  D.XIO_MSG_RSP_FLAG_FIRST ≠ 0 ∧ D.XIO_MSG_RSP_FLAG_LAST ≠ 0 ∧
  D.XIO_MSG_RSP_FLAG_FIRST &&& D.XIO_MSG_RSP_FLAG_LAST = 0 ∧
  D.XIO_MSG_FLAG_REQUEST_READ_RECEIPT ≠ 0

instance (D : xio_decls) : Decidable D.masks_ok := by
  unfold xio_decls.masks_ok; infer_instance

/-- Callbacks of an upper layer that installed only `on_msg`. -/
def ex_ops_bare : xio_session_ops :=
  { on_msg := fun st => st
    on_msg_error := none
    on_msg_delivered := false
    on_ow_msg_send_complete := false }

/-- An Online connection expecting sn 6 whose upper layer installed only
`on_msg`. -/
def ex_connection_bare : xio_connection :=
  { ex_connection xio_connection_state.XIO_CONNECTION_STATE_ONLINE 6 0 with
    ses_ops := ex_ops_bare }

/-- A header with the given sn and flags. -/
def ex_hdr_flags (sn flags : Nat) : xio_session_hdr :=
  { serial_num := 7, dest_session_id := 3, flags := flags, receipt_result := 0,
    sn := sn, ack_sn := 0, credits := 1 }

/-- The sender task of the original message 401, sent with the given flags. -/
def ex_sender_task (omsg_flags : Nat) : xio_task :=
  { ex_blank_task xio_tlv_type.XIO_MSG_REQ with
    addr := 150, omsg := some 401, omsg_flags := omsg_flags,
    in_receipt := { header_iov_len := 16, sgl_type := 0, sgl := [64] } }

/-- The test of `xio_on_rsp_recv` (lines 614-622) that decides whether the
original message is taken out of the in-flight queue: always, unless the
response is a standalone receipt; for a standalone receipt only when the
response is an `XIO_ONE_WAY_RSP` with the FIRST flag. -/
def xio_rsp_removes (D : xio_decls) (task : xio_task) : Bool :=
  if !((task.hdr D).flags &&& (D.XIO_MSG_RSP_FLAG_FIRST ||| D.XIO_MSG_RSP_FLAG_LAST)
        == D.XIO_MSG_RSP_FLAG_FIRST) then true
  else if task.tlv_type = xio_tlv_type.XIO_ONE_WAY_RSP then
    ((task.hdr D).flags &&& D.XIO_MSG_RSP_FLAG_FIRST) != 0
  else false

/-- The delay `xio_on_rsp_recv` adds to the statistics:
`get_cycles() - omsg->timestamp` in 64-bit unsigned arithmetic. -/
def xio_rsp_delay (E : xio_env) (omsg : xio_msg) : Nat :=
  (E.get_cycles + 2 ^ 64 - omsg.timestamp % 2 ^ 64) % 2 ^ 64

/-- The calls of `xio_on_req_recv` that make up the read-receipt protocol: the
extra task reference, the user callbacks, the standalone receipt and the
release of a task reference. -/
def xio_call.is_receipt_step (x : xio_call) : Bool :=
  x.is_task_addref || x.is_user_callback || x.is_send_read_receipt || x.is_tasks_pool_put

/-! ## TCP transport: the lifecycle of a handle -/

/-- The address union `union xio_sockaddr` of a peer. The members `sa_in`
and `sa_in6` overlay each other in memory; how they overlap is a matter of
the system headers, so each view the code reads is a field of its own. Ports
are held as the field holds them (network byte order). -/
structure xio_sockaddr where
  sa_family : Nat
  sin_port : Nat
  sin_addr : Nat
  sin6_port : Nat
  sin6_addr : Nat
deriving DecidableEq

/-- One entry of the pending-connections list (`struct xio_tcp_pending_conn`):
its address, the accepted fd, the number of handshake bytes still missing,
the memory of the handshake message `msg` and the peer address. -/
structure xio_tcp_pending_conn where
  addr : Nat
  fd : Int
  waiting_for_bytes : Nat
  msg : List Nat
  sa : xio_sockaddr
deriving DecidableEq

/-- Modelled from the spec: `struct xio_tcp_connect_msg` is declared in
xio_tcp_transport.h, which is not among the sources. Section 6 gives the
handshake message: `sock_type` 4 bytes, `second_port` 2 bytes, `pad` 2 bytes.
The record holds the field values as the code reads them. -/
structure xio_tcp_connect_msg where
  sock_type : Nat
  second_port : Nat
  pad : Nat
deriving DecidableEq

/-- Modelled from the spec: `enum xio_transport_state` is declared in
xio_transport.h, which is not among the sources. Section 3 lists the
lifecycle states of a stream transport handle: Listen, Connecting, Connected,
Disconnected, Closed, Destroyed. `OTHER v` stands for any further enumerator
of the header. -/
inductive xio_transport_state
  | LISTEN
  | CONNECTING
  | CONNECTED
  | DISCONNECTED
  | CLOSED
  | DESTROYED
  | OTHER (v : Nat)
deriving DecidableEq

/-- Events a transport publishes with `xio_transport_notify_observer`. -/
inductive xio_transport_event
  | NEW_CONNECTION
  | ESTABLISHED
  | DISCONNECTED
  | CLOSED
deriving DecidableEq

/-- The argument of `xio_transport_notify_observer_error`: a system error
number (`errno`, `SO_ERROR`), the value `xio_errno()` returns, or one of the
codes of libxio.h, which are kept symbolic. -/
inductive xio_reason
  | errno (e : Int)
  | xio_errno (e : Option xio_error)
  | XIO_E_CONNECT_ERROR
  | XIO_E_UNSUCCESSFUL
deriving DecidableEq

/-- The task lists of a handle that `xio_tcp_flush_all_tasks` flushes. -/
inductive xio_tcp_list
  | in_flight_list
  | tx_comp_list
  | io_list
  | tx_ready_list
  | rx_list
deriving DecidableEq

/-- The context events of a handle. -/
inductive xio_ctx_event
  | flush_tx_event
  | ctl_rx_event
  | disconnect_event
deriving DecidableEq

/-- The error and debug log lines of the TCP functions modelled here. -/
inductive xio_tcp_log
  | del_ev_handler_failed
  | add_ev_handler_failed
  | shutdown_failed
  | close_failed
  | getsockopt_failed
  | establishment_failed
  | getpeername_failed
  | getsockname_failed
  | pending_fd_not_found
  | epoll_error
  | eof
  | recv_failed
  | ports_mismatch
  | unknown_family
  | create_child_failed
  | ucalloc_failed
deriving DecidableEq

/-- Calls the TCP functions modelled here make outside the source file, in
program order: the observers, the context (epoll), the socket system calls,
the allocator and the log. Trace lines are left out. -/
inductive xio_tcp_call
  | xio_transport_notify_observer (event : xio_transport_event)
  | xio_transport_notify_observer_error (reason : xio_reason)
  | xio_transport_flush_task_list (list : xio_tcp_list)
  | xio_ctx_remove_event (ev : xio_ctx_event)
  | xio_context_del_ev_handler (fd : Int)
  | xio_context_add_ev_handler (fd : Int)
  | xio_observable_unreg_all_observers
  | XIO_OBSERVABLE_DESTROY
  | getsockopt (fd : Int)
  | getpeername (fd : Int)
  | getsockname (fd : Int)
  | xio_tcp_send_connect_msg (fd : Int) (msg : xio_tcp_connect_msg)
  | recv (fd : Int)
  | shutdown (fd : Int)
  | close (fd : Int)
  | xio_set_error (errno : Int)
  | ufree (ptr : Option Nat)
  | ERROR_LOG (line : xio_tcp_log)
  | DEBUG_LOG (line : xio_tcp_log)
deriving DecidableEq

/-- What the calls outside the source file return, per file descriptor:
the return value, and for the system calls the `errno` they leave when they
fail; `getsockopt` also gives the `SO_ERROR` value it stores and
`getpeername` the peer address. -/
structure xio_sys_env where
  xio_context_del_ev_handler : Int → Int
  xio_context_add_ev_handler : Int → Int
  shutdown : Int → Int × Int
  close : Int → Int × Int
  getsockopt : Int → Int × Int × Int
  getpeername : Int → Int × Int × xio_sockaddr
  xio_tcp_send_connect_msg : Int → Int

/-- The part of `struct xio_tcp_transport` the lifecycle functions use (the
record `xio_tcp_transport` above is the part `xio_tcp_transport_create`
sets). `sock_ops` is the table `sock.ops` points to, which every handle that
was opened or accepted has; `ops_del_ev_handlers` tells whether the entry
`del_ev_handlers` of that table is set. -/
structure xio_tcp_handle where
  addr : Nat
  state : xio_transport_state
  is_listen : Int
  sock_cfd : Int
  sock_dfd : Int
  sock_ops : xio_tcp_socket_ops
  ops_del_ev_handlers : Bool
  peer_addr : Option xio_sockaddr
  tmp_rx_buf : Option Nat
  portal_uri : Option Nat
  tx_ready_tasks_num : Int
  in_flight_list : List Nat
  tx_comp_list : List Nat
  io_list : List Nat
  tx_ready_list : List Nat
  rx_list : List Nat
  pending_conns : List xio_tcp_pending_conn
deriving DecidableEq

/-- What a lifecycle function leaves: the handle, the values it assigned to
`tcp_hndl->state` in order, and its calls. -/
structure xio_tcp_life where
  hndl : xio_tcp_handle
  states : List xio_transport_state
  calls : List xio_tcp_call
deriving DecidableEq

/-- The function `xio_tcp_flush_all_tasks`. What flushing does to a list is
the business of xio_transport_flush_task_list. -/
def xio_tcp_flush_all_tasks (tcp_hndl : xio_tcp_handle) :
    xio_tcp_handle × List xio_tcp_call :=
  ({ tcp_hndl with tx_ready_tasks_num := 0 },
   (if tcp_hndl.in_flight_list ≠ [] then
      [xio_tcp_call.xio_transport_flush_task_list xio_tcp_list.in_flight_list,
       xio_tcp_call.xio_transport_flush_task_list xio_tcp_list.in_flight_list]
    else []) ++
   (if tcp_hndl.tx_comp_list ≠ [] then
      [xio_tcp_call.xio_transport_flush_task_list xio_tcp_list.tx_comp_list]
    else []) ++
   (if tcp_hndl.io_list ≠ [] then
      [xio_tcp_call.xio_transport_flush_task_list xio_tcp_list.io_list]
    else []) ++
   (if tcp_hndl.tx_ready_list ≠ [] then
      [xio_tcp_call.xio_transport_flush_task_list xio_tcp_list.tx_ready_list,
       xio_tcp_call.xio_transport_flush_task_list xio_tcp_list.tx_ready_list]
    else []) ++
   (if tcp_hndl.rx_list ≠ [] then
      [xio_tcp_call.xio_transport_flush_task_list xio_tcp_list.rx_list]
    else []))

/-- The function `on_sock_close`. -/
def on_sock_close (tcp_hndl : xio_tcp_handle) : xio_tcp_life :=
  let f := xio_tcp_flush_all_tasks tcp_hndl
  { hndl := { f.1 with state := xio_transport_state.DESTROYED }
    states := [xio_transport_state.DESTROYED]
    calls := f.2 ++
      [xio_tcp_call.xio_transport_notify_observer xio_transport_event.CLOSED] }

/-- The function `xio_tcp_single_sock_del_ev_handlers`: return value and
calls. -/
def xio_tcp_single_sock_del_ev_handlers (V : xio_sys_env)
    (tcp_hndl : xio_tcp_handle) : Int × List xio_tcp_call :=
  let retval := V.xio_context_del_ev_handler tcp_hndl.sock_cfd
  (retval,
   [xio_tcp_call.xio_context_del_ev_handler tcp_hndl.sock_cfd] ++
   (if retval ≠ 0 then [xio_tcp_call.ERROR_LOG xio_tcp_log.del_ev_handler_failed]
    else []))

/-- The function `xio_tcp_dual_sock_del_ev_handlers`: return value and
calls. -/
def xio_tcp_dual_sock_del_ev_handlers (V : xio_sys_env)
    (tcp_hndl : xio_tcp_handle) : Int × List xio_tcp_call :=
  let retval1 := V.xio_context_del_ev_handler tcp_hndl.sock_cfd
  let calls1 :=
    [xio_tcp_call.xio_context_del_ev_handler tcp_hndl.sock_cfd] ++
    (if retval1 ≠ 0 then [xio_tcp_call.ERROR_LOG xio_tcp_log.del_ev_handler_failed]
     else [])
  if tcp_hndl.is_listen ≠ 0 then (retval1, calls1)
  else
    let retval2 := V.xio_context_del_ev_handler tcp_hndl.sock_dfd
    (Int.lor retval1 retval2,
     calls1 ++ [xio_tcp_call.xio_context_del_ev_handler tcp_hndl.sock_dfd] ++
     (if retval2 ≠ 0 then [xio_tcp_call.ERROR_LOG xio_tcp_log.del_ev_handler_failed]
      else []))

/-- The entry `del_ev_handlers` of the table `sock.ops` points to. -/
def xio_tcp_handle.del_ev_handlers (V : xio_sys_env) (tcp_hndl : xio_tcp_handle) :
    Int × List xio_tcp_call :=
  match tcp_hndl.sock_ops with
  | xio_tcp_socket_ops.single_sock_ops => xio_tcp_single_sock_del_ev_handlers V tcp_hndl
  | xio_tcp_socket_ops.dual_sock_ops => xio_tcp_dual_sock_del_ev_handlers V tcp_hndl

/-- One system call on a socket that sets the error and logs when it fails
(the body shared by the shutdown and close functions). -/
def xio_tcp_sock_call (call : xio_tcp_call) (line : xio_tcp_log) (ret : Int × Int) :
    List xio_tcp_call :=
  [call] ++
  (if ret.1 ≠ 0 then [xio_tcp_call.xio_set_error ret.2, xio_tcp_call.DEBUG_LOG line]
   else [])

/-- The function `xio_tcp_single_sock_shutdown`. -/
def xio_tcp_single_sock_shutdown (V : xio_sys_env) (cfd : Int) : Int × List xio_tcp_call :=
  ((V.shutdown cfd).1,
   xio_tcp_sock_call (xio_tcp_call.shutdown cfd) xio_tcp_log.shutdown_failed (V.shutdown cfd))

/-- The function `xio_tcp_single_sock_close`. -/
def xio_tcp_single_sock_close (V : xio_sys_env) (cfd : Int) : Int × List xio_tcp_call :=
  ((V.close cfd).1,
   xio_tcp_sock_call (xio_tcp_call.close cfd) xio_tcp_log.close_failed (V.close cfd))

/-- The function `xio_tcp_dual_sock_shutdown`. -/
def xio_tcp_dual_sock_shutdown (V : xio_sys_env) (cfd dfd : Int) : Int × List xio_tcp_call :=
  (Int.lor (V.shutdown cfd).1 (V.shutdown dfd).1,
   xio_tcp_sock_call (xio_tcp_call.shutdown cfd) xio_tcp_log.shutdown_failed (V.shutdown cfd) ++
   xio_tcp_sock_call (xio_tcp_call.shutdown dfd) xio_tcp_log.shutdown_failed (V.shutdown dfd))

/-- The function `xio_tcp_dual_sock_close`. -/
def xio_tcp_dual_sock_close (V : xio_sys_env) (cfd dfd : Int) : Int × List xio_tcp_call :=
  (Int.lor (V.close cfd).1 (V.close dfd).1,
   xio_tcp_sock_call (xio_tcp_call.close cfd) xio_tcp_log.close_failed (V.close cfd) ++
   xio_tcp_sock_call (xio_tcp_call.close dfd) xio_tcp_log.close_failed (V.close dfd))

/-- The entry `shutdown` of the table `sock.ops` points to. -/
def xio_tcp_handle.shutdown (V : xio_sys_env) (tcp_hndl : xio_tcp_handle) :
    Int × List xio_tcp_call :=
  match tcp_hndl.sock_ops with
  | xio_tcp_socket_ops.single_sock_ops => xio_tcp_single_sock_shutdown V tcp_hndl.sock_cfd
  | xio_tcp_socket_ops.dual_sock_ops =>
    xio_tcp_dual_sock_shutdown V tcp_hndl.sock_cfd tcp_hndl.sock_dfd

/-- The entry `close` of the table `sock.ops` points to. -/
def xio_tcp_handle.close (V : xio_sys_env) (tcp_hndl : xio_tcp_handle) :
    Int × List xio_tcp_call :=
  match tcp_hndl.sock_ops with
  | xio_tcp_socket_ops.single_sock_ops => xio_tcp_single_sock_close V tcp_hndl.sock_cfd
  | xio_tcp_socket_ops.dual_sock_ops =>
    xio_tcp_dual_sock_close V tcp_hndl.sock_cfd tcp_hndl.sock_dfd

/-- The loop of `on_sock_disconnected` over the pending connections: each
entry is taken out of epoll, unlinked and freed. -/
def xio_tcp_drain_pending (V : xio_sys_env) :
    List xio_tcp_pending_conn → List xio_tcp_call
  | [] => []
  | pconn :: rest =>
    [xio_tcp_call.xio_context_del_ev_handler pconn.fd] ++
    (if V.xio_context_del_ev_handler pconn.fd ≠ 0 then
       [xio_tcp_call.ERROR_LOG xio_tcp_log.del_ev_handler_failed]
     else []) ++
    [xio_tcp_call.ufree (some pconn.addr)] ++
    xio_tcp_drain_pending V rest

/-- The function `on_sock_disconnected`. -/
def on_sock_disconnected (V : xio_sys_env) (tcp_hndl : xio_tcp_handle)
    (passive_close : Int) : xio_tcp_life :=
  if tcp_hndl.state = xio_transport_state.DISCONNECTED then
    { hndl := { tcp_hndl with state := xio_transport_state.CLOSED, pending_conns := [] }
      states := [xio_transport_state.CLOSED]
      calls :=
        [xio_tcp_call.xio_ctx_remove_event xio_ctx_event.flush_tx_event,
         xio_tcp_call.xio_ctx_remove_event xio_ctx_event.ctl_rx_event] ++
        (if tcp_hndl.ops_del_ev_handlers then (tcp_hndl.del_ev_handlers V).2 else []) ++
        /- active close -/
        (if passive_close = 0 ∧ tcp_hndl.is_listen = 0 then (tcp_hndl.shutdown V).2
         else []) ++
        (tcp_hndl.close V).2 ++
        xio_tcp_drain_pending V tcp_hndl.pending_conns ++
        (if passive_close ≠ 0 then
           [xio_tcp_call.xio_transport_notify_observer xio_transport_event.DISCONNECTED]
         else []) }
  else { hndl := tcp_hndl, states := [], calls := [] }

/-- The function `xio_tcp_post_close`, on the fields of the handle it reads:
the handle's address, `tmp_rx_buf` and `base.portal_uri`. Its last call frees
the handle. -/
def xio_tcp_post_close (tcp_hndl : Nat) (tmp_rx_buf portal_uri : Option Nat) :
    List xio_tcp_call :=
  [xio_tcp_call.xio_ctx_remove_event xio_ctx_event.disconnect_event,
   xio_tcp_call.xio_observable_unreg_all_observers] ++
  (if tmp_rx_buf.isSome then [xio_tcp_call.ufree tmp_rx_buf] else []) ++
  [xio_tcp_call.ufree portal_uri,
   xio_tcp_call.XIO_OBSERVABLE_DESTROY,
   xio_tcp_call.ufree (some tcp_hndl)]

/-- The switch of `xio_tcp_close_cb`. -/
def xio_tcp_close_cb_switch (V : xio_sys_env) (tcp_hndl : xio_tcp_handle) : xio_tcp_life :=
  match tcp_hndl.state with
  | xio_transport_state.LISTEN
  | xio_transport_state.CONNECTED =>
    let d := on_sock_disconnected V
      { tcp_hndl with state := xio_transport_state.DISCONNECTED } 0
    let c := on_sock_close d.hndl
    { hndl := c.hndl
      states := [xio_transport_state.DISCONNECTED] ++ d.states ++ c.states
      calls := d.calls ++ c.calls }
  | xio_transport_state.DISCONNECTED =>
    let d := on_sock_disconnected V tcp_hndl 0
    let c := on_sock_close d.hndl
    { hndl := c.hndl, states := d.states ++ c.states, calls := d.calls ++ c.calls }
  | xio_transport_state.CLOSED => on_sock_close tcp_hndl
  | _ =>
    { hndl := { tcp_hndl with state := xio_transport_state.DESTROYED }
      states := [xio_transport_state.DESTROYED]
      calls := [xio_tcp_call.xio_transport_notify_observer xio_transport_event.CLOSED] }

/-- The function `xio_tcp_close_cb`, run when the reference count of the
handle has dropped to zero. -/
def xio_tcp_close_cb (V : xio_sys_env) (tcp_hndl : xio_tcp_handle) : xio_tcp_life :=
  let r := xio_tcp_close_cb_switch V tcp_hndl
  if r.hndl.state = xio_transport_state.DESTROYED then
    { hndl := { r.hndl with tmp_rx_buf := none }
      states := r.states
      calls := r.calls ++ xio_tcp_post_close r.hndl.addr r.hndl.tmp_rx_buf r.hndl.portal_uri }
  else r

/-- The function `xio_tcp_single_sock_add_ev_handlers`: return value and
calls. -/
def xio_tcp_single_sock_add_ev_handlers (V : xio_sys_env)
    (tcp_hndl : xio_tcp_handle) : Int × List xio_tcp_call :=
  let retval := V.xio_context_add_ev_handler tcp_hndl.sock_cfd
  (retval,
   [xio_tcp_call.xio_context_add_ev_handler tcp_hndl.sock_cfd] ++
   (if retval ≠ 0 then [xio_tcp_call.ERROR_LOG xio_tcp_log.add_ev_handler_failed]
    else []))

/-- The function `xio_tcp_dual_sock_add_ev_handlers`: return value and
calls. -/
def xio_tcp_dual_sock_add_ev_handlers (V : xio_sys_env)
    (tcp_hndl : xio_tcp_handle) : Int × List xio_tcp_call :=
  let retval := V.xio_context_add_ev_handler tcp_hndl.sock_cfd
  if retval ≠ 0 then
    (retval,
     [xio_tcp_call.xio_context_add_ev_handler tcp_hndl.sock_cfd,
      xio_tcp_call.ERROR_LOG xio_tcp_log.add_ev_handler_failed])
  else
    let retval := V.xio_context_add_ev_handler tcp_hndl.sock_dfd
    (retval,
     [xio_tcp_call.xio_context_add_ev_handler tcp_hndl.sock_cfd,
      xio_tcp_call.xio_context_add_ev_handler tcp_hndl.sock_dfd] ++
     (if retval ≠ 0 then
        [xio_tcp_call.ERROR_LOG xio_tcp_log.add_ev_handler_failed,
         xio_tcp_call.xio_context_del_ev_handler tcp_hndl.sock_cfd]
      else []))

/-- The entry `add_ev_handlers` of the table `sock.ops` points to. -/
def xio_tcp_handle.add_ev_handlers (V : xio_sys_env) (tcp_hndl : xio_tcp_handle) :
    Int × List xio_tcp_call :=
  match tcp_hndl.sock_ops with
  | xio_tcp_socket_ops.single_sock_ops => xio_tcp_single_sock_add_ev_handlers V tcp_hndl
  | xio_tcp_socket_ops.dual_sock_ops => xio_tcp_dual_sock_add_ev_handlers V tcp_hndl

/-- The label `cleanup` of `xio_tcp_conn_established_helper`: the error
event, with `so_error` as the reason when it is not zero. -/
def xio_tcp_conn_cleanup (tcp_hndl : xio_tcp_handle) (so_error : Int)
    (calls : List xio_tcp_call) : xio_tcp_life :=
  { hndl := tcp_hndl
    states := []
    calls := calls ++
      [xio_tcp_call.xio_transport_notify_observer_error
        (if so_error ≠ 0 then xio_reason.errno so_error
         else xio_reason.XIO_E_CONNECT_ERROR)] }

/-- The function `xio_tcp_conn_established_helper`. The argument `fd` is not
used by the code, which works on `tcp_hndl->sock.cfd`; `error` holds the
epoll error bits. -/
def xio_tcp_conn_established_helper (V : xio_sys_env) (fd : Int)
    (tcp_hndl : xio_tcp_handle) (msg : xio_tcp_connect_msg) (error : Int) :
    xio_tcp_life :=
  let _ := fd
  let cfd := tcp_hndl.sock_cfd
  /- remove from epoll -/
  if V.xio_context_del_ev_handler cfd ≠ 0 then
    xio_tcp_conn_cleanup tcp_hndl 0
      [xio_tcp_call.xio_context_del_ev_handler cfd,
       xio_tcp_call.ERROR_LOG xio_tcp_log.del_ev_handler_failed]
  else
    let g := V.getsockopt cfd
    let so_error : Int := if g.1 ≠ 0 then g.2.2 else g.2.1
    let calls :=
      [xio_tcp_call.xio_context_del_ev_handler cfd, xio_tcp_call.getsockopt cfd] ++
      (if g.1 ≠ 0 then [xio_tcp_call.ERROR_LOG xio_tcp_log.getsockopt_failed] else [])
    if so_error ≠ 0 ∨ error ≠ 0 then
      xio_tcp_conn_cleanup { tcp_hndl with ops_del_ev_handlers := false } so_error
        (calls ++ [xio_tcp_call.DEBUG_LOG xio_tcp_log.establishment_failed])
    else
      /- add to epoll -/
      let a := tcp_hndl.add_ev_handlers V
      if a.1 ≠ 0 then
        xio_tcp_conn_cleanup tcp_hndl so_error
          (calls ++ a.2 ++ [xio_tcp_call.ERROR_LOG xio_tcp_log.add_ev_handler_failed])
      else
        let p := V.getpeername cfd
        if p.1 ≠ 0 then
          xio_tcp_conn_cleanup tcp_hndl p.2.1
            (calls ++ a.2 ++
             [xio_tcp_call.getpeername cfd, xio_tcp_call.xio_set_error p.2.1,
              xio_tcp_call.ERROR_LOG xio_tcp_log.getpeername_failed])
        else
          let tcp_hndl := { tcp_hndl with peer_addr := some p.2.2 }
          let calls := calls ++ a.2 ++
            [xio_tcp_call.getpeername cfd, xio_tcp_call.xio_tcp_send_connect_msg cfd msg]
          if V.xio_tcp_send_connect_msg cfd ≠ 0 then
            xio_tcp_conn_cleanup tcp_hndl so_error calls
          else
            { hndl := tcp_hndl
              states := []
              calls := calls ++
                [xio_tcp_call.xio_transport_notify_observer
                  xio_transport_event.ESTABLISHED] }

/-- The calls that publish an event to the observers of a transport. -/
def xio_tcp_call.is_publish : xio_tcp_call → Bool
  | xio_tcp_call.xio_transport_notify_observer _ => true
  | xio_tcp_call.xio_transport_notify_observer_error _ => true
  | _ => false

/-- The value of the variable `so_error` of `xio_tcp_conn_established_helper`
after the `getsockopt` call: the socket error it stored, or `errno` when the
call itself failed. -/
def xio_sys_env.so_error (V : xio_sys_env) (cfd : Int) : Int :=
  if (V.getsockopt cfd).1 ≠ 0 then (V.getsockopt cfd).2.2 else (V.getsockopt cfd).2.1

/-- Every step of `xio_tcp_conn_established_helper` succeeds: the connect
handler is removed, `getsockopt` succeeds and gives `SO_ERROR` zero, there
are no epoll error bits, the readiness handlers are installed, the peer
address is captured and the handshake is sent. -/
def xio_sys_env.connect_ok (V : xio_sys_env) (tcp_hndl : xio_tcp_handle)
    (error : Int) : Prop :=
  V.xio_context_del_ev_handler tcp_hndl.sock_cfd = 0 ∧
  (V.getsockopt tcp_hndl.sock_cfd).1 = 0 ∧ (V.getsockopt tcp_hndl.sock_cfd).2.1 = 0 ∧
  error = 0 ∧ (tcp_hndl.add_ev_handlers V).1 = 0 ∧
  (V.getpeername tcp_hndl.sock_cfd).1 = 0 ∧
  V.xio_tcp_send_connect_msg tcp_hndl.sock_cfd = 0

instance (V : xio_sys_env) (tcp_hndl : xio_tcp_handle) (error : Int) :
    Decidable (V.connect_ok tcp_hndl error) := by
  unfold xio_sys_env.connect_ok; infer_instance

/-- The socket error the error event of `xio_tcp_conn_established_helper`
reports: nothing (0) when the connect handler could not be removed; else the
value of `so_error` after `getsockopt` when that is not zero; else the
`errno` of `getpeername` when the epoll bits are clear, the readiness
handlers are installed and `getpeername` fails; else nothing. -/
def xio_sys_env.socket_error (V : xio_sys_env) (tcp_hndl : xio_tcp_handle)
    (error : Int) : Int :=
  if V.xio_context_del_ev_handler tcp_hndl.sock_cfd ≠ 0 then 0
  else if V.so_error tcp_hndl.sock_cfd ≠ 0 then V.so_error tcp_hndl.sock_cfd
  else if error = 0 ∧ (tcp_hndl.add_ev_handlers V).1 = 0 ∧
      (V.getpeername tcp_hndl.sock_cfd).1 ≠ 0 then
    (V.getpeername tcp_hndl.sock_cfd).2.1
  else 0

/-- A system environment for the examples: every call succeeds. -/
def ex_sys_env : xio_sys_env :=
  { xio_context_del_ev_handler := fun _ => 0
    xio_context_add_ev_handler := fun _ => 0
    shutdown := fun _ => (0, 0)
    close := fun _ => (0, 0)
    getsockopt := fun _ => (0, 0, 0)
    getpeername := fun _ => (0, 0, { sa_family := 2, sin_port := 5000, sin_addr := 1,
                                     sin6_port := 0, sin6_addr := 0 })
    xio_tcp_send_connect_msg := fun _ => 0 }

/-- A handle for the examples: dual sockets 10 and 11, one task in flight. -/
def ex_tcp_handle (state : xio_transport_state) : xio_tcp_handle :=
  { addr := 900, state := state, is_listen := 0, sock_cfd := 10, sock_dfd := 11
    sock_ops := xio_tcp_socket_ops.dual_sock_ops, ops_del_ev_handlers := true
    peer_addr := none, tmp_rx_buf := some 901, portal_uri := some 902
    tx_ready_tasks_num := 1, in_flight_list := [950], tx_comp_list := []
    io_list := [], tx_ready_list := [], rx_list := [], pending_conns := [] }

/-! ## TCP transport: pending connections and the dual-socket pairing -/

/-- Constants and conventions of the system headers the pairing code uses:
the byte order of the host, the address families and `EAGAIN`. They are
parameters of the embedding. -/
structure xio_sys_decls where
  little_endian : Bool
  AF_INET : Nat
  AF_INET6 : Nat
  EAGAIN : Int

/-- The bytes of the low `8 * n` bits of `v` in the memory of the host. -/
def host_bytes (S : xio_sys_decls) (n v : Nat) : List Nat :=
  if S.little_endian then (be_bytes n v).reverse else be_bytes n v

/-- The value the host reads from the bytes of an integer in memory. -/
def host_value (S : xio_sys_decls) (bs : List Nat) : Nat :=
  if S.little_endian then be_value bs.reverse else be_value bs

/-- The function `ntohs`: the value of a 16-bit field held in network order. -/
def ntohs (S : xio_sys_decls) (x : Nat) : Nat := be_value (host_bytes S 2 x)

/-- Modelled from the spec: the layout of `struct xio_tcp_connect_msg`
(xio_tcp_transport.h, not among the sources) as section 6 gives it:
`sock_type` 4 bytes, then `second_port` 2 bytes, then `pad` 2 bytes. Offset
of sock_type. -/
def off_sock_type : Nat := 0
/-- Modelled from the spec: offset of second_port in the handshake message. -/
def off_second_port : Nat := 4
/-- Modelled from the spec: offset of pad in the handshake message. -/
def off_pad : Nat := 6
/-- Modelled from the spec: `sizeof(struct xio_tcp_connect_msg)`, 4 + 2 + 2. -/
def sizeof_xio_tcp_connect_msg : Nat := 8
/-- Modelled from the spec: `enum xio_tcp_sock_type` is declared in
xio_tcp_transport.h; section 6 gives SINGLE = 1, CTL = 2, DATA = 3. -/
def XIO_TCP_SINGLE_SOCK : Nat := 1
/-- Modelled from the spec: the value of XIO_TCP_CTL_SOCK. -/
def XIO_TCP_CTL_SOCK : Nat := 2
/-- Modelled from the spec: the value of XIO_TCP_DATA_SOCK. -/
def XIO_TCP_DATA_SOCK : Nat := 3

/-- The fields of the handshake message `pconn->msg` as the code reads them
from the memory of the entry. -/
def xio_tcp_pending_conn.connect_msg (S : xio_sys_decls) (pconn : xio_tcp_pending_conn) :
    xio_tcp_connect_msg :=
  { sock_type := host_value S (mem_load pconn.msg off_sock_type 4)
    second_port := host_value S (mem_load pconn.msg off_second_port 2)
    pad := host_value S (mem_load pconn.msg off_pad 2) }

/-- The three lines `UNPACK_LVAL(&msg, &msg, sock_type)`,
`UNPACK_SVAL(&msg, &msg, second_port)`, `UNPACK_SVAL(&msg, &msg, pad)`: each
field of the message is converted from network order where it lies. -/
def xio_tcp_unpack_connect_msg (S : xio_sys_decls) (msg : List Nat) : List Nat :=
  let msg := mem_store msg off_sock_type (host_bytes S 4 (UNPACK_LVAL msg 0 off_sock_type))
  let msg := mem_store msg off_second_port
    (host_bytes S 2 (UNPACK_SVAL msg 0 off_second_port))
  mem_store msg off_pad (host_bytes S 2 (UNPACK_SVAL msg 0 off_pad))

/-- What one call of `recv` on a non-blocking socket gives: bytes (never more
than asked for), end of file, or -1 with an `errno`. -/
inductive xio_recv_ret
  | data (bytes : List Nat)
  | eof
  | err (errno : Int)
deriving DecidableEq

/-- How the receive loop of `xio_tcp_handle_pending_conn` ends: the handshake
is complete, the code jumps to `cleanup1`, or it returns to wait for more
bytes. -/
inductive xio_recv_end
  | complete
  | cleanup1
  | again
deriving DecidableEq

/-- The receive loop `while (pending_conn->waiting_for_bytes)` of
`xio_tcp_handle_pending_conn`. The list holds what the successive calls of
`recv` give; when it is used up the socket has nothing more (`EAGAIN`). The
write position `buf` is `sizeof(msg) - waiting_for_bytes` from the start of
the message throughout. `waiting_for_bytes` is an `int` that the code sets to
the size of the message and only decreases. -/
def xio_tcp_recv_loop (S : xio_sys_decls) (fd : Int) :
    List xio_recv_ret → xio_tcp_pending_conn →
    xio_tcp_pending_conn × List xio_tcp_call × xio_recv_end
  | [], pending_conn =>
    if pending_conn.waiting_for_bytes = 0 then (pending_conn, [], xio_recv_end.complete)
    else (pending_conn, [xio_tcp_call.recv fd], xio_recv_end.again)
  | ret :: rest, pending_conn =>
    if pending_conn.waiting_for_bytes = 0 then (pending_conn, [], xio_recv_end.complete)
    else
      match ret with
      | xio_recv_ret.data bytes =>
        let got := bytes.take pending_conn.waiting_for_bytes
        if got.length > 0 then
          let r := xio_tcp_recv_loop S fd rest
            { pending_conn with
              msg := mem_store pending_conn.msg
                (sizeof_xio_tcp_connect_msg - pending_conn.waiting_for_bytes) got
              waiting_for_bytes := pending_conn.waiting_for_bytes - got.length }
          (r.1, xio_tcp_call.recv fd :: r.2.1, r.2.2)
        else
          (pending_conn, [xio_tcp_call.recv fd, xio_tcp_call.ERROR_LOG xio_tcp_log.eof],
           xio_recv_end.cleanup1)
      | xio_recv_ret.eof =>
        (pending_conn, [xio_tcp_call.recv fd, xio_tcp_call.ERROR_LOG xio_tcp_log.eof],
         xio_recv_end.cleanup1)
      | xio_recv_ret.err errno =>
        if errno ≠ S.EAGAIN then
          (pending_conn,
           [xio_tcp_call.recv fd, xio_tcp_call.ERROR_LOG xio_tcp_log.recv_failed],
           xio_recv_end.cleanup1)
        else (pending_conn, [xio_tcp_call.recv fd], xio_recv_end.again)

/-- How the pairing scan ends: no entry matches, the selected entry fails the
port cross-check (the function returns), or `matching_conn` is found. -/
inductive xio_scan_end
  | no_match
  | ports_mismatch
  | found (matching_conn : xio_tcp_pending_conn)
deriving DecidableEq


/-- The pairing scan of `xio_tcp_handle_pending_conn`: the loop over all the
entries of `parent_hndl->pending_conns`, in list order. An entry that still
waits for bytes is passed over; the branch is chosen by the family of
`pconn`, and compares the port `pconn` advertises with the peer port of
`pending_conn`, and the two peer addresses; the entry selected is
cross-checked against the port `pending_conn` advertises. -/
def xio_tcp_pairing_scan (S : xio_sys_decls) (pending_conn : xio_tcp_pending_conn) :
    List xio_tcp_pending_conn → List xio_tcp_call × xio_scan_end
  | [] => ([], xio_scan_end.no_match)
  | pconn :: rest =>
    if pconn.waiting_for_bytes ≠ 0 then xio_tcp_pairing_scan S pending_conn rest
    else if pconn.sa.sa_family = S.AF_INET then
      if (pconn.connect_msg S).second_port = ntohs S pending_conn.sa.sin_port ∧
          pconn.sa.sin_addr = pending_conn.sa.sin_addr then
        if ntohs S pconn.sa.sin_port ≠ (pending_conn.connect_msg S).second_port then
          ([xio_tcp_call.ERROR_LOG xio_tcp_log.ports_mismatch], xio_scan_end.ports_mismatch)
        else ([], xio_scan_end.found pconn)
      else xio_tcp_pairing_scan S pending_conn rest
    else if pconn.sa.sa_family = S.AF_INET6 then
      if (pconn.connect_msg S).second_port = ntohs S pending_conn.sa.sin6_port ∧
          pconn.sa.sin6_addr = pending_conn.sa.sin6_addr then
        if ntohs S pconn.sa.sin6_port ≠ (pending_conn.connect_msg S).second_port then
          ([xio_tcp_call.ERROR_LOG xio_tcp_log.ports_mismatch], xio_scan_end.ports_mismatch)
        else ([], xio_scan_end.found pconn)
      else xio_tcp_pairing_scan S pending_conn rest
    else
      let r := xio_tcp_pairing_scan S pending_conn rest
      (xio_tcp_call.ERROR_LOG xio_tcp_log.unknown_family :: r.1, r.2)

/-- A fault of the C program: past it the behaviour is undefined and the
embedding follows the run no further. -/
inductive xio_fault
  | null_deref
  | use_after_free
deriving DecidableEq

/-- The child handle `xio_tcp_handle_pending_conn` builds: the handle
`xio_tcp_transport_create` returns (with `sock.ops` as assigned), its
address, and the fields assigned after the creation. -/
structure xio_tcp_child where
  hndl : xio_tcp_transport
  addr : Nat
  peer_addr : xio_sockaddr
  sock_cfd : Int
  sock_dfd : Int
  tmp_rx_buf : Option Nat
deriving DecidableEq

/-- What the calls `xio_tcp_handle_pending_conn` makes give, beside those of
`xio_sys_env`: what the successive `recv` give, the allocations of
`xio_tcp_transport_create` and the address of the child, the buffer
`ucalloc(1, TMP_RX_BUF_SIZE)` returns (`none` for NULL), and the return value
and `errno` of `getsockname`. -/
structure xio_pending_env where
  recv : List xio_recv_ret
  create : xio_create_env
  child : Nat
  tmp_rx_buf : Option Nat
  getsockname : Int × Int

/-- What `xio_tcp_handle_pending_conn` leaves: the parent handle (its
pending list), the globals, the child it published (`none` when none was),
its calls, and the fault it ran into, if any. -/
structure xio_pending_result where
  parent_hndl : xio_tcp_handle
  G : xio_tcp_globals
  child_hndl : Option xio_tcp_child
  calls : List xio_tcp_call
  fault : Option xio_fault

/-- The call `xio_context_del_ev_handler(ctx, fd)` followed by the error log
when it fails. -/
def xio_tcp_del_ev_handler (V : xio_sys_env) (fd : Int) : List xio_tcp_call :=
  [xio_tcp_call.xio_context_del_ev_handler fd] ++
  (if V.xio_context_del_ev_handler fd ≠ 0 then
     [xio_tcp_call.ERROR_LOG xio_tcp_log.del_ev_handler_failed]
   else [])

/-- The macro `list_del` on the pending list: the entry at `addr` is
unlinked. Entries are distinct objects, so an address names one entry. -/
def xio_tcp_list_del (l : List xio_tcp_pending_conn) (addr : Nat) :
    List xio_tcp_pending_conn :=
  l.filter (fun pconn => pconn.addr ≠ addr)

/-- The label `cleanup3` of `xio_tcp_handle_pending_conn`. -/
def xio_tcp_pending_cleanup3 (fd cfd dfd : Int) (is_single : Bool)
    (child_hndl : Option xio_tcp_child) : List xio_tcp_call :=
  (if is_single then [xio_tcp_call.close fd]
   else [xio_tcp_call.close cfd, xio_tcp_call.close dfd]) ++
  (match child_hndl with
   | some child => xio_tcp_post_close child.addr child.tmp_rx_buf child.hndl.portal_uri
   | none => [])

/-- The label `cleanup2` of `xio_tcp_handle_pending_conn`, running on into
`cleanup3` (reached with `is_single` still 1 and no child). -/
def xio_tcp_pending_cleanup2 (V : xio_sys_env) (fd : Int) : List xio_tcp_call :=
  /- remove from epoll -/
  xio_tcp_del_ev_handler V fd ++ xio_tcp_pending_cleanup3 fd 0 0 true none

/-- The label `cleanup1` of `xio_tcp_handle_pending_conn`, running on into
`cleanup2`. -/
def xio_tcp_pending_cleanup1 (V : xio_sys_env) (G : xio_tcp_globals) (fd : Int)
    (parent_hndl : xio_tcp_handle) (pending_conn : xio_tcp_pending_conn)
    (calls : List xio_tcp_call) : xio_pending_result :=
  { parent_hndl := { parent_hndl with
      pending_conns := xio_tcp_list_del parent_hndl.pending_conns pending_conn.addr }
    G := G
    child_hndl := none
    calls := calls ++ [xio_tcp_call.ufree (some pending_conn.addr)] ++
      xio_tcp_pending_cleanup2 V fd
    fault := none }

/-- The part of `xio_tcp_handle_pending_conn` from the label `single_sock`
on: `ctl_conn` is unlinked and taken out of epoll, the child is created and
filled in, and the new connection is published. `freed` is the entry already
freed on the way here, if any. -/
def xio_tcp_pending_single_sock (T : xio_tcp_decls) (V : xio_sys_env) (E : xio_pending_env)
    (G : xio_tcp_globals) (fd : Int) (parent_hndl : xio_tcp_handle) (transport ctx : Nat)
    (ctl_conn : xio_tcp_pending_conn) (cfd dfd : Int) (is_single : Bool)
    (freed : Option Nat) (calls : List xio_tcp_call) : xio_pending_result :=
  if freed = some ctl_conn.addr then
    /- list_del(&ctl_conn->conns_list_entry) on an entry that was freed -/
    { parent_hndl := parent_hndl, G := G, child_hndl := none, calls := calls
      fault := some xio_fault.use_after_free }
  else
    let parent_hndl := { parent_hndl with
      pending_conns := xio_tcp_list_del parent_hndl.pending_conns ctl_conn.addr }
    let calls := calls ++ xio_tcp_del_ev_handler V ctl_conn.fd
    let c := xio_tcp_transport_create T E.create G transport ctx none false
    match c.2 with
    | none =>
      { parent_hndl := parent_hndl, G := c.1, child_hndl := none
        calls := calls ++
          [xio_tcp_call.ERROR_LOG xio_tcp_log.create_child_failed,
           xio_tcp_call.xio_transport_notify_observer_error
             (xio_reason.xio_errno c.1.xio_errno),
           xio_tcp_call.ufree (some ctl_conn.addr)] ++
          xio_tcp_pending_cleanup3 fd cfd dfd is_single none
        fault := none }
    | some hndl =>
      let calls := calls ++ [xio_tcp_call.ufree (some ctl_conn.addr)]
      let child : xio_tcp_child :=
        if is_single then
          { hndl := { hndl with sock_ops := some xio_tcp_socket_ops.single_sock_ops }
            addr := E.child, peer_addr := ctl_conn.sa, sock_cfd := fd, sock_dfd := fd
            tmp_rx_buf := none }
        else
          { hndl := { hndl with sock_ops := some xio_tcp_socket_ops.dual_sock_ops }
            addr := E.child, peer_addr := ctl_conn.sa, sock_cfd := cfd, sock_dfd := dfd
            tmp_rx_buf := E.tmp_rx_buf }
      if is_single = false ∧ E.tmp_rx_buf = none then
        { parent_hndl := parent_hndl
          G := { c.1 with xio_errno := some xio_error.ENOMEM }
          child_hndl := none
          calls := calls ++ [xio_tcp_call.ERROR_LOG xio_tcp_log.ucalloc_failed] ++
            xio_tcp_pending_cleanup3 fd cfd dfd is_single (some child)
          fault := none }
      else
        { parent_hndl := parent_hndl
          G := c.1
          child_hndl := some child
          calls := calls ++ [xio_tcp_call.getsockname child.sock_cfd] ++
            (if E.getsockname.1 ≠ 0 then
               [xio_tcp_call.xio_set_error E.getsockname.2,
                xio_tcp_call.ERROR_LOG xio_tcp_log.getsockname_failed]
             else []) ++
            [xio_tcp_call.xio_transport_notify_observer xio_transport_event.NEW_CONNECTION]
          fault := none }

/-- The part of `xio_tcp_handle_pending_conn` after the receive loop, on the
entry `pending_conn` whose handshake has been converted: a single-socket
handshake goes to `single_sock` at once, any other one is paired by the
scan. -/
def xio_tcp_pending_pair (T : xio_tcp_decls) (S : xio_sys_decls) (V : xio_sys_env)
    (E : xio_pending_env) (G : xio_tcp_globals) (fd : Int) (parent_hndl : xio_tcp_handle)
    (transport ctx : Nat) (pending_conn : xio_tcp_pending_conn)
    (calls : List xio_tcp_call) : xio_pending_result :=
  if (pending_conn.connect_msg S).sock_type = XIO_TCP_SINGLE_SOCK then
    xio_tcp_pending_single_sock T V E G fd parent_hndl transport ctx pending_conn 0 0 true
      none calls
  else
    let s := xio_tcp_pairing_scan S pending_conn parent_hndl.pending_conns
    let calls := calls ++ s.1
    match s.2 with
    | xio_scan_end.no_match =>
      { parent_hndl := parent_hndl, G := G, child_hndl := none, calls := calls, fault := none }
    | xio_scan_end.ports_mismatch =>
      { parent_hndl := parent_hndl, G := G, child_hndl := none, calls := calls, fault := none }
    | xio_scan_end.found matching_conn =>
      let sock_type := (pending_conn.connect_msg S).sock_type
      if sock_type ≠ XIO_TCP_CTL_SOCK ∧ sock_type ≠ XIO_TCP_DATA_SOCK then
        /- cfd = ctl_conn->fd with ctl_conn still NULL -/
        { parent_hndl := parent_hndl, G := G, child_hndl := none, calls := calls
          fault := some xio_fault.null_deref }
      else
        let ctl_conn := if sock_type = XIO_TCP_CTL_SOCK then pending_conn else matching_conn
        let data_conn := if sock_type = XIO_TCP_CTL_SOCK then matching_conn else pending_conn
        let cfd := ctl_conn.fd
        let dfd := data_conn.fd
        let parent_hndl := { parent_hndl with
          pending_conns := xio_tcp_list_del parent_hndl.pending_conns data_conn.addr }
        let calls := calls ++ xio_tcp_del_ev_handler V data_conn.fd ++
          [xio_tcp_call.ufree (some data_conn.addr)]
        xio_tcp_pending_single_sock T V E G fd parent_hndl transport ctx ctl_conn cfd dfd
          false (some data_conn.addr) calls

/-- The entry for `fd` once its handshake is read and converted where it
lies. -/
def xio_tcp_read_handshake (S : xio_sys_decls) (E : xio_pending_env) (fd : Int)
    (pending_conn : xio_tcp_pending_conn) : xio_tcp_pending_conn :=
  { (xio_tcp_recv_loop S fd E.recv pending_conn).1 with
    msg := xio_tcp_unpack_connect_msg S (xio_tcp_recv_loop S fd E.recv pending_conn).1.msg }

/-- The pending list with the entry at the address of `pending_conn`
holding what the function has written to it. -/
def xio_tcp_list_update (l : List xio_tcp_pending_conn)
    (pending_conn : xio_tcp_pending_conn) : List xio_tcp_pending_conn :=
  l.map (fun pconn => if pconn.addr = pending_conn.addr then pending_conn else pconn)

/-- The function `xio_tcp_handle_pending_conn`, on the parent handle and the
fields `transport` and `base.ctx` of it that the child is created with. -/
def xio_tcp_handle_pending_conn (T : xio_tcp_decls) (S : xio_sys_decls) (V : xio_sys_env)
    (E : xio_pending_env) (G : xio_tcp_globals) (fd : Int) (parent_hndl : xio_tcp_handle)
    (transport ctx : Nat) (error : Int) : xio_pending_result :=
  match parent_hndl.pending_conns.find? (fun pconn => pconn.fd == fd) with
  | none =>
    { parent_hndl := parent_hndl, G := G, child_hndl := none
      calls := [xio_tcp_call.ERROR_LOG xio_tcp_log.pending_fd_not_found] ++
        xio_tcp_pending_cleanup2 V fd
      fault := none }
  | some pending_conn =>
    if error ≠ 0 then
      xio_tcp_pending_cleanup1 V G fd parent_hndl pending_conn
        [xio_tcp_call.DEBUG_LOG xio_tcp_log.epoll_error]
    else
      let r := xio_tcp_recv_loop S fd E.recv pending_conn
      match r.2.2 with
      | xio_recv_end.cleanup1 => xio_tcp_pending_cleanup1 V G fd parent_hndl r.1 r.2.1
      | xio_recv_end.again =>
        { parent_hndl := { parent_hndl with
            pending_conns := xio_tcp_list_update parent_hndl.pending_conns r.1 }
          G := G, child_hndl := none, calls := r.2.1, fault := none }
      | xio_recv_end.complete =>
        let pending_conn := xio_tcp_read_handshake S E fd pending_conn
        xio_tcp_pending_pair T S V E G fd
          { parent_hndl with
            pending_conns := xio_tcp_list_update parent_hndl.pending_conns pending_conn }
          transport ctx pending_conn r.2.1

/-- A little-endian host with the Linux values of the constants, for the
examples. -/
def ex_sys_decls : xio_sys_decls :=
  { little_endian := true, AF_INET := 2, AF_INET6 := 10, EAGAIN := 11 }

/-- An IPv4 peer address 127.0.0.1 with the given port, for the examples. -/
def ex_sockaddr (port : Nat) : xio_sockaddr :=
  { sa_family := 2, sin_port := host_value ex_sys_decls (be_bytes 2 port)
    sin_addr := host_value ex_sys_decls [127, 0, 0, 1], sin6_port := 0, sin6_addr := 0 }

/-- The bytes of a handshake on the wire, for the examples. -/
def ex_handshake (sock_type second_port : Nat) : List Nat :=
  be_bytes 4 sock_type ++ be_bytes 2 second_port ++ be_bytes 2 0

/-- A pending entry that has read nothing yet, for the examples. -/
def ex_pending_new (addr : Nat) (fd : Int) (port : Nat) : xio_tcp_pending_conn :=
  { addr := addr, fd := fd, waiting_for_bytes := sizeof_xio_tcp_connect_msg
    msg := [0, 0, 0, 0, 0, 0, 0, 0], sa := ex_sockaddr port }

/-- A pending entry whose handshake has been read and converted, for the
examples. -/
def ex_pending_ready (addr : Nat) (fd : Int) (port sock_type second_port : Nat) :
    xio_tcp_pending_conn :=
  { addr := addr, fd := fd, waiting_for_bytes := 0
    msg := xio_tcp_unpack_connect_msg ex_sys_decls (ex_handshake sock_type second_port)
    sa := ex_sockaddr port }

/-- An environment in which the handshake arrives in one piece and every
allocation succeeds, for the examples. -/
def ex_pending_env (sock_type second_port : Nat) : xio_pending_env :=
  { recv := [xio_recv_ret.data (ex_handshake sock_type second_port)]
    create := ex_create_env, child := 800, tmp_rx_buf := some 801, getsockname := (0, 0) }

/-- A listening parent handle with the given pending list, for the
examples. -/
def ex_parent (pending_conns : List xio_tcp_pending_conn) : xio_tcp_handle :=
  { ex_tcp_handle xio_transport_state.LISTEN with
    is_listen := 1, sock_ops := xio_tcp_socket_ops.single_sock_ops
    in_flight_list := [], pending_conns := pending_conns }

/-- The call that publishes a new connection to the observers of the
parent. -/
def xio_new_connection : xio_tcp_call :=
  xio_tcp_call.xio_transport_notify_observer xio_transport_event.NEW_CONNECTION

/-- The peer port of an address, in host order, read in the view of its
family. -/
def xio_sockaddr.port (S : xio_sys_decls) (sa : xio_sockaddr) : Nat :=
  if sa.sa_family = S.AF_INET then ntohs S sa.sin_port else ntohs S sa.sin6_port

/-- The peer address proper, read in the view of its family. -/
def xio_sockaddr.ip (S : xio_sys_decls) (sa : xio_sockaddr) : Nat :=
  if sa.sa_family = S.AF_INET then sa.sin_addr else sa.sin6_addr

/-- The pairing condition between the entry `p` whose handshake has just
been read and the partner `q`, as the code tests it, in the view of the
family of `q`: equal peer addresses, the port `q` advertises is the peer port
of `p`, and the peer port of `q` is the port `p` advertises. -/
def xio_tcp_cross_checked (S : xio_sys_decls) (p q : xio_tcp_pending_conn) : Prop :=
  (q.sa.sa_family = S.AF_INET ∧ q.sa.sin_addr = p.sa.sin_addr ∧
    (q.connect_msg S).second_port = ntohs S p.sa.sin_port ∧
    ntohs S q.sa.sin_port = (p.connect_msg S).second_port) ∨
  (q.sa.sa_family ≠ S.AF_INET ∧ q.sa.sa_family = S.AF_INET6 ∧
    q.sa.sin6_addr = p.sa.sin6_addr ∧
    (q.connect_msg S).second_port = ntohs S p.sa.sin6_port ∧
    ntohs S q.sa.sin6_port = (p.connect_msg S).second_port)

instance (S : xio_sys_decls) (p q : xio_tcp_pending_conn) :
    Decidable (xio_tcp_cross_checked S p q) := by
  unfold xio_tcp_cross_checked; infer_instance

/-- Two entries of a dual-socket client at 127.0.0.1, for the examples: the
second socket (peer port 5001, fd 8) has been read and advertises port 5000
with the given `sock_type`; the first (peer port 5000, fd 7) has read
nothing yet. -/
def ex_pending_list (sock_type : Nat) : List xio_tcp_pending_conn :=
  [ex_pending_ready 701 8 5001 sock_type 5000, ex_pending_new 700 7 5000]

/-- A run of `xio_tcp_handle_pending_conn` for the examples: the entry with fd
7 receives a handshake that says CTL_SOCK and advertises port 5001, while
the entry with fd 8 says `sock_type`. -/
def ex_pending_run (sock_type : Nat) : xio_pending_result :=
  xio_tcp_handle_pending_conn ex_tcp_decls ex_sys_decls ex_sys_env
    (ex_pending_env XIO_TCP_CTL_SOCK 5001) ex_tcp_globals 7
    (ex_parent (ex_pending_list sock_type)) 1 2 0

/-- A run of `xio_tcp_handle_pending_conn` for the examples: the pending list
holds one entry (fd 7, peer port 5000), whose handshake says CTL_SOCK and
advertises the port 5000 it comes from itself. -/
def ex_pending_self_run : xio_pending_result :=
  xio_tcp_handle_pending_conn ex_tcp_decls ex_sys_decls ex_sys_env
    (ex_pending_env XIO_TCP_CTL_SOCK 5000) ex_tcp_globals 7
    (ex_parent [ex_pending_new 700 7 5000]) 1 2 0

/-! ## TCP transport: accept, the control receive loop -/

/-- The calls that shut a socket down. -/
def xio_tcp_call.is_shutdown : xio_tcp_call → Bool
  | xio_tcp_call.shutdown _ => true
  | _ => false

/-- The calls that close a socket. -/
def xio_tcp_call.is_close : xio_tcp_call → Bool
  | xio_tcp_call.close _ => true
  | _ => false

/-- The calls that free memory. -/
def xio_tcp_call.is_ufree : xio_tcp_call → Bool
  | xio_tcp_call.ufree _ => true
  | _ => false

/-- The file descriptors of the socket(s) of a handle, as the entries
`shutdown` and `close` of its table go through them. -/
def xio_tcp_handle.fds (tcp_hndl : xio_tcp_handle) : List Int :=
  match tcp_hndl.sock_ops with
  | xio_tcp_socket_ops.single_sock_ops => [tcp_hndl.sock_cfd]
  | xio_tcp_socket_ops.dual_sock_ops => [tcp_hndl.sock_cfd, tcp_hndl.sock_dfd]

/-- The function `xio_tcp_accept`: return value and calls. -/
def xio_tcp_accept (V : xio_sys_env) (tcp_hndl : xio_tcp_handle) :
    Int × List xio_tcp_call :=
  let a := tcp_hndl.add_ev_handlers V
  (0,
   a.2 ++
   (if a.1 ≠ 0 then
      [xio_tcp_call.xio_transport_notify_observer_error xio_reason.XIO_E_UNSUCCESSFUL]
    else []) ++
   [xio_tcp_call.xio_transport_notify_observer xio_transport_event.ESTABLISHED])

/-- A system environment for the examples in which no readiness handler can
be installed. -/
def ex_sys_env_no_epoll : xio_sys_env :=
  { ex_sys_env with xio_context_add_ev_handler := fun _ => -1 }

/-- Calls of `xio_tcp_consume_ctl_rx`, in program order; the handler carries
the number of the invocation, from 0. -/
inductive xio_rx_call
  | xio_ctx_remove_event (ev : xio_ctx_event)
  | rx_ctl_handler (k : Nat)
  | xio_ctx_add_event (ev : xio_ctx_event)
deriving DecidableEq

/-- What the entry `rx_ctl_handler` of `sock.ops` does, which is the business
of xio_tcp_rx_ctl_handler (datapath, not among the sources): the value its
invocation number `k` returns, and the fields `tmp_rx_buf_len` and `state` of
the handle as the invocations leave them. -/
structure xio_rx_env where
  rx_ctl_handler : Nat → Int
  tmp_rx_buf_len : Int
  state : xio_transport_state

/-- The loop `do { retval = rx_ctl_handler(tcp_hndl); ++count; } while
(retval > 0 && count < RX_POLL_NR_MAX)` of `xio_tcp_consume_ctl_rx`, entered
with `count` invocations made: the count and the last return value when the
loop is left, `none` when the fuel is used up before it is. The constant
RX_POLL_NR_MAX comes from xio_tcp_transport.h and is a parameter. -/
def xio_tcp_consume_ctl_rx_loop (RX_POLL_NR_MAX : Int) (R : xio_rx_env) :
    Nat → Nat → Option (Nat × Int)
  | 0, _ => none
  | fuel + 1, count =>
    let retval := R.rx_ctl_handler count
    let count := count + 1
    if retval > 0 ∧ (count : Int) < RX_POLL_NR_MAX then
      xio_tcp_consume_ctl_rx_loop RX_POLL_NR_MAX R fuel count
    else some (count, retval)

/-- The function `xio_tcp_consume_ctl_rx`: its calls, `none` when the fuel
does not let the loop finish. -/
def xio_tcp_consume_ctl_rx (RX_POLL_NR_MAX : Int) (R : xio_rx_env) (fuel : Nat) :
    Option (List xio_rx_call) :=
  match xio_tcp_consume_ctl_rx_loop RX_POLL_NR_MAX R fuel 0 with
  | none => none
  | some (count, _) =>
    some ([xio_rx_call.xio_ctx_remove_event xio_ctx_event.ctl_rx_event] ++
      (List.range count).map xio_rx_call.rx_ctl_handler ++
      (if R.tmp_rx_buf_len ≠ 0 ∧ R.state = xio_transport_state.CONNECTED then
         [xio_rx_call.xio_ctx_add_event xio_ctx_event.ctl_rx_event]
       else []))

/-- The calls of `xio_tcp_consume_ctl_rx` that invoke the handler. -/
def xio_rx_call.is_handler : xio_rx_call → Bool
  | xio_rx_call.rx_ctl_handler _ => true
  | _ => false

/-- A handler for the examples: it makes progress twice, then none. -/
def ex_rx_env : xio_rx_env :=
  { rx_ctl_handler := fun k => if k < 2 then 1 else 0
    tmp_rx_buf_len := 0, state := xio_transport_state.CONNECTED }

/-! ## Session layer: the receive dispatch -/

/-- The receive handlers `xio_on_new_message` dispatches to. The first three
are functions of xio_session.c (modelled above), the others belong to other
files. -/
inductive xio_msg_handler
  | xio_on_req_recv
  | xio_on_rsp_recv
  | xio_on_credits_ack_recv
  | xio_on_fin_req_recv
  | xio_on_fin_ack_recv
  | xio_on_setup_req_recv
  | xio_on_setup_rsp_recv
  | xio_on_connection_hello_req_recv
  | xio_on_connection_hello_rsp_recv
deriving DecidableEq

/-- Calls of `xio_on_new_message`, in program order: the error logs, the
release of the task, and the handler invoked with its connection and task. -/
inductive xio_dispatch_call
  | ERROR_LOG_find_session
  | ERROR_LOG_find_connection
  | ERROR_LOG_receive_failed (tlv_type : xio_tlv_type)
  | xio_tasks_pool_put (task : Nat)
  | handler (h : xio_msg_handler) (connection : Nat) (task : Nat)
deriving DecidableEq

/-- What `xio_on_new_message` reads through pointers and gets from its
callees: the session and connection of `task->sender_task`, what
`xio_find_session` and `xio_session_find_connection` return (`none` for
NULL), the lead and the redirected connection of the session with the nexus
of each, and the value each handler returns. -/
structure xio_dispatch_env where
  sender_session : Option Nat
  sender_connection : Option Nat
  xio_find_session : Option Nat
  xio_session_find_connection : Option Nat
  lead_connection : Option (Nat × Nat)
  redir_connection : Option (Nat × Nat)
  handler_ret : xio_msg_handler → Int

/-- What `xio_on_new_message` leaves: the task, its calls and its return
value. -/
structure xio_dispatch_result where
  task : xio_task
  calls : List xio_dispatch_call
  ret : Int
deriving DecidableEq

/-- The first part of `xio_on_new_message`: the session the message belongs
to, `none` when `xio_find_session` fails. -/
def xio_on_new_message_session (N : xio_dispatch_env) (s : Option Nat) (task : xio_task) :
    Option Nat :=
  let session := if task.sender_task.isSome then N.sender_session else s
  if session = none then N.xio_find_session else session

/-- The second part of `xio_on_new_message`: the connection the message
belongs to, `none` when it cannot be found. -/
def xio_on_new_message_connection (N : xio_dispatch_env) (nexus : Nat) (task : xio_task) :
    Option Nat :=
  let connection := if task.sender_task.isSome then N.sender_connection else none
  if connection = none then
    match N.xio_session_find_connection with
    | some c => some c
    | none =>
      /- leading connection is refused -/
      match N.lead_connection with
      | some (c, n) =>
        if n = nexus then some c
        else
          match N.redir_connection with
          | some (c2, n2) => if n2 = nexus then some c2 else none
          | none => none
      | none =>
        /- redirected connection is refused -/
        match N.redir_connection with
        | some (c2, n2) => if n2 = nexus then some c2 else none
        | none => none
  else connection

/-- The switch of `xio_on_new_message` on `task->tlv_type`: the handler it
calls, `none` for the default branch. -/
def xio_on_new_message_switch : xio_tlv_type → Option xio_msg_handler
  | xio_tlv_type.XIO_MSG_REQ => some xio_msg_handler.xio_on_req_recv
  | xio_tlv_type.XIO_ONE_WAY_REQ => some xio_msg_handler.xio_on_req_recv
  | xio_tlv_type.XIO_MSG_RSP => some xio_msg_handler.xio_on_rsp_recv
  | xio_tlv_type.XIO_ONE_WAY_RSP => some xio_msg_handler.xio_on_rsp_recv
  | xio_tlv_type.XIO_ACK_REQ => some xio_msg_handler.xio_on_credits_ack_recv
  | xio_tlv_type.XIO_FIN_REQ => some xio_msg_handler.xio_on_fin_req_recv
  | xio_tlv_type.XIO_FIN_RSP => some xio_msg_handler.xio_on_fin_ack_recv
  | xio_tlv_type.XIO_SESSION_SETUP_REQ => some xio_msg_handler.xio_on_setup_req_recv
  | xio_tlv_type.XIO_SESSION_SETUP_RSP => some xio_msg_handler.xio_on_setup_rsp_recv
  | xio_tlv_type.XIO_CONNECTION_HELLO_REQ =>
    some xio_msg_handler.xio_on_connection_hello_req_recv
  | xio_tlv_type.XIO_CONNECTION_HELLO_RSP =>
    some xio_msg_handler.xio_on_connection_hello_rsp_recv
  | _ => none

/-- The variable `retval` of `xio_on_new_message` after the switch: what the
handler called returns, -1 for the default branch. -/
def xio_on_new_message_retval (N : xio_dispatch_env) : Option xio_msg_handler → Int
  | some h => N.handler_ret h
  | none => -1

/-- The function `xio_on_new_message`. What a handler does is the handler's
business; the dispatch only reads the value it returns. -/
def xio_on_new_message (N : xio_dispatch_env) (s : Option Nat) (nexus : Nat)
    (task : xio_task) : xio_dispatch_result :=
  match xio_on_new_message_session N s task with
  | none =>
    { task := task
      calls := [xio_dispatch_call.ERROR_LOG_find_session,
                xio_dispatch_call.xio_tasks_pool_put task.addr]
      ret := -1 }
  | some session =>
    match xio_on_new_message_connection N nexus task with
    | none =>
      { task := task
        calls := [xio_dispatch_call.ERROR_LOG_find_connection,
                  xio_dispatch_call.xio_tasks_pool_put task.addr]
        ret := -1 }
    | some connection =>
      let task := { task with session := some session, connection := some connection }
      let retval := xio_on_new_message_retval N (xio_on_new_message_switch task.tlv_type)
      { task := task
        calls :=
          (match xio_on_new_message_switch task.tlv_type with
           | some h => [xio_dispatch_call.handler h connection task.addr]
           | none => []) ++
          (if retval ≠ 0 then [xio_dispatch_call.ERROR_LOG_receive_failed task.tlv_type]
           else [])
        ret := 0 }

/-- The calls of `xio_on_new_message` that invoke a handler. -/
def xio_dispatch_call.is_handler : xio_dispatch_call → Bool
  | xio_dispatch_call.handler _ _ _ => true
  | _ => false

/-- The handler the claim names for each TLV type: requests to the request
path, responses to the response path, the credit acknowledgement to the
credits-ack path, FIN and handshake messages to their handlers, nothing for
any other type. -/
def xio_dispatch_claimed (tlv_type : xio_tlv_type) : Option xio_msg_handler :=
  if tlv_type = xio_tlv_type.XIO_MSG_REQ ∨ tlv_type = xio_tlv_type.XIO_ONE_WAY_REQ then
    some xio_msg_handler.xio_on_req_recv
  else if tlv_type = xio_tlv_type.XIO_MSG_RSP ∨
      tlv_type = xio_tlv_type.XIO_ONE_WAY_RSP then
    some xio_msg_handler.xio_on_rsp_recv
  else if tlv_type = xio_tlv_type.XIO_ACK_REQ then
    some xio_msg_handler.xio_on_credits_ack_recv
  else if tlv_type = xio_tlv_type.XIO_FIN_REQ then
    some xio_msg_handler.xio_on_fin_req_recv
  else if tlv_type = xio_tlv_type.XIO_FIN_RSP then
    some xio_msg_handler.xio_on_fin_ack_recv
  else if tlv_type = xio_tlv_type.XIO_SESSION_SETUP_REQ then
    some xio_msg_handler.xio_on_setup_req_recv
  else if tlv_type = xio_tlv_type.XIO_SESSION_SETUP_RSP then
    some xio_msg_handler.xio_on_setup_rsp_recv
  else if tlv_type = xio_tlv_type.XIO_CONNECTION_HELLO_REQ then
    some xio_msg_handler.xio_on_connection_hello_req_recv
  else if tlv_type = xio_tlv_type.XIO_CONNECTION_HELLO_RSP then
    some xio_msg_handler.xio_on_connection_hello_rsp_recv
  else none

/-- An environment of the dispatch for the examples: the session is passed
in, the connection is found by its nexus, every handler returns 0. -/
def ex_dispatch_env : xio_dispatch_env :=
  { sender_session := none, sender_connection := none, xio_find_session := none
    xio_session_find_connection := some 300, lead_connection := none
    redir_connection := none, handler_ret := fun _ => 0 }
/-! ## Session layer: the connections of a session -/

/-- The session `xio_session_create` returns, in the fields modelled:
`kcalloc` zeroes the structure (so `connections_nr` is 0), `INIT_LIST_HEAD`
empties the connections list, the state is set to INIT and the session id is
the one `xio_sessions_cache_add` assigns. -/
def xio_session_create (addr session_id : Nat) : xio_session :=
  { addr := addr, session_id := session_id
    state := xio_session_state.XIO_SESSION_STATE_INIT, in_notify := false
    connections_list := [], connections_nr := 0
    services_array := [], portals_array := [] }

/-- The function `xio_session_alloc_connection`: the session and the
connection returned. `connection` is what `xio_connection_create` returns
(`none` for NULL). -/
def xio_session_alloc_connection (session : xio_session) (connection : Option Nat) :
    xio_session × Option Nat :=
  match connection with
  | none => (session, none)
  | some c =>
    /- add the connection  to the session's connections list -/
    ({ session with
       connections_list := session.connections_list ++ [c]
       connections_nr := session.connections_nr + 1 },
     some c)

/-- The function `xio_session_free_connection`, on the session the connection
points to: the session and the return value. `close_ret` is what
`xio_connection_close` returns. -/
def xio_session_free_connection (session : xio_session) (connection : Nat)
    (close_ret : Int) : xio_session × Int :=
  ({ session with
     connections_nr := session.connections_nr - 1
     connections_list := session.connections_list.erase connection },
   if close_ret ≠ 0 then -1 else 0)

/-- A call on the connections of a session: an allocation, with what
`xio_connection_create` returns, or the release of a connection, with what
`xio_connection_close` returns. -/
inductive xio_session_op
  | alloc (connection : Option Nat)
  | free (connection : Nat) (close_ret : Int)
deriving DecidableEq

/-- One call on the connections of a session. -/
def xio_session_step (session : xio_session) : xio_session_op → xio_session
  | xio_session_op.alloc connection => (xio_session_alloc_connection session connection).1
  | xio_session_op.free connection close_ret =>
    (xio_session_free_connection session connection close_ret).1

/-- A sequence of calls on the connections of a session. -/
def xio_session_run (session : xio_session) (ops : List xio_session_op) : xio_session :=
  ops.foldl xio_session_step session

/-- A sequence of calls is well formed for a connections list when every
connection `xio_connection_create` returns is a new object, not on the list,
and every connection released is on the list at that moment (it was
allocated on this session and not released since). -/
def xio_session_ops_wf : List Nat → List xio_session_op → Bool
  | _, [] => true
  | l, xio_session_op.alloc none :: rest => xio_session_ops_wf l rest
  | l, xio_session_op.alloc (some c) :: rest =>
    !l.contains c && xio_session_ops_wf (l ++ [c]) rest
  | l, xio_session_op.free c _ :: rest =>
    l.contains c && xio_session_ops_wf (l.erase c) rest

/-! ## TCP transport: validation of an outgoing message -/

/-- One entry of a scatter-gather table, as the accessors `sge_addr`,
`sge_length` and `sge_mr` of xio_sg_table.h read it (`none` for NULL). -/
structure xio_sg where
  addr : Option Nat
  length : Nat
  mr : Option Nat
deriving DecidableEq

/-- A scatter-gather table, as `tbl_nents`, `tbl_max_nents` and the
iteration `for_each_sge` of xio_sg_table.h (not among the sources) read it:
the number of entries in use, the capacity, and the entries; `for_each_sge`
visits the first `nents` entries in order. -/
structure xio_sg_table where
  nents : Nat
  max_nents : Nat
  sglist : List xio_sg
deriving DecidableEq

/-- The type of a scatter-gather list (`enum xio_sgl_type`, libxio.h); the
code tests for XIO_SGL_TYPE_IOV only. -/
inductive xio_sgl_type
  | XIO_SGL_TYPE_IOV
  | OTHER (v : Nat)
deriving DecidableEq

/-- The side `msg->out` of a message, with what `xio_tcp_is_valid_out_msg`
reads of it. -/
structure xio_vmsg_out where
  header_iov_base : Option Nat
  header_iov_len : Nat
  sgl_type : xio_sgl_type
  sgtbl : xio_sg_table
deriving DecidableEq

/-- The conversion `(unsigned long)` of an `int`, for an `unsigned long` of
64 bits. -/
def unsigned_long (v : Int) : Nat := (v % 2 ^ 64).toNat

/-- The loop `for_each_sge` of `xio_tcp_is_valid_out_msg` over the entries
given, entered with `mr_found` (an `unsigned int`): the value of `mr_found`
after the loop, `none` when the loop returns 0. -/
def xio_tcp_is_valid_out_msg_loop : List xio_sg → Nat → Option Nat
  | [], mr_found => some mr_found
  | sge :: rest, mr_found =>
    let mr_found := if sge.mr.isSome then (mr_found + 1) % 2 ^ 32 else mr_found
    if sge.addr = none ∨ sge.length = 0 then none
    else xio_tcp_is_valid_out_msg_loop rest mr_found

/-- The function `xio_tcp_is_valid_out_msg`, on the side `msg->out` of the
message and the options. -/
def xio_tcp_is_valid_out_msg (T : xio_tcp_decls) (o : xio_tcp_options)
    (vmsg : xio_vmsg_out) : Int :=
  let nents := vmsg.sgtbl.nents
  let max_nents := vmsg.sgtbl.max_nents
  if nents > unsigned_long o.max_out_iovsz ∨ nents > max_nents ∨
      max_nents > unsigned_long o.max_out_iovsz then 0
  else if vmsg.sgl_type = xio_sgl_type.XIO_SGL_TYPE_IOV ∧
      nents > unsigned_long T.XIO_IOVLEN then 0
  else if (vmsg.header_iov_base ≠ none ∧ vmsg.header_iov_len = 0) ∨
      (vmsg.header_iov_base = none ∧ vmsg.header_iov_len ≠ 0) then 0
  else
    match xio_tcp_is_valid_out_msg_loop (vmsg.sgtbl.sglist.take nents) 0 with
    | none => 0
    | some mr_found =>
      if o.enable_mr_check ≠ 0 ∧ mr_found ≠ nents ∧ mr_found ≠ 0 then 0
      else 1

/-- The condition the claim gives for a valid outgoing message, in its
words: `nents <= max_nents <= max_out_iovsz`; `nents <= XIO_IOVLEN` for a
table of IOV type; the header base is null exactly when the header length is
zero; each of the `nents` entries has an address and a length; and under
`enable_mr_check` either no entry or every entry carries a memory region. -/
def xio_out_msg_claimed (T : xio_tcp_decls) (o : xio_tcp_options) (vmsg : xio_vmsg_out) :
    Prop :=
  vmsg.sgtbl.nents ≤ vmsg.sgtbl.max_nents ∧
  (vmsg.sgtbl.max_nents : Int) ≤ o.max_out_iovsz ∧
  (vmsg.sgl_type = xio_sgl_type.XIO_SGL_TYPE_IOV → (vmsg.sgtbl.nents : Int) ≤ T.XIO_IOVLEN) ∧
  (vmsg.header_iov_base = none ↔ vmsg.header_iov_len = 0) ∧
  (∀ sge ∈ vmsg.sgtbl.sglist.take vmsg.sgtbl.nents, sge.addr ≠ none ∧ sge.length ≠ 0) ∧
  (o.enable_mr_check ≠ 0 →
    (∀ sge ∈ vmsg.sgtbl.sglist.take vmsg.sgtbl.nents, sge.mr = none) ∨
    (∀ sge ∈ vmsg.sgtbl.sglist.take vmsg.sgtbl.nents, sge.mr ≠ none))

instance (T : xio_tcp_decls) (o : xio_tcp_options) (vmsg : xio_vmsg_out) :
    Decidable (xio_out_msg_claimed T o vmsg) := by
  unfold xio_out_msg_claimed; infer_instance

/-- An outgoing message for the examples: no header, one entry in a table of
capacity one. -/
def ex_vmsg_out : xio_vmsg_out :=
  { header_iov_base := none, header_iov_len := 0, sgl_type := xio_sgl_type.OTHER 1
    sgtbl := { nents := 1, max_nents := 1
               sglist := [{ addr := some 4096, length := 512, mr := none }] } }

/-! ## TCP transport: the private data of a task -/

/-- Sizes xio_tcp_management.c takes with `sizeof` from structures declared
in headers that are not among the sources (`size_t` values). -/
structure xio_tcp_task_decls where
  sizeof_xio_tcp_task : Nat
  sizeof_iovec : Nat
  sizeof_xio_mempool_obj : Nat
  sizeof_xio_tlv : Nat

/-- The conversion of a value to `int` (32 bits, two's complement); the
result of an `int` operation is taken through it. -/
def int_conv (v : Int) : Int := (v + 2 ^ 31) % 2 ^ 32 - 2 ^ 31

/-- The product `n * sizeof(...)` of an `int` and a `size_t`: the `int` is
converted to `size_t` and the product is taken in 64 bits. -/
def size_t_mul (n : Int) (sz : Nat) : Nat := (unsigned_long n * sz) % 2 ^ 64

/-- An entry `struct iovec`. -/
structure xio_iovec where
  iov_base : Nat
  iov_len : Nat
deriving DecidableEq

/-- The stage of a work request (`rxd->stage`, `txd->stage`). -/
inductive xio_tcp_stage
  | NONE
  | XIO_TCP_RX_START
  | XIO_TCP_TX_BEFORE
deriving DecidableEq

/-- A work request `struct xio_tcp_work_req`: the pointer `msg_iov`, the
entries stored through it (index and value, in the order of the stores), and
the fields the initialisation sets. The fields of `msg` are all set to NULL
or zero and are left out. -/
structure xio_tcp_work_req where
  msg_iov : Nat
  iov_stores : List (Nat × xio_iovec)
  ctl_msg : Option Nat
  ctl_msg_len : Nat
  msg_len : Nat
  tot_iov_byte_len : Nat
  stage : xio_tcp_stage
deriving DecidableEq

/-- The function `xio_tcp_rxd_init`; `size` is an `unsigned`, and
`size - sizeof(struct xio_tlv)` is taken in `size_t`. -/
def xio_tcp_rxd_init (D : xio_tcp_task_decls) (rxd : xio_tcp_work_req) (buf : Nat)
    (size : Nat) : xio_tcp_work_req :=
  let iov0 : xio_iovec := { iov_base := buf, iov_len := D.sizeof_xio_tlv }
  let iov1 : xio_iovec :=
    { iov_base := iov0.iov_base + iov0.iov_len,
      iov_len := unsigned_long ((size : Int) - (D.sizeof_xio_tlv : Int)) }
  { rxd with
    iov_stores := rxd.iov_stores ++ [(0, iov0), (1, iov1)]
    msg_len := 2
    tot_iov_byte_len := 0
    stage := xio_tcp_stage.XIO_TCP_RX_START }

/-- The function `xio_tcp_txd_init`. -/
def xio_tcp_txd_init (txd : xio_tcp_work_req) (buf : Nat) (size : Nat) :
    xio_tcp_work_req :=
  { txd with
    ctl_msg := some buf
    ctl_msg_len := 0
    iov_stores := txd.iov_stores ++ [(0, { iov_base := buf, iov_len := size })]
    msg_len := 1
    tot_iov_byte_len := 0
    stage := xio_tcp_stage.XIO_TCP_TX_BEFORE }

/-- The private data `struct xio_tcp_task` of a task, with the pointers into
the area behind it, and the value of `ptr` when the carving ends. -/
structure xio_tcp_task_dd where
  tcp_hndl : Option Nat
  tcp_op : Nat
  txd : xio_tcp_work_req
  rxd : xio_tcp_work_req
  read_sge : Option Nat
  write_sge : Option Nat
  req_read_sge : Option Nat
  req_write_sge : Option Nat
  req_recv_sge : Option Nat
  rsp_write_sge : Option Nat
  ptr : Nat
deriving DecidableEq

/-- The function `xio_tcp_task_init`: `size` is an `unsigned long`, converted
to `unsigned` for the two calls. The call `xio_mbuf_init` writes to
`task->mbuf` only and is left out. -/
def xio_tcp_task_init (D : xio_tcp_task_decls) (tcp_task : xio_tcp_task_dd) (tcp_hndl : Nat)
    (buf : Nat) (size : Nat) : xio_tcp_task_dd :=
  { tcp_task with
    tcp_hndl := some tcp_hndl
    rxd := xio_tcp_rxd_init D tcp_task.rxd buf (size % 2 ^ 32)
    txd := xio_tcp_txd_init tcp_task.txd buf (size % 2 ^ 32) }

/-- A slab `struct xio_tcp_tasks_slab`, with the fields read here. -/
structure xio_tcp_tasks_slab where
  data_pool : Nat
  buf_size : Nat

/-- The private data of a task before its slab initialises it. -/
def xio_tcp_task_blank : xio_tcp_task_dd :=
  let wr : xio_tcp_work_req :=
    { msg_iov := 0, iov_stores := [], ctl_msg := none, ctl_msg_len := 0, msg_len := 0
      tot_iov_byte_len := 0, stage := xio_tcp_stage.NONE }
  { tcp_hndl := none, tcp_op := 0, txd := wr, rxd := wr, read_sge := none, write_sge := none
    req_read_sge := none, req_write_sge := none, req_recv_sge := none, rsp_write_sge := none
    ptr := 0 }

/-- The function `xio_tcp_initial_pool_slab_init_task`; `tcp_task` is the
address of the private data of the task. -/
def xio_tcp_initial_pool_slab_init_task (D : xio_tcp_task_decls) (tcp_hndl : Nat)
    (tcp_slab : xio_tcp_tasks_slab) (tid : Nat) (tcp_task : Nat) : xio_tcp_task_dd :=
  let buf := tcp_slab.data_pool + tid * tcp_slab.buf_size
  let ptr := tcp_task
  let ptr := ptr + D.sizeof_xio_tcp_task
  let txd_msg_iov := ptr
  let ptr := ptr + D.sizeof_iovec
  let rxd_msg_iov := ptr
  let ptr := ptr + size_t_mul 2 D.sizeof_iovec
  let t : xio_tcp_task_dd :=
    { xio_tcp_task_blank with
      txd := { xio_tcp_task_blank.txd with msg_iov := txd_msg_iov }
      rxd := { xio_tcp_task_blank.rxd with msg_iov := rxd_msg_iov }
      ptr := ptr }
  xio_tcp_task_init D t tcp_hndl buf tcp_slab.buf_size

/-- The value `*task_dd_sz` (an `int`) of `xio_tcp_initial_pool_get_params`. -/
def xio_tcp_initial_pool_get_params (D : xio_tcp_task_decls) : Int :=
  int_conv (((D.sizeof_xio_tcp_task + size_t_mul 3 D.sizeof_iovec) % 2 ^ 64 : Nat) : Int)

/-- The function `xio_tcp_primary_pool_slab_init_task`. The sum
`max(...) + 1` and `max_iovsz + 1` are `int` operations; each step
`ptr += n*sizeof(...)` multiplies in `size_t`. -/
def xio_tcp_primary_pool_slab_init_task (T : xio_tcp_decls) (D : xio_tcp_task_decls)
    (o : xio_tcp_options) (tcp_hndl : Nat) (tcp_slab : xio_tcp_tasks_slab) (tid : Nat)
    (tcp_task : Nat) : xio_tcp_task_dd :=
  let buf := tcp_slab.data_pool + tid * tcp_slab.buf_size
  let max_iovsz := int_conv (max o.max_out_iovsz o.max_in_iovsz + 1)
  let ptr := tcp_task
  let ptr := ptr + D.sizeof_xio_tcp_task
  let txd_msg_iov := ptr
  let ptr := ptr + size_t_mul (int_conv (max_iovsz + 1)) D.sizeof_iovec
  let rxd_msg_iov := ptr
  let ptr := ptr + size_t_mul (int_conv (max_iovsz + 1)) D.sizeof_iovec
  let read_sge := ptr
  let ptr := ptr + size_t_mul max_iovsz D.sizeof_xio_mempool_obj
  let write_sge := ptr
  let ptr := ptr + size_t_mul max_iovsz D.sizeof_xio_mempool_obj
  let req_read_sge := ptr
  let ptr := ptr + size_t_mul max_iovsz T.sizeof_xio_sge.toNat
  let req_write_sge := ptr
  let ptr := ptr + size_t_mul max_iovsz T.sizeof_xio_sge.toNat
  let req_recv_sge := ptr
  let ptr := ptr + size_t_mul max_iovsz T.sizeof_xio_sge.toNat
  let rsp_write_sge := ptr
  let ptr := ptr + size_t_mul max_iovsz T.sizeof_xio_sge.toNat
  let t : xio_tcp_task_dd :=
    { xio_tcp_task_blank with
      txd := { xio_tcp_task_blank.txd with msg_iov := txd_msg_iov }
      rxd := { xio_tcp_task_blank.rxd with msg_iov := rxd_msg_iov }
      read_sge := some read_sge
      write_sge := some write_sge
      req_read_sge := some req_read_sge
      req_write_sge := some req_write_sge
      req_recv_sge := some req_recv_sge
      rsp_write_sge := some rsp_write_sge
      tcp_op := 0x200
      ptr := ptr }
  xio_tcp_task_init D t tcp_hndl buf tcp_slab.buf_size

/-- The value `*task_dd_sz` (an `int`) of `xio_tcp_primary_pool_get_params`:
the products `2 * (max_iovsz + 1)`, `2 * max_iovsz` and `4 * max_iovsz` are
`int` operations, the sum is taken in `size_t` and converted to `int` by the
assignment. -/
def xio_tcp_primary_pool_get_params (T : xio_tcp_decls) (D : xio_tcp_task_decls)
    (o : xio_tcp_options) : Int :=
  let max_iovsz := int_conv (max o.max_out_iovsz o.max_in_iovsz + 1)
  int_conv (((D.sizeof_xio_tcp_task +
      size_t_mul (int_conv (2 * int_conv (max_iovsz + 1))) D.sizeof_iovec +
      size_t_mul (int_conv (2 * max_iovsz)) D.sizeof_xio_mempool_obj +
      size_t_mul (int_conv (4 * max_iovsz)) T.sizeof_xio_sge.toNat) % 2 ^ 64 : Nat) : Int)

/-- A region of memory: its first address and its size in bytes. -/
structure xio_region where
  start : Nat
  size : Nat
deriving DecidableEq

/-- Two regions have no byte in common. -/
def xio_region.disjoint (r s : xio_region) : Prop :=
  r.start + r.size ≤ s.start ∨ s.start + s.size ≤ r.start

instance (r s : xio_region) : Decidable (r.disjoint s) := by
  unfold xio_region.disjoint; infer_instance

/-- The region of entry `i` of an array of `struct iovec` at `msg_iov`. -/
def xio_iov_entry (D : xio_tcp_task_decls) (msg_iov : Nat) (i : Nat) : xio_region :=
  { start := msg_iov + i * D.sizeof_iovec, size := D.sizeof_iovec }

/-- A region lies inside another. -/
def xio_region.inside (r s : xio_region) : Prop :=
  s.start ≤ r.start ∧ r.start + r.size ≤ s.start + s.size

instance (r s : xio_region) : Decidable (r.inside s) := by
  unfold xio_region.inside; infer_instance

/-- Modelled from the spec: the eight regions of the primary pool the claim
names, each from the pointer the initialisation stored to the next one: the
TX and RX arrays of `struct iovec`, the two arrays of mempool objects, and
the four arrays of `struct xio_sge`, for arrays of `n` entries (`n + 1`
entries for the two arrays of `struct iovec`). -/
def xio_tcp_primary_regions (T : xio_tcp_decls) (D : xio_tcp_task_decls) (n : Nat)
    (t : xio_tcp_task_dd) : List xio_region :=
  [ { start := t.txd.msg_iov, size := (n + 1) * D.sizeof_iovec },
    { start := t.rxd.msg_iov, size := (n + 1) * D.sizeof_iovec },
    { start := t.read_sge.getD 0, size := n * D.sizeof_xio_mempool_obj },
    { start := t.write_sge.getD 0, size := n * D.sizeof_xio_mempool_obj },
    { start := t.req_read_sge.getD 0, size := n * T.sizeof_xio_sge.toNat },
    { start := t.req_write_sge.getD 0, size := n * T.sizeof_xio_sge.toNat },
    { start := t.req_recv_sge.getD 0, size := n * T.sizeof_xio_sge.toNat },
    { start := t.rsp_write_sge.getD 0, size := n * T.sizeof_xio_sge.toNat } ]

/-- Modelled from the spec: the two regions of the initial pool the claim
names: one `struct iovec` for TX and two for RX. -/
def xio_tcp_initial_regions (D : xio_tcp_task_decls) (t : xio_tcp_task_dd) :
    List xio_region :=
  [ { start := t.txd.msg_iov, size := D.sizeof_iovec },
    { start := t.rxd.msg_iov, size := 2 * D.sizeof_iovec } ]

/-- Each region of the list starts where the one before it ends, the first
at `p`; the value is the end of the last. -/
def xio_regions_consecutive : Nat → List xio_region → Option Nat
  | p, [] => some p
  | p, r :: rest => if r.start = p then xio_regions_consecutive (p + r.size) rest else none

/-- Sizes for the examples (a 64-bit Linux). -/
def ex_tcp_task_decls : xio_tcp_task_decls :=
  { sizeof_xio_tcp_task := 512, sizeof_iovec := 16, sizeof_xio_mempool_obj := 24
    sizeof_xio_tlv := 16 }

/-- A slab for the examples. -/
def ex_tcp_slab : xio_tcp_tasks_slab := { data_pool := 1048576, buf_size := 8192 }

/-- Modelled from the spec: the size the claim gives for the private data of
a task of the primary pool with arrays of `n` entries, in exact arithmetic:
`sizeof(xio_tcp_task)` plus the sizes of the eight regions. -/
def xio_tcp_primary_task_size (T : xio_tcp_decls) (D : xio_tcp_task_decls) (n : Nat) : Nat :=
  D.sizeof_xio_tcp_task + 2 * ((n + 1) * D.sizeof_iovec) +
    2 * (n * D.sizeof_xio_mempool_obj) + 4 * (n * T.sizeof_xio_sge.toNat)

/-! ## TCP transport: the handshakes of the client -/

/-- The message `xio_tcp_single_conn_established_ev_handler` builds. -/
def xio_tcp_single_connect_msg : xio_tcp_connect_msg :=
  { sock_type := XIO_TCP_SINGLE_SOCK, second_port := 0, pad := 0 }

/-- The message `xio_tcp_cfd_conn_established_ev_handler` builds; `port_dfd`
is `tcp_hndl->sock.port_dfd`, the local port the data socket is bound to. -/
def xio_tcp_cfd_connect_msg (port_dfd : Nat) : xio_tcp_connect_msg :=
  { sock_type := XIO_TCP_CTL_SOCK, second_port := port_dfd, pad := 0 }

/-- The message `xio_tcp_dfd_conn_established_ev_handler` builds; `port_cfd`
is `tcp_hndl->sock.port_cfd`, the local port the control socket is bound
to. -/
def xio_tcp_dfd_connect_msg (port_cfd : Nat) : xio_tcp_connect_msg :=
  { sock_type := XIO_TCP_DATA_SOCK, second_port := port_cfd, pad := 0 }

/-- The function `xio_tcp_single_conn_established_ev_handler`; `error` is
`events & (EPOLLERR | EPOLLHUP | EPOLLRDHUP)`. -/
def xio_tcp_single_conn_established_ev_handler (V : xio_sys_env) (fd : Int)
    (tcp_hndl : xio_tcp_handle) (error : Int) : xio_tcp_life :=
  xio_tcp_conn_established_helper V fd tcp_hndl xio_tcp_single_connect_msg error

/-- The function `xio_tcp_cfd_conn_established_ev_handler`. -/
def xio_tcp_cfd_conn_established_ev_handler (V : xio_sys_env) (fd : Int)
    (tcp_hndl : xio_tcp_handle) (port_dfd : Nat) (error : Int) : xio_tcp_life :=
  xio_tcp_conn_established_helper V fd tcp_hndl (xio_tcp_cfd_connect_msg port_dfd) error

/-- The function `xio_tcp_dfd_conn_established_ev_handler`. The argument `fd`
is not used by the code, which works on `tcp_hndl->sock.dfd`. -/
def xio_tcp_dfd_conn_established_ev_handler (V : xio_sys_env) (fd : Int)
    (tcp_hndl : xio_tcp_handle) (port_cfd : Nat) (error : Int) : xio_tcp_life :=
  let _ := fd
  let dfd := tcp_hndl.sock_dfd
  /- remove from epoll -/
  if V.xio_context_del_ev_handler dfd ≠ 0 then
    xio_tcp_conn_cleanup tcp_hndl 0
      [xio_tcp_call.xio_context_del_ev_handler dfd,
       xio_tcp_call.ERROR_LOG xio_tcp_log.del_ev_handler_failed]
  else
    let g := V.getsockopt dfd
    let so_error : Int := if g.1 ≠ 0 then g.2.2 else g.2.1
    let calls :=
      [xio_tcp_call.xio_context_del_ev_handler dfd, xio_tcp_call.getsockopt dfd] ++
      (if g.1 ≠ 0 then [xio_tcp_call.ERROR_LOG xio_tcp_log.getsockopt_failed] else [])
    if so_error ≠ 0 ∨ error ≠ 0 then
      xio_tcp_conn_cleanup { tcp_hndl with ops_del_ev_handlers := false } so_error
        (calls ++ [xio_tcp_call.DEBUG_LOG xio_tcp_log.establishment_failed])
    else
      /- add to epoll -/
      let calls := calls ++ [xio_tcp_call.xio_context_add_ev_handler tcp_hndl.sock_cfd]
      if V.xio_context_add_ev_handler tcp_hndl.sock_cfd ≠ 0 then
        xio_tcp_conn_cleanup tcp_hndl so_error
          (calls ++ [xio_tcp_call.ERROR_LOG xio_tcp_log.add_ev_handler_failed])
      else
        let msg := xio_tcp_dfd_connect_msg port_cfd
        let calls := calls ++ [xio_tcp_call.xio_tcp_send_connect_msg dfd msg]
        if V.xio_tcp_send_connect_msg dfd ≠ 0 then
          xio_tcp_conn_cleanup tcp_hndl so_error calls
        else
          { hndl := tcp_hndl, states := [], calls := calls }

/-- The calls that send a handshake. -/
def xio_tcp_call.is_send : xio_tcp_call → Bool
  | xio_tcp_call.xio_tcp_send_connect_msg _ _ => true
  | _ => false

/-- The steps of `xio_tcp_conn_established_helper` that come before the
handshake all succeed: the connect handler is removed, `so_error` is zero
after `getsockopt`, there are no epoll error bits, the readiness handlers are
installed and `getpeername` succeeds. -/
def xio_sys_env.sends_on_cfd (V : xio_sys_env) (tcp_hndl : xio_tcp_handle)
    (error : Int) : Prop :=
  V.xio_context_del_ev_handler tcp_hndl.sock_cfd = 0 ∧ V.so_error tcp_hndl.sock_cfd = 0 ∧
  error = 0 ∧ (tcp_hndl.add_ev_handlers V).1 = 0 ∧ (V.getpeername tcp_hndl.sock_cfd).1 = 0

instance (V : xio_sys_env) (tcp_hndl : xio_tcp_handle) (error : Int) :
    Decidable (V.sends_on_cfd tcp_hndl error) := by
  unfold xio_sys_env.sends_on_cfd; infer_instance

/-- The steps of `xio_tcp_dfd_conn_established_ev_handler` that come before
the handshake all succeed: the connect handler of the data socket is removed,
`so_error` is zero after `getsockopt`, there are no epoll error bits, and the
connect handler of the control socket is installed. -/
def xio_sys_env.sends_on_dfd (V : xio_sys_env) (tcp_hndl : xio_tcp_handle)
    (error : Int) : Prop :=
  V.xio_context_del_ev_handler tcp_hndl.sock_dfd = 0 ∧ V.so_error tcp_hndl.sock_dfd = 0 ∧
  error = 0 ∧ V.xio_context_add_ev_handler tcp_hndl.sock_cfd = 0

instance (V : xio_sys_env) (tcp_hndl : xio_tcp_handle) (error : Int) :
    Decidable (V.sends_on_dfd tcp_hndl error) := by
  unfold xio_sys_env.sends_on_dfd; infer_instance

/-- Modelled from the spec: the bytes `xio_tcp_send_connect_msg`
(xio_tcp_datapath.c, not among the sources) sends for a message: the fixed,
host-agnostic layout of section 6, which the receiving side converts with
UNPACK_LVAL and UNPACK_SVAL, so each field is packed in network order at its
offset. -/
def xio_tcp_connect_msg.wire (msg : xio_tcp_connect_msg) : List Nat :=
  let buf := PACK_LVAL [0, 0, 0, 0, 0, 0, 0, 0] 0 off_sock_type msg.sock_type
  let buf := PACK_SVAL buf 0 off_second_port msg.second_port
  PACK_SVAL buf 0 off_pad msg.pad

/-- The entry has read the handshake `msg` to the end and converted it where
it lies. -/
def xio_tcp_pending_conn.holds (S : xio_sys_decls) (pconn : xio_tcp_pending_conn)
    (msg : xio_tcp_connect_msg) : Prop :=
  pconn.waiting_for_bytes = 0 ∧ pconn.msg = xio_tcp_unpack_connect_msg S msg.wire

instance (S : xio_sys_decls) (pconn : xio_tcp_pending_conn) (msg : xio_tcp_connect_msg) :
    Decidable (pconn.holds S msg) := by
  unfold xio_tcp_pending_conn.holds; infer_instance

/-- The test by which the pairing scan of `xio_tcp_handle_pending_conn`
selects the entry `pconn` for `pending_conn`: it waits for no byte, and in
the view of its family the port it advertises is the peer port of
`pending_conn` and the peer addresses are equal. -/
def xio_tcp_scan_test (S : xio_sys_decls) (pending_conn pconn : xio_tcp_pending_conn) :
    Prop :=
  pconn.waiting_for_bytes = 0 ∧
  ((pconn.sa.sa_family = S.AF_INET ∧
      (pconn.connect_msg S).second_port = ntohs S pending_conn.sa.sin_port ∧
      pconn.sa.sin_addr = pending_conn.sa.sin_addr) ∨
    (pconn.sa.sa_family ≠ S.AF_INET ∧ pconn.sa.sa_family = S.AF_INET6 ∧
      (pconn.connect_msg S).second_port = ntohs S pending_conn.sa.sin6_port ∧
      pconn.sa.sin6_addr = pending_conn.sa.sin6_addr))

instance (S : xio_sys_decls) (p q : xio_tcp_pending_conn) :
    Decidable (xio_tcp_scan_test S p q) := by
  unfold xio_tcp_scan_test; infer_instance

/-- The entries `c` and `d` are those of the control and the data socket of
one client: of one family, AF_INET or AF_INET6, from one peer address, with
the peer ports `p_c` and `p_d` observed on them, which differ. -/
def xio_tcp_client_pair (S : xio_sys_decls) (p_c p_d : Nat) (c d : xio_tcp_pending_conn) :
    Prop :=
  c.sa.sa_family = d.sa.sa_family ∧
  (c.sa.sa_family = S.AF_INET ∨ c.sa.sa_family = S.AF_INET6) ∧
  c.sa.ip S = d.sa.ip S ∧ c.sa.port S = p_c ∧ d.sa.port S = p_d ∧ p_c ≠ p_d ∧
  c.addr ≠ d.addr

instance (S : xio_sys_decls) (p_c p_d : Nat) (c d : xio_tcp_pending_conn) :
    Decidable (xio_tcp_client_pair S p_c p_d c d) := by
  unfold xio_tcp_client_pair; infer_instance

/-! ## Lemmas on bytes -/

theorem be_bytes_length (n v : Nat) : (be_bytes n v).length = n := by
  induction n with
  | zero => rfl
  | succ k ih => simp [be_bytes, ih]

theorem foldl_be_bytes (n v acc : Nat) :
    (be_bytes n v).foldl (fun a b => a * 256 + b) acc
      = acc * 256 ^ n + v % 256 ^ n := by
  induction n generalizing acc with
  | zero => simp [be_bytes, Nat.mod_one]
  | succ k ih =>
    simp only [be_bytes, List.foldl_cons, ih]
    rw [Nat.mod_pow_succ (b := 256) (k := k)]
    ring

theorem be_value_be_bytes (n v : Nat) : be_value (be_bytes n v) = v % 256 ^ n := by
  simp [be_value, foldl_be_bytes]

theorem mem_store_length (buf : List Nat) (pos : Nat) (bs : List Nat) :
    (mem_store buf pos bs).length = buf.length := by
  induction bs generalizing buf pos with
  | nil => rfl
  | cons b bs ih => simp [mem_store, ih]

theorem mem_store_getD_lt (buf : List Nat) (pos : Nat) (bs : List Nat) (i : Nat)
    (h : i < pos) : (mem_store buf pos bs).getD i 0 = buf.getD i 0 := by
  induction bs generalizing buf pos with
  | nil => rfl
  | cons b bs ih =>
    simp only [mem_store]
    rw [ih _ _ (by omega)]
    have hne : ¬ pos = i := by omega
    simp [List.getD_eq_getElem?_getD, List.getElem?_set, hne]

theorem mem_store_getD_ge (buf : List Nat) (pos : Nat) (bs : List Nat) (i : Nat)
    (h : pos + bs.length ≤ i) : (mem_store buf pos bs).getD i 0 = buf.getD i 0 := by
  induction bs generalizing buf pos with
  | nil => rfl
  | cons b bs ih =>
    simp only [mem_store]
    simp only [List.length_cons] at h
    rw [ih _ _ (by omega)]
    have hne : ¬ pos = i := by omega
    simp [List.getD_eq_getElem?_getD, List.getElem?_set, hne]

theorem mem_load_store_disjoint (buf : List Nat) (p : Nat) (bs : List Nat)
    (q n : Nat) (h : q + n ≤ p ∨ p + bs.length ≤ q) :
    mem_load (mem_store buf p bs) q n = mem_load buf q n := by
  induction n generalizing q with
  | zero => rfl
  | succ k ih =>
    simp only [mem_load]
    rw [ih (q + 1) (by omega)]
    congr 1
    rcases h with h | h
    · exact mem_store_getD_lt _ _ _ _ (by omega)
    · exact mem_store_getD_ge _ _ _ _ (by omega)

theorem mem_load_store_same (buf : List Nat) (p : Nat) (bs : List Nat)
    (h : p + bs.length ≤ buf.length) :
    mem_load (mem_store buf p bs) p bs.length = bs := by
  induction bs generalizing buf p with
  | nil => rfl
  | cons b bs ih =>
    simp only [List.length_cons] at h
    simp only [mem_store, List.length_cons, mem_load]
    rw [ih _ _ (by simp; omega)]
    congr 1
    rw [mem_store_getD_lt _ _ _ _ (by omega)]
    have hlt : p < buf.length := by omega
    simp [List.getD_eq_getElem?_getD, List.getElem?_set, hlt]

theorem mem_load_store_be (buf : List Nat) (p n v : Nat) (h : p + n ≤ buf.length) :
    mem_load (mem_store buf p (be_bytes n v)) p n = be_bytes n v := by
  have := mem_load_store_same buf p (be_bytes n v) (by rw [be_bytes_length]; exact h)
  rwa [be_bytes_length] at this

theorem mem_load_store_be_disjoint (buf : List Nat) (p m v q n : Nat)
    (h : q + n ≤ p ∨ p + m ≤ q) :
    mem_load (mem_store buf p (be_bytes m v)) q n = mem_load buf q n :=
  mem_load_store_disjoint buf p (be_bytes m v) q n (by rw [be_bytes_length]; exact h)

/-- Reading the header back from the bytes `xio_session_write_header_mbuf`
produced, at the position it wrote them. -/
theorem read_header_mbuf_of_write (D : xio_decls) (m m2 : xio_mbuf)
    (h : xio_session_hdr) (hwf : h.wf)
    (hroom : D.xio_mbuf_set_session_hdr m + sizeof_xio_session_hdr ≤ m.buf.length)
    (hbuf : m2.buf = (xio_session_write_header_mbuf D m h).buf)
    (hpos : D.xio_mbuf_set_session_hdr m2 = D.xio_mbuf_set_session_hdr m) :
    (xio_session_read_header_mbuf D m2).2 = h := by
  obtain ⟨h1, h2, h3, h4, h5, h6, h7⟩ := hwf
  obtain ⟨a, b, c, d, e, f, g⟩ := h
  simp only [sizeof_xio_session_hdr] at hroom
  simp only at h1 h2 h3 h4 h5 h6 h7
  simp only [xio_session_read_header_mbuf, hbuf, hpos, xio_session_write_header_mbuf,
    PACK_SVAL, PACK_LVAL, PACK_LLVAL, UNPACK_SVAL, UNPACK_LVAL, UNPACK_LLVAL,
    off_serial_num, off_dest_session_id, off_flags, off_receipt_result, off_sn,
    off_ack_sn, off_credits]
  simp (disch := first | omega | (simp only [mem_store_length]; omega)) only
    [mem_load_store_be_disjoint, mem_load_store_be, be_value_be_bytes]
  have e1 : a % 256 ^ 8 = a := Nat.mod_eq_of_lt (by norm_num at h1 ⊢; exact h1)
  have e2 : b % 256 ^ 4 = b := Nat.mod_eq_of_lt (by norm_num at h2 ⊢; exact h2)
  have e3 : c % 256 ^ 4 = c := Nat.mod_eq_of_lt (by norm_num at h3 ⊢; exact h3)
  have e4 : d % 256 ^ 4 = d := Nat.mod_eq_of_lt (by norm_num at h4 ⊢; exact h4)
  have e5 : e % 256 ^ 2 = e := Nat.mod_eq_of_lt (by norm_num at h5 ⊢; exact h5)
  have e6 : f % 256 ^ 2 = f := Nat.mod_eq_of_lt (by norm_num at h6 ⊢; exact h6)
  have e7 : g % 256 ^ 2 = g := Nat.mod_eq_of_lt (by norm_num at h7 ⊢; exact h7)
  rw [e1, e2, e3, e4, e5, e6, e7]

/-! ## Session header round trip -/

/-- C1: for every header whose fields fit their widths, reading the header
(`xio_session_read_header`) from the bytes `xio_session_write_header` wrote,
at the position it wrote them, yields the same seven fields; and each of the
two operations leaves the cursor at the start of the session header plus the
size of the session header. -/
theorem C1_session_header_roundtrip (D : xio_decls) (task task2 : xio_task)
    (h : xio_session_hdr) (hwf : h.wf)
    (hroom : D.xio_mbuf_set_session_hdr task.mbuf + sizeof_xio_session_hdr
      ≤ task.mbuf.buf.length)
    (hbuf : task2.mbuf.buf = (xio_session_write_header D task h).mbuf.buf)
    (hpos : D.xio_mbuf_set_session_hdr task2.mbuf
      = D.xio_mbuf_set_session_hdr task.mbuf) :
    (xio_session_read_header D task2).2 = h ∧
    (xio_session_write_header D task h).mbuf.curr
      = D.xio_mbuf_set_session_hdr task.mbuf + sizeof_xio_session_hdr ∧
    (xio_session_read_header D task2).1.mbuf.curr
      = D.xio_mbuf_set_session_hdr task2.mbuf + sizeof_xio_session_hdr := by
  refine ⟨?_, rfl, rfl⟩
  exact read_header_mbuf_of_write D task.mbuf task2.mbuf h hwf hroom hbuf hpos

/-- Witness of C1: a header written into a 64-byte buffer and read back. -/
theorem C1_session_header_roundtrip_witness :
    (ex_hdr 5 9).wf ∧
    (xio_session_read_header ex_decls
      (ex_task xio_tlv_type.XIO_MSG_REQ (ex_hdr 5 9))).2 = ex_hdr 5 9 ∧
    (ex_task xio_tlv_type.XIO_MSG_REQ (ex_hdr 5 9)).mbuf.curr = 8 + 26 ∧
    (xio_session_read_header ex_decls
      (ex_task xio_tlv_type.XIO_MSG_REQ (ex_hdr 5 9))).1.mbuf.curr = 8 + 26 :=
  ⟨by decide,
   C1_session_header_roundtrip ex_decls (ex_blank_task xio_tlv_type.XIO_MSG_REQ)
     (ex_task xio_tlv_type.XIO_MSG_REQ (ex_hdr 5 9)) (ex_hdr 5 9)
     (by decide) (by decide) rfl rfl⟩

/-! ## The receive window -/

theorem update_window_eq (c : xio_connection) (hdr : xio_session_hdr)
    (h : hdr.sn = c.exp_sn) :
    (xio_update_window c hdr).1.window
      = ((c.exp_sn + 1) % 2 ^ 16, hdr.sn, (c.peer_credits + hdr.credits) % 2 ^ 16) := by
  simp [xio_update_window, h, xio_connection.window]

theorem update_window_ne (c : xio_connection) (hdr : xio_session_hdr)
    (h : hdr.sn ≠ c.exp_sn) :
    xio_update_window c hdr = (c, [xio_call.ERROR_LOG_sn c.exp_sn hdr.sn]) := by
  have h2 : ¬ c.exp_sn = hdr.sn := fun e => h e.symm
  simp [xio_update_window, h2]

theorem req_recv_window (D : xio_decls) (E : xio_env) (c : xio_connection)
    (task : xio_task) :
    (xio_on_req_recv D E c task).connection.window
      = (xio_update_window c (xio_session_read_header D task).2).1.window := rfl

theorem ack_recv_window (D : xio_decls) (E : xio_env) (c : xio_connection)
    (task : xio_task) :
    (xio_on_credits_ack_recv D E c task).connection.window
      = (xio_update_window c (xio_session_read_header D task).2).1.window := rfl

theorem rsp_recv_closed (D : xio_decls) (E : xio_env) (c : xio_connection)
    (task sender_task : xio_task) (omsg : xio_msg) (h : ¬ c.rsp_open) :
    xio_on_rsp_recv D E c task sender_task omsg =
      { connection := c, task := task, sender_task := sender_task, omsg := omsg,
        calls := [xio_call.DEBUG_LOG_offline,
                  xio_call.xio_release_response_task task.addr,
                  xio_call.xio_connection_xmit_msgs],
        ret := 0 } := by
  have h' : c.state ≠ xio_connection_state.XIO_CONNECTION_STATE_ONLINE ∧
      c.state ≠ xio_connection_state.XIO_CONNECTION_STATE_FIN_WAIT_1 := by
    simp only [xio_connection.rsp_open, not_or] at h
    exact h
  unfold xio_on_rsp_recv
  exact if_pos h'

theorem window_queue_ite (b : Bool) (c : xio_connection) (m t : Nat) :
    (xio_connection_queue_io_task
      (if b then xio_connection_remove_in_flight c m else c) t).window = c.window := by
  cases b <;> rfl

theorem rsp_recv_head_window (D : xio_decls) (E : xio_env) (c : xio_connection)
    (task : xio_task) (omsg : xio_msg) :
    (xio_on_rsp_recv_head D E c task omsg).1.window
      = (xio_update_window c (xio_session_read_header D task).2).1.window := by
  unfold xio_on_rsp_recv_head
  exact window_queue_ite _ _ _ _

theorem rsp_recv_window (D : xio_decls) (E : xio_env) (c : xio_connection)
    (task sender_task : xio_task) (omsg : xio_msg) (h : c.rsp_open) :
    (xio_on_rsp_recv D E c task sender_task omsg).connection.window
      = (xio_update_window c (xio_session_read_header D task).2).1.window := by
  have h' : ¬ (c.state ≠ xio_connection_state.XIO_CONNECTION_STATE_ONLINE ∧
      c.state ≠ xio_connection_state.XIO_CONNECTION_STATE_FIN_WAIT_1) := by
    simp only [xio_connection.rsp_open] at h
    rcases h with h | h <;> simp [h]
  unfold xio_on_rsp_recv
  rw [if_neg h', ← rsp_recv_head_window D E c task omsg]
  dsimp only
  split <;> rfl

theorem rsp_recv_ret (D : xio_decls) (E : xio_env) (c : xio_connection)
    (task sender_task : xio_task) (omsg : xio_msg) :
    (xio_on_rsp_recv D E c task sender_task omsg).ret = 0 := by
  unfold xio_on_rsp_recv
  split <;> rfl

theorem rx_step_window (D : xio_decls) (E : xio_env) (c : xio_connection)
    (m : xio_rx) (h : xio_rx_accepted D c m) :
    (xio_rx_step D E c m).window
      = ((c.exp_sn + 1) % 2 ^ 16, c.exp_sn,
         (c.peer_credits + (xio_session_read_header D m.task).2.credits) % 2 ^ 16) := by
  obtain ⟨hsn, hst⟩ := h
  cases m with
  | req task =>
    simp only [xio_rx.task] at hsn ⊢
    simp only [xio_rx_step, req_recv_window]
    rw [update_window_eq _ _ hsn, hsn]
  | rsp task sender_task omsg =>
    simp only [xio_rx.task] at hsn ⊢
    simp only [xio_rx_step]
    rw [rsp_recv_window D E c task sender_task omsg hst]
    rw [update_window_eq _ _ hsn, hsn]
  | ack task =>
    simp only [xio_rx.task] at hsn ⊢
    simp only [xio_rx_step, ack_recv_window]
    rw [update_window_eq _ _ hsn, hsn]

theorem rx_step_window_rejected (D : xio_decls) (E : xio_env) (c : xio_connection)
    (m : xio_rx) (h : ¬ xio_rx_accepted D c m) :
    (xio_rx_step D E c m).window = c.window := by
  cases m with
  | req task =>
    have hsn : (xio_session_read_header D task).2.sn ≠ c.exp_sn := by
      intro e; exact h ⟨e, trivial⟩
    simp only [xio_rx_step, req_recv_window, update_window_ne _ _ hsn]
  | rsp task sender_task omsg =>
    simp only [xio_rx_step]
    by_cases ho : c.rsp_open
    · have hsn : (xio_session_read_header D task).2.sn ≠ c.exp_sn := by
        intro e; exact h ⟨e, ho⟩
      rw [rsp_recv_window D E c task sender_task omsg ho, update_window_ne _ _ hsn]
    · rw [rsp_recv_closed D E c task sender_task omsg ho]
  | ack task =>
    have hsn : (xio_session_read_header D task).2.sn ≠ c.exp_sn := by
      intro e; exact h ⟨e, trivial⟩
    simp only [xio_rx_step, ack_recv_window, update_window_ne _ _ hsn]

theorem rx_step_peer_credits_lt (D : xio_decls) (E : xio_env) (c : xio_connection)
    (m : xio_rx) (hc : c.peer_credits < 2 ^ 16) :
    (xio_rx_step D E c m).peer_credits < 2 ^ 16 := by
  by_cases h : xio_rx_accepted D c m
  · have hw := rx_step_window D E c m h
    simp only [xio_connection.window, Prod.mk.injEq] at hw
    rw [hw.2.2]
    exact Nat.mod_lt _ (by norm_num)
  · have hw := rx_step_window_rejected D E c m h
    simp only [xio_connection.window, Prod.mk.injEq] at hw
    rw [hw.2.2]; exact hc

theorem rx_run_peer_credits_lt (D : xio_decls) (E : xio_env) (l : List xio_rx) :
    ∀ c : xio_connection, c.peer_credits < 2 ^ 16 →
      (xio_rx_run D E c l).peer_credits < 2 ^ 16 := by
  induction l with
  | nil => intro c hc; exact hc
  | cons m l ih =>
    intro c hc
    simp only [xio_rx_run, List.foldl_cons]
    exact ih _ (rx_step_peer_credits_lt D E c m hc)

theorem update_window_calls_on_msg (c : xio_connection) (hdr : xio_session_hdr) :
    (xio_update_window c hdr).2.countP xio_call.is_on_msg = 0 := by
  unfold xio_update_window
  split <;> rfl

theorem notify_msg_error_on_msg (c : xio_connection) (msg : xio_msg) (r : Nat)
    (st : xio_task_state) :
    (xio_session_notify_msg_error c msg r st).1.countP xio_call.is_on_msg = 0 := by
  unfold xio_session_notify_msg_error
  split <;> rfl

theorem req_recv_on_msg_count (D : xio_decls) (E : xio_env) (c : xio_connection)
    (task : xio_task) :
    (xio_on_req_recv D E c task).calls.countP xio_call.is_on_msg
      = if task.status = 0 then 1 else 0 := by
  unfold xio_on_req_recv
  dsimp only
  have hst : (xio_session_read_header D task).1.status = task.status := rfl
  rw [hst]
  by_cases h0 : task.status = 0
  · simp only [h0, ne_eq, not_true_eq_false, if_false, if_true]
    split_ifs <;>
      simp only [List.countP_append, List.countP_cons, List.countP_nil,
        update_window_calls_on_msg, xio_call.is_on_msg] <;> rfl
  · simp only [h0, ne_eq, not_false_eq_true, if_false, if_true]
    split_ifs <;>
      simp only [List.countP_append, List.countP_cons, List.countP_nil,
        update_window_calls_on_msg, notify_msg_error_on_msg, xio_call.is_on_msg] <;> rfl

theorem req_recv_state (D : xio_decls) (E : xio_env) (c : xio_connection)
    (task : xio_task) : (xio_on_req_recv D E c task).connection.state
      = (xio_update_window c (xio_session_read_header D task).2).1.state := rfl

theorem req_recv_calls_prefix (D : xio_decls) (E : xio_env) (c : xio_connection)
    (task : xio_task) :
    ∀ x ∈ (xio_update_window c (xio_session_read_header D task).2).2,
      x ∈ (xio_on_req_recv D E c task).calls := by
  intro x hx
  unfold xio_on_req_recv
  dsimp only
  split_ifs <;> simp [hx]

/-! ## Claims on the receive window -/

/-- C2 (as amended): when a request, a response on a connection that is Online
or in FIN_WAIT_1, or a credit-ack arrives whose header sn equals `exp_sn`,
the handler leaves `exp_sn` equal to the old value plus one modulo 2^16 (so
strictly greater than before whenever the old value was below 65535) and
`ack_sn` equal to the sn just accepted. -/
theorem C2_window_advances (D : xio_decls) (E : xio_env) (c : xio_connection)
    (m : xio_rx) (h : xio_rx_accepted D c m) :
    (xio_rx_step D E c m).exp_sn = (c.exp_sn + 1) % 2 ^ 16 ∧
    (xio_rx_step D E c m).ack_sn = (xio_session_read_header D m.task).2.sn ∧
    (c.exp_sn < 65535 → c.exp_sn < (xio_rx_step D E c m).exp_sn) := by
  have hw := rx_step_window D E c m h
  simp only [xio_connection.window, Prod.mk.injEq] at hw
  refine ⟨hw.1, by rw [hw.2.1, h.1], ?_⟩
  intro hlt
  rw [hw.1, Nat.mod_eq_of_lt (by omega)]
  omega

/-- Witness of C2: a request with sn 5 on a connection expecting 5. -/
theorem C2_window_advances_witness :
    xio_rx_accepted ex_decls
      (ex_connection xio_connection_state.XIO_CONNECTION_STATE_ONLINE 5 0)
      (xio_rx.req (ex_task xio_tlv_type.XIO_MSG_REQ (ex_hdr 5 2))) ∧
    (xio_on_req_recv ex_decls ex_env
      (ex_connection xio_connection_state.XIO_CONNECTION_STATE_ONLINE 5 0)
      (ex_task xio_tlv_type.XIO_MSG_REQ (ex_hdr 5 2))).connection.exp_sn = 6 ∧
    (xio_on_req_recv ex_decls ex_env
      (ex_connection xio_connection_state.XIO_CONNECTION_STATE_ONLINE 5 0)
      (ex_task xio_tlv_type.XIO_MSG_REQ (ex_hdr 5 2))).connection.ack_sn = 5 :=
  have h := C2_window_advances ex_decls ex_env
    (ex_connection xio_connection_state.XIO_CONNECTION_STATE_ONLINE 5 0)
    (xio_rx.req (ex_task xio_tlv_type.XIO_MSG_REQ (ex_hdr 5 2)))
    ⟨by decide, trivial⟩
  ⟨⟨by decide, trivial⟩, h.1, h.2.1⟩

/-- Counterexample to C2 as stated: a connection whose `exp_sn` is 65535
receives a request with sn 65535; the request is accepted (`ack_sn` becomes
65535) and `exp_sn` wraps to 0, which is not greater than 65535. -/
theorem C2_counterexample :
    (xio_session_read_header ex_decls
      (ex_task xio_tlv_type.XIO_MSG_REQ (ex_hdr 65535 1))).2.sn
      = (ex_connection xio_connection_state.XIO_CONNECTION_STATE_ONLINE 65535 0).exp_sn ∧
    (xio_on_req_recv ex_decls ex_env
      (ex_connection xio_connection_state.XIO_CONNECTION_STATE_ONLINE 65535 0)
      (ex_task xio_tlv_type.XIO_MSG_REQ (ex_hdr 65535 1))).connection.ack_sn = 65535 ∧
    ¬ ((ex_connection xio_connection_state.XIO_CONNECTION_STATE_ONLINE 65535 0).exp_sn
      < (xio_on_req_recv ex_decls ex_env
          (ex_connection xio_connection_state.XIO_CONNECTION_STATE_ONLINE 65535 0)
          (ex_task xio_tlv_type.XIO_MSG_REQ (ex_hdr 65535 1))).connection.exp_sn) := by
  decide

/-- C3: when the header sn of an incoming request, response or credit-ack
differs from `exp_sn`, the receive handler leaves `exp_sn`, `ack_sn` and
`peer_credits` as they were, and it returns: `xio_on_req_recv` and
`xio_on_rsp_recv` return 0, `xio_on_credits_ack_recv` returns what
`xio_connection_xmit_msgs` returned. -/
theorem C3_mismatch_keeps_window (D : xio_decls) (E : xio_env) (c : xio_connection)
    (task sender_task : xio_task) (omsg : xio_msg)
    (h : (xio_session_read_header D task).2.sn ≠ c.exp_sn) :
    ((xio_on_req_recv D E c task).connection.exp_sn = c.exp_sn ∧
     (xio_on_req_recv D E c task).connection.ack_sn = c.ack_sn ∧
     (xio_on_req_recv D E c task).connection.peer_credits = c.peer_credits ∧
     (xio_on_req_recv D E c task).ret = 0) ∧
    ((xio_on_rsp_recv D E c task sender_task omsg).connection.exp_sn = c.exp_sn ∧
     (xio_on_rsp_recv D E c task sender_task omsg).connection.ack_sn = c.ack_sn ∧
     (xio_on_rsp_recv D E c task sender_task omsg).connection.peer_credits
       = c.peer_credits ∧
     (xio_on_rsp_recv D E c task sender_task omsg).ret = 0) ∧
    ((xio_on_credits_ack_recv D E c task).connection.exp_sn = c.exp_sn ∧
     (xio_on_credits_ack_recv D E c task).connection.ack_sn = c.ack_sn ∧
     (xio_on_credits_ack_recv D E c task).connection.peer_credits = c.peer_credits ∧
     (xio_on_credits_ack_recv D E c task).ret = E.xio_connection_xmit_msgs) := by
  have h1 := rx_step_window_rejected D E c (xio_rx.req task) (fun a => h a.1)
  have h2 := rx_step_window_rejected D E c (xio_rx.rsp task sender_task omsg)
    (fun a => h a.1)
  have h3 := rx_step_window_rejected D E c (xio_rx.ack task) (fun a => h a.1)
  simp only [xio_connection.window, Prod.mk.injEq, xio_rx_step] at h1 h2 h3
  exact ⟨⟨h1.1, h1.2.1, h1.2.2, rfl⟩, ⟨h2.1, h2.2.1, h2.2.2, rsp_recv_ret D E c _ _ _⟩,
    ⟨h3.1, h3.2.1, h3.2.2, rfl⟩⟩

/-- Witness of C3: a request with sn 4 on a connection expecting 6. -/
theorem C3_mismatch_keeps_window_witness :
    (xio_session_read_header ex_decls
      (ex_task xio_tlv_type.XIO_MSG_REQ (ex_hdr 4 2))).2.sn
      ≠ (ex_connection xio_connection_state.XIO_CONNECTION_STATE_ONLINE 6 3).exp_sn ∧
    (xio_on_req_recv ex_decls ex_env
      (ex_connection xio_connection_state.XIO_CONNECTION_STATE_ONLINE 6 3)
      (ex_task xio_tlv_type.XIO_MSG_REQ (ex_hdr 4 2))).connection.exp_sn = 6 ∧
    (xio_on_req_recv ex_decls ex_env
      (ex_connection xio_connection_state.XIO_CONNECTION_STATE_ONLINE 6 3)
      (ex_task xio_tlv_type.XIO_MSG_REQ (ex_hdr 4 2))).connection.peer_credits = 3 :=
  have h := C3_mismatch_keeps_window ex_decls ex_env
    (ex_connection xio_connection_state.XIO_CONNECTION_STATE_ONLINE 6 3)
    (ex_task xio_tlv_type.XIO_MSG_REQ (ex_hdr 4 2))
    (ex_blank_task xio_tlv_type.XIO_MSG_REQ) (ex_msg 401) (by decide)
  ⟨by decide, h.1.1, h.1.2.2.1⟩

/-- C4 (as amended): when a request arrives whose header sn differs from
`exp_sn`, `xio_on_req_recv` logs the mismatch and leaves the window as it was,
but still delivers the request: the user's `on_msg` is invoked exactly once
when `task->status` is zero and not at all otherwise (the error path is
taken); the handler writes nothing to the connection state, so a connection
that was Online is Online when the handler is done. -/
theorem C4_mismatch_still_delivered (D : xio_decls) (E : xio_env)
    (c : xio_connection) (task : xio_task)
    (h : (xio_session_read_header D task).2.sn ≠ c.exp_sn)
    (hs : c.state = xio_connection_state.XIO_CONNECTION_STATE_ONLINE) :
    xio_call.ERROR_LOG_sn c.exp_sn (xio_session_read_header D task).2.sn
      ∈ (xio_on_req_recv D E c task).calls ∧
    (xio_on_req_recv D E c task).connection.window = c.window ∧
    (xio_on_req_recv D E c task).calls.countP xio_call.is_on_msg
      = (if task.status = 0 then 1 else 0) ∧
    (xio_on_req_recv D E c task).connection.state
      = xio_connection_state.XIO_CONNECTION_STATE_ONLINE := by
  refine ⟨?_, ?_, req_recv_on_msg_count D E c task, ?_⟩
  · apply req_recv_calls_prefix
    rw [update_window_ne _ _ h]
    exact List.mem_singleton.mpr rfl
  · rw [req_recv_window, update_window_ne _ _ h]
  · rw [req_recv_state, update_window_ne _ _ h]
    exact hs

/-- Witness of C4: the request with sn 4 on an Online connection expecting 6
is delivered through `on_msg`. -/
theorem C4_mismatch_still_delivered_witness :
    (xio_session_read_header ex_decls
      (ex_task xio_tlv_type.XIO_MSG_REQ (ex_hdr 4 2))).2.sn
      ≠ (ex_connection xio_connection_state.XIO_CONNECTION_STATE_ONLINE 6 3).exp_sn ∧
    (xio_on_req_recv ex_decls ex_env
      (ex_connection xio_connection_state.XIO_CONNECTION_STATE_ONLINE 6 3)
      (ex_task xio_tlv_type.XIO_MSG_REQ (ex_hdr 4 2))).calls.countP xio_call.is_on_msg
      = 1 :=
  ⟨by decide,
   (C4_mismatch_still_delivered ex_decls ex_env
    (ex_connection xio_connection_state.XIO_CONNECTION_STATE_ONLINE 6 3)
    (ex_task xio_tlv_type.XIO_MSG_REQ (ex_hdr 4 2)) (by decide) rfl).2.2.1⟩

/-- Counterexample to C4 as stated (scenario S5): an Online connection
expecting sn 5 accepts a request with sn 5 and then receives one with sn 4;
the second does not match the expected sn 6, and `on_msg` is invoked for it
all the same. -/
theorem C4_counterexample :
    (xio_session_read_header ex_decls
      (ex_task xio_tlv_type.XIO_MSG_REQ (ex_hdr 4 0))).2.sn
      ≠ (xio_on_req_recv ex_decls ex_env
          (ex_connection xio_connection_state.XIO_CONNECTION_STATE_ONLINE 5 0)
          (ex_task xio_tlv_type.XIO_MSG_REQ (ex_hdr 5 0))).connection.exp_sn ∧
    (xio_on_req_recv ex_decls ex_env
      (xio_on_req_recv ex_decls ex_env
        (ex_connection xio_connection_state.XIO_CONNECTION_STATE_ONLINE 5 0)
        (ex_task xio_tlv_type.XIO_MSG_REQ (ex_hdr 5 0))).connection
      (ex_task xio_tlv_type.XIO_MSG_REQ (ex_hdr 4 0))).calls.countP xio_call.is_on_msg
      = 1 := by
  decide


/-- C5 (as amended): from a connection whose `peer_credits` is a 16-bit value,
`peer_credits` stays in the range 0..65535 through every sequence of request,
response and credit-ack receptions; and whenever a message with matching sn is
accepted, the new `peer_credits` is the old value plus `hdr.credits` modulo
2^16, which is the exact sum whenever that sum is at most 65535. -/
theorem C5_peer_credits (D : xio_decls) (E : xio_env) (c : xio_connection)
    (hc : c.peer_credits < 2 ^ 16) :
    (∀ l : List xio_rx,
      (0 : Int) ≤ ((xio_rx_run D E c l).peer_credits : Int) ∧
      (xio_rx_run D E c l).peer_credits < 2 ^ 16) ∧
    (∀ m : xio_rx, xio_rx_accepted D c m →
      (xio_rx_step D E c m).peer_credits
        = (c.peer_credits + (xio_session_read_header D m.task).2.credits) % 2 ^ 16 ∧
      (c.peer_credits + (xio_session_read_header D m.task).2.credits < 2 ^ 16 →
        (xio_rx_step D E c m).peer_credits
          = c.peer_credits + (xio_session_read_header D m.task).2.credits)) := by
  refine ⟨fun l => ⟨Int.natCast_nonneg _, rx_run_peer_credits_lt D E l c hc⟩, ?_⟩
  intro m hm
  have hw := rx_step_window D E c m hm
  simp only [xio_connection.window, Prod.mk.injEq] at hw
  refine ⟨hw.2.2, fun hlt => ?_⟩
  rw [hw.2.2, Nat.mod_eq_of_lt hlt]

/-- Witness of C5: two accepted requests granting 3 and 4 credits. -/
theorem C5_peer_credits_witness :
    (ex_connection xio_connection_state.XIO_CONNECTION_STATE_ONLINE 0 0).peer_credits
      < 2 ^ 16 ∧
    (xio_rx_run ex_decls ex_env
      (ex_connection xio_connection_state.XIO_CONNECTION_STATE_ONLINE 0 0)
      [xio_rx.req (ex_task xio_tlv_type.XIO_MSG_REQ (ex_hdr 0 3)),
       xio_rx.req (ex_task xio_tlv_type.XIO_MSG_REQ (ex_hdr 1 4))]).peer_credits
      < 2 ^ 16 :=
  ⟨by decide,
   ((C5_peer_credits ex_decls ex_env
      (ex_connection xio_connection_state.XIO_CONNECTION_STATE_ONLINE 0 0)
      (by decide)).1
      [xio_rx.req (ex_task xio_tlv_type.XIO_MSG_REQ (ex_hdr 0 3)),
       xio_rx.req (ex_task xio_tlv_type.XIO_MSG_REQ (ex_hdr 1 4))]).2⟩

/-- Counterexample to C5 as stated: a fresh connection (`peer_credits` 0)
accepts a request granting 65535 credits and then one granting 1 credit; the
second is accepted with `peer_credits` at 65535, and the new value is 0, not
65536. -/
theorem C5_counterexample :
    (xio_rx_run ex_decls ex_env
      (ex_connection xio_connection_state.XIO_CONNECTION_STATE_ONLINE 0 0)
      [xio_rx.req (ex_task xio_tlv_type.XIO_MSG_REQ (ex_hdr 0 65535))]).peer_credits
      = 65535 ∧
    (xio_session_read_header ex_decls
      (ex_task xio_tlv_type.XIO_MSG_REQ (ex_hdr 1 1))).2.sn
      = (xio_rx_run ex_decls ex_env
          (ex_connection xio_connection_state.XIO_CONNECTION_STATE_ONLINE 0 0)
          [xio_rx.req (ex_task xio_tlv_type.XIO_MSG_REQ (ex_hdr 0 65535))]).exp_sn ∧
    (xio_rx_run ex_decls ex_env
      (ex_connection xio_connection_state.XIO_CONNECTION_STATE_ONLINE 0 0)
      [xio_rx.req (ex_task xio_tlv_type.XIO_MSG_REQ (ex_hdr 0 65535)),
       xio_rx.req (ex_task xio_tlv_type.XIO_MSG_REQ (ex_hdr 1 1))]).peer_credits
      = 0 ∧
    (xio_rx_run ex_decls ex_env
      (ex_connection xio_connection_state.XIO_CONNECTION_STATE_ONLINE 0 0)
      [xio_rx.req (ex_task xio_tlv_type.XIO_MSG_REQ (ex_hdr 0 65535)),
       xio_rx.req (ex_task xio_tlv_type.XIO_MSG_REQ (ex_hdr 1 1))]).peer_credits
      ≠ 65535 + (xio_session_read_header ex_decls
          (ex_task xio_tlv_type.XIO_MSG_REQ (ex_hdr 1 1))).2.credits := by
  decide

/-! ## Responses on a closed flow -/

/-- C6: when a response task of any type arrives while the connection is
neither Online nor in FIN_WAIT_1, `xio_on_rsp_recv` releases the response
task, invokes no user callback, leaves the task (its buffer and cursor
included: the session header is not read), the connection (`exp_sn`,
`ack_sn`, `peer_credits`, `tx_queued_msgs` and the in-flight queue included),
the sender task and the original message as they were, and returns 0. -/
theorem C6_response_on_closed_flow (D : xio_decls) (E : xio_env)
    (c : xio_connection) (task sender_task : xio_task) (omsg : xio_msg)
    (h1 : c.state ≠ xio_connection_state.XIO_CONNECTION_STATE_ONLINE)
    (h2 : c.state ≠ xio_connection_state.XIO_CONNECTION_STATE_FIN_WAIT_1) :
    (xio_on_rsp_recv D E c task sender_task omsg).calls
      = [xio_call.DEBUG_LOG_offline, xio_call.xio_release_response_task task.addr,
         xio_call.xio_connection_xmit_msgs] ∧
    (xio_on_rsp_recv D E c task sender_task omsg).calls.countP
      xio_call.is_user_callback = 0 ∧
    (xio_on_rsp_recv D E c task sender_task omsg).task = task ∧
    (xio_on_rsp_recv D E c task sender_task omsg).connection = c ∧
    (xio_on_rsp_recv D E c task sender_task omsg).sender_task = sender_task ∧
    (xio_on_rsp_recv D E c task sender_task omsg).omsg = omsg ∧
    (xio_on_rsp_recv D E c task sender_task omsg).ret = 0 := by
  have ho : ¬ c.rsp_open := by
    intro ho
    rcases ho with ho | ho
    · exact h1 ho
    · exact h2 ho
  rw [rsp_recv_closed D E c task sender_task omsg ho]
  exact ⟨rfl, rfl, rfl, rfl, rfl, rfl, rfl⟩

/-- Witness of C6: a response on a connection in state CLOSED. -/
theorem C6_response_on_closed_flow_witness :
    (ex_connection xio_connection_state.XIO_CONNECTION_STATE_CLOSED 6 3).state
      ≠ xio_connection_state.XIO_CONNECTION_STATE_ONLINE ∧
    (ex_connection xio_connection_state.XIO_CONNECTION_STATE_CLOSED 6 3).state
      ≠ xio_connection_state.XIO_CONNECTION_STATE_FIN_WAIT_1 ∧
    (xio_on_rsp_recv ex_decls ex_env
      (ex_connection xio_connection_state.XIO_CONNECTION_STATE_CLOSED 6 3)
      (ex_task xio_tlv_type.XIO_MSG_RSP (ex_hdr 6 2))
      (ex_blank_task xio_tlv_type.XIO_MSG_REQ) (ex_msg 401)).calls
      = [xio_call.DEBUG_LOG_offline, xio_call.xio_release_response_task 100,
         xio_call.xio_connection_xmit_msgs] :=
  ⟨by decide, by decide,
   (C6_response_on_closed_flow ex_decls ex_env
    (ex_connection xio_connection_state.XIO_CONNECTION_STATE_CLOSED 6 3)
    (ex_task xio_tlv_type.XIO_MSG_RSP (ex_hdr 6 2))
    (ex_blank_task xio_tlv_type.XIO_MSG_REQ) (ex_msg 401)
    (by decide) (by decide)).1⟩

/-! ## Destroying a session -/

theorem cache_lookup_remove (G : xio_session_globals) (id : Nat) :
    xio_sessions_cache_lookup (xio_sessions_cache_remove G id) id = none := by
  simp [xio_sessions_cache_lookup, xio_sessions_cache_remove]

theorem idr_lookup_remove (G : xio_session_globals) (obj : Nat) :
    xio_idr_lookup_uobj (xio_idr_remove_uobj G obj) obj = false := by
  simp [xio_idr_lookup_uobj, xio_idr_remove_uobj]

/-- C7: for a session whose connections list is not empty,
`xio_session_destroy` returns -1 with the error set to EBUSY and leaves the
session as it was: no value is assigned to its state, the sessions cache and
the user-object table are untouched, and neither `xio_session_pre_teardown`
nor `xio_session_post_teardown` runs (the only call is the log line, and the
session is not released). -/
theorem C7_destroy_busy (G : xio_session_globals) (session : xio_session)
    (h : session.connections_list ≠ []) :
    (xio_session_destroy G (some session)).ret = -1 ∧
    (xio_session_destroy G (some session)).globals.xio_errno = some xio_error.EBUSY ∧
    (xio_session_destroy G (some session)).session = some session ∧
    (xio_session_destroy G (some session)).states = [] ∧
    (xio_session_destroy G (some session)).globals.sessions_cache = G.sessions_cache ∧
    (xio_session_destroy G (some session)).globals.idr = G.idr ∧
    (xio_session_destroy G (some session)).calls = [xio_call.ERROR_LOG_connections_open] ∧
    (xio_session_destroy G (some session)).released = false := by
  have he : session.connections_list.isEmpty = false := by
    cases hl : session.connections_list with
    | nil => exact absurd hl h
    | cons a l => rfl
  simp only [xio_session_destroy, he, Bool.not_false, if_true, xio_set_error]
  exact ⟨trivial, trivial, trivial, trivial, trivial, trivial, trivial, trivial⟩

/-- Witness of C7: the registered session with one open connection. -/
theorem C7_destroy_busy_witness :
    (ex_session [200] false).connections_list ≠ [] ∧
    (xio_session_destroy ex_session_globals (some (ex_session [200] false))).ret = -1 ∧
    (xio_session_destroy ex_session_globals
      (some (ex_session [200] false))).globals.xio_errno = some xio_error.EBUSY :=
  have h := C7_destroy_busy ex_session_globals (ex_session [200] false) (by decide)
  ⟨by decide, h.1, h.2.1⟩

/-- C8: for a session that is in the user-object table and whose connections
list is empty, `xio_session_destroy` returns 0, takes the session out of the
sessions cache and out of the user-object table, assigns the state Closing and
then Closed (the state it is left in), and releases the session (mutex
destroyed, memory freed, by `xio_session_post_teardown`) if and only if
`in_notify` is false. -/
theorem C8_destroy_idle (G : xio_session_globals) (session : xio_session)
    (h : session.connections_list = [])
    (hreg : xio_idr_lookup_uobj G session.addr = true) :
    (xio_session_destroy G (some session)).ret = 0 ∧
    xio_sessions_cache_lookup (xio_session_destroy G (some session)).globals
      session.session_id = none ∧
    xio_idr_lookup_uobj (xio_session_destroy G (some session)).globals
      session.addr = false ∧
    (xio_session_destroy G (some session)).states
      = [xio_session_state.XIO_SESSION_STATE_CLOSING,
         xio_session_state.XIO_SESSION_STATE_CLOSED] ∧
    (xio_session_destroy G (some session)).session
      = some { session with state := xio_session_state.XIO_SESSION_STATE_CLOSED } ∧
    ((xio_session_destroy G (some session)).released = true ↔
      session.in_notify = false) ∧
    (xio_call.mutex_destroy ∈ (xio_session_destroy G (some session)).calls ↔
      session.in_notify = false) ∧
    (xio_call.kfree xio_freed.session ∈ (xio_session_destroy G (some session)).calls ↔
      session.in_notify = false) := by
  have he : session.connections_list.isEmpty = true := by rw [h]; rfl
  simp only [xio_session_destroy, he, hreg, Bool.not_true, Bool.false_eq_true, if_false,
    xio_session_pre_teardown, xio_session_post_teardown, if_true]
  refine ⟨trivial, ?_, ?_, trivial, trivial, ?_, ?_, ?_⟩
  · simp [xio_sessions_cache_lookup, xio_sessions_cache_remove, xio_idr_remove_uobj]
  · simp [xio_idr_lookup_uobj, xio_sessions_cache_remove, xio_idr_remove_uobj]
  · cases session.in_notify <;> simp
  · cases session.in_notify <;> simp
  · cases session.in_notify <;> simp

/-- Witness of C8: the registered session with no connection, outside a
notification. -/
theorem C8_destroy_idle_witness :
    (ex_session [] false).connections_list = [] ∧
    xio_idr_lookup_uobj ex_session_globals (ex_session [] false).addr = true ∧
    (xio_session_destroy ex_session_globals (some (ex_session [] false))).ret = 0 ∧
    (xio_session_destroy ex_session_globals (some (ex_session [] false))).released
      = true :=
  have h := C8_destroy_idle ex_session_globals (ex_session [] false) rfl (by decide)
  ⟨rfl, by decide, h.1, h.2.2.2.2.2.1.mpr rfl⟩


/-! ## The buffer threshold option of the TCP provider -/

theorem set_opt_rdonly (G : xio_tcp_globals) (n : xio_optname) (v len : Int) :
    (xio_tcp_set_opt G n v len).1.tcp_options.tcp_buf_attr_rdonly
      = G.tcp_options.tcp_buf_attr_rdonly := by
  unfold xio_tcp_set_opt
  cases n <;> dsimp only <;> split_ifs <;> rfl

theorem set_opt_threshold_of_rdonly (G : xio_tcp_globals) (n : xio_optname)
    (v len : Int) (h : G.tcp_options.tcp_buf_attr_rdonly ≠ 0) :
    (xio_tcp_set_opt G n v len).1.tcp_options.tcp_buf_threshold
      = G.tcp_options.tcp_buf_threshold := by
  unfold xio_tcp_set_opt
  cases n <;> dsimp only <;> split_ifs <;> rfl

theorem get_opt_options (G : xio_tcp_globals) (n : xio_optname) :
    (xio_tcp_get_opt G n).1.tcp_options = G.tcp_options := by
  unfold xio_tcp_get_opt
  cases n <;> rfl

theorem create_threshold (T : xio_tcp_decls) (V : xio_create_env)
    (G : xio_tcp_globals) (tr ctx : Nat) (ob : Option Nat) (cs : Bool) :
    (xio_tcp_transport_create T V G tr ctx ob cs).1.tcp_options.tcp_buf_threshold
      = G.tcp_options.tcp_buf_threshold := by
  unfold xio_tcp_transport_create
  split_ifs <;> rfl

theorem create_rdonly_some (T : xio_tcp_decls) (V : xio_create_env)
    (G : xio_tcp_globals) (tr ctx : Nat) (ob : Option Nat) (cs : Bool)
    (h : (xio_tcp_transport_create T V G tr ctx ob cs).2 ≠ none) :
    (xio_tcp_transport_create T V G tr ctx ob cs).1.tcp_options.tcp_buf_attr_rdonly
      = 1 := by
  unfold xio_tcp_transport_create at h ⊢
  split_ifs at h ⊢ <;> first | exact absurd rfl h | rfl

theorem create_rdonly_keep (T : xio_tcp_decls) (V : xio_create_env)
    (G : xio_tcp_globals) (tr ctx : Nat) (ob : Option Nat) (cs : Bool)
    (h : G.tcp_options.tcp_buf_attr_rdonly = 1) :
    (xio_tcp_transport_create T V G tr ctx ob cs).1.tcp_options.tcp_buf_attr_rdonly
      = 1 := by
  unfold xio_tcp_transport_create
  split_ifs <;> first | exact h | rfl

theorem step_no_create_rdonly (T : xio_tcp_decls) (G : xio_tcp_globals)
    (op : xio_tcp_op) (h : op.is_create = false) :
    (xio_tcp_step T G op).tcp_options.tcp_buf_attr_rdonly
      = G.tcp_options.tcp_buf_attr_rdonly := by
  cases op with
  | set_opt n v len => exact set_opt_rdonly G n v len
  | get_opt n => simp only [xio_tcp_step, get_opt_options]
  | transport_create V tr ctx ob cs => exact absurd h (by simp [xio_tcp_op.is_create])

theorem run_no_create_rdonly (T : xio_tcp_decls) (l : List xio_tcp_op) :
    ∀ G : xio_tcp_globals, (∀ op ∈ l, op.is_create = false) →
      (xio_tcp_run T G l).tcp_options.tcp_buf_attr_rdonly
        = G.tcp_options.tcp_buf_attr_rdonly := by
  induction l with
  | nil => intro G _; rfl
  | cons op l ih =>
    intro G h
    simp only [xio_tcp_run, List.foldl_cons]
    have h1 := ih (xio_tcp_step T G op) (fun o ho => h o (List.mem_cons_of_mem _ ho))
    simp only [xio_tcp_run] at h1
    rw [h1]
    exact step_no_create_rdonly T G op (h op (List.mem_cons_self _ _))

theorem step_locked (T : xio_tcp_decls) (G : xio_tcp_globals) (op : xio_tcp_op)
    (h : G.tcp_options.tcp_buf_attr_rdonly = 1) :
    (xio_tcp_step T G op).tcp_options.tcp_buf_attr_rdonly = 1 ∧
    (xio_tcp_step T G op).tcp_options.tcp_buf_threshold
      = G.tcp_options.tcp_buf_threshold := by
  cases op with
  | set_opt n v len =>
    exact ⟨(set_opt_rdonly G n v len).trans h,
      set_opt_threshold_of_rdonly G n v len (by rw [h]; decide)⟩
  | get_opt n =>
    have hg := get_opt_options G n
    exact ⟨by simp only [xio_tcp_step, hg]; exact h, by simp only [xio_tcp_step, hg]⟩
  | transport_create V tr ctx ob cs =>
    exact ⟨create_rdonly_keep T V G tr ctx ob cs h, create_threshold T V G tr ctx ob cs⟩

theorem run_locked (T : xio_tcp_decls) (l : List xio_tcp_op) :
    ∀ G : xio_tcp_globals, G.tcp_options.tcp_buf_attr_rdonly = 1 →
      (xio_tcp_run T G l).tcp_options.tcp_buf_attr_rdonly = 1 ∧
      (xio_tcp_run T G l).tcp_options.tcp_buf_threshold
        = G.tcp_options.tcp_buf_threshold := by
  induction l with
  | nil => intro G h; exact ⟨h, rfl⟩
  | cons op l ih =>
    intro G h
    simp only [xio_tcp_run, List.foldl_cons]
    have hs := step_locked T G op h
    have h1 := ih (xio_tcp_step T G op) hs.1
    simp only [xio_tcp_run] at h1
    exact ⟨h1.1, h1.2.trans hs.2⟩

theorem set_opt_threshold_invalid (G : xio_tcp_globals) (v : Int)
    (h0 : G.tcp_options.tcp_buf_attr_rdonly = 0) (hv : v < 0 ∨ 65536 < v) :
    xio_tcp_set_opt G xio_optname.XIO_OPTNAME_TRANS_BUF_THRESHOLD v sizeof_int
      = ({ G with xio_errno := some xio_error.EINVAL }, -1) := by
  have hv' : v < 0 ∨ v > XIO_OPTVAL_MAX_TCP_BUF_THRESHOLD := hv
  simp [xio_tcp_set_opt, VALIDATE_SZ, h0, hv']

theorem set_opt_threshold_locked (G : xio_tcp_globals) (v : Int)
    (h1 : G.tcp_options.tcp_buf_attr_rdonly = 1) :
    xio_tcp_set_opt G xio_optname.XIO_OPTNAME_TRANS_BUF_THRESHOLD v sizeof_int
      = ({ G with xio_errno := some xio_error.EPERM }, -1) := by
  simp [xio_tcp_set_opt, VALIDATE_SZ, h1]

theorem set_opt_threshold_locked_any (G : xio_tcp_globals) (v optlen : Int)
    (h1 : G.tcp_options.tcp_buf_attr_rdonly = 1) :
    (xio_tcp_set_opt G xio_optname.XIO_OPTNAME_TRANS_BUF_THRESHOLD v optlen).2 = -1 ∧
    (xio_tcp_set_opt G xio_optname.XIO_OPTNAME_TRANS_BUF_THRESHOLD v optlen).1.tcp_options
      = G.tcp_options ∧
    (xio_tcp_set_opt G xio_optname.XIO_OPTNAME_TRANS_BUF_THRESHOLD v
      optlen).1.trans_buf_threshold = G.trans_buf_threshold := by
  unfold xio_tcp_set_opt
  dsimp only
  have hne : G.tcp_options.tcp_buf_attr_rdonly ≠ 0 := by rw [h1]; decide
  split_ifs <;> exact ⟨rfl, rfl, rfl⟩

/-- C9: before any transport handle has been created (the read-only flag is 0
at process start and the operations since then were only option reads and
writes), `xio_tcp_set_opt` for TRANS_BUF_THRESHOLD with a value of the size of
an `int` that is negative or above 65536 returns -1 with the error set to
EINVAL and leaves `tcp_options` (so `tcp_buf_threshold`) and
`g_options.trans_buf_threshold` as they were. -/
theorem C9_threshold_out_of_range (T : xio_tcp_decls) (G0 : xio_tcp_globals)
    (l : List xio_tcp_op) (v : Int)
    (h0 : G0.tcp_options.tcp_buf_attr_rdonly = 0)
    (hl : ∀ op ∈ l, op.is_create = false)
    (hv : v < 0 ∨ 65536 < v) :
    (xio_tcp_set_opt (xio_tcp_run T G0 l)
      xio_optname.XIO_OPTNAME_TRANS_BUF_THRESHOLD v sizeof_int).2 = -1 ∧
    (xio_tcp_set_opt (xio_tcp_run T G0 l)
      xio_optname.XIO_OPTNAME_TRANS_BUF_THRESHOLD v sizeof_int).1.xio_errno
      = some xio_error.EINVAL ∧
    (xio_tcp_set_opt (xio_tcp_run T G0 l)
      xio_optname.XIO_OPTNAME_TRANS_BUF_THRESHOLD v sizeof_int).1.tcp_options
      = (xio_tcp_run T G0 l).tcp_options ∧
    (xio_tcp_set_opt (xio_tcp_run T G0 l)
      xio_optname.XIO_OPTNAME_TRANS_BUF_THRESHOLD v sizeof_int).1.trans_buf_threshold
      = (xio_tcp_run T G0 l).trans_buf_threshold := by
  have hr := (run_no_create_rdonly T l G0 hl).trans h0
  rw [set_opt_threshold_invalid _ v hr hv]
  exact ⟨rfl, rfl, rfl, rfl⟩

/-- Witness of C9: the value 70000 after the no-delay option was set. -/
theorem C9_threshold_out_of_range_witness :
    ((70000 : Int) < 0 ∨ (65536 : Int) < 70000) ∧
    (xio_tcp_set_opt
      (xio_tcp_run ex_tcp_decls ex_tcp_globals
        [xio_tcp_op.set_opt xio_optname.XIO_OPTNAME_TCP_NO_DELAY 1 4])
      xio_optname.XIO_OPTNAME_TRANS_BUF_THRESHOLD 70000 sizeof_int).2 = -1 :=
  ⟨by decide,
   (C9_threshold_out_of_range ex_tcp_decls ex_tcp_globals
      [xio_tcp_op.set_opt xio_optname.XIO_OPTNAME_TCP_NO_DELAY 1 4] 70000
      rfl (by decide) (by decide)).1⟩

/-- C10: once `xio_tcp_transport_create` has returned a handle (from
`xio_tcp_open`, with a socket, or for a child on accept, without), then after
any further sequence of option writes, option reads and handle creations the
read-only flag is still 1, `tcp_buf_threshold` still has the value it had when
that handle was created, and `xio_tcp_set_opt` for TRANS_BUF_THRESHOLD returns
-1 for every value `v`, with the error set to EPERM (the value being passed
with the size of an `int`), and changes no option; whatever length is passed,
the call returns -1 and leaves `tcp_options` and
`g_options.trans_buf_threshold` as they were. -/
theorem C10_threshold_read_only (T : xio_tcp_decls) (V : xio_create_env)
    (G G1 : xio_tcp_globals) (transport ctx : Nat) (observer : Option Nat)
    (create_socket : Bool) (hndl : xio_tcp_transport)
    (hc : xio_tcp_transport_create T V G transport ctx observer create_socket
      = (G1, some hndl))
    (l : List xio_tcp_op) (v : Int) :
    (xio_tcp_run T G1 l).tcp_options.tcp_buf_attr_rdonly = 1 ∧
    (xio_tcp_run T G1 l).tcp_options.tcp_buf_threshold
      = G.tcp_options.tcp_buf_threshold ∧
    (xio_tcp_set_opt (xio_tcp_run T G1 l)
      xio_optname.XIO_OPTNAME_TRANS_BUF_THRESHOLD v sizeof_int).2 = -1 ∧
    (xio_tcp_set_opt (xio_tcp_run T G1 l)
      xio_optname.XIO_OPTNAME_TRANS_BUF_THRESHOLD v sizeof_int).1.xio_errno
      = some xio_error.EPERM ∧
    (xio_tcp_set_opt (xio_tcp_run T G1 l)
      xio_optname.XIO_OPTNAME_TRANS_BUF_THRESHOLD v sizeof_int).1.tcp_options
      = (xio_tcp_run T G1 l).tcp_options ∧
    (∀ optlen : Int,
      (xio_tcp_set_opt (xio_tcp_run T G1 l)
        xio_optname.XIO_OPTNAME_TRANS_BUF_THRESHOLD v optlen).2 = -1 ∧
      (xio_tcp_set_opt (xio_tcp_run T G1 l)
        xio_optname.XIO_OPTNAME_TRANS_BUF_THRESHOLD v optlen).1.tcp_options
        = (xio_tcp_run T G1 l).tcp_options ∧
      (xio_tcp_set_opt (xio_tcp_run T G1 l)
        xio_optname.XIO_OPTNAME_TRANS_BUF_THRESHOLD v optlen).1.trans_buf_threshold
        = (xio_tcp_run T G1 l).trans_buf_threshold) := by
  have hsome : (xio_tcp_transport_create T V G transport ctx observer create_socket).2
      ≠ none := by rw [hc]; exact Option.some_ne_none hndl
  have h1 : G1.tcp_options.tcp_buf_attr_rdonly = 1 := by
    have := create_rdonly_some T V G transport ctx observer create_socket hsome
    rwa [hc] at this
  have ht : G1.tcp_options.tcp_buf_threshold = G.tcp_options.tcp_buf_threshold := by
    have := create_threshold T V G transport ctx observer create_socket
    rwa [hc] at this
  have hr := run_locked T l G1 h1
  refine ⟨hr.1, hr.2.trans ht, ?_, ?_, ?_,
    fun optlen => set_opt_threshold_locked_any _ v optlen hr.1⟩ <;>
  rw [set_opt_threshold_locked _ v hr.1]

/-- Witness of C10: after `xio_tcp_open` succeeded and the send-buffer option
was set, the value 4096 is refused. -/
theorem C10_threshold_read_only_witness :
    (xio_tcp_open ex_tcp_decls ex_create_env ex_tcp_globals 1 2 none).2 ≠ none ∧
    (xio_tcp_set_opt
      (xio_tcp_run ex_tcp_decls
        (xio_tcp_open ex_tcp_decls ex_create_env ex_tcp_globals 1 2 none).1
        [xio_tcp_op.set_opt xio_optname.XIO_OPTNAME_TCP_SO_SNDBUF 65536 4])
      xio_optname.XIO_OPTNAME_TRANS_BUF_THRESHOLD 4096 sizeof_int).1.xio_errno
      = some xio_error.EPERM :=
  ⟨by decide,
   (C10_threshold_read_only ex_tcp_decls ex_create_env ex_tcp_globals
      (xio_tcp_open ex_tcp_decls ex_create_env ex_tcp_globals 1 2 none).1 1 2 none true
      ((xio_tcp_open ex_tcp_decls ex_create_env ex_tcp_globals 1 2 none).2.get
        (by decide))
      (by decide)
      [xio_tcp_op.set_opt xio_optname.XIO_OPTNAME_TCP_SO_SNDBUF 65536 4] 4096).2.2.2.1⟩


/-! ## The response path on an open connection -/

theorem flags_standalone (F L flags : Nat) (hF : flags &&& F = F) (hL : flags &&& L = 0) :
    (flags &&& (F ||| L)) = F := by
  rw [Nat.and_or_distrib_left, hF, hL]; simp

theorem flags_not_standalone (F L flags : Nat) (hd : F &&& L = 0)
    (hL : flags &&& L ≠ 0) : (flags &&& (F ||| L)) ≠ F := by
  intro h
  have h2 : (flags &&& (F ||| L)) &&& L = flags &&& L := by
    rw [Nat.and_assoc]
    congr 1
    rw [Nat.and_comm, Nat.and_or_distrib_left, Nat.and_self, Nat.and_comm L F, hd]; simp
  rw [h, hd] at h2
  exact hL h2.symm

theorem flags_standalone_first (F L flags : Nat) (h : (flags &&& (F ||| L)) = F) :
    flags &&& F = F := by
  have h2 : (flags &&& (F ||| L)) &&& F = flags &&& F := by
    rw [Nat.and_assoc]
    congr 1
    rw [Nat.and_comm, Nat.and_or_distrib_left, Nat.and_self]
    apply Nat.eq_of_testBit_eq
    intro i
    simp only [Nat.testBit_or, Nat.testBit_and]
    cases F.testBit i <;> simp
  rw [h, Nat.and_self] at h2
  exact h2.symm

theorem update_window_frame (c : xio_connection) (hdr : xio_session_hdr) :
    (xio_update_window c hdr).1.ses_ops = c.ses_ops ∧
    (xio_update_window c hdr).1.tx_queued_msgs = c.tx_queued_msgs ∧
    (xio_update_window c hdr).1.in_flight = c.in_flight ∧
    (xio_update_window c hdr).1.io_tasks = c.io_tasks ∧
    (xio_update_window c hdr).1.state = c.state := by
  unfold xio_update_window
  split <;> exact ⟨rfl, rfl, rfl, rfl, rfl⟩

theorem update_window_calls_count (p : xio_call → Bool)
    (hp : ∀ a b, p (xio_call.ERROR_LOG_sn a b) = false)
    (c : xio_connection) (hdr : xio_session_hdr) :
    (xio_update_window c hdr).2.countP p = 0 := by
  unfold xio_update_window
  split
  · rfl
  · simp [List.countP_cons, hp]

theorem queue_ite_frame (b : Bool) (c : xio_connection) (m t : Nat) :
    (xio_connection_queue_io_task
      (if b then xio_connection_remove_in_flight c m else c) t).ses_ops = c.ses_ops ∧
    (xio_connection_queue_io_task
      (if b then xio_connection_remove_in_flight c m else c) t).tx_queued_msgs
      = c.tx_queued_msgs ∧
    (xio_connection_queue_io_task
      (if b then xio_connection_remove_in_flight c m else c) t).in_flight
      = (if b then c.in_flight.erase m else c.in_flight) := by
  cases b <;> exact ⟨rfl, rfl, rfl⟩

theorem calls_ite_append (b : Bool) (l : List xio_call) (x q : xio_call) :
    (if b then l ++ [x] else l) ++ [q] = l ++ (if b then [x] else []) ++ [q] := by
  cases b <;> simp

theorem rsp_recv_head_eq (D : xio_decls) (E : xio_env) (c : xio_connection)
    (task : xio_task) (omsg : xio_msg) :
    (xio_on_rsp_recv_head D E c task omsg).1.ses_ops = c.ses_ops ∧
    (xio_on_rsp_recv_head D E c task omsg).1.tx_queued_msgs = c.tx_queued_msgs ∧
    (xio_on_rsp_recv_head D E c task omsg).1.in_flight
      = (if xio_rsp_removes D task then c.in_flight.erase omsg.addr else c.in_flight) ∧
    (xio_on_rsp_recv_head D E c task omsg).2.1.tlv_type = task.tlv_type ∧
    (xio_on_rsp_recv_head D E c task omsg).2.1.addr = task.addr ∧
    (xio_on_rsp_recv_head D E c task omsg).2.1.status = task.status ∧
    (xio_on_rsp_recv_head D E c task omsg).2.1.state = task.state ∧
    (xio_on_rsp_recv_head D E c task omsg).2.1.imsg
      = { task.imsg with sn := (task.hdr D).serial_num } ∧
    (xio_on_rsp_recv_head D E c task omsg).2.2.1
      = { omsg with next := none, type := task.tlv_type } ∧
    (xio_on_rsp_recv_head D E c task omsg).2.2.2.1 = task.hdr D ∧
    (xio_on_rsp_recv_head D E c task omsg).2.2.2.2
      = (xio_update_window c (task.hdr D)).2
        ++ [xio_call.xio_stat_add xio_stat.XIO_STAT_DELAY (xio_rsp_delay E omsg),
            xio_call.xio_stat_inc xio_stat.XIO_STAT_RX_MSG]
        ++ (if xio_rsp_removes D task
              then [xio_call.xio_connection_remove_in_flight omsg.addr] else [])
        ++ [xio_call.xio_connection_queue_io_task task.addr] := by
  have hf := update_window_frame c (task.hdr D)
  have hq := queue_ite_frame (xio_rsp_removes D task)
    (xio_update_window c (task.hdr D)).1 omsg.addr task.addr
  refine ⟨hq.1.trans hf.1, hq.2.1.trans hf.2.1, ?_, rfl, rfl, rfl, rfl, rfl, rfl, rfl, ?_⟩
  · refine hq.2.2.trans ?_
    rw [hf.2.2.1]
  · exact calls_ite_append (xio_rsp_removes D task) _ _ _

theorem rsp_open_not_closed (c : xio_connection) (h : c.rsp_open) :
    ¬ (c.state ≠ xio_connection_state.XIO_CONNECTION_STATE_ONLINE ∧
       c.state ≠ xio_connection_state.XIO_CONNECTION_STATE_FIN_WAIT_1) := by
  simp only [xio_connection.rsp_open] at h
  rcases h with h | h <;> simp [h]

theorem rsp_removes_one_way (D : xio_decls) (task : xio_task)
    (ht : task.tlv_type = xio_tlv_type.XIO_ONE_WAY_RSP)
    (hF0 : D.XIO_MSG_RSP_FLAG_FIRST ≠ 0) : xio_rsp_removes D task = true := by
  unfold xio_rsp_removes
  by_cases hs : ((task.hdr D).flags &&&
      (D.XIO_MSG_RSP_FLAG_FIRST ||| D.XIO_MSG_RSP_FLAG_LAST))
      = D.XIO_MSG_RSP_FLAG_FIRST
  · have hf := flags_standalone_first _ _ _ hs
    simp [hs, ht, hf, hF0]
  · simp [hs]

theorem rsp_removes_standalone (D : xio_decls) (task : xio_task)
    (ht : task.tlv_type ≠ xio_tlv_type.XIO_ONE_WAY_RSP)
    (hs : ((task.hdr D).flags &&&
      (D.XIO_MSG_RSP_FLAG_FIRST ||| D.XIO_MSG_RSP_FLAG_LAST))
      = D.XIO_MSG_RSP_FLAG_FIRST) : xio_rsp_removes D task = false := by
  unfold xio_rsp_removes
  simp [hs, ht]

theorem rsp_removes_last (D : xio_decls) (task : xio_task)
    (hs : ((task.hdr D).flags &&&
      (D.XIO_MSG_RSP_FLAG_FIRST ||| D.XIO_MSG_RSP_FLAG_LAST))
      ≠ D.XIO_MSG_RSP_FLAG_FIRST) : xio_rsp_removes D task = true := by
  unfold xio_rsp_removes
  simp [hs]

/-- The result of `xio_on_rsp_recv` for an `XIO_ONE_WAY_RSP` on an open
connection, in terms of the two stages it runs. -/
theorem rsp_recv_one_way_eq (D : xio_decls) (E : xio_env) (c : xio_connection)
    (task sender_task : xio_task) (omsg : xio_msg) (ho : c.rsp_open)
    (ht : task.tlv_type = xio_tlv_type.XIO_ONE_WAY_RSP) :
    xio_on_rsp_recv D E c task sender_task omsg =
      { connection := (xio_on_rsp_recv_one_way D
            (xio_on_rsp_recv_head D E c task omsg).2.2.2.1
            (xio_on_rsp_recv_head D E c task omsg).1
            (xio_on_rsp_recv_head D E c task omsg).2.1 sender_task
            (xio_on_rsp_recv_head D E c task omsg).2.2.1
            (xio_on_rsp_recv_head D E c task omsg).2.2.2.2).connection,
        task := (xio_on_rsp_recv_head D E c task omsg).2.1,
        sender_task := { sender_task with omsg := none },
        omsg := (xio_on_rsp_recv_one_way D
            (xio_on_rsp_recv_head D E c task omsg).2.2.2.1
            (xio_on_rsp_recv_head D E c task omsg).1
            (xio_on_rsp_recv_head D E c task omsg).2.1 sender_task
            (xio_on_rsp_recv_head D E c task omsg).2.2.1
            (xio_on_rsp_recv_head D E c task omsg).2.2.2.2).omsg,
        calls := (xio_on_rsp_recv_one_way D
            (xio_on_rsp_recv_head D E c task omsg).2.2.2.1
            (xio_on_rsp_recv_head D E c task omsg).1
            (xio_on_rsp_recv_head D E c task omsg).2.1 sender_task
            (xio_on_rsp_recv_head D E c task omsg).2.2.1
            (xio_on_rsp_recv_head D E c task omsg).2.2.2.2).calls
          ++ [xio_call.xio_connection_xmit_msgs],
        ret := 0 } := by
  have htl : (xio_on_rsp_recv_head D E c task omsg).2.1.tlv_type
      = xio_tlv_type.XIO_ONE_WAY_RSP := ht
  unfold xio_on_rsp_recv
  rw [if_neg (rsp_open_not_closed c ho)]
  dsimp only
  rw [if_pos htl]
  rfl

/-- The result of `xio_on_rsp_recv` for a response that is not an
`XIO_ONE_WAY_RSP` on an open connection, in terms of the stages it runs. -/
theorem rsp_recv_msg_rsp_eq (D : xio_decls) (E : xio_env) (c : xio_connection)
    (task sender_task : xio_task) (omsg : xio_msg) (ho : c.rsp_open)
    (ht : task.tlv_type ≠ xio_tlv_type.XIO_ONE_WAY_RSP) :
    xio_on_rsp_recv D E c task sender_task omsg =
      { connection := (xio_on_rsp_recv_head D E c task omsg).1,
        task := (xio_on_rsp_recv_last D (xio_on_rsp_recv_head D E c task omsg).2.2.2.1
            (xio_on_rsp_recv_head D E c task omsg).1
            (xio_on_rsp_recv_head D E c task omsg).2.1
            (xio_on_rsp_recv_first D (xio_on_rsp_recv_head D E c task omsg).2.2.2.1
              (xio_on_rsp_recv_head D E c task omsg).1
              (xio_on_rsp_recv_head D E c task omsg).2.1 sender_task
              (xio_on_rsp_recv_head D E c task omsg).2.2.1
              (xio_on_rsp_recv_head D E c task omsg).2.2.2.2).1
            (xio_on_rsp_recv_first D (xio_on_rsp_recv_head D E c task omsg).2.2.2.1
              (xio_on_rsp_recv_head D E c task omsg).1
              (xio_on_rsp_recv_head D E c task omsg).2.1 sender_task
              (xio_on_rsp_recv_head D E c task omsg).2.2.1
              (xio_on_rsp_recv_head D E c task omsg).2.2.2.2).2).2.1,
        sender_task := sender_task,
        omsg := (xio_on_rsp_recv_last D (xio_on_rsp_recv_head D E c task omsg).2.2.2.1
            (xio_on_rsp_recv_head D E c task omsg).1
            (xio_on_rsp_recv_head D E c task omsg).2.1
            (xio_on_rsp_recv_first D (xio_on_rsp_recv_head D E c task omsg).2.2.2.1
              (xio_on_rsp_recv_head D E c task omsg).1
              (xio_on_rsp_recv_head D E c task omsg).2.1 sender_task
              (xio_on_rsp_recv_head D E c task omsg).2.2.1
              (xio_on_rsp_recv_head D E c task omsg).2.2.2.2).1
            (xio_on_rsp_recv_first D (xio_on_rsp_recv_head D E c task omsg).2.2.2.1
              (xio_on_rsp_recv_head D E c task omsg).1
              (xio_on_rsp_recv_head D E c task omsg).2.1 sender_task
              (xio_on_rsp_recv_head D E c task omsg).2.2.1
              (xio_on_rsp_recv_head D E c task omsg).2.2.2.2).2).1,
        calls := (xio_on_rsp_recv_last D (xio_on_rsp_recv_head D E c task omsg).2.2.2.1
            (xio_on_rsp_recv_head D E c task omsg).1
            (xio_on_rsp_recv_head D E c task omsg).2.1
            (xio_on_rsp_recv_first D (xio_on_rsp_recv_head D E c task omsg).2.2.2.1
              (xio_on_rsp_recv_head D E c task omsg).1
              (xio_on_rsp_recv_head D E c task omsg).2.1 sender_task
              (xio_on_rsp_recv_head D E c task omsg).2.2.1
              (xio_on_rsp_recv_head D E c task omsg).2.2.2.2).1
            (xio_on_rsp_recv_first D (xio_on_rsp_recv_head D E c task omsg).2.2.2.1
              (xio_on_rsp_recv_head D E c task omsg).1
              (xio_on_rsp_recv_head D E c task omsg).2.1 sender_task
              (xio_on_rsp_recv_head D E c task omsg).2.2.1
              (xio_on_rsp_recv_head D E c task omsg).2.2.2.2).2).2.2
          ++ [xio_call.xio_connection_xmit_msgs],
        ret := 0 } := by
  have htl : ¬ (xio_on_rsp_recv_head D E c task omsg).2.1.tlv_type
      = xio_tlv_type.XIO_ONE_WAY_RSP := ht
  unfold xio_on_rsp_recv
  rw [if_neg (rsp_open_not_closed c ho)]
  dsimp only
  rw [if_neg htl]

theorem rsp_recv_one_way_stage (D : xio_decls) (hdr : xio_session_hdr)
    (conn : xio_connection) (task st : xio_task) (omsg : xio_msg)
    (calls : List xio_call) :
    (xio_on_rsp_recv_one_way D hdr conn task st omsg calls).connection.tx_queued_msgs
      = conn.tx_queued_msgs - 1 ∧
    (xio_on_rsp_recv_one_way D hdr conn task st omsg calls).connection.in_flight
      = conn.in_flight ∧
    (xio_on_rsp_recv_one_way D hdr conn task st omsg calls).calls
      = calls
        ++ (if (hdr.flags &&& D.XIO_MSG_RSP_FLAG_FIRST) == 0
              then [xio_call.ERROR_LOG_first_flag hdr.flags] else [])
        ++ (if (st.omsg_flags &&& D.XIO_MSG_FLAG_REQUEST_READ_RECEIPT) != 0 then
              (if conn.ses_ops.on_msg_delivered then
                [xio_call.on_msg_delivered
                  { omsg with sn := task.imsg.sn, receipt_res := hdr.receipt_result }]
               else [])
            else
              (if conn.ses_ops.on_ow_msg_send_complete then
                [xio_call.on_ow_msg_send_complete
                  { omsg with sn := task.imsg.sn, receipt_res := hdr.receipt_result }]
               else []))
        ++ [xio_call.xio_release_response_task task.addr] := by
  refine ⟨rfl, rfl, ?_⟩
  unfold xio_on_rsp_recv_one_way
  dsimp only
  split_ifs <;> simp

theorem rsp_recv_first_stage (D : xio_decls) (hdr : xio_session_hdr)
    (conn : xio_connection) (task st : xio_task) (omsg : xio_msg)
    (calls : List xio_call) :
    (xio_on_rsp_recv_first D hdr conn task st omsg calls).2
      = calls
        ++ (if (hdr.flags &&& D.XIO_MSG_RSP_FLAG_FIRST) != 0 then
              (if conn.ses_ops.on_msg_delivered then
                [xio_call.on_msg_delivered
                  { omsg with receipt_res := hdr.receipt_result, sn := hdr.serial_num }]
               else [])
              ++ (if (hdr.flags &&& (D.XIO_MSG_RSP_FLAG_FIRST ||| D.XIO_MSG_RSP_FLAG_LAST))
                      == D.XIO_MSG_RSP_FLAG_FIRST
                    then [xio_call.xio_tasks_pool_put task.addr] else [])
            else []) ∧
    (xio_on_rsp_recv_first D hdr conn task st omsg calls).1.addr = omsg.addr ∧
    (xio_on_rsp_recv_first D hdr conn task st omsg calls).1.in_
      = (if (hdr.flags &&& D.XIO_MSG_RSP_FLAG_FIRST) != 0 ∧
            (hdr.flags &&& (D.XIO_MSG_RSP_FLAG_FIRST ||| D.XIO_MSG_RSP_FLAG_LAST))
              == D.XIO_MSG_RSP_FLAG_FIRST
          then st.in_receipt else omsg.in_) := by
  unfold xio_on_rsp_recv_first
  dsimp only
  split_ifs <;> simp_all

theorem rsp_recv_last_stage (D : xio_decls) (hdr : xio_session_hdr)
    (conn : xio_connection) (task : xio_task) (omsg : xio_msg)
    (calls : List xio_call) :
    (xio_on_rsp_recv_last D hdr conn task omsg calls).2.2
      = calls
        ++ (if (hdr.flags &&& D.XIO_MSG_RSP_FLAG_LAST) != 0 then
              [xio_call.xio_stat_add xio_stat.XIO_STAT_RX_BYTES
                (task.imsg.in_.header_iov_len + tbl_length task.imsg.in_)]
              ++ (if task.status ≠ 0 then
                    (match conn.ses_ops.on_msg_error with
                     | some _ => [xio_call.on_msg_error task.status
                         { omsg with request := some task.imsg.addr }]
                     | none => [])
                  else [xio_call.on_msg { omsg with request := some task.imsg.addr }])
            else []) ∧
    (xio_on_rsp_recv_last D hdr conn task omsg calls).1
      = (if (hdr.flags &&& D.XIO_MSG_RSP_FLAG_LAST) != 0
          then { omsg with request := some task.imsg.addr } else omsg) ∧
    (xio_on_rsp_recv_last D hdr conn task omsg calls).2.1.imsg = task.imsg ∧
    ((hdr.flags &&& D.XIO_MSG_RSP_FLAG_LAST) != 0 →
      (xio_on_rsp_recv_last D hdr conn task omsg calls).2.1.status = 0) := by
  unfold xio_on_rsp_recv_last xio_session_notify_msg_error
  dsimp only
  split_ifs <;> (try cases conn.ses_ops.on_msg_error) <;> simp_all

/-! ## Claims on the response path -/

/-- C16: for an `XIO_ONE_WAY_RSP` received while the connection is Online or in
FIN_WAIT_1, whatever the flags of the header: `on_msg_delivered` is invoked
(once) exactly when the send-time flags of the original message requested a
read receipt and the callback is installed; `on_ow_msg_send_complete` is
invoked (once) exactly when they did not and that callback is installed;
`on_msg` is not invoked; `tx_queued_msgs` goes down by 1; the `omsg` pointer of
the sender task is cleared; and the original message is taken out of the
in-flight queue by exactly one call. -/
theorem C16_one_way_response (D : xio_decls) (E : xio_env) (c : xio_connection)
    (task sender_task : xio_task) (omsg : xio_msg) (r : xio_rsp_result)
    (hr : r = xio_on_rsp_recv D E c task sender_task omsg)
    (ho : c.rsp_open)
    (ht : task.tlv_type = xio_tlv_type.XIO_ONE_WAY_RSP)
    (hF0 : D.XIO_MSG_RSP_FLAG_FIRST ≠ 0) :
    r.calls.countP xio_call.is_on_msg_delivered
      = (if (sender_task.omsg_flags &&& D.XIO_MSG_FLAG_REQUEST_READ_RECEIPT) ≠ 0 ∧
            c.ses_ops.on_msg_delivered = true then 1 else 0) ∧
    r.calls.countP xio_call.is_on_ow_msg_send_complete
      = (if (sender_task.omsg_flags &&& D.XIO_MSG_FLAG_REQUEST_READ_RECEIPT) = 0 ∧
            c.ses_ops.on_ow_msg_send_complete = true then 1 else 0) ∧
    r.calls.countP xio_call.is_on_msg = 0 ∧
    r.connection.tx_queued_msgs = c.tx_queued_msgs - 1 ∧
    r.sender_task.omsg = none ∧
    r.calls.countP xio_call.is_remove_in_flight = 1 ∧
    xio_call.xio_connection_remove_in_flight omsg.addr ∈ r.calls ∧
    r.connection.in_flight = c.in_flight.erase omsg.addr := by
  subst hr
  have hh := rsp_recv_head_eq D E c task omsg
  rw [rsp_removes_one_way D task ht hF0] at hh
  rw [rsp_recv_one_way_eq D E c task sender_task omsg ho ht]
  generalize xio_on_rsp_recv_head D E c task omsg = hd at hh ⊢
  obtain ⟨conn, tk, om, hdr, calls⟩ := hd
  obtain ⟨h1, h2, h3, -, h5, -, -, -, -, -, h11⟩ := hh
  simp only at h1 h2 h3 h5 h11
  obtain ⟨s1, s2, s3⟩ := rsp_recv_one_way_stage D hdr conn tk sender_task om calls
  simp only [s1, s2, s3]
  simp only [h1, h2, h3, h5, h11, if_true]
  have w1 := update_window_calls_count xio_call.is_on_msg_delivered (fun _ _ => rfl) c (task.hdr D)
  have w2 := update_window_calls_count xio_call.is_on_ow_msg_send_complete (fun _ _ => rfl) c (task.hdr D)
  have w3 := update_window_calls_count xio_call.is_on_msg (fun _ _ => rfl) c (task.hdr D)
  have w4 := update_window_calls_count xio_call.is_remove_in_flight (fun _ _ => rfl) c (task.hdr D)
  refine ⟨?_, ?_, ?_, trivial, trivial, ?_, ?_, trivial⟩
  · simp only [List.countP_append, w1]
    split_ifs <;> simp_all [List.countP_cons, xio_call.is_on_msg_delivered]
  · simp only [List.countP_append, w2]
    split_ifs <;> simp_all [List.countP_cons, xio_call.is_on_ow_msg_send_complete]
  · simp only [List.countP_append, w3]
    split_ifs <;> simp [List.countP_cons, xio_call.is_on_msg]
  · simp only [List.countP_append, w4]
    split_ifs <;> simp [List.countP_cons, xio_call.is_remove_in_flight]
  · simp

theorem update_window_calls_mem (c : xio_connection) (hdr : xio_session_hdr)
    (x : xio_call) (hx : x ∈ (xio_update_window c hdr).2) :
    x = xio_call.ERROR_LOG_sn c.exp_sn hdr.sn := by
  unfold xio_update_window at hx
  split at hx
  · simp at hx
  · simpa using hx

/-- C14: for an `XIO_MSG_RSP` received while the connection is Online or in
FIN_WAIT_1 whose header has the FIRST flag set and the LAST flag clear (a
standalone receipt): `on_msg_delivered`, when installed, is invoked exactly
once, with the original message carrying `receipt_res = hdr.receipt_result`
and `sn = hdr.serial_num`; `on_msg` and `on_msg_error` are not invoked; the
original message is not taken out of the in-flight queue; and its "in" side is
the descriptor saved in `sender_task.in_receipt`. -/
theorem C14_standalone_receipt (D : xio_decls) (E : xio_env) (c : xio_connection)
    (task sender_task : xio_task) (omsg : xio_msg) (r : xio_rsp_result)
    (hr : r = xio_on_rsp_recv D E c task sender_task omsg)
    (ho : c.rsp_open)
    (ht : task.tlv_type = xio_tlv_type.XIO_MSG_RSP)
    (hF0 : D.XIO_MSG_RSP_FLAG_FIRST ≠ 0)
    (hF : (task.hdr D).flags &&& D.XIO_MSG_RSP_FLAG_FIRST = D.XIO_MSG_RSP_FLAG_FIRST)
    (hL : (task.hdr D).flags &&& D.XIO_MSG_RSP_FLAG_LAST = 0) :
    r.calls.countP xio_call.is_on_msg_delivered
      = (if c.ses_ops.on_msg_delivered = true then 1 else 0) ∧
    (c.ses_ops.on_msg_delivered = true →
      xio_call.on_msg_delivered
        { omsg with next := none, type := xio_tlv_type.XIO_MSG_RSP,
                    receipt_res := (task.hdr D).receipt_result,
                    sn := (task.hdr D).serial_num } ∈ r.calls) ∧
    r.calls.countP xio_call.is_on_msg = 0 ∧
    r.calls.countP xio_call.is_on_msg_error = 0 ∧
    r.calls.countP xio_call.is_remove_in_flight = 0 ∧
    r.connection.in_flight = c.in_flight ∧
    r.omsg.in_ = sender_task.in_receipt := by
  subst hr
  have htn : task.tlv_type ≠ xio_tlv_type.XIO_ONE_WAY_RSP := by rw [ht]; decide
  have hsa := flags_standalone _ _ _ hF hL
  have hh := rsp_recv_head_eq D E c task omsg
  rw [rsp_removes_standalone D task htn hsa, ht] at hh
  rw [rsp_recv_msg_rsp_eq D E c task sender_task omsg ho htn]
  generalize xio_on_rsp_recv_head D E c task omsg = hd at hh ⊢
  obtain ⟨conn, tk, om, hdr, calls⟩ := hd
  obtain ⟨h1, -, h3, -, h5, -, -, -, h9, h10, h11⟩ := hh
  simp only at h1 h3 h5 h9 h10 h11
  subst h10
  have hFn : ((task.hdr D).flags &&& D.XIO_MSG_RSP_FLAG_FIRST != 0) = true := by
    rw [hF]; simpa using hF0
  have hLn : ((task.hdr D).flags &&& D.XIO_MSG_RSP_FLAG_LAST != 0) = false := by
    rw [hL]; rfl
  have hsb : ((task.hdr D).flags &&&
      (D.XIO_MSG_RSP_FLAG_FIRST ||| D.XIO_MSG_RSP_FLAG_LAST)
      == D.XIO_MSG_RSP_FLAG_FIRST) = true := by rw [hsa]; simp
  obtain ⟨f1, f2, f3⟩ := rsp_recv_first_stage D (task.hdr D) conn tk sender_task om calls
  rw [hFn, hsb] at f1 f3
  generalize xio_on_rsp_recv_first D (task.hdr D) conn tk sender_task om calls = fs
    at f1 f2 f3 ⊢
  obtain ⟨om1, calls1⟩ := fs
  simp only at f1 f2 f3
  obtain ⟨l1, l2, -, -⟩ := rsp_recv_last_stage D (task.hdr D) conn tk om1 calls1
  rw [hLn] at l1 l2
  simp only [l1, l2]
  simp only [f1, f3, h1, h3, h5, h9, h11, if_true, Bool.false_eq_true, if_false, and_self,
    List.append_nil]
  have w1 := update_window_calls_count xio_call.is_on_msg_delivered (fun _ _ => rfl) c (task.hdr D)
  have w3 := update_window_calls_count xio_call.is_on_msg (fun _ _ => rfl) c (task.hdr D)
  have w2 := update_window_calls_count xio_call.is_on_msg_error (fun _ _ => rfl) c (task.hdr D)
  have w4 := update_window_calls_count xio_call.is_remove_in_flight (fun _ _ => rfl) c (task.hdr D)
  refine ⟨?_, ?_, ?_, ?_, ?_, trivial⟩
  · simp only [List.countP_append, w1]
    split_ifs <;> simp [List.countP_cons, xio_call.is_on_msg_delivered]
  · intro hi
    simp [hi]
  · simp only [List.countP_append, w3]
    split_ifs <;> simp [List.countP_cons, xio_call.is_on_msg]
  · simp only [List.countP_append, w2]
    split_ifs <;> simp [List.countP_cons, xio_call.is_on_msg_error]
  · simp only [List.countP_append, w4]
    split_ifs <;> simp [List.countP_cons, xio_call.is_remove_in_flight]

theorem rsp_first_calls_count (D : xio_decls) (hdr : xio_session_hdr)
    (conn : xio_connection) (task st : xio_task) (omsg : xio_msg)
    (calls : List xio_call) (p : xio_call → Bool)
    (hp1 : ∀ m, p (xio_call.on_msg_delivered m) = false)
    (hp2 : ∀ t, p (xio_call.xio_tasks_pool_put t) = false) :
    (xio_on_rsp_recv_first D hdr conn task st omsg calls).2.countP p = calls.countP p := by
  rw [(rsp_recv_first_stage D hdr conn task st omsg calls).1]
  simp only [List.countP_append]
  split_ifs <;> simp [List.countP_cons, hp1, hp2]

theorem rsp_head_calls_count (D : xio_decls) (E : xio_env) (c : xio_connection)
    (task : xio_task) (omsg : xio_msg) (p : xio_call → Bool)
    (hp0 : ∀ a b, p (xio_call.ERROR_LOG_sn a b) = false)
    (hp1 : ∀ s v, p (xio_call.xio_stat_add s v) = false)
    (hp2 : ∀ s, p (xio_call.xio_stat_inc s) = false)
    (hp3 : ∀ t, p (xio_call.xio_connection_queue_io_task t) = false) :
    (xio_on_rsp_recv_head D E c task omsg).2.2.2.2.countP p
      = (if xio_rsp_removes D task = true ∧
            p (xio_call.xio_connection_remove_in_flight omsg.addr) = true
          then 1 else 0) := by
  obtain ⟨-, -, -, -, -, -, -, -, -, -, h11⟩ := rsp_recv_head_eq D E c task omsg
  rw [h11]
  simp only [List.countP_append, update_window_calls_count p hp0]
  cases xio_rsp_removes D task <;>
    cases hq : p (xio_call.xio_connection_remove_in_flight omsg.addr) <;>
    simp [List.countP_cons, hp1, hp2, hp3, hq]

theorem rsp_last_calls_filter (D : xio_decls) (hdr : xio_session_hdr)
    (conn : xio_connection) (task : xio_task) (omsg : xio_msg)
    (calls : List xio_call)
    (hL : (hdr.flags &&& D.XIO_MSG_RSP_FLAG_LAST != 0) = true) :
    (xio_on_rsp_recv_last D hdr conn task omsg calls).2.2.filter xio_call.is_on_msg
      = calls.filter xio_call.is_on_msg
        ++ (if task.status = 0 then
              [xio_call.on_msg (xio_on_rsp_recv_last D hdr conn task omsg calls).1]
            else []) ∧
    (xio_on_rsp_recv_last D hdr conn task omsg calls).2.2.filter xio_call.is_on_msg_error
      = calls.filter xio_call.is_on_msg_error
        ++ (if task.status ≠ 0 ∧ conn.ses_ops.on_msg_error.isSome = true then
              [xio_call.on_msg_error task.status
                (xio_on_rsp_recv_last D hdr conn task omsg calls).1]
            else []) ∧
    (xio_on_rsp_recv_last D hdr conn task omsg calls).2.2.countP
        xio_call.is_remove_in_flight
      = calls.countP xio_call.is_remove_in_flight := by
  obtain ⟨l1, l2, -, -⟩ := rsp_recv_last_stage D hdr conn task omsg calls
  rw [hL] at l1 l2
  rw [l1, l2]
  simp only [if_true, List.filter_append, List.countP_append]
  refine ⟨?_, ?_, ?_⟩
  · by_cases h0 : task.status = 0
    · simp [h0, List.filter_cons, xio_call.is_on_msg]
    · cases conn.ses_ops.on_msg_error <;> simp [h0, List.filter_cons, xio_call.is_on_msg]
  · by_cases h0 : task.status = 0
    · simp [h0, List.filter_cons, xio_call.is_on_msg_error]
    · cases conn.ses_ops.on_msg_error <;>
        simp [h0, List.filter_cons, xio_call.is_on_msg_error]
  · by_cases h0 : task.status = 0
    · simp [h0, List.countP_cons, xio_call.is_remove_in_flight]
    · cases conn.ses_ops.on_msg_error <;>
        simp [h0, List.countP_cons, xio_call.is_remove_in_flight]

theorem filter_nil_of_countP (p : xio_call → Bool) (l : List xio_call)
    (h : l.countP p = 0) : l.filter p = [] := by
  rw [List.filter_eq_nil_iff]
  rw [List.countP_eq_zero] at h
  exact h

/-- C15 (as amended): for an `XIO_MSG_RSP` received while the connection is
Online or in FIN_WAIT_1 whose header has the LAST flag set: the original
message is taken out of the in-flight queue (by exactly one call), its
`request` field points to the inbound message of the task, whose sn is
`hdr.serial_num`; `on_msg` is invoked exactly once when `task->status` is 0
and not at all otherwise; `on_msg_error` is invoked exactly once when
`task->status` is non-zero and the callback is installed, and not at all
otherwise; the argument is the original message; `task->status` is 0
afterwards. -/
theorem C15_last_response (D : xio_decls) (E : xio_env) (c : xio_connection)
    (task sender_task : xio_task) (omsg : xio_msg) (r : xio_rsp_result)
    (hr : r = xio_on_rsp_recv D E c task sender_task omsg)
    (ho : c.rsp_open)
    (ht : task.tlv_type = xio_tlv_type.XIO_MSG_RSP)
    (hd : D.XIO_MSG_RSP_FLAG_FIRST &&& D.XIO_MSG_RSP_FLAG_LAST = 0)
    (hL : (task.hdr D).flags &&& D.XIO_MSG_RSP_FLAG_LAST ≠ 0) :
    (r.calls.countP xio_call.is_remove_in_flight = 1 ∧
     xio_call.xio_connection_remove_in_flight omsg.addr ∈ r.calls ∧
     r.connection.in_flight = c.in_flight.erase omsg.addr) ∧
    (r.omsg.addr = omsg.addr ∧ r.omsg.request = some task.imsg.addr ∧
     r.task.imsg.addr = task.imsg.addr ∧
     r.task.imsg.sn = (task.hdr D).serial_num) ∧
    r.calls.filter xio_call.is_on_msg
      = (if task.status = 0 then [xio_call.on_msg r.omsg] else []) ∧
    r.calls.filter xio_call.is_on_msg_error
      = (if task.status ≠ 0 ∧ c.ses_ops.on_msg_error.isSome = true
          then [xio_call.on_msg_error task.status r.omsg] else []) ∧
    r.task.status = 0 := by
  subst hr
  have htn : task.tlv_type ≠ xio_tlv_type.XIO_ONE_WAY_RSP := by rw [ht]; decide
  have hns := flags_not_standalone _ _ _ hd hL
  have hrm := rsp_removes_last D task hns
  have hLn : ((task.hdr D).flags &&& D.XIO_MSG_RSP_FLAG_LAST != 0) = true := by
    simpa using hL
  have hh := rsp_recv_head_eq D E c task omsg
  have c1 := rsp_head_calls_count D E c task omsg xio_call.is_on_msg
    (fun _ _ => rfl) (fun _ _ => rfl) (fun _ => rfl) (fun _ => rfl)
  have c2 := rsp_head_calls_count D E c task omsg xio_call.is_on_msg_error
    (fun _ _ => rfl) (fun _ _ => rfl) (fun _ => rfl) (fun _ => rfl)
  have c3 := rsp_head_calls_count D E c task omsg xio_call.is_remove_in_flight
    (fun _ _ => rfl) (fun _ _ => rfl) (fun _ => rfl) (fun _ => rfl)
  rw [hrm] at hh c1 c2 c3
  rw [rsp_recv_msg_rsp_eq D E c task sender_task omsg ho htn]
  generalize xio_on_rsp_recv_head D E c task omsg = hd at hh c1 c2 c3 ⊢
  obtain ⟨conn, tk, om, hdr, calls⟩ := hd
  obtain ⟨h1, -, h3, -, -, h6, -, h8, h9, h10, h11⟩ := hh
  simp only at h1 h3 h6 h8 h9 h10 h11 c1 c2 c3
  subst h10
  have hmem : xio_call.xio_connection_remove_in_flight omsg.addr ∈ calls := by
    rw [h11]; simp
  clear h11
  have f1 := rsp_first_calls_count D (task.hdr D) conn tk sender_task om calls
    xio_call.is_on_msg (fun _ => rfl) (fun _ => rfl)
  have f2 := rsp_first_calls_count D (task.hdr D) conn tk sender_task om calls
    xio_call.is_on_msg_error (fun _ => rfl) (fun _ => rfl)
  have f3 := rsp_first_calls_count D (task.hdr D) conn tk sender_task om calls
    xio_call.is_remove_in_flight (fun _ => rfl) (fun _ => rfl)
  have f4 := (rsp_recv_first_stage D (task.hdr D) conn tk sender_task om calls).2.1
  have f5 : ∀ x ∈ calls,
      x ∈ (xio_on_rsp_recv_first D (task.hdr D) conn tk sender_task om calls).2 := by
    intro x hx
    rw [(rsp_recv_first_stage D (task.hdr D) conn tk sender_task om calls).1]
    exact List.mem_append_left _ hx
  have hmem1 := f5 _ hmem
  clear f5 hmem
  rw [c1] at f1
  rw [c2] at f2
  rw [c3] at f3
  generalize xio_on_rsp_recv_first D (task.hdr D) conn tk sender_task om calls = fs
    at f1 f2 f3 f4 hmem1 ⊢
  obtain ⟨om1, calls1⟩ := fs
  simp only at f1 f2 f3 f4 hmem1
  obtain ⟨g1, g2, g3⟩ := rsp_last_calls_filter D (task.hdr D) conn tk om1 calls1 hLn
  obtain ⟨l1, l2, l3, l4⟩ := rsp_recv_last_stage D (task.hdr D) conn tk om1 calls1
  have l4' := l4 hLn
  rw [hLn] at l2
  simp only [xio_call.is_on_msg, xio_call.is_on_msg_error, xio_call.is_remove_in_flight,
    Bool.false_eq_true, and_false, and_self, if_false, if_true] at f1 f2 f3
  have e1 : calls1.filter xio_call.is_on_msg = [] := filter_nil_of_countP _ _ f1
  have e2 : calls1.filter xio_call.is_on_msg_error = [] := filter_nil_of_countP _ _ f2
  have e3 : calls1.countP xio_call.is_remove_in_flight = 1 := f3
  have hmem2 : xio_call.xio_connection_remove_in_flight omsg.addr
      ∈ (xio_on_rsp_recv_last D (task.hdr D) conn tk om1 calls1).2.2 := by
    rw [l1]; exact List.mem_append_left _ hmem1
  refine ⟨⟨?_, ?_, ?_⟩, ⟨?_, ?_, ?_, ?_⟩, ?_, ?_, ?_⟩
  · simp only [List.countP_append, g3, e3]
    simp [List.countP_cons, xio_call.is_remove_in_flight]
  · exact List.mem_append_left _ hmem2
  · simpa using h3
  · rw [l2]; simp only [if_true]; rw [f4, h9]
  · rw [l2]; simp only [if_true]; rw [h8]
  · rw [l3, h8]
  · rw [l3, h8]
  · simp only [List.filter_append, g1, e1, h6]
    by_cases h0 : task.status = 0 <;> simp [h0, List.filter_cons, xio_call.is_on_msg]
  · simp only [List.filter_append, g2, e2, h6, h1]
    by_cases h0 : task.status = 0 <;>
      cases c.ses_ops.on_msg_error <;>
      simp [h0, List.filter_cons, xio_call.is_on_msg_error]
  · exact l4'

/-! ## The read receipt on the request path -/

theorem update_window_calls_filter (p : xio_call → Bool)
    (hp : ∀ a b, p (xio_call.ERROR_LOG_sn a b) = false)
    (c : xio_connection) (hdr : xio_session_hdr) :
    (xio_update_window c hdr).2.filter p = [] :=
  filter_nil_of_countP p _ (update_window_calls_count p hp c hdr)

/-- C17: in `xio_on_req_recv`, restricted to the calls of the read-receipt
protocol (extra reference, user callbacks, standalone receipt, release of a
reference), the handler does the following, in this order. When the header
sets REQUEST_READ_RECEIPT: one `xio_task_addref` on the task, then the user
callbacks, then exactly one call, which is `xio_connection_send_read_receipt`
when the task state is still Delivered after the callback and
`xio_tasks_pool_put` otherwise. When the header does not set the flag: the user
callbacks only (no extra reference, no receipt, no release). -/
theorem C17_read_receipt (D : xio_decls) (E : xio_env) (c : xio_connection)
    (task : xio_task) (r : xio_recv_result)
    (hr : r = xio_on_req_recv D E c task) :
    r.calls.filter xio_call.is_receipt_step
      = (if (task.hdr D).flags &&& D.XIO_MSG_FLAG_REQUEST_READ_RECEIPT ≠ 0
          then [xio_call.xio_task_addref task.addr] else [])
        ++ r.calls.filter xio_call.is_user_callback
        ++ (if (task.hdr D).flags &&& D.XIO_MSG_FLAG_REQUEST_READ_RECEIPT ≠ 0 then
              [if r.task.state = xio_task_state.XIO_TASK_STATE_DELIVERED
                then xio_call.xio_connection_send_read_receipt task.imsg.addr
                else xio_call.xio_tasks_pool_put task.addr]
            else []) := by
  subst hr
  have w1 := update_window_calls_filter xio_call.is_receipt_step (fun _ _ => rfl) c (task.hdr D)
  have w2 := update_window_calls_filter xio_call.is_user_callback (fun _ _ => rfl) c (task.hdr D)
  unfold xio_on_req_recv xio_session_notify_msg_error
  simp only [xio_task.hdr] at w1 w2 ⊢
  have hst : (xio_session_read_header D task).1.status = task.status := rfl
  have had : (xio_session_read_header D task).1.addr = task.addr := rfl
  have him : (xio_session_read_header D task).1.imsg = task.imsg := rfl
  rw [hst, had, him]
  generalize xio_update_window c (xio_session_read_header D task).2 = w at w1 w2 ⊢
  obtain ⟨wc, wl⟩ := w
  simp only at w1 w2 ⊢
  have hb : ((xio_session_read_header D task).2.flags &&&
      D.XIO_MSG_FLAG_REQUEST_READ_RECEIPT != 0)
      = decide ((xio_session_read_header D task).2.flags &&&
          D.XIO_MSG_FLAG_REQUEST_READ_RECEIPT ≠ 0) := by
    by_cases hrc : (xio_session_read_header D task).2.flags &&&
      D.XIO_MSG_FLAG_REQUEST_READ_RECEIPT = 0 <;> simp [hrc]
  rw [hb]
  by_cases h0 : task.status = 0 <;>
    by_cases hrc : (xio_session_read_header D task).2.flags &&&
      D.XIO_MSG_FLAG_REQUEST_READ_RECEIPT = 0 <;>
    cases hcb : (xio_connection_queue_io_task wc task.addr).ses_ops.on_msg_error <;>
    simp only [h0, hrc, hcb, ne_eq, not_true_eq_false, not_false_eq_true, if_false, if_true,
      decide_True, decide_False, Bool.false_eq_true, List.filter_append, w1, w2,
      List.nil_append, List.append_nil] <;>
    split_ifs <;>
    simp [*, List.filter_cons, xio_call.is_receipt_step, xio_call.is_user_callback,
      xio_call.is_task_addref, xio_call.is_send_read_receipt, xio_call.is_tasks_pool_put]

/-- Witness of C14: a standalone receipt (flags FIRST) for message 401 on an
Online connection expecting sn 6. -/
theorem C14_standalone_receipt_witness :
    (ex_connection xio_connection_state.XIO_CONNECTION_STATE_ONLINE 6 0).rsp_open ∧
    ((ex_task xio_tlv_type.XIO_MSG_RSP (ex_hdr_flags 6 1)).hdr ex_decls).flags
      &&& ex_decls.XIO_MSG_RSP_FLAG_LAST = 0 ∧
    (xio_on_rsp_recv ex_decls ex_env
      (ex_connection xio_connection_state.XIO_CONNECTION_STATE_ONLINE 6 0)
      (ex_task xio_tlv_type.XIO_MSG_RSP (ex_hdr_flags 6 1))
      (ex_sender_task 1) (ex_msg 401)).omsg.in_ = (ex_sender_task 1).in_receipt :=
  ⟨by decide, by decide,
   (C14_standalone_receipt ex_decls ex_env
      (ex_connection xio_connection_state.XIO_CONNECTION_STATE_ONLINE 6 0)
      (ex_task xio_tlv_type.XIO_MSG_RSP (ex_hdr_flags 6 1))
      (ex_sender_task 1) (ex_msg 401) _ rfl (by decide) rfl (by decide)
      (by decide) (by decide)).2.2.2.2.2.2⟩

/-- Witness of C15: a full response (flags FIRST and LAST) with status 0. -/
theorem C15_last_response_witness :
    ((ex_task xio_tlv_type.XIO_MSG_RSP (ex_hdr_flags 6 3)).hdr ex_decls).flags
      &&& ex_decls.XIO_MSG_RSP_FLAG_LAST ≠ 0 ∧
    (xio_on_rsp_recv ex_decls ex_env
      (ex_connection xio_connection_state.XIO_CONNECTION_STATE_ONLINE 6 0)
      (ex_task xio_tlv_type.XIO_MSG_RSP (ex_hdr_flags 6 3))
      (ex_sender_task 1) (ex_msg 401)).omsg.request = some 101 :=
  ⟨by decide,
   (C15_last_response ex_decls ex_env
      (ex_connection xio_connection_state.XIO_CONNECTION_STATE_ONLINE 6 0)
      (ex_task xio_tlv_type.XIO_MSG_RSP (ex_hdr_flags 6 3))
      (ex_sender_task 1) (ex_msg 401) _ rfl (by decide) rfl (by decide)
      (by decide)).2.1.2.1⟩

/-- Counterexample to C15 as stated: a response with the LAST flag and
`task->status` 5 on an Online connection whose upper layer installed no
`on_msg_error`: neither `on_msg` nor `on_msg_error` is invoked. -/
theorem C15_counterexample :
    ex_connection_bare.rsp_open ∧
    (({ ex_task xio_tlv_type.XIO_MSG_RSP (ex_hdr_flags 6 2) with status := 5 }
        : xio_task).hdr ex_decls).flags &&& ex_decls.XIO_MSG_RSP_FLAG_LAST ≠ 0 ∧
    (xio_on_rsp_recv ex_decls ex_env ex_connection_bare
      { ex_task xio_tlv_type.XIO_MSG_RSP (ex_hdr_flags 6 2) with status := 5 }
      (ex_sender_task 0) (ex_msg 401)).calls.countP xio_call.is_on_msg = 0 ∧
    (xio_on_rsp_recv ex_decls ex_env ex_connection_bare
      { ex_task xio_tlv_type.XIO_MSG_RSP (ex_hdr_flags 6 2) with status := 5 }
      (ex_sender_task 0) (ex_msg 401)).calls.countP xio_call.is_on_msg_error = 0 := by
  decide

/-- Witness of C16: a one-way response for a message sent without a receipt
request: `on_ow_msg_send_complete` is invoked once. -/
theorem C16_one_way_response_witness :
    (ex_connection xio_connection_state.XIO_CONNECTION_STATE_ONLINE 6 0).rsp_open ∧
    (xio_on_rsp_recv ex_decls ex_env
      (ex_connection xio_connection_state.XIO_CONNECTION_STATE_ONLINE 6 0)
      (ex_task xio_tlv_type.XIO_ONE_WAY_RSP (ex_hdr_flags 6 1))
      (ex_sender_task 0) (ex_msg 401)).connection.tx_queued_msgs = 0 :=
  ⟨by decide,
   (C16_one_way_response ex_decls ex_env
      (ex_connection xio_connection_state.XIO_CONNECTION_STATE_ONLINE 6 0)
      (ex_task xio_tlv_type.XIO_ONE_WAY_RSP (ex_hdr_flags 6 1))
      (ex_sender_task 0) (ex_msg 401) _ rfl (by decide) rfl (by decide)).2.2.2.1⟩

/-- Witness of C17: a request that asks for a read receipt, delivered to an
upper layer that leaves the task Delivered: reference, callback, receipt. -/
theorem C17_read_receipt_witness :
    (xio_on_req_recv ex_decls ex_env
      (ex_connection xio_connection_state.XIO_CONNECTION_STATE_ONLINE 6 0)
      (ex_task xio_tlv_type.XIO_MSG_REQ (ex_hdr_flags 6 1))).calls.filter
        xio_call.is_receipt_step
      = [xio_call.xio_task_addref 100,
         xio_call.on_msg { ex_msg 101 with sn := 7, timestamp := 1000 },
         xio_call.xio_connection_send_read_receipt 101] :=
  (C17_read_receipt ex_decls ex_env
      (ex_connection xio_connection_state.XIO_CONNECTION_STATE_ONLINE 6 0)
      (ex_task xio_tlv_type.XIO_MSG_REQ (ex_hdr_flags 6 1)) _ rfl).trans (by decide)

/-! ## The lower bound of the buffer threshold -/

/-- C11, as the claim words it, fails: before any transport handle exists,
`xio_tcp_set_opt` for TRANS_BUF_THRESHOLD with the value 100, which is below
`XIO_OPTVAL_MIN_TCP_BUF_THRESHOLD` (256), returns 0 and stores 100 in both
`tcp_options.tcp_buf_threshold` and `g_options.trans_buf_threshold`: the
guard of the code rejects a value below 0, not below 256. -/
theorem C11_threshold_below_minimum_accepted :
    (100 : Int) < XIO_OPTVAL_MIN_TCP_BUF_THRESHOLD ∧
    (xio_tcp_set_opt ex_tcp_globals xio_optname.XIO_OPTNAME_TRANS_BUF_THRESHOLD
      100 sizeof_int).2 = 0 ∧
    (xio_tcp_set_opt ex_tcp_globals xio_optname.XIO_OPTNAME_TRANS_BUF_THRESHOLD
      100 sizeof_int).1.tcp_options.tcp_buf_threshold = 100 ∧
    (xio_tcp_set_opt ex_tcp_globals xio_optname.XIO_OPTNAME_TRANS_BUF_THRESHOLD
      100 sizeof_int).1.trans_buf_threshold = 100 := by
  decide

/-- C11 (amended): `xio_tcp_set_opt` accepts a TRANS_BUF_THRESHOLD value `v`
(returns 0) only if `0 <= v <= 65536`, and then `v` is stored in both
`tcp_options.tcp_buf_threshold` and `g_options.trans_buf_threshold`; every
`v` below 0 or above 65536 is rejected with -1 and not stored; and before any
transport handle exists every `v` with `0 <= v <= 65536` of the size of an
`int` is accepted, the values below 256 included. -/
theorem C11_threshold_accepted_range (G : xio_tcp_globals) (v optlen : Int) :
    ((xio_tcp_set_opt G xio_optname.XIO_OPTNAME_TRANS_BUF_THRESHOLD v optlen).2 = 0 →
      0 ≤ v ∧ v ≤ 65536 ∧
      (xio_tcp_set_opt G xio_optname.XIO_OPTNAME_TRANS_BUF_THRESHOLD v
        optlen).1.tcp_options.tcp_buf_threshold = v ∧
      (xio_tcp_set_opt G xio_optname.XIO_OPTNAME_TRANS_BUF_THRESHOLD v
        optlen).1.trans_buf_threshold = v) ∧
    (v < 0 ∨ 65536 < v →
      (xio_tcp_set_opt G xio_optname.XIO_OPTNAME_TRANS_BUF_THRESHOLD v optlen).2 = -1 ∧
      (xio_tcp_set_opt G xio_optname.XIO_OPTNAME_TRANS_BUF_THRESHOLD v
        optlen).1.tcp_options = G.tcp_options ∧
      (xio_tcp_set_opt G xio_optname.XIO_OPTNAME_TRANS_BUF_THRESHOLD v
        optlen).1.trans_buf_threshold = G.trans_buf_threshold) ∧
    (optlen = sizeof_int → G.tcp_options.tcp_buf_attr_rdonly = 0 → 0 ≤ v → v ≤ 65536 →
      (xio_tcp_set_opt G xio_optname.XIO_OPTNAME_TRANS_BUF_THRESHOLD v optlen).2 = 0) := by
  unfold xio_tcp_set_opt
  dsimp only
  by_cases hsz : (!VALIDATE_SZ optlen sizeof_int) = true
  · rw [if_pos hsz]
    refine ⟨fun h => (by cases h), fun _ => ⟨rfl, rfl, rfl⟩, fun h => ?_⟩
    exfalso
    rw [h] at hsz
    simp [VALIDATE_SZ] at hsz
  · rw [if_neg hsz]
    by_cases hro : G.tcp_options.tcp_buf_attr_rdonly ≠ 0
    · rw [if_pos hro]
      exact ⟨fun h => (by cases h), fun _ => ⟨rfl, rfl, rfl⟩, fun _ h => absurd h hro⟩
    · rw [if_neg hro]
      by_cases hv : v < 0 ∨ v > XIO_OPTVAL_MAX_TCP_BUF_THRESHOLD
      · rw [if_pos hv]
        refine ⟨fun h => (by cases h), fun _ => ⟨rfl, rfl, rfl⟩, fun _ _ h0 h1 => ?_⟩
        exfalso
        unfold XIO_OPTVAL_MAX_TCP_BUF_THRESHOLD at hv
        omega
      · rw [if_neg hv]
        have hv2 : 0 ≤ v ∧ v ≤ 65536 := by
          unfold XIO_OPTVAL_MAX_TCP_BUF_THRESHOLD at hv
          omega
        refine ⟨fun _ => ⟨hv2.1, hv2.2, rfl, rfl⟩, fun h => ?_, fun _ _ _ _ => rfl⟩
        exfalso
        omega

/-- C11 at a concrete input: at process start the value 256 is accepted and
stored, and so is the value 0. -/
theorem C11_threshold_accepted_range_witness :
    (xio_tcp_set_opt ex_tcp_globals xio_optname.XIO_OPTNAME_TRANS_BUF_THRESHOLD 256
      sizeof_int).2 = 0 ∧
    (0 ≤ (256 : Int) ∧ (256 : Int) ≤ 65536 ∧
      (xio_tcp_set_opt ex_tcp_globals xio_optname.XIO_OPTNAME_TRANS_BUF_THRESHOLD 256
        sizeof_int).1.tcp_options.tcp_buf_threshold = 256 ∧
      (xio_tcp_set_opt ex_tcp_globals xio_optname.XIO_OPTNAME_TRANS_BUF_THRESHOLD 256
        sizeof_int).1.trans_buf_threshold = 256) ∧
    (xio_tcp_set_opt ex_tcp_globals xio_optname.XIO_OPTNAME_TRANS_BUF_THRESHOLD 0
      sizeof_int).2 = 0 :=
  ⟨(C11_threshold_accepted_range ex_tcp_globals 256 sizeof_int).2.2 rfl (by decide)
      (by decide) (by decide),
   (C11_threshold_accepted_range ex_tcp_globals 256 sizeof_int).1 (by decide),
   (C11_threshold_accepted_range ex_tcp_globals 0 sizeof_int).2.2 rfl (by decide)
      (by decide) (by decide)⟩

/-! ## The lifecycle of a transport handle -/

theorem flush_all_tasks_publish (tcp_hndl : xio_tcp_handle) :
    (xio_tcp_flush_all_tasks tcp_hndl).2.filter xio_tcp_call.is_publish = [] := by
  unfold xio_tcp_flush_all_tasks
  dsimp only
  split_ifs <;> rfl

theorem sock_call_publish (call : xio_tcp_call) (line : xio_tcp_log) (ret : Int × Int)
    (hc : call.is_publish = false) :
    (xio_tcp_sock_call call line ret).filter xio_tcp_call.is_publish = [] := by
  unfold xio_tcp_sock_call
  split_ifs <;> (simp [List.filter_cons, hc]; try rfl)

theorem sock_shutdown_publish (fd : Int) (line : xio_tcp_log) (ret : Int × Int) :
    (xio_tcp_sock_call (xio_tcp_call.shutdown fd) line ret).filter
      xio_tcp_call.is_publish = [] :=
  sock_call_publish _ _ _ rfl

theorem sock_close_publish (fd : Int) (line : xio_tcp_log) (ret : Int × Int) :
    (xio_tcp_sock_call (xio_tcp_call.close fd) line ret).filter
      xio_tcp_call.is_publish = [] :=
  sock_call_publish _ _ _ rfl

theorem filter_ite_nil (p : xio_tcp_call → Bool) (c : Prop) [Decidable c]
    (l : List xio_tcp_call) :
    (if c then l else []).filter p = if c then l.filter p else [] := by
  split <;> rfl

theorem single_del_ev_handlers_publish (V : xio_sys_env) (tcp_hndl : xio_tcp_handle) :
    (xio_tcp_single_sock_del_ev_handlers V tcp_hndl).2.filter
      xio_tcp_call.is_publish = [] := by
  unfold xio_tcp_single_sock_del_ev_handlers
  dsimp only
  split_ifs <;> rfl

theorem dual_del_ev_handlers_publish (V : xio_sys_env) (tcp_hndl : xio_tcp_handle) :
    (xio_tcp_dual_sock_del_ev_handlers V tcp_hndl).2.filter
      xio_tcp_call.is_publish = [] := by
  unfold xio_tcp_dual_sock_del_ev_handlers
  dsimp only
  split_ifs <;> rfl

theorem del_ev_handlers_publish (V : xio_sys_env) (tcp_hndl : xio_tcp_handle) :
    (tcp_hndl.del_ev_handlers V).2.filter xio_tcp_call.is_publish = [] := by
  unfold xio_tcp_handle.del_ev_handlers
  split
  · exact single_del_ev_handlers_publish V tcp_hndl
  · exact dual_del_ev_handlers_publish V tcp_hndl

theorem shutdown_publish (V : xio_sys_env) (tcp_hndl : xio_tcp_handle) :
    (tcp_hndl.shutdown V).2.filter xio_tcp_call.is_publish = [] := by
  unfold xio_tcp_handle.shutdown
  split
  · exact sock_shutdown_publish _ _ _
  · unfold xio_tcp_dual_sock_shutdown
    dsimp only
    rw [List.filter_append, sock_shutdown_publish, sock_shutdown_publish]
    rfl

theorem close_publish (V : xio_sys_env) (tcp_hndl : xio_tcp_handle) :
    (tcp_hndl.close V).2.filter xio_tcp_call.is_publish = [] := by
  unfold xio_tcp_handle.close
  split
  · exact sock_close_publish _ _ _
  · unfold xio_tcp_dual_sock_close
    dsimp only
    rw [List.filter_append, sock_close_publish, sock_close_publish]
    rfl

theorem drain_pending_publish (V : xio_sys_env) (l : List xio_tcp_pending_conn) :
    (xio_tcp_drain_pending V l).filter xio_tcp_call.is_publish = [] := by
  induction l with
  | nil => rfl
  | cons p rest ih =>
    unfold xio_tcp_drain_pending
    rw [List.filter_append, ih]
    split_ifs <;> rfl

theorem post_close_publish (tcp_hndl : Nat) (tmp_rx_buf portal_uri : Option Nat) :
    (xio_tcp_post_close tcp_hndl tmp_rx_buf portal_uri).filter
      xio_tcp_call.is_publish = [] := by
  unfold xio_tcp_post_close
  split_ifs <;> rfl

/-- An active `on_sock_disconnected` on a handle in state Disconnected:
the state becomes Closed and nothing is published. -/
theorem sock_disconnected_active (V : xio_sys_env) (tcp_hndl : xio_tcp_handle)
    (hs : tcp_hndl.state = xio_transport_state.DISCONNECTED) :
    (on_sock_disconnected V tcp_hndl 0).hndl =
      { tcp_hndl with state := xio_transport_state.CLOSED, pending_conns := [] } ∧
    (on_sock_disconnected V tcp_hndl 0).states = [xio_transport_state.CLOSED] ∧
    (on_sock_disconnected V tcp_hndl 0).calls.filter xio_tcp_call.is_publish = [] := by
  unfold on_sock_disconnected
  rw [if_pos hs]
  refine ⟨rfl, rfl, ?_⟩
  dsimp only
  simp only [List.filter_append, filter_ite_nil, close_publish, drain_pending_publish,
    del_ev_handlers_publish, shutdown_publish, ite_self, List.append_nil, ne_eq,
    not_true_eq_false, if_false]
  rfl

/-- The function `on_sock_close` ends in Destroyed and publishes Closed
once. -/
theorem sock_close_spec (tcp_hndl : xio_tcp_handle) :
    (on_sock_close tcp_hndl).hndl =
      { tcp_hndl with tx_ready_tasks_num := 0, state := xio_transport_state.DESTROYED } ∧
    (on_sock_close tcp_hndl).states = [xio_transport_state.DESTROYED] ∧
    (on_sock_close tcp_hndl).calls.filter xio_tcp_call.is_publish =
      [xio_tcp_call.xio_transport_notify_observer xio_transport_event.CLOSED] := by
  refine ⟨rfl, rfl, ?_⟩
  unfold on_sock_close
  dsimp only
  rw [List.filter_append, flush_all_tasks_publish tcp_hndl]
  rfl

/-- The switch of `xio_tcp_close_cb`: the state it leaves, the states it
assigns, what it publishes, and the fields `xio_tcp_post_close` reads. -/
theorem close_cb_switch_spec (V : xio_sys_env) (tcp_hndl : xio_tcp_handle) :
    (xio_tcp_close_cb_switch V tcp_hndl).hndl.state = xio_transport_state.DESTROYED ∧
    (xio_tcp_close_cb_switch V tcp_hndl).hndl.addr = tcp_hndl.addr ∧
    (xio_tcp_close_cb_switch V tcp_hndl).hndl.tmp_rx_buf = tcp_hndl.tmp_rx_buf ∧
    (xio_tcp_close_cb_switch V tcp_hndl).hndl.portal_uri = tcp_hndl.portal_uri ∧
    (xio_tcp_close_cb_switch V tcp_hndl).states =
      (if tcp_hndl.state = xio_transport_state.LISTEN ∨
          tcp_hndl.state = xio_transport_state.CONNECTED then
         [xio_transport_state.DISCONNECTED, xio_transport_state.CLOSED,
          xio_transport_state.DESTROYED]
       else if tcp_hndl.state = xio_transport_state.DISCONNECTED then
         [xio_transport_state.CLOSED, xio_transport_state.DESTROYED]
       else [xio_transport_state.DESTROYED]) ∧
    (xio_tcp_close_cb_switch V tcp_hndl).calls.filter xio_tcp_call.is_publish =
      [xio_tcp_call.xio_transport_notify_observer xio_transport_event.CLOSED] := by
  have hd : ∀ h : xio_tcp_handle, h.state = xio_transport_state.DISCONNECTED →
      (on_sock_close (on_sock_disconnected V h 0).hndl).hndl.state =
        xio_transport_state.DESTROYED ∧
      (on_sock_close (on_sock_disconnected V h 0).hndl).hndl.addr = h.addr ∧
      (on_sock_close (on_sock_disconnected V h 0).hndl).hndl.tmp_rx_buf = h.tmp_rx_buf ∧
      (on_sock_close (on_sock_disconnected V h 0).hndl).hndl.portal_uri = h.portal_uri ∧
      (on_sock_disconnected V h 0).states ++
        (on_sock_close (on_sock_disconnected V h 0).hndl).states =
        [xio_transport_state.CLOSED, xio_transport_state.DESTROYED] ∧
      ((on_sock_disconnected V h 0).calls ++
        (on_sock_close (on_sock_disconnected V h 0).hndl).calls).filter
          xio_tcp_call.is_publish =
        [xio_tcp_call.xio_transport_notify_observer xio_transport_event.CLOSED] := by
    intro h hs
    obtain ⟨d1, d2, d3⟩ := sock_disconnected_active V h hs
    obtain ⟨c1, c2, c3⟩ := sock_close_spec (on_sock_disconnected V h 0).hndl
    refine ⟨?_, ?_, ?_, ?_, ?_, ?_⟩
    · rw [c1]
    · rw [c1, d1]
    · rw [c1, d1]
    · rw [c1, d1]
    · rw [d2, c2]; rfl
    · rw [List.filter_append, d3, c3]; rfl
  unfold xio_tcp_close_cb_switch
  split
  · next hs =>
    have := hd { tcp_hndl with state := xio_transport_state.DISCONNECTED } rfl
    obtain ⟨h1, h2, h3, h4, h5, h6⟩ := this
    refine ⟨h1, h2, h3, h4, ?_, h6⟩
    dsimp only
    rw [if_pos (Or.inl hs), List.append_assoc, h5]; rfl
  · next hs =>
    have := hd { tcp_hndl with state := xio_transport_state.DISCONNECTED } rfl
    obtain ⟨h1, h2, h3, h4, h5, h6⟩ := this
    refine ⟨h1, h2, h3, h4, ?_, h6⟩
    dsimp only
    rw [if_pos (Or.inr hs), List.append_assoc, h5]; rfl
  · next hs =>
    obtain ⟨h1, h2, h3, h4, h5, h6⟩ := hd tcp_hndl hs
    refine ⟨h1, h2, h3, h4, ?_, h6⟩
    dsimp only
    rw [h5, hs]; rfl
  · next hs =>
    obtain ⟨c1, c2, c3⟩ := sock_close_spec tcp_hndl
    refine ⟨by rw [c1], by rw [c1], by rw [c1], by rw [c1], ?_, c3⟩
    rw [c2, hs]; rfl
  · next h1 h2 h3 h4 =>
    refine ⟨rfl, rfl, rfl, rfl, ?_, rfl⟩
    dsimp only
    rw [if_neg (by rintro (h | h) <;> contradiction), if_neg h3]

/-- C18 (as amended): for a handle in any state, `xio_tcp_close_cb` leaves the
handle in state Destroyed. From Listen or Connected it assigns Disconnected,
Closed, Destroyed in this order, from Disconnected it assigns Closed, then
Destroyed, from Closed it assigns Destroyed, and from every other state
(Connecting among them) it assigns Destroyed at once, passing through neither
Disconnected nor Closed. In every case the only event it publishes is Closed,
once, and after that it runs `xio_tcp_post_close`, which publishes nothing. -/
theorem C18_close_cascade (V : xio_sys_env) (tcp_hndl : xio_tcp_handle) :
    (xio_tcp_close_cb V tcp_hndl).hndl.state = xio_transport_state.DESTROYED ∧
    (xio_tcp_close_cb V tcp_hndl).states =
      (if tcp_hndl.state = xio_transport_state.LISTEN ∨
          tcp_hndl.state = xio_transport_state.CONNECTED then
         [xio_transport_state.DISCONNECTED, xio_transport_state.CLOSED,
          xio_transport_state.DESTROYED]
       else if tcp_hndl.state = xio_transport_state.DISCONNECTED then
         [xio_transport_state.CLOSED, xio_transport_state.DESTROYED]
       else [xio_transport_state.DESTROYED]) ∧
    (xio_tcp_close_cb V tcp_hndl).calls.filter xio_tcp_call.is_publish =
      [xio_tcp_call.xio_transport_notify_observer xio_transport_event.CLOSED] ∧
    xio_tcp_call.xio_transport_notify_observer xio_transport_event.DISCONNECTED ∉
      (xio_tcp_close_cb V tcp_hndl).calls ∧
    (xio_tcp_close_cb V tcp_hndl).calls =
      (xio_tcp_close_cb_switch V tcp_hndl).calls ++
        xio_tcp_post_close tcp_hndl.addr tcp_hndl.tmp_rx_buf tcp_hndl.portal_uri ∧
    xio_tcp_call.xio_transport_notify_observer xio_transport_event.CLOSED ∈
      (xio_tcp_close_cb_switch V tcp_hndl).calls ∧
    (xio_tcp_post_close tcp_hndl.addr tcp_hndl.tmp_rx_buf tcp_hndl.portal_uri).filter
      xio_tcp_call.is_publish = [] := by
  obtain ⟨s1, s2, s3, s4, s5, s6⟩ := close_cb_switch_spec V tcp_hndl
  have hcalls : (xio_tcp_close_cb V tcp_hndl).calls =
      (xio_tcp_close_cb_switch V tcp_hndl).calls ++
        xio_tcp_post_close tcp_hndl.addr tcp_hndl.tmp_rx_buf tcp_hndl.portal_uri := by
    unfold xio_tcp_close_cb
    dsimp only
    rw [if_pos s1, s2, s3, s4]
  have hpub : (xio_tcp_close_cb V tcp_hndl).calls.filter xio_tcp_call.is_publish =
      [xio_tcp_call.xio_transport_notify_observer xio_transport_event.CLOSED] := by
    rw [hcalls, List.filter_append, s6, post_close_publish]; rfl
  refine ⟨?_, ?_, hpub, ?_, hcalls, ?_, post_close_publish _ _ _⟩
  · unfold xio_tcp_close_cb
    dsimp only
    rw [if_pos s1]
    exact s1
  · unfold xio_tcp_close_cb
    dsimp only
    rw [if_pos s1]
    exact s5
  · intro hmem
    have : xio_tcp_call.xio_transport_notify_observer xio_transport_event.DISCONNECTED ∈
        (xio_tcp_close_cb V tcp_hndl).calls.filter xio_tcp_call.is_publish :=
      List.mem_filter.mpr ⟨hmem, rfl⟩
    rw [hpub] at this
    simp at this
  · have : xio_tcp_call.xio_transport_notify_observer xio_transport_event.CLOSED ∈
        (xio_tcp_close_cb_switch V tcp_hndl).calls.filter xio_tcp_call.is_publish := by
      rw [s6]; exact List.mem_singleton.mpr rfl
    exact (List.mem_filter.mp this).1

/-- C18, the claim as stated fails: a handle in state Connecting goes to
Destroyed at once; Disconnected and Closed, the stages that remain for it,
are skipped. -/
theorem C18_counterexample :
    (xio_tcp_close_cb ex_sys_env (ex_tcp_handle xio_transport_state.CONNECTING)).states =
      [xio_transport_state.DESTROYED] ∧
    xio_transport_state.DISCONNECTED ∉
      (xio_tcp_close_cb ex_sys_env (ex_tcp_handle xio_transport_state.CONNECTING)).states ∧
    xio_transport_state.CLOSED ∉
      (xio_tcp_close_cb ex_sys_env (ex_tcp_handle xio_transport_state.CONNECTING)).states := by
  decide

/-! ## Completion of a connect -/

theorem add_ev_handlers_publish (V : xio_sys_env) (tcp_hndl : xio_tcp_handle) :
    (tcp_hndl.add_ev_handlers V).2.filter xio_tcp_call.is_publish = [] := by
  unfold xio_tcp_handle.add_ev_handlers
  split
  · unfold xio_tcp_single_sock_add_ev_handlers
    dsimp only
    split_ifs <;> rfl
  · unfold xio_tcp_dual_sock_add_ev_handlers
    dsimp only
    split_ifs <;> rfl

theorem conn_cleanup_publish (tcp_hndl : xio_tcp_handle) (so_error : Int)
    (calls : List xio_tcp_call) (hc : calls.filter xio_tcp_call.is_publish = []) :
    (xio_tcp_conn_cleanup tcp_hndl so_error calls).calls.filter xio_tcp_call.is_publish =
      [xio_tcp_call.xio_transport_notify_observer_error
        (if so_error ≠ 0 then xio_reason.errno so_error
         else xio_reason.XIO_E_CONNECT_ERROR)] := by
  unfold xio_tcp_conn_cleanup
  dsimp only
  rw [List.filter_append, hc]
  rfl

theorem conn_head_publish (V : xio_sys_env) (cfd : Int) :
    ([xio_tcp_call.xio_context_del_ev_handler cfd, xio_tcp_call.getsockopt cfd] ++
      (if (V.getsockopt cfd).1 ≠ 0 then
         [xio_tcp_call.ERROR_LOG xio_tcp_log.getsockopt_failed] else [])).filter
      xio_tcp_call.is_publish = [] := by
  split_ifs <;> rfl

/-- C19: every run of `xio_tcp_conn_established_helper` publishes exactly one
event. It is Established when every step succeeds (the connect handler is
removed, `getsockopt` succeeds with `SO_ERROR` zero, no epoll error bit is
set, the readiness handlers are installed, the peer address is captured, the
handshake is sent); otherwise it is the error event, whose reason is the
socket error when that is not zero and the connect-error code when it is. A
failing `getsockopt` is taken to leave a non-zero `errno`. -/
theorem C19_connect_one_event (V : xio_sys_env) (fd : Int) (tcp_hndl : xio_tcp_handle)
    (msg : xio_tcp_connect_msg) (error : Int)
    (herrno : (V.getsockopt tcp_hndl.sock_cfd).1 ≠ 0 →
      (V.getsockopt tcp_hndl.sock_cfd).2.2 ≠ 0) :
    (xio_tcp_conn_established_helper V fd tcp_hndl msg error).calls.filter
        xio_tcp_call.is_publish =
      [if V.connect_ok tcp_hndl error then
         xio_tcp_call.xio_transport_notify_observer xio_transport_event.ESTABLISHED
       else
         xio_tcp_call.xio_transport_notify_observer_error
           (if V.socket_error tcp_hndl error ≠ 0 then
              xio_reason.errno (V.socket_error tcp_hndl error)
            else xio_reason.XIO_E_CONNECT_ERROR)] := by
  have hp := add_ev_handlers_publish V tcp_hndl
  have hh : ∀ l : List xio_tcp_call, l.filter xio_tcp_call.is_publish = [] →
      (([xio_tcp_call.xio_context_del_ev_handler tcp_hndl.sock_cfd,
          xio_tcp_call.getsockopt tcp_hndl.sock_cfd] ++
        (if (V.getsockopt tcp_hndl.sock_cfd).1 ≠ 0 then
          [xio_tcp_call.ERROR_LOG xio_tcp_log.getsockopt_failed] else [])) ++ l).filter
        xio_tcp_call.is_publish = [] := by
    intro l hl
    rw [List.filter_append, conn_head_publish, hl]
    rfl
  have hh2 : ∀ l1 l2 : List xio_tcp_call, l1.filter xio_tcp_call.is_publish = [] →
      l2.filter xio_tcp_call.is_publish = [] →
      (([xio_tcp_call.xio_context_del_ev_handler tcp_hndl.sock_cfd,
          xio_tcp_call.getsockopt tcp_hndl.sock_cfd] ++
        (if (V.getsockopt tcp_hndl.sock_cfd).1 ≠ 0 then
          [xio_tcp_call.ERROR_LOG xio_tcp_log.getsockopt_failed] else [])) ++ l1 ++ l2).filter
        xio_tcp_call.is_publish = [] := by
    intro l1 l2 hl1 hl2
    rw [List.filter_append, hh l1 hl1, hl2]
    rfl
  unfold xio_tcp_conn_established_helper
  dsimp only
  by_cases h1 : V.xio_context_del_ev_handler tcp_hndl.sock_cfd = 0
  · rw [if_neg (not_not.mpr h1)]
    by_cases h2 : (if (V.getsockopt tcp_hndl.sock_cfd).1 ≠ 0 then
        (V.getsockopt tcp_hndl.sock_cfd).2.2 else (V.getsockopt tcp_hndl.sock_cfd).2.1) ≠ 0 ∨
        error ≠ 0
    · have hnok : ¬ V.connect_ok tcp_hndl error := by
        rintro ⟨_, g1, g2, g3, _⟩
        rcases h2 with h2 | h2
        · rw [if_neg (not_not.mpr g1)] at h2; exact h2 g2
        · exact h2 g3
      have hse : V.socket_error tcp_hndl error =
          (if (V.getsockopt tcp_hndl.sock_cfd).1 ≠ 0 then
            (V.getsockopt tcp_hndl.sock_cfd).2.2
           else (V.getsockopt tcp_hndl.sock_cfd).2.1) := by
        unfold xio_sys_env.socket_error xio_sys_env.so_error
        rw [if_neg (not_not.mpr h1)]
        by_cases h3 : (if (V.getsockopt tcp_hndl.sock_cfd).1 ≠ 0 then
          (V.getsockopt tcp_hndl.sock_cfd).2.2 else (V.getsockopt tcp_hndl.sock_cfd).2.1) ≠ 0
        · rw [if_pos h3]
        · have he : error ≠ 0 := h2.resolve_left h3
          have hC : ¬ (error = 0 ∧ (tcp_hndl.add_ev_handlers V).1 = 0 ∧
              (V.getpeername tcp_hndl.sock_cfd).1 ≠ 0) := fun h => he h.1
          rw [if_neg h3, if_neg hC]
          exact (not_not.mp h3).symm
      rw [if_pos h2, conn_cleanup_publish, if_neg hnok, hse]
      exact hh _ rfl
    · rw [if_neg h2]
      obtain ⟨h2a, h2b⟩ := not_or.mp h2
      have he : error = 0 := not_not.mp h2b
      have hg1 : (V.getsockopt tcp_hndl.sock_cfd).1 = 0 := by
        by_contra hne
        rw [if_pos hne] at h2a
        exact h2a (herrno hne)
      have hg2 : (V.getsockopt tcp_hndl.sock_cfd).2.1 = 0 := by
        rw [if_neg (not_not.mpr hg1)] at h2a
        exact not_not.mp h2a
      have hso : V.so_error tcp_hndl.sock_cfd = 0 := by
        unfold xio_sys_env.so_error
        rw [if_neg (not_not.mpr hg1)]; exact hg2
      have hso2 : (if (V.getsockopt tcp_hndl.sock_cfd).1 ≠ 0 then
          (V.getsockopt tcp_hndl.sock_cfd).2.2 else (V.getsockopt tcp_hndl.sock_cfd).2.1) = 0 :=
        not_not.mp h2a
      have hse : V.socket_error tcp_hndl error =
          (if error = 0 ∧ (tcp_hndl.add_ev_handlers V).1 = 0 ∧
              (V.getpeername tcp_hndl.sock_cfd).1 ≠ 0 then
            (V.getpeername tcp_hndl.sock_cfd).2.1 else 0) := by
        unfold xio_sys_env.socket_error
        have h00 : ¬ ((0 : Int) ≠ 0) := fun h => h rfl
        rw [if_neg (not_not.mpr h1), hso, if_neg h00]
      rw [hse]
      by_cases h3 : (tcp_hndl.add_ev_handlers V).1 = 0
      · rw [if_neg (not_not.mpr h3)]
        by_cases h4 : (V.getpeername tcp_hndl.sock_cfd).1 = 0
        · rw [if_neg (not_not.mpr h4)]
          have hC : ¬ (error = 0 ∧ (tcp_hndl.add_ev_handlers V).1 = 0 ∧
              (V.getpeername tcp_hndl.sock_cfd).1 ≠ 0) := fun h => h.2.2 h4
          by_cases h5 : V.xio_tcp_send_connect_msg tcp_hndl.sock_cfd = 0
          · rw [if_neg (not_not.mpr h5)]
            have hok : V.connect_ok tcp_hndl error := ⟨h1, hg1, hg2, he, h3, h4, h5⟩
            rw [if_pos hok]
            dsimp only
            rw [List.filter_append, hh2 _ [xio_tcp_call.getpeername tcp_hndl.sock_cfd,
              xio_tcp_call.xio_tcp_send_connect_msg tcp_hndl.sock_cfd msg] hp rfl]
            rfl
          · have hnok : ¬ V.connect_ok tcp_hndl error := fun h => h5 h.2.2.2.2.2.2
            rw [if_pos h5, conn_cleanup_publish, if_neg hnok, hso2, if_neg hC]
            exact hh2 _ _ hp rfl
        · have hnok : ¬ V.connect_ok tcp_hndl error := fun h => h4 h.2.2.2.2.2.1
          have hC : error = 0 ∧ (tcp_hndl.add_ev_handlers V).1 = 0 ∧
              (V.getpeername tcp_hndl.sock_cfd).1 ≠ 0 := ⟨he, h3, h4⟩
          rw [if_pos h4, conn_cleanup_publish, if_neg hnok, if_pos hC]
          exact hh2 _ _ hp rfl
      · have hnok : ¬ V.connect_ok tcp_hndl error := fun h => h3 h.2.2.2.2.1
        have hC : ¬ (error = 0 ∧ (tcp_hndl.add_ev_handlers V).1 = 0 ∧
            (V.getpeername tcp_hndl.sock_cfd).1 ≠ 0) := fun h => h3 h.2.1
        rw [if_pos h3, conn_cleanup_publish, if_neg hnok, hso2, if_neg hC]
        exact hh2 _ _ hp rfl
  · have hnok : ¬ V.connect_ok tcp_hndl error := fun h => h1 h.1
    have hse : V.socket_error tcp_hndl error = 0 := by
      unfold xio_sys_env.socket_error
      rw [if_pos h1]
    rw [if_pos h1, conn_cleanup_publish, if_neg hnok, hse]
    rfl

/-- C19 at a concrete input: every call succeeds, Established is the one
event. -/
theorem C19_connect_one_event_witness :
    (xio_tcp_conn_established_helper ex_sys_env 10
        (ex_tcp_handle xio_transport_state.CONNECTING) ⟨2, 4001, 0⟩ 0).calls.filter
        xio_tcp_call.is_publish =
      [xio_tcp_call.xio_transport_notify_observer xio_transport_event.ESTABLISHED] :=
  C19_connect_one_event ex_sys_env 10 (ex_tcp_handle xio_transport_state.CONNECTING)
    ⟨2, 4001, 0⟩ 0 (by decide)

/-! ## Pending connections: the receive loop and the pairing scan -/

theorem recv_end_frame (p : xio_tcp_pending_conn) (calls : List xio_tcp_call)
    (e : xio_recv_end) (he : e ≠ xio_recv_end.complete)
    (hc : xio_new_connection ∉ calls) :
    (p, calls, e).1.addr = p.addr ∧ (p, calls, e).1.fd = p.fd ∧ (p, calls, e).1.sa = p.sa ∧
    ((p, calls, e).2.2 = xio_recv_end.complete → (p, calls, e).1.waiting_for_bytes = 0) ∧
    xio_new_connection ∉ (p, calls, e).2.1 :=
  ⟨rfl, rfl, rfl, fun h => absurd h he, hc⟩

theorem recv_loop_frame (S : xio_sys_decls) (fd : Int) (rets : List xio_recv_ret) :
    ∀ p : xio_tcp_pending_conn,
      (xio_tcp_recv_loop S fd rets p).1.addr = p.addr ∧
      (xio_tcp_recv_loop S fd rets p).1.fd = p.fd ∧
      (xio_tcp_recv_loop S fd rets p).1.sa = p.sa ∧
      ((xio_tcp_recv_loop S fd rets p).2.2 = xio_recv_end.complete →
        (xio_tcp_recv_loop S fd rets p).1.waiting_for_bytes = 0) ∧
      xio_new_connection ∉ (xio_tcp_recv_loop S fd rets p).2.1 := by
  induction rets with
  | nil =>
    intro p
    unfold xio_tcp_recv_loop
    split
    · next h => exact ⟨rfl, rfl, rfl, fun _ => h, by simp⟩
    · exact recv_end_frame p _ _ (by decide) (by simp [xio_new_connection])
  | cons ret rest ih =>
    intro p
    unfold xio_tcp_recv_loop
    split
    · next h => exact ⟨rfl, rfl, rfl, fun _ => h, by simp⟩
    · split
      · dsimp only
        split
        · obtain ⟨h1, h2, h3, h4, h5⟩ := ih
            { p with
              msg := mem_store p.msg (sizeof_xio_tcp_connect_msg - p.waiting_for_bytes)
                (List.take p.waiting_for_bytes ‹List Nat›)
              waiting_for_bytes := p.waiting_for_bytes -
                (List.take p.waiting_for_bytes ‹List Nat›).length }
          refine ⟨h1, h2, h3, h4, ?_⟩
          intro hmem
          rcases List.mem_cons.mp hmem with h | h
          · cases h
          · exact h5 h
        · exact recv_end_frame p _ _ (by decide) (by simp [xio_new_connection])
      · exact recv_end_frame p _ _ (by decide) (by simp [xio_new_connection])
      · split
        · exact recv_end_frame p _ _ (by decide) (by simp [xio_new_connection])
        · exact recv_end_frame p _ _ (by decide) (by simp [xio_new_connection])

/-- What the pairing scan has tested on the entry it selects. -/
theorem pairing_scan_found (S : xio_sys_decls) (p : xio_tcp_pending_conn)
    (l : List xio_tcp_pending_conn) :
    (∀ q, (xio_tcp_pairing_scan S p l).2 = xio_scan_end.found q →
      q ∈ l ∧ q.waiting_for_bytes = 0 ∧ xio_tcp_cross_checked S p q) ∧
    xio_new_connection ∉ (xio_tcp_pairing_scan S p l).1 := by
  induction l with
  | nil =>
    constructor
    · intro q h
      simp [xio_tcp_pairing_scan] at h
    · simp [xio_tcp_pairing_scan]
  | cons pconn rest ih =>
    obtain ⟨ih1, ih2⟩ := ih
    have hrest : ∀ q, (xio_tcp_pairing_scan S p rest).2 = xio_scan_end.found q →
        q ∈ pconn :: rest ∧ q.waiting_for_bytes = 0 ∧ xio_tcp_cross_checked S p q := by
      intro q h
      obtain ⟨h1, h2, h3⟩ := ih1 q h
      exact ⟨List.mem_cons_of_mem _ h1, h2, h3⟩
    unfold xio_tcp_pairing_scan
    split
    · exact ⟨hrest, ih2⟩
    · next hw =>
      have hw0 : pconn.waiting_for_bytes = 0 := not_not.mp hw
      split
      · next hf =>
        split
        · next hm =>
          split
          · constructor
            · intro q h; cases h
            · simp [xio_new_connection]
          · next hx =>
            constructor
            · intro q h
              have hq : pconn = q := by
                simpa using h
              subst hq
              exact ⟨List.mem_cons_self _ _, hw0,
                Or.inl ⟨hf, hm.2, hm.1, not_not.mp hx⟩⟩
            · simp
        · exact ⟨hrest, ih2⟩
      · next hf =>
        split
        · next hf6 =>
          split
          · next hm =>
            split
            · constructor
              · intro q h; cases h
              · simp [xio_new_connection]
            · next hx =>
              constructor
              · intro q h
                have hq : pconn = q := by
                  simpa using h
                subst hq
                exact ⟨List.mem_cons_self _ _, hw0,
                  Or.inr ⟨hf, hf6, hm.2, hm.1, not_not.mp hx⟩⟩
              · simp
          · exact ⟨hrest, ih2⟩
        · dsimp only
          refine ⟨hrest, ?_⟩
          intro hmem
          rcases List.mem_cons.mp hmem with h | h
          · cases h
          · exact ih2 h

theorem new_not_mem_of_publish_nil (l : List xio_tcp_call)
    (h : l.filter xio_tcp_call.is_publish = []) : xio_new_connection ∉ l := by
  intro hmem
  have : xio_new_connection ∈ l.filter xio_tcp_call.is_publish :=
    List.mem_filter.mpr ⟨hmem, rfl⟩
  rw [h] at this
  cases this

theorem del_ev_handler_new (V : xio_sys_env) (fd : Int) :
    xio_new_connection ∉ xio_tcp_del_ev_handler V fd := by
  apply new_not_mem_of_publish_nil
  unfold xio_tcp_del_ev_handler
  split_ifs <;> rfl

theorem pending_cleanup3_new (fd cfd dfd : Int) (is_single : Bool)
    (child_hndl : Option xio_tcp_child) :
    xio_new_connection ∉ xio_tcp_pending_cleanup3 fd cfd dfd is_single child_hndl := by
  apply new_not_mem_of_publish_nil
  unfold xio_tcp_pending_cleanup3
  rw [List.filter_append]
  have h1 : (if is_single = true then [xio_tcp_call.close fd]
      else [xio_tcp_call.close cfd, xio_tcp_call.close dfd]).filter
        xio_tcp_call.is_publish = [] := by
    split_ifs <;> rfl
  rw [h1]
  cases child_hndl with
  | none => rfl
  | some child => exact post_close_publish _ _ _

theorem pending_cleanup2_new (V : xio_sys_env) (fd : Int) :
    xio_new_connection ∉ xio_tcp_pending_cleanup2 V fd := by
  unfold xio_tcp_pending_cleanup2
  intro h
  rcases List.mem_append.mp h with h | h
  · exact del_ev_handler_new V fd h
  · exact pending_cleanup3_new _ _ _ _ _ h

theorem pending_cleanup1_spec (V : xio_sys_env) (G : xio_tcp_globals) (fd : Int)
    (parent_hndl : xio_tcp_handle) (pending_conn : xio_tcp_pending_conn)
    (calls : List xio_tcp_call) (hc : xio_new_connection ∉ calls) :
    (xio_tcp_pending_cleanup1 V G fd parent_hndl pending_conn calls).child_hndl = none ∧
    xio_new_connection ∉
      (xio_tcp_pending_cleanup1 V G fd parent_hndl pending_conn calls).calls := by
  refine ⟨rfl, ?_⟩
  unfold xio_tcp_pending_cleanup1
  dsimp only
  intro h
  rcases List.mem_append.mp h with h | h
  · rcases List.mem_append.mp h with h | h
    · exact hc h
    · simp [xio_new_connection] at h
  · exact pending_cleanup2_new V fd h

/-- The part from `single_sock` on: a new connection is published exactly
when a child is left, and then `ctl_conn` had not been freed, the fds of the
child are those chosen, and `ctl_conn` is off the pending list. -/
theorem pending_single_sock_spec (T : xio_tcp_decls) (V : xio_sys_env) (E : xio_pending_env)
    (G : xio_tcp_globals) (fd : Int) (parent_hndl : xio_tcp_handle) (transport ctx : Nat)
    (ctl_conn : xio_tcp_pending_conn) (cfd dfd : Int) (is_single : Bool)
    (freed : Option Nat) (calls : List xio_tcp_call) (hc : xio_new_connection ∉ calls) :
    (xio_new_connection ∈ (xio_tcp_pending_single_sock T V E G fd parent_hndl transport ctx
        ctl_conn cfd dfd is_single freed calls).calls →
      (xio_tcp_pending_single_sock T V E G fd parent_hndl transport ctx
        ctl_conn cfd dfd is_single freed calls).child_hndl ≠ none) ∧
    ∀ child, (xio_tcp_pending_single_sock T V E G fd parent_hndl transport ctx
        ctl_conn cfd dfd is_single freed calls).child_hndl = some child →
      freed ≠ some ctl_conn.addr ∧
      xio_new_connection ∈ (xio_tcp_pending_single_sock T V E G fd parent_hndl transport ctx
        ctl_conn cfd dfd is_single freed calls).calls ∧
      (xio_tcp_pending_single_sock T V E G fd parent_hndl transport ctx
        ctl_conn cfd dfd is_single freed calls).fault = none ∧
      child.sock_cfd = (if is_single then fd else cfd) ∧
      child.sock_dfd = (if is_single then fd else dfd) ∧
      child.hndl.sock_ops = some (if is_single then xio_tcp_socket_ops.single_sock_ops
        else xio_tcp_socket_ops.dual_sock_ops) ∧
      (xio_tcp_pending_single_sock T V E G fd parent_hndl transport ctx
        ctl_conn cfd dfd is_single freed calls).parent_hndl.pending_conns =
        xio_tcp_list_del parent_hndl.pending_conns ctl_conn.addr := by
  unfold xio_tcp_pending_single_sock
  split
  · exact ⟨fun h => absurd h hc, fun child h => by cases h⟩
  · next hfreed =>
    dsimp only
    have hc2 : xio_new_connection ∉ calls ++ xio_tcp_del_ev_handler V ctl_conn.fd := by
      intro h
      rcases List.mem_append.mp h with h | h
      · exact hc h
      · exact del_ev_handler_new _ _ h
    split
    · refine ⟨?_, fun child h => by cases h⟩
      intro h
      exfalso
      rcases List.mem_append.mp h with h | h
      · rcases List.mem_append.mp h with h | h
        · exact hc2 h
        · simp [xio_new_connection] at h
      · exact pending_cleanup3_new _ _ _ _ _ h
    · next hndl hcreate =>
      split
      · refine ⟨?_, fun child h => by cases h⟩
        intro h
        exfalso
        rcases List.mem_append.mp h with h | h
        · rcases List.mem_append.mp h with h | h
          · rcases List.mem_append.mp h with h | h
            · exact hc2 h
            · simp [xio_new_connection] at h
          · simp [xio_new_connection] at h
        · exact pending_cleanup3_new _ _ _ _ _ h
      · refine ⟨fun _ h => (by cases h), ?_⟩
        intro child hchild
        have hch : child = (if is_single = true then
            ({ hndl := { hndl with sock_ops := some xio_tcp_socket_ops.single_sock_ops }
               addr := E.child, peer_addr := ctl_conn.sa, sock_cfd := fd, sock_dfd := fd
               tmp_rx_buf := none } : xio_tcp_child)
          else
            { hndl := { hndl with sock_ops := some xio_tcp_socket_ops.dual_sock_ops }
              addr := E.child, peer_addr := ctl_conn.sa, sock_cfd := cfd, sock_dfd := dfd
              tmp_rx_buf := E.tmp_rx_buf }) := by
          injection hchild with h
          exact h.symm
        refine ⟨hfreed, ?_, rfl, ?_, ?_, ?_, rfl⟩
        · exact List.mem_append_right _ (List.mem_singleton.mpr rfl)
        · rw [hch]; cases is_single <;> rfl
        · rw [hch]; cases is_single <;> rfl
        · rw [hch]; cases is_single <;> rfl

theorem list_del_comm (l : List xio_tcp_pending_conn) (a b : Nat) :
    xio_tcp_list_del (xio_tcp_list_del l a) b = xio_tcp_list_del (xio_tcp_list_del l b) a := by
  unfold xio_tcp_list_del
  rw [List.filter_filter, List.filter_filter]
  congr 1
  funext x
  exact Bool.and_comm _ _

theorem mem_list_del (l : List xio_tcp_pending_conn) (a : Nat) (x : xio_tcp_pending_conn) :
    x ∈ xio_tcp_list_del l a ↔ x ∈ l ∧ x.addr ≠ a := by
  unfold xio_tcp_list_del
  simp [List.mem_filter]

/-- The part after the receive loop: a new connection is published exactly
when a child is left; the child of a single-socket handshake has the fd of
the entry twice, the child of any other handshake has the fds of the entry
and of the partner the scan selected, placed by the `sock_type` of the entry
alone, and both are off the pending list. -/
theorem pending_pair_spec (T : xio_tcp_decls) (S : xio_sys_decls) (V : xio_sys_env)
    (E : xio_pending_env) (G : xio_tcp_globals) (fd : Int) (parent_hndl : xio_tcp_handle)
    (transport ctx : Nat) (p : xio_tcp_pending_conn) (calls : List xio_tcp_call)
    (hc : xio_new_connection ∉ calls) :
    (xio_new_connection ∈
        (xio_tcp_pending_pair T S V E G fd parent_hndl transport ctx p calls).calls →
      (xio_tcp_pending_pair T S V E G fd parent_hndl transport ctx p calls).child_hndl ≠
        none) ∧
    ∀ child,
      (xio_tcp_pending_pair T S V E G fd parent_hndl transport ctx p calls).child_hndl =
        some child →
      xio_new_connection ∈
        (xio_tcp_pending_pair T S V E G fd parent_hndl transport ctx p calls).calls ∧
      (xio_tcp_pending_pair T S V E G fd parent_hndl transport ctx p calls).fault = none ∧
      (((p.connect_msg S).sock_type = XIO_TCP_SINGLE_SOCK ∧
          child.sock_cfd = fd ∧ child.sock_dfd = fd ∧
          child.hndl.sock_ops = some xio_tcp_socket_ops.single_sock_ops ∧
          (xio_tcp_pending_pair T S V E G fd parent_hndl transport ctx p
            calls).parent_hndl.pending_conns =
            xio_tcp_list_del parent_hndl.pending_conns p.addr) ∨
        ((p.connect_msg S).sock_type ≠ XIO_TCP_SINGLE_SOCK ∧
          child.hndl.sock_ops = some xio_tcp_socket_ops.dual_sock_ops ∧
          ∃ q, (xio_tcp_pairing_scan S p parent_hndl.pending_conns).2 =
              xio_scan_end.found q ∧
            q.addr ≠ p.addr ∧
            (((p.connect_msg S).sock_type = XIO_TCP_CTL_SOCK ∧
                child.sock_cfd = p.fd ∧ child.sock_dfd = q.fd) ∨
              ((p.connect_msg S).sock_type = XIO_TCP_DATA_SOCK ∧
                child.sock_cfd = q.fd ∧ child.sock_dfd = p.fd)) ∧
            (xio_tcp_pending_pair T S V E G fd parent_hndl transport ctx p
              calls).parent_hndl.pending_conns =
              xio_tcp_list_del (xio_tcp_list_del parent_hndl.pending_conns p.addr) q.addr)) := by
  unfold xio_tcp_pending_pair
  split
  · next hs =>
    obtain ⟨h1, h2⟩ := pending_single_sock_spec T V E G fd parent_hndl transport ctx p 0 0
      true none calls hc
    refine ⟨h1, ?_⟩
    intro child hchild
    obtain ⟨_, k2, k3, k4, k5, k6, k7⟩ := h2 child hchild
    exact ⟨k2, k3, Or.inl ⟨hs, k4, k5, k6, k7⟩⟩
  · next hs =>
    dsimp only
    have hscan := pairing_scan_found S p parent_hndl.pending_conns
    have hc1 : xio_new_connection ∉
        calls ++ (xio_tcp_pairing_scan S p parent_hndl.pending_conns).1 := by
      intro h
      rcases List.mem_append.mp h with h | h
      · exact hc h
      · exact hscan.2 h
    split
    · exact ⟨fun h => absurd h hc1, fun child h => by cases h⟩
    · exact ⟨fun h => absurd h hc1, fun child h => by cases h⟩
    · next q hq =>
      split
      · exact ⟨fun h => absurd h hc1, fun child h => by cases h⟩
      · next hty =>
        have hty2 : (p.connect_msg S).sock_type = XIO_TCP_CTL_SOCK ∨
            (p.connect_msg S).sock_type = XIO_TCP_DATA_SOCK := by
          by_cases hctl : (p.connect_msg S).sock_type = XIO_TCP_CTL_SOCK
          · exact Or.inl hctl
          · right
            by_contra hd
            exact hty ⟨hctl, hd⟩
        rcases hty2 with hctl | hdata
        · simp only [if_pos hctl]
          have hc2 : xio_new_connection ∉
              calls ++ (xio_tcp_pairing_scan S p parent_hndl.pending_conns).1 ++
                xio_tcp_del_ev_handler V q.fd ++ [xio_tcp_call.ufree (some q.addr)] := by
            intro h
            rcases List.mem_append.mp h with h | h
            · rcases List.mem_append.mp h with h | h
              · exact hc1 h
              · exact del_ev_handler_new _ _ h
            · simp [xio_new_connection] at h
          obtain ⟨h1, h2⟩ := pending_single_sock_spec T V E G fd
            { parent_hndl with
              pending_conns := xio_tcp_list_del parent_hndl.pending_conns q.addr }
            transport ctx p p.fd q.fd false (some q.addr) _ hc2
          refine ⟨h1, ?_⟩
          intro child hchild
          obtain ⟨k1, k2, k3, k4, k5, k6, k7⟩ := h2 child hchild
          refine ⟨k2, k3, Or.inr ⟨hs, k6, q, hq, ?_, Or.inl ⟨hctl, k4, k5⟩, ?_⟩⟩
          · intro h
            exact k1 (by rw [h])
          · rw [k7]
            exact list_del_comm _ _ _
        · have hnctl : ¬ (p.connect_msg S).sock_type = XIO_TCP_CTL_SOCK := by
            rw [hdata]; decide
          simp only [if_neg hnctl]
          have hc2 : xio_new_connection ∉
              calls ++ (xio_tcp_pairing_scan S p parent_hndl.pending_conns).1 ++
                xio_tcp_del_ev_handler V p.fd ++ [xio_tcp_call.ufree (some p.addr)] := by
            intro h
            rcases List.mem_append.mp h with h | h
            · rcases List.mem_append.mp h with h | h
              · exact hc1 h
              · exact del_ev_handler_new _ _ h
            · simp [xio_new_connection] at h
          obtain ⟨h1, h2⟩ := pending_single_sock_spec T V E G fd
            { parent_hndl with
              pending_conns := xio_tcp_list_del parent_hndl.pending_conns p.addr }
            transport ctx q q.fd p.fd false (some p.addr) _ hc2
          refine ⟨h1, ?_⟩
          intro child hchild
          obtain ⟨k1, k2, k3, k4, k5, k6, k7⟩ := h2 child hchild
          refine ⟨k2, k3, Or.inr ⟨hs, k6, q, hq, ?_, Or.inr ⟨hdata, k4, k5⟩, k7⟩⟩
          intro h
          exact k1 (by rw [h])

theorem mem_list_update (l : List xio_tcp_pending_conn) (p x : xio_tcp_pending_conn)
    (hx : x ∈ xio_tcp_list_update l p) (hne : x.addr ≠ p.addr) : x ∈ l := by
  unfold xio_tcp_list_update at hx
  obtain ⟨y, hy, hxy⟩ := List.mem_map.mp hx
  by_cases h : y.addr = p.addr
  · rw [if_pos h] at hxy
    exact absurd (by rw [← hxy]) hne
  · rw [if_neg h] at hxy
    rw [← hxy]; exact hy

theorem list_del_update (l : List xio_tcp_pending_conn) (p : xio_tcp_pending_conn) :
    xio_tcp_list_del (xio_tcp_list_update l p) p.addr = xio_tcp_list_del l p.addr := by
  induction l with
  | nil => rfl
  | cons y rest ih =>
    unfold xio_tcp_list_del xio_tcp_list_update at ih ⊢
    rw [List.map_cons, List.filter_cons, List.filter_cons, ih]
    by_cases h : y.addr = p.addr
    · simp [h]
    · simp [h]

theorem read_handshake_frame (S : xio_sys_decls) (E : xio_pending_env) (fd : Int)
    (p0 : xio_tcp_pending_conn) :
    (xio_tcp_read_handshake S E fd p0).addr = p0.addr ∧
    (xio_tcp_read_handshake S E fd p0).fd = p0.fd ∧
    (xio_tcp_read_handshake S E fd p0).sa = p0.sa ∧
    ((xio_tcp_recv_loop S fd E.recv p0).2.2 = xio_recv_end.complete →
      (xio_tcp_read_handshake S E fd p0).waiting_for_bytes = 0) := by
  obtain ⟨h1, h2, h3, h4, _⟩ := recv_loop_frame S fd E.recv p0
  exact ⟨h1, h2, h3, h4⟩

/-- The function `xio_tcp_handle_pending_conn` publishes a new connection
exactly when it leaves a child, and then the entry for `fd` was found, no
epoll error was reported, its handshake was read to the end, and the result
is that of the pairing part. -/
theorem handle_pending_conn_spec (T : xio_tcp_decls) (S : xio_sys_decls) (V : xio_sys_env)
    (E : xio_pending_env) (G : xio_tcp_globals) (fd : Int) (parent_hndl : xio_tcp_handle)
    (transport ctx : Nat) (error : Int) :
    (xio_new_connection ∈
        (xio_tcp_handle_pending_conn T S V E G fd parent_hndl transport ctx error).calls →
      (xio_tcp_handle_pending_conn T S V E G fd parent_hndl transport ctx
        error).child_hndl ≠ none) ∧
    ((xio_tcp_handle_pending_conn T S V E G fd parent_hndl transport ctx
        error).child_hndl ≠ none →
      ∃ p0, p0 ∈ parent_hndl.pending_conns ∧ p0.fd = fd ∧
        (xio_tcp_recv_loop S fd E.recv p0).2.2 = xio_recv_end.complete ∧
        xio_new_connection ∉ (xio_tcp_recv_loop S fd E.recv p0).2.1 ∧
        xio_tcp_handle_pending_conn T S V E G fd parent_hndl transport ctx error =
          xio_tcp_pending_pair T S V E G fd
            { parent_hndl with
              pending_conns := xio_tcp_list_update parent_hndl.pending_conns
                (xio_tcp_read_handshake S E fd p0) }
            transport ctx (xio_tcp_read_handshake S E fd p0)
            (xio_tcp_recv_loop S fd E.recv p0).2.1) := by
  unfold xio_tcp_handle_pending_conn
  split
  · refine ⟨?_, fun h => absurd rfl h⟩
    intro h
    exfalso
    rcases List.mem_append.mp h with h | h
    · simp [xio_new_connection] at h
    · exact pending_cleanup2_new V fd h
  · next p0 hfind =>
    have hmem : p0 ∈ parent_hndl.pending_conns := List.mem_of_find?_eq_some hfind
    have hfd : p0.fd = fd := by
      have := List.find?_some hfind
      simpa using this
    split
    · obtain ⟨h1, h2⟩ := pending_cleanup1_spec V G fd parent_hndl p0
        [xio_tcp_call.DEBUG_LOG xio_tcp_log.epoll_error] (by simp [xio_new_connection])
      exact ⟨fun h => absurd h h2, fun h => absurd h1 h⟩
    · dsimp only
      obtain ⟨_, _, _, _, hnew⟩ := recv_loop_frame S fd E.recv p0
      split
      · obtain ⟨h1, h2⟩ := pending_cleanup1_spec V G fd parent_hndl
          (xio_tcp_recv_loop S fd E.recv p0).1 (xio_tcp_recv_loop S fd E.recv p0).2.1 hnew
        exact ⟨fun h => absurd h h2, fun h => absurd h1 h⟩
      · exact ⟨fun h => absurd h hnew, fun h => absurd rfl h⟩
      · next hend =>
        refine ⟨(pending_pair_spec T S V E G fd _ transport ctx _ _ hnew).1, ?_⟩
        intro _
        exact ⟨p0, hmem, hfd, hend, hnew, rfl⟩

/-! ## Claims on the dual-socket pairing -/

theorem cross_checked_same_family (S : xio_sys_decls) (p q : xio_tcp_pending_conn)
    (h : xio_tcp_cross_checked S p q) (hf : p.sa.sa_family = q.sa.sa_family) :
    q.sa.ip S = p.sa.ip S ∧ (q.connect_msg S).second_port = p.sa.port S ∧
    (p.connect_msg S).second_port = q.sa.port S := by
  unfold xio_sockaddr.ip xio_sockaddr.port
  rcases h with ⟨h1, h2, h3, h4⟩ | ⟨h0, _, h2, h3, h4⟩
  · rw [hf, if_pos h1, if_pos h1, if_pos h1, if_pos h1]
    exact ⟨h2, h3, h4.symm⟩
  · rw [hf, if_neg h0, if_neg h0, if_neg h0, if_neg h0]
    exact ⟨h2, h3, h4.symm⟩

/-- C13 (as amended): when `xio_tcp_handle_pending_conn` publishes a
dual-socket child, the entry for `fd` and the partner the scan selected are
two entries of the pending list; the `sock_type` of the entry for `fd` alone
places the fds: when it says CTL_SOCK the child has its fd as `cfd` and the
fd of the partner as `dfd`, when it says DATA_SOCK the other way round (what
the partner says is not looked at); both are off the pending list, which
keeps its other entries. -/
theorem C13_child_fds (T : xio_tcp_decls) (S : xio_sys_decls)
    (V : xio_sys_env) (E : xio_pending_env) (G : xio_tcp_globals) (fd : Int)
    (parent_hndl : xio_tcp_handle) (transport ctx : Nat) (error : Int)
    (child : xio_tcp_child)
    (hchild : (xio_tcp_handle_pending_conn T S V E G fd parent_hndl transport ctx
      error).child_hndl = some child)
    (hdual : child.hndl.sock_ops = some xio_tcp_socket_ops.dual_sock_ops) :
    xio_new_connection ∈
      (xio_tcp_handle_pending_conn T S V E G fd parent_hndl transport ctx error).calls ∧
    ∃ p0 ∈ parent_hndl.pending_conns, ∃ q ∈ parent_hndl.pending_conns,
      p0.fd = fd ∧ q.addr ≠ p0.addr ∧
      (xio_tcp_pairing_scan S (xio_tcp_read_handshake S E fd p0)
        (xio_tcp_list_update parent_hndl.pending_conns
          (xio_tcp_read_handshake S E fd p0))).2 = xio_scan_end.found q ∧
      ((((xio_tcp_read_handshake S E fd p0).connect_msg S).sock_type = XIO_TCP_CTL_SOCK ∧
          child.sock_cfd = p0.fd ∧ child.sock_dfd = q.fd) ∨
        (((xio_tcp_read_handshake S E fd p0).connect_msg S).sock_type = XIO_TCP_DATA_SOCK ∧
          child.sock_cfd = q.fd ∧ child.sock_dfd = p0.fd)) ∧
      (xio_tcp_handle_pending_conn T S V E G fd parent_hndl transport ctx
        error).parent_hndl.pending_conns =
        xio_tcp_list_del (xio_tcp_list_del parent_hndl.pending_conns p0.addr) q.addr ∧
      ∀ x ∈ (xio_tcp_handle_pending_conn T S V E G fd parent_hndl transport ctx
        error).parent_hndl.pending_conns, x.addr ≠ p0.addr ∧ x.addr ≠ q.addr := by
  obtain ⟨_, h2⟩ := handle_pending_conn_spec T S V E G fd parent_hndl transport ctx error
  have hsome : (xio_tcp_handle_pending_conn T S V E G fd parent_hndl transport ctx
      error).child_hndl ≠ none := by
    rw [hchild]; exact Option.some_ne_none _
  obtain ⟨p0, hmem, hfd, hend, hnew, heq⟩ := h2 hsome
  obtain ⟨f1, f2, f3, f4⟩ := read_handshake_frame S E fd p0
  rw [heq] at hchild ⊢
  obtain ⟨k1, _, hcase⟩ :=
    (pending_pair_spec T S V E G fd _ transport ctx _ _ hnew).2 child hchild
  refine ⟨k1, ?_⟩
  rcases hcase with ⟨_, _, _, hops, _⟩ | ⟨_, _, q, hq, hne, hfds, hlist⟩
  · rw [hdual] at hops
    cases hops
  · obtain ⟨s1, _, _⟩ := (pairing_scan_found S _ _).1 q hq
    have hqmem : q ∈ parent_hndl.pending_conns := mem_list_update _ _ _ s1 hne
    have hlist2 : (xio_tcp_pending_pair T S V E G fd
        { parent_hndl with
          pending_conns := xio_tcp_list_update parent_hndl.pending_conns
            (xio_tcp_read_handshake S E fd p0) }
        transport ctx (xio_tcp_read_handshake S E fd p0)
        (xio_tcp_recv_loop S fd E.recv p0).2.1).parent_hndl.pending_conns =
        xio_tcp_list_del (xio_tcp_list_del parent_hndl.pending_conns p0.addr) q.addr := by
      rw [hlist]
      dsimp only
      rw [list_del_update, f1]
    refine ⟨p0, hmem, q, hqmem, hfd, by rw [← f1]; exact hne, hq, ?_, hlist2, ?_⟩
    · rw [f2] at hfds
      exact hfds
    · intro x hx
      rw [hlist2] at hx
      obtain ⟨hx1, hx2⟩ := (mem_list_del _ _ _).mp hx
      obtain ⟨_, hx3⟩ := (mem_list_del _ _ _).mp hx1
      exact ⟨hx3, hx2⟩

/-- C13 at a concrete input: the two sockets of one client, the control
socket (fd 7) completing last; the child has `cfd` 7 and `dfd` 8. -/
theorem C13_child_fds_witness :
    (ex_pending_run XIO_TCP_DATA_SOCK).child_hndl.map
      (fun child => (child.sock_cfd, child.sock_dfd)) = some (7, 8) ∧
    (ex_pending_run XIO_TCP_DATA_SOCK).parent_hndl.pending_conns = [] ∧
    xio_new_connection ∈ (ex_pending_run XIO_TCP_DATA_SOCK).calls := by
  refine ⟨by decide, by decide, ?_⟩
  exact (C13_child_fds ex_tcp_decls ex_sys_decls ex_sys_env
    (ex_pending_env XIO_TCP_CTL_SOCK 5001) ex_tcp_globals 7
    (ex_parent (ex_pending_list XIO_TCP_DATA_SOCK)) 1 2 0
    ((ex_pending_run XIO_TCP_DATA_SOCK).child_hndl.get (by decide))
    (Option.some_get _).symm (by decide)).1

/-- C13, the claim as stated fails: both entries carry a handshake that says
CTL_SOCK; the child is published all the same, and its `dfd` is the fd (8)
of an entry whose handshake says CTL_SOCK, not DATA_SOCK. -/
theorem C13_counterexample :
    xio_new_connection ∈ (ex_pending_run XIO_TCP_CTL_SOCK).calls ∧
    (ex_pending_run XIO_TCP_CTL_SOCK).child_hndl.map
      (fun child => (child.sock_cfd, child.sock_dfd)) = some (7, 8) ∧
    (ex_pending_list XIO_TCP_CTL_SOCK).map (fun pconn => pconn.fd) = [8, 7] ∧
    ((ex_pending_ready 701 8 5001 XIO_TCP_CTL_SOCK 5000).connect_msg
      ex_sys_decls).sock_type = XIO_TCP_CTL_SOCK ∧
    ((xio_tcp_read_handshake ex_sys_decls (ex_pending_env XIO_TCP_CTL_SOCK 5001) 7
      (ex_pending_new 700 7 5000)).connect_msg ex_sys_decls).sock_type =
      XIO_TCP_CTL_SOCK := by
  decide

/-- C20, the code at the failing input: the pending list holds the one entry
whose handshake has just been read, and this handshake advertises the port it
comes from. The scan ranges over the entry itself and selects it as its own
partner; it is unlinked and freed as the data half, and then used again as
the control half. -/
theorem C20_scan_selects_the_entry_itself :
    (xio_tcp_pairing_scan ex_sys_decls
      (xio_tcp_read_handshake ex_sys_decls (ex_pending_env XIO_TCP_CTL_SOCK 5000) 7
        (ex_pending_new 700 7 5000))
      (xio_tcp_list_update [ex_pending_new 700 7 5000]
        (xio_tcp_read_handshake ex_sys_decls (ex_pending_env XIO_TCP_CTL_SOCK 5000) 7
          (ex_pending_new 700 7 5000)))).2 =
      xio_scan_end.found
        (xio_tcp_read_handshake ex_sys_decls (ex_pending_env XIO_TCP_CTL_SOCK 5000) 7
          (ex_pending_new 700 7 5000)) ∧
    xio_tcp_call.ufree (some 700) ∈ ex_pending_self_run.calls ∧
    ex_pending_self_run.fault = some xio_fault.use_after_free := by
  decide

/-! ## Claims on `on_sock_disconnected` -/

/-- C23: on a handle whose state is not Disconnected, `on_sock_disconnected`
leaves the handle as it is, assigns no state and makes no call, for either
value of the passive flag; a second call, with any flag, again does nothing,
so two calls leave what one call leaves. -/
theorem C23_disconnected_noop (V : xio_sys_env) (tcp_hndl : xio_tcp_handle)
    (passive_close passive_close2 : Int)
    (hs : tcp_hndl.state ≠ xio_transport_state.DISCONNECTED) :
    on_sock_disconnected V tcp_hndl passive_close =
      { hndl := tcp_hndl, states := [], calls := [] } ∧
    on_sock_disconnected V (on_sock_disconnected V tcp_hndl passive_close).hndl
      passive_close2 = on_sock_disconnected V tcp_hndl passive_close := by
  have h1 : ∀ p : Int, on_sock_disconnected V tcp_hndl p =
      { hndl := tcp_hndl, states := [], calls := [] } := by
    intro p
    unfold on_sock_disconnected
    rw [if_neg hs]
  refine ⟨h1 _, ?_⟩
  rw [h1 passive_close]
  exact h1 passive_close2

/-- C23 at a concrete input: a connected handle, a passive call then an
active one. -/
theorem C23_disconnected_noop_witness :
    on_sock_disconnected ex_sys_env (ex_tcp_handle xio_transport_state.CONNECTED) 1 =
      { hndl := ex_tcp_handle xio_transport_state.CONNECTED, states := [], calls := [] } ∧
    on_sock_disconnected ex_sys_env
      (on_sock_disconnected ex_sys_env
        (ex_tcp_handle xio_transport_state.CONNECTED) 1).hndl 0 =
      on_sock_disconnected ex_sys_env (ex_tcp_handle xio_transport_state.CONNECTED) 1 :=
  C23_disconnected_noop ex_sys_env (ex_tcp_handle xio_transport_state.CONNECTED) 1 0
    (by decide)

theorem sock_call_filter (p : xio_tcp_call → Bool) (call : xio_tcp_call)
    (line : xio_tcp_log) (ret : Int × Int)
    (h1 : p (xio_tcp_call.xio_set_error ret.2) = false)
    (h2 : p (xio_tcp_call.DEBUG_LOG line) = false) :
    (xio_tcp_sock_call call line ret).filter p = [call].filter p := by
  unfold xio_tcp_sock_call
  split_ifs
  · rw [List.filter_append]
    simp [List.filter_cons, h1, h2]
  · rfl

theorem del_ev_handlers_filter (p : xio_tcp_call → Bool) (V : xio_sys_env)
    (tcp_hndl : xio_tcp_handle)
    (h1 : ∀ fd, p (xio_tcp_call.xio_context_del_ev_handler fd) = false)
    (h2 : ∀ l, p (xio_tcp_call.ERROR_LOG l) = false) :
    (tcp_hndl.del_ev_handlers V).2.filter p = [] := by
  unfold xio_tcp_handle.del_ev_handlers
  split
  · unfold xio_tcp_single_sock_del_ev_handlers
    dsimp only
    split_ifs <;> simp [List.filter_cons, h1, h2]
  · unfold xio_tcp_dual_sock_del_ev_handlers
    dsimp only
    split_ifs <;> simp [List.filter_cons, h1, h2]

theorem drain_pending_filter (p : xio_tcp_call → Bool) (V : xio_sys_env)
    (l : List xio_tcp_pending_conn)
    (h1 : ∀ fd, p (xio_tcp_call.xio_context_del_ev_handler fd) = false)
    (h2 : ∀ l, p (xio_tcp_call.ERROR_LOG l) = false) :
    (xio_tcp_drain_pending V l).filter p =
      (l.map (fun pconn => xio_tcp_call.ufree (some pconn.addr))).filter p := by
  induction l with
  | nil => rfl
  | cons q rest ih =>
    unfold xio_tcp_drain_pending
    rw [List.filter_append, ih]
    by_cases hp : p (xio_tcp_call.ufree (some q.addr)) = true <;>
      split_ifs <;> simp [List.filter_cons, h1, h2, hp]

theorem shutdown_filter (p : xio_tcp_call → Bool) (V : xio_sys_env)
    (tcp_hndl : xio_tcp_handle)
    (h1 : ∀ e, p (xio_tcp_call.xio_set_error e) = false)
    (h2 : ∀ l, p (xio_tcp_call.DEBUG_LOG l) = false) :
    (tcp_hndl.shutdown V).2.filter p =
      (tcp_hndl.fds.map xio_tcp_call.shutdown).filter p := by
  unfold xio_tcp_handle.shutdown xio_tcp_handle.fds
  cases h : tcp_hndl.sock_ops with
  | single_sock_ops =>
    dsimp only
    unfold xio_tcp_single_sock_shutdown
    dsimp only
    rw [sock_call_filter p _ _ _ (h1 _) (h2 _)]
    rfl
  | dual_sock_ops =>
    dsimp only
    unfold xio_tcp_dual_sock_shutdown
    dsimp only
    rw [List.filter_append, sock_call_filter p _ _ _ (h1 _) (h2 _),
      sock_call_filter p _ _ _ (h1 _) (h2 _), ← List.filter_append]
    rfl

theorem close_filter (p : xio_tcp_call → Bool) (V : xio_sys_env)
    (tcp_hndl : xio_tcp_handle)
    (h1 : ∀ e, p (xio_tcp_call.xio_set_error e) = false)
    (h2 : ∀ l, p (xio_tcp_call.DEBUG_LOG l) = false) :
    (tcp_hndl.close V).2.filter p = (tcp_hndl.fds.map xio_tcp_call.close).filter p := by
  unfold xio_tcp_handle.close xio_tcp_handle.fds
  cases h : tcp_hndl.sock_ops with
  | single_sock_ops =>
    dsimp only
    unfold xio_tcp_single_sock_close
    dsimp only
    rw [sock_call_filter p _ _ _ (h1 _) (h2 _)]
    rfl
  | dual_sock_ops =>
    dsimp only
    unfold xio_tcp_dual_sock_close
    dsimp only
    rw [List.filter_append, sock_call_filter p _ _ _ (h1 _) (h2 _),
      sock_call_filter p _ _ _ (h1 _) (h2 _), ← List.filter_append]
    rfl

theorem filter_all_true (p : xio_tcp_call → Bool) (l : List xio_tcp_call)
    (h : ∀ x ∈ l, p x = true) : l.filter p = l :=
  List.filter_eq_self.mpr h

theorem filter_all_false (p : xio_tcp_call → Bool) (l : List xio_tcp_call)
    (h : ∀ x ∈ l, p x = false) : l.filter p = [] := by
  rw [List.filter_eq_nil_iff]
  intro x hx
  simp [h x hx]

/-- The calls of `on_sock_disconnected` on a handle in state Disconnected,
seen through a test `p` that lets through neither the cancelling of events,
nor the epoll removals, nor the error settings and log lines. -/
theorem sock_disconnected_filter (p : xio_tcp_call → Bool) (V : xio_sys_env)
    (tcp_hndl : xio_tcp_handle) (passive_close : Int)
    (hs : tcp_hndl.state = xio_transport_state.DISCONNECTED)
    (h0 : ∀ e, p (xio_tcp_call.xio_ctx_remove_event e) = false)
    (h1 : ∀ fd, p (xio_tcp_call.xio_context_del_ev_handler fd) = false)
    (h2 : ∀ l, p (xio_tcp_call.ERROR_LOG l) = false)
    (h3 : ∀ e, p (xio_tcp_call.xio_set_error e) = false)
    (h4 : ∀ l, p (xio_tcp_call.DEBUG_LOG l) = false) :
    (on_sock_disconnected V tcp_hndl passive_close).calls.filter p =
      (if passive_close = 0 ∧ tcp_hndl.is_listen = 0 then
         (tcp_hndl.fds.map xio_tcp_call.shutdown).filter p else []) ++
      (tcp_hndl.fds.map xio_tcp_call.close).filter p ++
      (tcp_hndl.pending_conns.map
        (fun pconn => xio_tcp_call.ufree (some pconn.addr))).filter p ++
      (if passive_close ≠ 0 then
         [xio_tcp_call.xio_transport_notify_observer
           xio_transport_event.DISCONNECTED].filter p
       else []) := by
  unfold on_sock_disconnected
  rw [if_pos hs]
  dsimp only
  simp only [List.filter_append, filter_ite_nil, close_filter p V tcp_hndl h3 h4,
    drain_pending_filter p V _ h1 h2, del_ev_handlers_filter p V tcp_hndl h1 h2,
    shutdown_filter p V tcp_hndl h3 h4, ite_self, List.append_nil]
  simp [List.filter_cons, h0]

theorem filter_map_true {α : Type} (p : xio_tcp_call → Bool) (f : α → xio_tcp_call)
    (l : List α) (h : ∀ x, p (f x) = true) : (l.map f).filter p = l.map f := by
  apply filter_all_true
  intro x hx
  obtain ⟨y, _, hy⟩ := List.mem_map.mp hx
  rw [← hy]; exact h y

theorem filter_map_false {α : Type} (p : xio_tcp_call → Bool) (f : α → xio_tcp_call)
    (l : List α) (h : ∀ x, p (f x) = false) : (l.map f).filter p = [] := by
  apply filter_all_false
  intro x hx
  obtain ⟨y, _, hy⟩ := List.mem_map.mp hx
  rw [← hy]; exact h y

/-- C24: on a handle in state Disconnected, `on_sock_disconnected` sets the
state to Closed, closes the socket(s) of the handle, frees every pending
entry and leaves the pending list empty; it shuts the socket(s) down exactly
when the passive flag is 0 and the handle is not a listener, and its only
notification is Disconnected, made exactly when the passive flag is not 0. -/
theorem C24_disconnected_closes (V : xio_sys_env) (tcp_hndl : xio_tcp_handle)
    (passive_close : Int)
    (hs : tcp_hndl.state = xio_transport_state.DISCONNECTED) :
    (on_sock_disconnected V tcp_hndl passive_close).hndl.state =
      xio_transport_state.CLOSED ∧
    (on_sock_disconnected V tcp_hndl passive_close).states = [xio_transport_state.CLOSED] ∧
    (on_sock_disconnected V tcp_hndl passive_close).hndl.pending_conns = [] ∧
    (on_sock_disconnected V tcp_hndl passive_close).calls.filter xio_tcp_call.is_close =
      tcp_hndl.fds.map xio_tcp_call.close ∧
    (on_sock_disconnected V tcp_hndl passive_close).calls.filter xio_tcp_call.is_shutdown =
      (if passive_close = 0 ∧ tcp_hndl.is_listen = 0 then
         tcp_hndl.fds.map xio_tcp_call.shutdown else []) ∧
    (on_sock_disconnected V tcp_hndl passive_close).calls.filter xio_tcp_call.is_publish =
      (if passive_close ≠ 0 then
         [xio_tcp_call.xio_transport_notify_observer xio_transport_event.DISCONNECTED]
       else []) ∧
    (on_sock_disconnected V tcp_hndl passive_close).calls.filter xio_tcp_call.is_ufree =
      tcp_hndl.pending_conns.map (fun pconn => xio_tcp_call.ufree (some pconn.addr)) := by
  have hst : (on_sock_disconnected V tcp_hndl passive_close).hndl =
      { tcp_hndl with state := xio_transport_state.CLOSED, pending_conns := [] } ∧
      (on_sock_disconnected V tcp_hndl passive_close).states =
        [xio_transport_state.CLOSED] := by
    unfold on_sock_disconnected
    rw [if_pos hs]
    exact ⟨rfl, rfl⟩
  refine ⟨by rw [hst.1], hst.2, by rw [hst.1], ?_, ?_, ?_, ?_⟩
  · rw [sock_disconnected_filter xio_tcp_call.is_close V tcp_hndl passive_close hs
      (fun _ => rfl) (fun _ => rfl) (fun _ => rfl) (fun _ => rfl) (fun _ => rfl),
      filter_map_false xio_tcp_call.is_close xio_tcp_call.shutdown _ (fun _ => rfl),
      filter_map_true xio_tcp_call.is_close xio_tcp_call.close _ (fun _ => rfl),
      filter_map_false xio_tcp_call.is_close (fun pconn : xio_tcp_pending_conn => xio_tcp_call.ufree (some pconn.addr)) _
      (fun _ => rfl)]
    split_ifs <;> simp [List.filter_cons, xio_tcp_call.is_close]
  · rw [sock_disconnected_filter xio_tcp_call.is_shutdown V tcp_hndl passive_close hs
      (fun _ => rfl) (fun _ => rfl) (fun _ => rfl) (fun _ => rfl) (fun _ => rfl),
      filter_map_true xio_tcp_call.is_shutdown xio_tcp_call.shutdown _ (fun _ => rfl),
      filter_map_false xio_tcp_call.is_shutdown xio_tcp_call.close _ (fun _ => rfl),
      filter_map_false xio_tcp_call.is_shutdown (fun pconn : xio_tcp_pending_conn => xio_tcp_call.ufree (some pconn.addr)) _
      (fun _ => rfl)]
    split_ifs <;> simp [List.filter_cons, xio_tcp_call.is_shutdown]
  · rw [sock_disconnected_filter xio_tcp_call.is_publish V tcp_hndl passive_close hs
      (fun _ => rfl) (fun _ => rfl) (fun _ => rfl) (fun _ => rfl) (fun _ => rfl),
      filter_map_false xio_tcp_call.is_publish xio_tcp_call.shutdown _ (fun _ => rfl),
      filter_map_false xio_tcp_call.is_publish xio_tcp_call.close _ (fun _ => rfl),
      filter_map_false xio_tcp_call.is_publish (fun pconn : xio_tcp_pending_conn => xio_tcp_call.ufree (some pconn.addr)) _
      (fun _ => rfl)]
    split_ifs <;> simp [List.filter_cons, xio_tcp_call.is_publish]
  · rw [sock_disconnected_filter xio_tcp_call.is_ufree V tcp_hndl passive_close hs
      (fun _ => rfl) (fun _ => rfl) (fun _ => rfl) (fun _ => rfl) (fun _ => rfl),
      filter_map_false xio_tcp_call.is_ufree xio_tcp_call.shutdown _ (fun _ => rfl),
      filter_map_false xio_tcp_call.is_ufree xio_tcp_call.close _ (fun _ => rfl),
      filter_map_true xio_tcp_call.is_ufree (fun pconn : xio_tcp_pending_conn => xio_tcp_call.ufree (some pconn.addr)) _
      (fun _ => rfl)]
    split_ifs <;> simp [List.filter_cons, xio_tcp_call.is_ufree]

/-- C24 at a concrete input: a dual-socket handle closed passively. -/
theorem C24_disconnected_closes_witness :
    (on_sock_disconnected ex_sys_env (ex_tcp_handle xio_transport_state.DISCONNECTED)
      1).hndl.state = xio_transport_state.CLOSED ∧
    (on_sock_disconnected ex_sys_env (ex_tcp_handle xio_transport_state.DISCONNECTED)
      1).calls.filter xio_tcp_call.is_close =
      [xio_tcp_call.close 10, xio_tcp_call.close 11] ∧
    (on_sock_disconnected ex_sys_env (ex_tcp_handle xio_transport_state.DISCONNECTED)
      1).calls.filter xio_tcp_call.is_shutdown = [] ∧
    (on_sock_disconnected ex_sys_env (ex_tcp_handle xio_transport_state.DISCONNECTED)
      1).calls.filter xio_tcp_call.is_publish =
      [xio_tcp_call.xio_transport_notify_observer xio_transport_event.DISCONNECTED] := by
  obtain ⟨h1, _, _, h4, h5, h6, _⟩ := C24_disconnected_closes ex_sys_env
    (ex_tcp_handle xio_transport_state.DISCONNECTED) 1 (by decide)
  exact ⟨h1, h4, h5, h6⟩

/-! ## Claims on accept, on the control receive loop and on unknown socket types -/

/-- C26, the code at the failing input: no readiness handler can be
installed for the accepted handle; `xio_tcp_accept` publishes the error and
then Established all the same, two events in one call. -/
theorem C26_accept_publishes_both :
    (xio_tcp_accept ex_sys_env_no_epoll
      (ex_tcp_handle xio_transport_state.CONNECTED)).2.filter xio_tcp_call.is_publish =
      [xio_tcp_call.xio_transport_notify_observer_error xio_reason.XIO_E_UNSUCCESSFUL,
       xio_tcp_call.xio_transport_notify_observer xio_transport_event.ESTABLISHED] ∧
    ((ex_tcp_handle xio_transport_state.CONNECTED).add_ev_handlers
      ex_sys_env_no_epoll).1 ≠ 0 := by
  decide

/-- C27, the code at the failing input: the pending list holds a ready
partner (fd 8, peer port 5001, advertising port 5000) and the entry with fd 7
(peer port 5000) receives a handshake whose `sock_type` is 7 and which
advertises port 5001. The scan selects the partner, neither `ctl_conn` nor
`data_conn` is assigned, and `ctl_conn->fd` is read through the null
pointer. -/
theorem C27_unknown_sock_type_null_deref :
    (xio_tcp_handle_pending_conn ex_tcp_decls ex_sys_decls ex_sys_env (ex_pending_env 7 5001)
      ex_tcp_globals 7 (ex_parent (ex_pending_list XIO_TCP_DATA_SOCK)) 1 2 0).fault =
      some xio_fault.null_deref ∧
    ((xio_tcp_read_handshake ex_sys_decls (ex_pending_env 7 5001) 7
      (ex_pending_new 700 7 5000)).connect_msg ex_sys_decls).sock_type = 7 ∧
    (xio_tcp_pairing_scan ex_sys_decls
      (xio_tcp_read_handshake ex_sys_decls (ex_pending_env 7 5001) 7
        (ex_pending_new 700 7 5000))
      (xio_tcp_list_update (ex_pending_list XIO_TCP_DATA_SOCK)
        (xio_tcp_read_handshake ex_sys_decls (ex_pending_env 7 5001) 7
          (ex_pending_new 700 7 5000)))).2 =
      xio_scan_end.found (ex_pending_ready 701 8 5001 XIO_TCP_DATA_SOCK 5000) := by
  decide

/-- The loop of `xio_tcp_consume_ctl_rx` with enough fuel: it is left, after
at least one more invocation, at the first invocation that makes no progress
or when the count reaches the bound. -/
theorem consume_ctl_rx_loop_spec (RX_POLL_NR_MAX : Int) (R : xio_rx_env) :
    ∀ fuel count : Nat, 1 ≤ fuel → RX_POLL_NR_MAX ≤ (count : Int) + fuel →
      ∃ c ret, xio_tcp_consume_ctl_rx_loop RX_POLL_NR_MAX R fuel count = some (c, ret) ∧
        count < c ∧ ret = R.rx_ctl_handler (c - 1) ∧
        (∀ k, count ≤ k → k + 1 < c → 0 < R.rx_ctl_handler k) ∧
        (ret ≤ 0 ∨ RX_POLL_NR_MAX ≤ (c : Int)) ∧
        (c = count + 1 ∨ (c : Int) ≤ RX_POLL_NR_MAX) := by
  intro fuel
  induction fuel with
  | zero => intro count h; omega
  | succ f ih =>
    intro count _ hbound
    unfold xio_tcp_consume_ctl_rx_loop
    dsimp only
    split
    · next hcont =>
      have hf : 1 ≤ f := by
        by_contra hlt
        have : f = 0 := by omega
        subst this
        have := hcont.2
        push_cast at this hbound
        omega
      obtain ⟨c, ret, h1, h2, h3, h4, h5, h6⟩ := ih (count + 1) hf (by push_cast at hbound ⊢; omega)
      refine ⟨c, ret, h1, by omega, h3, ?_, h5, ?_⟩
      · intro k hk1 hk2
        by_cases hk : k = count
        · rw [hk]; exact hcont.1
        · exact h4 k (by omega) hk2
      · right
        rcases h6 with h6 | h6
        · rw [h6]
          have := hcont.2
          push_cast at this ⊢
          omega
        · exact h6
    · next hstop =>
      refine ⟨count + 1, R.rx_ctl_handler count, rfl, by omega, by simp, ?_, ?_, Or.inl rfl⟩
      · intro k hk1 hk2; omega
      · by_cases hr : R.rx_ctl_handler count ≤ 0
        · exact Or.inl hr
        · right
          by_contra hlt
          exact hstop ⟨by omega, by omega⟩

/-- C25: whatever the handler returns, `xio_tcp_consume_ctl_rx` comes to its
end (fuel RX_POLL_NR_MAX is enough) after invoking the handler `c` times in a
row, with `1 ≤ c ≤ RX_POLL_NR_MAX`; every invocation before the last one
returned a value above 0, and the last one returned a value that is not above
0 unless `c` is RX_POLL_NR_MAX. The constant is taken to be at least 1. -/
theorem C25_consume_ctl_rx_bounded (RX_POLL_NR_MAX : Int) (R : xio_rx_env) (fuel : Nat)
    (hmax : 1 ≤ RX_POLL_NR_MAX) (hfuel : RX_POLL_NR_MAX ≤ (fuel : Int)) :
    ∃ c : Nat,
      xio_tcp_consume_ctl_rx RX_POLL_NR_MAX R fuel =
        some ([xio_rx_call.xio_ctx_remove_event xio_ctx_event.ctl_rx_event] ++
          (List.range c).map xio_rx_call.rx_ctl_handler ++
          (if R.tmp_rx_buf_len ≠ 0 ∧ R.state = xio_transport_state.CONNECTED then
             [xio_rx_call.xio_ctx_add_event xio_ctx_event.ctl_rx_event]
           else [])) ∧
      1 ≤ c ∧ (c : Int) ≤ RX_POLL_NR_MAX ∧
      (∀ k, k + 1 < c → 0 < R.rx_ctl_handler k) ∧
      (R.rx_ctl_handler (c - 1) ≤ 0 ∨ (c : Int) = RX_POLL_NR_MAX) := by
  obtain ⟨c, ret, h1, h2, h3, h4, h5, h6⟩ :=
    consume_ctl_rx_loop_spec RX_POLL_NR_MAX R fuel 0 (by omega) (by push_cast; omega)
  have hc : (c : Int) ≤ RX_POLL_NR_MAX := by
    rcases h6 with h6 | h6
    · rw [h6]; push_cast; omega
    · exact h6
  refine ⟨c, ?_, by omega, hc, fun k hk => h4 k (Nat.zero_le _) hk, ?_⟩
  · unfold xio_tcp_consume_ctl_rx
    rw [h1]
  · rcases h5 with h5 | h5
    · left; rw [← h3]; exact h5
    · right; omega

/-- C25 at a concrete input: the handler makes progress twice and then
none, the bound is 4; the handler is invoked three times. -/
theorem C25_consume_ctl_rx_bounded_witness :
    xio_tcp_consume_ctl_rx 4 ex_rx_env 4 =
      some [xio_rx_call.xio_ctx_remove_event xio_ctx_event.ctl_rx_event,
        xio_rx_call.rx_ctl_handler 0, xio_rx_call.rx_ctl_handler 1,
        xio_rx_call.rx_ctl_handler 2] ∧
    ∃ c : Nat,
      xio_tcp_consume_ctl_rx 4 ex_rx_env 4 =
        some ([xio_rx_call.xio_ctx_remove_event xio_ctx_event.ctl_rx_event] ++
          (List.range c).map xio_rx_call.rx_ctl_handler ++
          (if ex_rx_env.tmp_rx_buf_len ≠ 0 ∧
              ex_rx_env.state = xio_transport_state.CONNECTED then
             [xio_rx_call.xio_ctx_add_event xio_ctx_event.ctl_rx_event]
           else [])) ∧
      1 ≤ c ∧ (c : Int) ≤ 4 ∧
      (∀ k, k + 1 < c → 0 < ex_rx_env.rx_ctl_handler k) ∧
      (ex_rx_env.rx_ctl_handler (c - 1) ≤ 0 ∨ (c : Int) = 4) :=
  ⟨by decide, C25_consume_ctl_rx_bounded 4 ex_rx_env 4 (by decide) (by decide)⟩

/-! ## The receive dispatch -/

theorem dispatch_switch_claimed (tlv_type : xio_tlv_type) :
    xio_on_new_message_switch tlv_type = xio_dispatch_claimed tlv_type := by
  cases tlv_type <;> rfl

/-- C22: `xio_on_new_message` returns -1 exactly when the session or the
connection cannot be found, and then it only logs and releases the task;
otherwise it returns 0, assigns session and connection to the task, and
invokes exactly the handler the claim names for the TLV type of the task,
with that connection and task, once, and no handler for any other type. -/
theorem C22_dispatch (N : xio_dispatch_env) (s : Option Nat) (nexus : Nat)
    (task : xio_task) :
    ((xio_on_new_message N s nexus task).ret = -1 ↔
      xio_on_new_message_session N s task = none ∨
      xio_on_new_message_connection N nexus task = none) ∧
    ((xio_on_new_message N s nexus task).ret = -1 →
      (xio_on_new_message N s nexus task).task = task ∧
      (xio_on_new_message N s nexus task).calls.filter xio_dispatch_call.is_handler = [] ∧
      xio_dispatch_call.xio_tasks_pool_put task.addr ∈
        (xio_on_new_message N s nexus task).calls) ∧
    ((xio_on_new_message N s nexus task).ret ≠ -1 →
      (xio_on_new_message N s nexus task).ret = 0 ∧
      ∃ session connection,
        xio_on_new_message_session N s task = some session ∧
        xio_on_new_message_connection N nexus task = some connection ∧
        (xio_on_new_message N s nexus task).task =
          { task with session := some session, connection := some connection } ∧
        (xio_on_new_message N s nexus task).calls.filter xio_dispatch_call.is_handler =
          (match xio_dispatch_claimed task.tlv_type with
           | some h => [xio_dispatch_call.handler h connection task.addr]
           | none => []) ∧
        xio_dispatch_call.xio_tasks_pool_put task.addr ∉
          (xio_on_new_message N s nexus task).calls) := by
  unfold xio_on_new_message
  cases hs : xio_on_new_message_session N s task with
  | none =>
    refine ⟨⟨fun _ => Or.inl rfl, fun _ => rfl⟩, fun _ => ⟨rfl, rfl, ?_⟩,
      fun h => absurd rfl h⟩
    simp
  | some session =>
    cases hc : xio_on_new_message_connection N nexus task with
    | none =>
      refine ⟨⟨fun _ => Or.inr rfl, fun _ => rfl⟩, fun _ => ⟨rfl, rfl, ?_⟩,
        fun h => absurd rfl h⟩
      simp
    | some connection =>
      refine ⟨⟨fun h => (by cases h), fun h => ?_⟩, fun h => (by cases h), fun _ => ?_⟩
      · rcases h with h | h <;> cases h
      · refine ⟨rfl, session, connection, rfl, rfl, rfl, ?_, ?_⟩
        · rw [← dispatch_switch_claimed]
          show List.filter xio_dispatch_call.is_handler
            ((match xio_on_new_message_switch task.tlv_type with
              | some h => [xio_dispatch_call.handler h connection task.addr]
              | none => []) ++
             (if xio_on_new_message_retval N (xio_on_new_message_switch task.tlv_type) ≠ 0
              then [xio_dispatch_call.ERROR_LOG_receive_failed task.tlv_type] else [])) = _
          generalize xio_on_new_message_switch task.tlv_type = sw
          cases sw <;> (split_ifs <;> rfl)
        · show xio_dispatch_call.xio_tasks_pool_put task.addr ∉
            ((match xio_on_new_message_switch task.tlv_type with
              | some h => [xio_dispatch_call.handler h connection task.addr]
              | none => []) ++
             (if xio_on_new_message_retval N (xio_on_new_message_switch task.tlv_type) ≠ 0
              then [xio_dispatch_call.ERROR_LOG_receive_failed task.tlv_type] else []))
          generalize xio_on_new_message_switch task.tlv_type = sw
          cases sw <;> (split_ifs <;> simp)

/-- C22 at a concrete input: a request whose session is passed in and whose
connection is found by the nexus goes to the request path, once. -/
theorem C22_dispatch_witness :
    (xio_on_new_message ex_dispatch_env (some 200) 5
      (ex_blank_task xio_tlv_type.XIO_MSG_REQ)).ret = 0 ∧
    (xio_on_new_message ex_dispatch_env (some 200) 5
      (ex_blank_task xio_tlv_type.XIO_MSG_REQ)).calls =
      [xio_dispatch_call.handler xio_msg_handler.xio_on_req_recv 300 100] :=
  ⟨((C22_dispatch ex_dispatch_env (some 200) 5
      (ex_blank_task xio_tlv_type.XIO_MSG_REQ)).2.2 (by decide)).1, by decide⟩

/-! ## The connections of a session -/

theorem session_run_invariant (ops : List xio_session_op) :
    ∀ session : xio_session,
      session.connections_nr = session.connections_list.length →
      xio_session_ops_wf session.connections_list ops = true →
      (xio_session_run session ops).connections_nr =
        (xio_session_run session ops).connections_list.length := by
  induction ops with
  | nil => intro session h _; exact h
  | cons op rest ih =>
    intro session hinv hwf
    unfold xio_session_run
    rw [List.foldl_cons]
    cases op with
    | alloc connection =>
      cases connection with
      | none =>
        unfold xio_session_ops_wf at hwf
        exact ih _ hinv hwf
      | some c =>
        unfold xio_session_ops_wf at hwf
        rw [Bool.and_eq_true] at hwf
        refine ih _ ?_ hwf.2
        show session.connections_nr + 1 = ((session.connections_list ++ [c]).length : Int)
        rw [hinv]; simp
    | free c close_ret =>
      unfold xio_session_ops_wf at hwf
      rw [Bool.and_eq_true] at hwf
      refine ih _ ?_ hwf.2
      show session.connections_nr - 1 = ((session.connections_list.erase c).length : Int)
      have hmem : c ∈ session.connections_list := by simpa using hwf.1
      rw [hinv, List.length_erase_of_mem hmem]
      have : 0 < session.connections_list.length := List.length_pos_of_mem hmem
      omega

theorem session_destroy_busy_iff (G : xio_session_globals) (session : xio_session) :
    (xio_session_destroy G (some session)).calls = [xio_call.ERROR_LOG_connections_open] ↔
      session.connections_list ≠ [] := by
  unfold xio_session_destroy
  dsimp only
  by_cases he : (!session.connections_list.isEmpty) = true
  · rw [if_pos he]
    refine ⟨fun _ => ?_, fun _ => rfl⟩
    intro h
    rw [h] at he
    simp at he
  · rw [if_neg he]
    have hnil : session.connections_list = [] := by simpa using he
    refine ⟨fun h => ?_, fun h => absurd hnil h⟩
    exfalso
    split at h
    · simp at h
    · simp at h

/-- C29: after any well-formed sequence of `xio_session_alloc_connection` and
`xio_session_free_connection` calls on a session from its creation,
`connections_nr` is the number of entries of the connections list, so the
list is empty exactly when `connections_nr` is 0, and `xio_session_destroy`
takes its Busy exit exactly when `connections_nr` is not 0. On any session, a
failed allocation changes nothing and a successful one appends the new
connection at the tail and adds one to `connections_nr`. -/
theorem C29_connections_counted (addr session_id : Nat) (ops : List xio_session_op)
    (G : xio_session_globals)
    (hwf : xio_session_ops_wf [] ops = true) :
    (xio_session_run (xio_session_create addr session_id) ops).connections_nr =
      (xio_session_run (xio_session_create addr session_id) ops).connections_list.length ∧
    ((xio_session_run (xio_session_create addr session_id) ops).connections_list = [] ↔
      (xio_session_run (xio_session_create addr session_id) ops).connections_nr = 0) ∧
    ((xio_session_destroy G
        (some (xio_session_run (xio_session_create addr session_id) ops))).calls =
        [xio_call.ERROR_LOG_connections_open] ↔
      (xio_session_run (xio_session_create addr session_id) ops).connections_nr ≠ 0) ∧
    (∀ session : xio_session,
      xio_session_alloc_connection session none = (session, none)) ∧
    (∀ (session : xio_session) (c : Nat),
      (xio_session_alloc_connection session (some c)).1.connections_list =
        session.connections_list ++ [c] ∧
      (xio_session_alloc_connection session (some c)).1.connections_nr =
        session.connections_nr + 1 ∧
      (xio_session_alloc_connection session (some c)).2 = some c) := by
  have hinv := session_run_invariant ops (xio_session_create addr session_id) rfl hwf
  have hempty : (xio_session_run (xio_session_create addr session_id) ops).connections_list
        = [] ↔
      (xio_session_run (xio_session_create addr session_id) ops).connections_nr = 0 := by
    rw [hinv]
    constructor
    · intro h; rw [h]; rfl
    · intro h
      exact List.length_eq_zero.mp (by exact_mod_cast h)
  refine ⟨hinv, hempty, ?_, fun _ => rfl, fun _ _ => ⟨rfl, rfl, rfl⟩⟩
  rw [session_destroy_busy_iff, ne_eq, ne_eq, hempty]

/-- C29 at a concrete input: two allocations, a failed one, a release of the
first connection. -/
theorem C29_connections_counted_witness :
    (xio_session_run (xio_session_create 500 9)
      [xio_session_op.alloc (some 600), xio_session_op.alloc none,
       xio_session_op.alloc (some 601), xio_session_op.free 600 0]).connections_list =
      [601] ∧
    (xio_session_run (xio_session_create 500 9)
      [xio_session_op.alloc (some 600), xio_session_op.alloc none,
       xio_session_op.alloc (some 601), xio_session_op.free 600 0]).connections_nr = 1 :=
  ⟨by decide,
   by
    have h := (C29_connections_counted 500 9
      [xio_session_op.alloc (some 600), xio_session_op.alloc none,
       xio_session_op.alloc (some 601), xio_session_op.free 600 0]
      ex_session_globals (by decide)).1
    rw [h]; decide⟩

/-! ## Validation of an outgoing message -/

theorem valid_out_loop_spec (l : List xio_sg) :
    ∀ m : Nat,
      (∀ m2, xio_tcp_is_valid_out_msg_loop l m = some m2 →
        (∀ sge ∈ l, sge.addr ≠ none ∧ sge.length ≠ 0) ∧
        (m + l.countP (fun sge => sge.mr.isSome) < 2 ^ 32 →
          m2 = m + l.countP (fun sge => sge.mr.isSome))) ∧
      ((∀ sge ∈ l, sge.addr ≠ none ∧ sge.length ≠ 0) →
        ∃ m2, xio_tcp_is_valid_out_msg_loop l m = some m2) := by
  induction l with
  | nil =>
    intro m
    refine ⟨fun m2 h => ⟨fun _ hs => (by cases hs), fun _ => ?_⟩, fun _ => ⟨m, rfl⟩⟩
    simp only [xio_tcp_is_valid_out_msg_loop, Option.some.injEq] at h
    simp [h]
  | cons sge rest ih =>
    intro m
    unfold xio_tcp_is_valid_out_msg_loop
    dsimp only
    by_cases hbad : sge.addr = none ∨ sge.length = 0
    · rw [if_pos hbad]
      refine ⟨fun m2 h => (by cases h), fun h => ?_⟩
      exfalso
      have := h sge (List.mem_cons_self _ _)
      rcases hbad with hb | hb
      · exact this.1 hb
      · exact this.2 hb
    · rw [if_neg hbad]
      have hok : sge.addr ≠ none ∧ sge.length ≠ 0 := by
        constructor
        · exact fun h => hbad (Or.inl h)
        · exact fun h => hbad (Or.inr h)
      constructor
      · intro m2 h
        obtain ⟨h1, h2⟩ := (ih _).1 m2 h
        refine ⟨?_, ?_⟩
        · intro x hx
          rcases List.mem_cons.mp hx with hx | hx
          · rw [hx]; exact hok
          · exact h1 x hx
        · intro hlt
          rw [List.countP_cons] at hlt ⊢
          by_cases hmr : sge.mr.isSome = true
          · simp only [hmr, if_true] at hlt h2 ⊢
            have hm : (m + 1) % 2 ^ 32 = m + 1 := Nat.mod_eq_of_lt (by omega)
            rw [hm] at h2
            rw [h2 (by omega)]
            omega
          · simp only [hmr, if_false, Bool.false_eq_true] at hlt h2 ⊢
            rw [h2 (by omega)]
            omega
      · intro h
        exact (ih _).2 (fun x hx => h x (List.mem_cons_of_mem _ hx))

theorem unsigned_long_of_nonneg (v : Int) (h0 : 0 ≤ v) (h1 : v < 2 ^ 31) :
    (unsigned_long v : Int) = v := by
  unfold unsigned_long
  have : v % 2 ^ 64 = v := Int.emod_eq_of_lt h0 (by omega)
  rw [this]
  exact Int.toNat_of_nonneg h0

/-- The value of `xio_tcp_is_valid_out_msg`, test by test. -/
theorem valid_out_msg_cases (T : xio_tcp_decls) (o : xio_tcp_options) (vmsg : xio_vmsg_out) :
    (xio_tcp_is_valid_out_msg T o vmsg = 0 ∨ xio_tcp_is_valid_out_msg T o vmsg = 1) ∧
    (xio_tcp_is_valid_out_msg T o vmsg = 1 ↔
      ¬ (vmsg.sgtbl.nents > unsigned_long o.max_out_iovsz ∨
          vmsg.sgtbl.nents > vmsg.sgtbl.max_nents ∨
          vmsg.sgtbl.max_nents > unsigned_long o.max_out_iovsz) ∧
      ¬ (vmsg.sgl_type = xio_sgl_type.XIO_SGL_TYPE_IOV ∧
          vmsg.sgtbl.nents > unsigned_long T.XIO_IOVLEN) ∧
      ¬ ((vmsg.header_iov_base ≠ none ∧ vmsg.header_iov_len = 0) ∨
          (vmsg.header_iov_base = none ∧ vmsg.header_iov_len ≠ 0)) ∧
      ∃ mr_found,
        xio_tcp_is_valid_out_msg_loop (vmsg.sgtbl.sglist.take vmsg.sgtbl.nents) 0 =
          some mr_found ∧
        ¬ (o.enable_mr_check ≠ 0 ∧ mr_found ≠ vmsg.sgtbl.nents ∧ mr_found ≠ 0)) := by
  unfold xio_tcp_is_valid_out_msg
  dsimp only
  by_cases c1 : vmsg.sgtbl.nents > unsigned_long o.max_out_iovsz ∨
      vmsg.sgtbl.nents > vmsg.sgtbl.max_nents ∨
      vmsg.sgtbl.max_nents > unsigned_long o.max_out_iovsz
  · rw [if_pos c1]
    exact ⟨Or.inl rfl, ⟨(fun h => by cases h), fun h => absurd c1 h.1⟩⟩
  · rw [if_neg c1]
    by_cases c2 : vmsg.sgl_type = xio_sgl_type.XIO_SGL_TYPE_IOV ∧
        vmsg.sgtbl.nents > unsigned_long T.XIO_IOVLEN
    · rw [if_pos c2]
      exact ⟨Or.inl rfl, ⟨(fun h => by cases h), fun h => absurd c2 h.2.1⟩⟩
    · rw [if_neg c2]
      by_cases c3 : (vmsg.header_iov_base ≠ none ∧ vmsg.header_iov_len = 0) ∨
          (vmsg.header_iov_base = none ∧ vmsg.header_iov_len ≠ 0)
      · rw [if_pos c3]
        exact ⟨Or.inl rfl, ⟨(fun h => by cases h), fun h => absurd c3 h.2.2.1⟩⟩
      · rw [if_neg c3]
        cases hl : xio_tcp_is_valid_out_msg_loop
            (vmsg.sgtbl.sglist.take vmsg.sgtbl.nents) 0 with
        | none =>
          refine ⟨Or.inl rfl, ⟨(fun h => by cases h), fun h => ?_⟩⟩
          obtain ⟨_, _, _, m, hm, _⟩ := h
          cases hm
        | some mr_found =>
          dsimp only
          by_cases c4 : o.enable_mr_check ≠ 0 ∧ mr_found ≠ vmsg.sgtbl.nents ∧ mr_found ≠ 0
          · rw [if_pos c4]
            refine ⟨Or.inl rfl, ⟨(fun h => by cases h), fun h => ?_⟩⟩
            obtain ⟨_, _, _, m, hm, hc⟩ := h
            cases hm
            exact absurd c4 hc
          · rw [if_neg c4]
            exact ⟨Or.inr rfl, ⟨fun _ => ⟨c1, c2, c3, mr_found, rfl, c4⟩, fun _ => rfl⟩⟩

theorem valid_out_mr_iff (l : List xio_sg) (n : Nat) (hn : l.length = n) :
    (l.countP (fun sge => sge.mr.isSome) = 0 ∨ l.countP (fun sge => sge.mr.isSome) = n) ↔
    ((∀ sge ∈ l, sge.mr = none) ∨ (∀ sge ∈ l, sge.mr ≠ none)) := by
  rw [← hn, List.countP_eq_zero, List.countP_eq_length]
  constructor
  · rintro (h | h)
    · left
      intro sge hs
      have := h sge hs
      cases hm : sge.mr with
      | none => rfl
      | some v => rw [hm] at this; exact absurd rfl this
    · right
      intro sge hs hm
      have := h sge hs
      rw [hm] at this
      cases this
  · rintro (h | h)
    · left
      intro sge hs
      rw [h sge hs]
      simp
    · right
      intro sge hs
      cases hm : sge.mr with
      | none => exact absurd hm (h sge hs)
      | some v => rfl

/-- C28 (amended): with a `max_out_iovsz` that is not negative,
`xio_tcp_is_valid_out_msg` returns 1 exactly when the out side satisfies the
conditions the claim lists (`nents <= max_nents <= max_out_iovsz`,
`nents <= XIO_IOVLEN` for an IOV table, header base null exactly when the
header length is zero, every entry with an address and a length, and under
`enable_mr_check` no entry or every entry with a memory region), and it
returns 0 otherwise. -/
theorem C28_valid_out_msg (T : xio_tcp_decls) (o : xio_tcp_options) (vmsg : xio_vmsg_out)
    (hopt0 : 0 ≤ o.max_out_iovsz) (hopt1 : o.max_out_iovsz < 2 ^ 31)
    (hiov0 : 0 ≤ T.XIO_IOVLEN) (hiov1 : T.XIO_IOVLEN < 2 ^ 31)
    (hwf : vmsg.sgtbl.nents ≤ vmsg.sgtbl.sglist.length) :
    (xio_tcp_is_valid_out_msg T o vmsg = 1 ↔ xio_out_msg_claimed T o vmsg) ∧
    (¬ xio_out_msg_claimed T o vmsg → xio_tcp_is_valid_out_msg T o vmsg = 0) := by
  have ho := unsigned_long_of_nonneg o.max_out_iovsz hopt0 hopt1
  have hi := unsigned_long_of_nonneg T.XIO_IOVLEN hiov0 hiov1
  have hlen : (vmsg.sgtbl.sglist.take vmsg.sgtbl.nents).length = vmsg.sgtbl.nents := by
    rw [List.length_take]; omega
  obtain ⟨h01, hiff⟩ := valid_out_msg_cases T o vmsg
  have key : xio_tcp_is_valid_out_msg T o vmsg = 1 ↔ xio_out_msg_claimed T o vmsg := by
    rw [hiff]
    unfold xio_out_msg_claimed
    constructor
    · rintro ⟨c1, c2, c3, m, hm, c4⟩
      have hcnt := List.countP_le_length (fun sge : xio_sg => sge.mr.isSome)
        (l := vmsg.sgtbl.sglist.take vmsg.sgtbl.nents)
      obtain ⟨hall, hm2⟩ := (valid_out_loop_spec _ 0).1 m hm
      have hmeq : m = (vmsg.sgtbl.sglist.take vmsg.sgtbl.nents).countP
          (fun sge => sge.mr.isSome) := by
        have := hm2 (by omega)
        omega
      refine ⟨by omega, by omega, fun ht => ?_, ?_, hall, fun hmr => ?_⟩
      · have : ¬ vmsg.sgtbl.nents > unsigned_long T.XIO_IOVLEN := fun h => c2 ⟨ht, h⟩
        omega
      · constructor
        · intro hb
          by_contra hl
          exact c3 (Or.inr ⟨hb, hl⟩)
        · intro hl
          by_contra hb
          exact c3 (Or.inl ⟨hb, hl⟩)
      · apply (valid_out_mr_iff _ _ hlen).1
        rw [← hmeq]
        by_cases h0 : m = 0
        · exact Or.inl h0
        · by_cases hn : m = vmsg.sgtbl.nents
          · exact Or.inr hn
          · exact absurd ⟨hmr, hn, h0⟩ c4
    · rintro ⟨d1, d2, d3, d4, d5, d6⟩
      obtain ⟨m, hm⟩ := (valid_out_loop_spec _ 0).2 d5
      have hcnt := List.countP_le_length (fun sge : xio_sg => sge.mr.isSome)
        (l := vmsg.sgtbl.sglist.take vmsg.sgtbl.nents)
      obtain ⟨_, hm2⟩ := (valid_out_loop_spec _ 0).1 m hm
      have hmeq : m = (vmsg.sgtbl.sglist.take vmsg.sgtbl.nents).countP
          (fun sge => sge.mr.isSome) := by
        have := hm2 (by omega)
        omega
      refine ⟨by omega, ?_, ?_, m, hm, ?_⟩
      · rintro ⟨ht, hgt⟩
        have := d3 ht
        omega
      · rintro (⟨hb, hl⟩ | ⟨hb, hl⟩)
        · exact hb (d4.2 hl)
        · exact hl (d4.1 hb)
      · rintro ⟨hmr, hn, h0⟩
        have := (valid_out_mr_iff _ _ hlen).2 (d6 hmr)
        rw [← hmeq] at this
        rcases this with h | h
        · exact h0 h
        · exact hn h
  refine ⟨key, fun hc => ?_⟩
  rcases h01 with h | h
  · exact h
  · exact absurd (key.1 h) hc

/-- C28, at an instance: the default options and a message with one entry. -/
theorem C28_valid_out_msg_witness :
    (xio_tcp_is_valid_out_msg ex_tcp_decls (tcp_options_init ex_tcp_decls) ex_vmsg_out = 1 ↔
      xio_out_msg_claimed ex_tcp_decls (tcp_options_init ex_tcp_decls) ex_vmsg_out) ∧
    (¬ xio_out_msg_claimed ex_tcp_decls (tcp_options_init ex_tcp_decls) ex_vmsg_out →
      xio_tcp_is_valid_out_msg ex_tcp_decls (tcp_options_init ex_tcp_decls) ex_vmsg_out = 0) :=
  C28_valid_out_msg ex_tcp_decls (tcp_options_init ex_tcp_decls) ex_vmsg_out
    (by decide) (by decide) (by decide) (by decide) (by decide)

/-- C28, as the claim words it, fails: after `xio_tcp_set_opt` has stored -1
in `max_out_iovsz` (the option takes any `int`), the conversion to
`unsigned long` makes the bound 2^64 - 1, and a message with
`nents = max_nents = 1` is declared valid although `max_nents <= max_out_iovsz`
is false. -/
theorem C28_counterexample :
    (xio_tcp_set_opt ex_tcp_globals xio_optname.XIO_OPTNAME_MAX_OUT_IOVLEN (-1) sizeof_int).2 = 0 ∧
    (xio_tcp_set_opt ex_tcp_globals xio_optname.XIO_OPTNAME_MAX_OUT_IOVLEN (-1)
      sizeof_int).1.tcp_options.max_out_iovsz = -1 ∧
    xio_tcp_is_valid_out_msg ex_tcp_decls
      (xio_tcp_set_opt ex_tcp_globals xio_optname.XIO_OPTNAME_MAX_OUT_IOVLEN (-1)
        sizeof_int).1.tcp_options ex_vmsg_out = 1 ∧
    ¬ xio_out_msg_claimed ex_tcp_decls
      (xio_tcp_set_opt ex_tcp_globals xio_optname.XIO_OPTNAME_MAX_OUT_IOVLEN (-1)
        sizeof_int).1.tcp_options ex_vmsg_out := by
  refine ⟨by decide, by decide, by decide, by decide⟩

/-! ## The private data of a task -/

theorem int_conv_nat (k : Nat) (h : k < 2 ^ 31) : int_conv (k : Int) = k := by
  unfold int_conv
  have : ((k : Int) + 2 ^ 31) % 2 ^ 32 = (k : Int) + 2 ^ 31 :=
    Int.emod_eq_of_lt (by omega) (by omega)
  rw [this]
  omega

theorem unsigned_long_nat (k : Nat) (h : k < 2 ^ 64) : unsigned_long (k : Int) = k := by
  unfold unsigned_long
  have : (k : Int) % 2 ^ 64 = (k : Int) := Int.emod_eq_of_lt (by omega) (by omega)
  rw [this]
  exact Int.toNat_natCast k

theorem size_t_mul_nat (k sz : Nat) (hk : k < 2 ^ 64) (h : k * sz < 2 ^ 64) :
    size_t_mul (k : Int) sz = k * sz := by
  unfold size_t_mul
  rw [unsigned_long_nat k hk]
  exact Nat.mod_eq_of_lt h

/-- The pointers `xio_tcp_primary_pool_slab_init_task` stores, when the size
of the private data fits an `int`. -/
theorem primary_slab_init_task_spec (T : xio_tcp_decls) (D : xio_tcp_task_decls)
    (o : xio_tcp_options) (tcp_hndl : Nat) (tcp_slab : xio_tcp_tasks_slab) (tid : Nat)
    (tcp_task : Nat) (n : Nat)
    (hn : (n : Int) = max o.max_out_iovsz o.max_in_iovsz + 1)
    (hiov : 0 < D.sizeof_iovec)
    (hfit : xio_tcp_primary_task_size T D n < 2 ^ 31) :
    let t := xio_tcp_primary_pool_slab_init_task T D o tcp_hndl tcp_slab tid tcp_task
    t.txd.msg_iov = tcp_task + D.sizeof_xio_tcp_task ∧
    t.rxd.msg_iov = t.txd.msg_iov + (n + 1) * D.sizeof_iovec ∧
    t.read_sge = some (t.rxd.msg_iov + (n + 1) * D.sizeof_iovec) ∧
    t.write_sge = some (t.read_sge.getD 0 + n * D.sizeof_xio_mempool_obj) ∧
    t.req_read_sge = some (t.write_sge.getD 0 + n * D.sizeof_xio_mempool_obj) ∧
    t.req_write_sge = some (t.req_read_sge.getD 0 + n * T.sizeof_xio_sge.toNat) ∧
    t.req_recv_sge = some (t.req_write_sge.getD 0 + n * T.sizeof_xio_sge.toNat) ∧
    t.rsp_write_sge = some (t.req_recv_sge.getD 0 + n * T.sizeof_xio_sge.toNat) ∧
    t.ptr = t.rsp_write_sge.getD 0 + n * T.sizeof_xio_sge.toNat ∧
    t.txd.iov_stores.map Prod.fst = [0] ∧
    t.rxd.iov_stores.map Prod.fst = [0, 1] := by
  unfold xio_tcp_primary_task_size at hfit
  have hle : n + 1 ≤ (n + 1) * D.sizeof_iovec := Nat.le_mul_of_pos_right _ hiov
  have hmax : int_conv (max o.max_out_iovsz o.max_in_iovsz + 1) = (n : Int) := by
    rw [← hn]; exact int_conv_nat n (by omega)
  have hn1 : int_conv ((n : Int) + 1) = ((n + 1 : Nat) : Int) := by
    have := int_conv_nat (n + 1) (by omega)
    push_cast at this ⊢
    exact this
  have h1 : size_t_mul ((n + 1 : Nat) : Int) D.sizeof_iovec = (n + 1) * D.sizeof_iovec :=
    size_t_mul_nat _ _ (by omega) (by omega)
  have h2 : size_t_mul (n : Int) D.sizeof_xio_mempool_obj = n * D.sizeof_xio_mempool_obj :=
    size_t_mul_nat _ _ (by omega) (by omega)
  have h3 : size_t_mul (n : Int) T.sizeof_xio_sge.toNat = n * T.sizeof_xio_sge.toNat :=
    size_t_mul_nat _ _ (by omega) (by omega)
  simp only [xio_tcp_primary_pool_slab_init_task, xio_tcp_task_init, xio_tcp_rxd_init,
    xio_tcp_txd_init, xio_tcp_task_blank, hmax, hn1, h1, h2, h3, Option.getD_some,
    List.nil_append, List.map_cons, List.map_nil, and_self]

theorem size_t_mul_zero (v : Int) : size_t_mul v 0 = 0 := by
  unfold size_t_mul
  simp

theorem size_t_mul_int_conv (k sz : Nat) (h : k * sz < 2 ^ 31) (hk : 0 < sz → k < 2 ^ 31 → 
    int_conv (k : Int) = k) : size_t_mul (int_conv (k : Int)) sz = k * sz := by
  rcases Nat.eq_zero_or_pos sz with h0 | h0
  · rw [h0, size_t_mul_zero, Nat.mul_zero]
  · have hle : k ≤ k * sz := Nat.le_mul_of_pos_right _ h0
    rw [hk h0 (by omega)]
    exact size_t_mul_nat _ _ (by omega) (by omega)

/-- Regions that follow one another from `p` to `q` lie between `p` and `q`
and are pairwise disjoint. -/
theorem regions_consecutive_spec (l : List xio_region) :
    ∀ p q, xio_regions_consecutive p l = some q →
      p ≤ q ∧ (∀ r ∈ l, p ≤ r.start ∧ r.start + r.size ≤ q) ∧
      List.Pairwise xio_region.disjoint l := by
  induction l with
  | nil =>
    intro p q h
    simp only [xio_regions_consecutive, Option.some.injEq] at h
    exact ⟨by omega, fun r hr => (by cases hr), List.Pairwise.nil⟩
  | cons r rest ih =>
    intro p q h
    unfold xio_regions_consecutive at h
    by_cases hs : r.start = p
    · rw [if_pos hs] at h
      obtain ⟨h1, h2, h3⟩ := ih _ _ h
      refine ⟨by omega, ?_, ?_⟩
      · intro x hx
        rcases List.mem_cons.mp hx with hx | hx
        · rw [hx]; omega
        · have := h2 x hx
          omega
      · refine List.Pairwise.cons ?_ h3
        intro x hx
        have := h2 x hx
        exact Or.inl (by omega)
    · rw [if_neg hs] at h
      cases h

/-- The value `xio_tcp_primary_pool_get_params` reports, when the size fits
an `int`. -/
theorem primary_get_params_spec (T : xio_tcp_decls) (D : xio_tcp_task_decls)
    (o : xio_tcp_options) (n : Nat)
    (hn : (n : Int) = max o.max_out_iovsz o.max_in_iovsz + 1)
    (hiov : 0 < D.sizeof_iovec)
    (hfit : xio_tcp_primary_task_size T D n < 2 ^ 31) :
    xio_tcp_primary_pool_get_params T D o = (xio_tcp_primary_task_size T D n : Int) := by
  unfold xio_tcp_primary_task_size at hfit ⊢
  have hle : n + 1 ≤ (n + 1) * D.sizeof_iovec := Nat.le_mul_of_pos_right _ hiov
  have hmax : int_conv (max o.max_out_iovsz o.max_in_iovsz + 1) = (n : Int) := by
    rw [← hn]; exact int_conv_nat n (by omega)
  have hn1 : int_conv ((n : Int) + 1) = ((n + 1 : Nat) : Int) := by
    have := int_conv_nat (n + 1) (by omega)
    push_cast at this ⊢
    exact this
  have c1 : (2 : Int) * ((n + 1 : Nat) : Int) = ((2 * (n + 1) : Nat) : Int) := by push_cast; rfl
  have c2 : (2 : Int) * (n : Int) = ((2 * n : Nat) : Int) := by push_cast; rfl
  have c3 : (4 : Int) * (n : Int) = ((4 * n : Nat) : Int) := by push_cast; rfl
  have a1 : 2 * (n + 1) * D.sizeof_iovec = 2 * ((n + 1) * D.sizeof_iovec) := Nat.mul_assoc _ _ _
  have a2 : 2 * n * D.sizeof_xio_mempool_obj = 2 * (n * D.sizeof_xio_mempool_obj) :=
    Nat.mul_assoc _ _ _
  have a3 : 4 * n * T.sizeof_xio_sge.toNat = 4 * (n * T.sizeof_xio_sge.toNat) :=
    Nat.mul_assoc _ _ _
  have h1 : size_t_mul (int_conv ((2 * (n + 1) : Nat) : Int)) D.sizeof_iovec =
      2 * (n + 1) * D.sizeof_iovec :=
    size_t_mul_int_conv _ _ (by omega) (fun _ h => int_conv_nat _ h)
  have h2 : size_t_mul (int_conv ((2 * n : Nat) : Int)) D.sizeof_xio_mempool_obj =
      2 * n * D.sizeof_xio_mempool_obj :=
    size_t_mul_int_conv _ _ (by omega) (fun _ h => int_conv_nat _ h)
  have h3 : size_t_mul (int_conv ((4 * n : Nat) : Int)) T.sizeof_xio_sge.toNat =
      4 * n * T.sizeof_xio_sge.toNat :=
    size_t_mul_int_conv _ _ (by omega) (fun _ h => int_conv_nat _ h)
  simp only [xio_tcp_primary_pool_get_params, hmax, hn1, c1, c2, c3, h1, h2, h3, a1, a2, a3]
  have hm : (D.sizeof_xio_tcp_task + 2 * ((n + 1) * D.sizeof_iovec) +
      2 * (n * D.sizeof_xio_mempool_obj) + 4 * (n * T.sizeof_xio_sge.toNat)) % 2 ^ 64 =
      D.sizeof_xio_tcp_task + 2 * ((n + 1) * D.sizeof_iovec) +
      2 * (n * D.sizeof_xio_mempool_obj) + 4 * (n * T.sizeof_xio_sge.toNat) :=
    Nat.mod_eq_of_lt (by omega)
  rw [hm]
  exact int_conv_nat _ hfit

/-- The pointers `xio_tcp_initial_pool_slab_init_task` stores, and the entries
the initialisation of the two work requests writes. -/
theorem initial_slab_init_task_spec (D : xio_tcp_task_decls) (tcp_hndl : Nat)
    (tcp_slab : xio_tcp_tasks_slab) (tid : Nat) (tcp_task : Nat)
    (hfit : D.sizeof_xio_tcp_task + 3 * D.sizeof_iovec < 2 ^ 31) :
    let t := xio_tcp_initial_pool_slab_init_task D tcp_hndl tcp_slab tid tcp_task
    t.txd.msg_iov = tcp_task + D.sizeof_xio_tcp_task ∧
    t.rxd.msg_iov = tcp_task + D.sizeof_xio_tcp_task + D.sizeof_iovec ∧
    t.ptr = tcp_task + D.sizeof_xio_tcp_task + D.sizeof_iovec + 2 * D.sizeof_iovec ∧
    t.txd.iov_stores.map Prod.fst = [0] ∧
    t.rxd.iov_stores.map Prod.fst = [0, 1] ∧
    xio_tcp_initial_pool_get_params D =
      ((D.sizeof_xio_tcp_task + 3 * D.sizeof_iovec : Nat) : Int) := by
  have h2 : size_t_mul ((2 : Nat) : Int) D.sizeof_iovec = 2 * D.sizeof_iovec :=
    size_t_mul_nat _ _ (by omega) (by omega)
  have h3 : size_t_mul ((3 : Nat) : Int) D.sizeof_iovec = 3 * D.sizeof_iovec :=
    size_t_mul_nat _ _ (by omega) (by omega)
  have hm : (D.sizeof_xio_tcp_task + 3 * D.sizeof_iovec) % 2 ^ 64 =
      D.sizeof_xio_tcp_task + 3 * D.sizeof_iovec := Nat.mod_eq_of_lt (by omega)
  have hc : int_conv ((D.sizeof_xio_tcp_task + 3 * D.sizeof_iovec : Nat) : Int) =
      ((D.sizeof_xio_tcp_task + 3 * D.sizeof_iovec : Nat) : Int) := int_conv_nat _ hfit
  have e2 : (2 : Int) = ((2 : Nat) : Int) := rfl
  have e3 : (3 : Int) = ((3 : Nat) : Int) := rfl
  unfold xio_tcp_initial_pool_get_params
  rw [e3, h3, hm, hc]
  simp only [xio_tcp_initial_pool_slab_init_task, xio_tcp_task_init, xio_tcp_rxd_init,
    xio_tcp_txd_init, xio_tcp_task_blank, List.nil_append, List.map_cons, List.map_nil,
    and_self, and_true, true_and]
  rw [e2, h2]

theorem iov_entry_inside (D : xio_tcp_task_decls) (msg_iov i k : Nat) (h : i < k) :
    (xio_iov_entry D msg_iov i).inside { start := msg_iov, size := k * D.sizeof_iovec } := by
  unfold xio_iov_entry xio_region.inside
  dsimp only
  have : (i + 1) * D.sizeof_iovec ≤ k * D.sizeof_iovec := Nat.mul_le_mul_right _ h
  rw [Nat.succ_mul] at this
  omega

theorem iov_stores_inside (D : xio_tcp_task_decls) (msg_iov k : Nat)
    (stores : List (Nat × xio_iovec)) (idx : List Nat) (h : stores.map Prod.fst = idx)
    (hk : ∀ i ∈ idx, i < k) :
    ∀ s ∈ stores,
      (xio_iov_entry D msg_iov s.1).inside { start := msg_iov, size := k * D.sizeof_iovec } := by
  intro s hs
  apply iov_entry_inside
  apply hk
  rw [← h]
  exact List.mem_map_of_mem _ hs

/-- C30 (amended): for `max_in_iovsz` and `max_out_iovsz` whose maximum is
not negative and such that the size of the private data, taken exactly, fits
an `int`, the eight regions
`xio_tcp_primary_pool_slab_init_task` carves follow one another from the end
of `struct xio_tcp_task`, are pairwise disjoint, and end at the address of
the private data plus the `task_dd_sz` reported by
`xio_tcp_primary_pool_get_params`, which is `sizeof(xio_tcp_task)` plus the
sizes of the regions; the layout of the initial pool (one TX and two RX
entries) ends at its reported `sizeof(xio_tcp_task) + 3*sizeof(iovec)`; and
the initialisation of `rxd` and `txd` stores only to entries inside their
arrays. -/
theorem C30_task_layout (T : xio_tcp_decls) (D : xio_tcp_task_decls) (o : xio_tcp_options)
    (tcp_hndl : Nat) (tcp_slab : xio_tcp_tasks_slab) (tid : Nat) (tcp_task : Nat) (n : Nat)
    (hmax : 0 ≤ max o.max_out_iovsz o.max_in_iovsz)
    (hn : (n : Int) = max o.max_out_iovsz o.max_in_iovsz + 1)
    (hiov : 0 < D.sizeof_iovec)
    (hfit : xio_tcp_primary_task_size T D n < 2 ^ 31) :
    (xio_regions_consecutive (tcp_task + D.sizeof_xio_tcp_task)
        (xio_tcp_primary_regions T D n
          (xio_tcp_primary_pool_slab_init_task T D o tcp_hndl tcp_slab tid tcp_task)) =
        some (xio_tcp_primary_pool_slab_init_task T D o tcp_hndl tcp_slab tid tcp_task).ptr ∧
      List.Pairwise xio_region.disjoint
        (xio_tcp_primary_regions T D n
          (xio_tcp_primary_pool_slab_init_task T D o tcp_hndl tcp_slab tid tcp_task)) ∧
      ((xio_tcp_primary_pool_slab_init_task T D o tcp_hndl tcp_slab tid tcp_task).ptr : Int) =
        tcp_task + xio_tcp_primary_pool_get_params T D o ∧
      xio_tcp_primary_pool_get_params T D o = (xio_tcp_primary_task_size T D n : Int) ∧
      (∀ s ∈ (xio_tcp_primary_pool_slab_init_task T D o tcp_hndl tcp_slab tid
            tcp_task).txd.iov_stores,
        (xio_iov_entry D (xio_tcp_primary_pool_slab_init_task T D o tcp_hndl tcp_slab tid
            tcp_task).txd.msg_iov s.1).inside
          { start := (xio_tcp_primary_pool_slab_init_task T D o tcp_hndl tcp_slab tid
              tcp_task).txd.msg_iov,
            size := (n + 1) * D.sizeof_iovec }) ∧
      (∀ s ∈ (xio_tcp_primary_pool_slab_init_task T D o tcp_hndl tcp_slab tid
            tcp_task).rxd.iov_stores,
        (xio_iov_entry D (xio_tcp_primary_pool_slab_init_task T D o tcp_hndl tcp_slab tid
            tcp_task).rxd.msg_iov s.1).inside
          { start := (xio_tcp_primary_pool_slab_init_task T D o tcp_hndl tcp_slab tid
              tcp_task).rxd.msg_iov,
            size := (n + 1) * D.sizeof_iovec })) ∧
    (xio_regions_consecutive (tcp_task + D.sizeof_xio_tcp_task)
        (xio_tcp_initial_regions D
          (xio_tcp_initial_pool_slab_init_task D tcp_hndl tcp_slab tid tcp_task)) =
        some (xio_tcp_initial_pool_slab_init_task D tcp_hndl tcp_slab tid tcp_task).ptr ∧
      List.Pairwise xio_region.disjoint
        (xio_tcp_initial_regions D
          (xio_tcp_initial_pool_slab_init_task D tcp_hndl tcp_slab tid tcp_task)) ∧
      ((xio_tcp_initial_pool_slab_init_task D tcp_hndl tcp_slab tid tcp_task).ptr : Int) =
        tcp_task + xio_tcp_initial_pool_get_params D ∧
      xio_tcp_initial_pool_get_params D =
        ((D.sizeof_xio_tcp_task + 3 * D.sizeof_iovec : Nat) : Int) ∧
      (∀ s ∈ (xio_tcp_initial_pool_slab_init_task D tcp_hndl tcp_slab tid
            tcp_task).txd.iov_stores,
        (xio_iov_entry D (xio_tcp_initial_pool_slab_init_task D tcp_hndl tcp_slab tid
            tcp_task).txd.msg_iov s.1).inside
          { start := (xio_tcp_initial_pool_slab_init_task D tcp_hndl tcp_slab tid
              tcp_task).txd.msg_iov,
            size := 1 * D.sizeof_iovec }) ∧
      (∀ s ∈ (xio_tcp_initial_pool_slab_init_task D tcp_hndl tcp_slab tid
            tcp_task).rxd.iov_stores,
        (xio_iov_entry D (xio_tcp_initial_pool_slab_init_task D tcp_hndl tcp_slab tid
            tcp_task).rxd.msg_iov s.1).inside
          { start := (xio_tcp_initial_pool_slab_init_task D tcp_hndl tcp_slab tid
              tcp_task).rxd.msg_iov,
            size := 2 * D.sizeof_iovec })) := by
  have hn1 : 1 ≤ n := by
    omega
  have hle : n + 1 ≤ (n + 1) * D.sizeof_iovec := Nat.le_mul_of_pos_right _ hiov
  have hsm : (n + 1) * D.sizeof_iovec = n * D.sizeof_iovec + D.sizeof_iovec := Nat.succ_mul _ _
  have hfit3 : D.sizeof_xio_tcp_task + 3 * D.sizeof_iovec < 2 ^ 31 := by
    have h2 : D.sizeof_iovec ≤ n * D.sizeof_iovec := Nat.le_mul_of_pos_left _ hn1
    unfold xio_tcp_primary_task_size at hfit
    omega
  have hp := primary_slab_init_task_spec T D o tcp_hndl tcp_slab tid tcp_task n hn hiov hfit
  have hg := primary_get_params_spec T D o n hn hiov hfit
  have hi := initial_slab_init_task_spec D tcp_hndl tcp_slab tid tcp_task hfit3
  dsimp only at hp hi
  obtain ⟨p1, p2, p3, p4, p5, p6, p7, p8, p9, p10, p11⟩ := hp
  obtain ⟨i1, i2, i3, i4, i5, i6⟩ := hi
  have hcons : xio_regions_consecutive (tcp_task + D.sizeof_xio_tcp_task)
      (xio_tcp_primary_regions T D n
        (xio_tcp_primary_pool_slab_init_task T D o tcp_hndl tcp_slab tid tcp_task)) =
      some (xio_tcp_primary_pool_slab_init_task T D o tcp_hndl tcp_slab tid tcp_task).ptr := by
    unfold xio_tcp_primary_regions
    rw [p9, p8, p7, p6, p5, p4, p3, p2, p1]
    simp only [xio_regions_consecutive, Option.getD_some, if_true]
  have hcons2 : xio_regions_consecutive (tcp_task + D.sizeof_xio_tcp_task)
      (xio_tcp_initial_regions D
        (xio_tcp_initial_pool_slab_init_task D tcp_hndl tcp_slab tid tcp_task)) =
      some (xio_tcp_initial_pool_slab_init_task D tcp_hndl tcp_slab tid tcp_task).ptr := by
    unfold xio_tcp_initial_regions
    rw [i3, i2, i1]
    simp only [xio_regions_consecutive, if_true]
  refine ⟨⟨hcons, (regions_consecutive_spec _ _ _ hcons).2.2, ?_, hg, ?_, ?_⟩,
    ⟨hcons2, (regions_consecutive_spec _ _ _ hcons2).2.2, ?_, i6, ?_, ?_⟩⟩
  · rw [hg, p9, p8, p7, p6, p5, p4, p3, p2, p1]
    unfold xio_tcp_primary_task_size
    simp only [Option.getD_some]
    push_cast
    ring
  · exact iov_stores_inside D _ _ _ _ p10 (fun i hi => by simp at hi; omega)
  · exact iov_stores_inside D _ _ _ _ p11 (fun i hi => by simp at hi; omega)
  · rw [i6, i3]
    push_cast
    ring
  · exact iov_stores_inside D _ _ _ _ i4 (fun i hi => by simp at hi; omega)
  · exact iov_stores_inside D _ _ _ _ i5 (fun i hi => by simp at hi; omega)

/-- C30, at an instance: the default options (arrays of 7 entries). -/
theorem C30_task_layout_witness :
    (xio_regions_consecutive (4096 + ex_tcp_task_decls.sizeof_xio_tcp_task)
        (xio_tcp_primary_regions ex_tcp_decls ex_tcp_task_decls 7
          (xio_tcp_primary_pool_slab_init_task ex_tcp_decls ex_tcp_task_decls
            (tcp_options_init ex_tcp_decls) 900 ex_tcp_slab 3 4096)) =
        some (xio_tcp_primary_pool_slab_init_task ex_tcp_decls ex_tcp_task_decls
            (tcp_options_init ex_tcp_decls) 900 ex_tcp_slab 3 4096).ptr) ∧
    xio_tcp_primary_pool_get_params ex_tcp_decls ex_tcp_task_decls
      (tcp_options_init ex_tcp_decls) = 1552 :=
  have h := C30_task_layout ex_tcp_decls ex_tcp_task_decls (tcp_options_init ex_tcp_decls)
    900 ex_tcp_slab 3 4096 7 (by decide) (by decide) (by decide) (by decide)
  ⟨h.1.1, h.1.2.2.2.1⟩

/-- C30, as the claim words it, fails: with `max_out_iovsz` set to 2^24 by
`xio_tcp_set_opt`, the regions carved end 2415919792 bytes after the start of
the private data, and `xio_tcp_primary_pool_get_params` reports the `int`
-1879047504. -/
theorem C30_counterexample :
    (xio_tcp_set_opt ex_tcp_globals xio_optname.XIO_OPTNAME_MAX_OUT_IOVLEN 16777216
      sizeof_int).2 = 0 ∧
    0 ≤ (xio_tcp_set_opt ex_tcp_globals xio_optname.XIO_OPTNAME_MAX_OUT_IOVLEN 16777216
      sizeof_int).1.tcp_options.max_out_iovsz ∧
    0 ≤ (xio_tcp_set_opt ex_tcp_globals xio_optname.XIO_OPTNAME_MAX_OUT_IOVLEN 16777216
      sizeof_int).1.tcp_options.max_in_iovsz ∧
    xio_regions_consecutive (4096 + ex_tcp_task_decls.sizeof_xio_tcp_task)
      (xio_tcp_primary_regions ex_tcp_decls ex_tcp_task_decls 16777217
        (xio_tcp_primary_pool_slab_init_task ex_tcp_decls ex_tcp_task_decls
          (xio_tcp_set_opt ex_tcp_globals xio_optname.XIO_OPTNAME_MAX_OUT_IOVLEN 16777216
            sizeof_int).1.tcp_options 900 ex_tcp_slab 3 4096)) =
      some (4096 + 2415919792) ∧
    (xio_tcp_primary_pool_slab_init_task ex_tcp_decls ex_tcp_task_decls
      (xio_tcp_set_opt ex_tcp_globals xio_optname.XIO_OPTNAME_MAX_OUT_IOVLEN 16777216
        sizeof_int).1.tcp_options 900 ex_tcp_slab 3 4096).ptr = 4096 + 2415919792 ∧
    xio_tcp_primary_pool_get_params ex_tcp_decls ex_tcp_task_decls
      (xio_tcp_set_opt ex_tcp_globals xio_optname.XIO_OPTNAME_MAX_OUT_IOVLEN 16777216
        sizeof_int).1.tcp_options = -1879047504 := by
  refine ⟨by decide, by decide, by decide, by decide, by decide, by decide⟩

/-! ## The handshakes of the client and the pairing of the server -/

theorem host_bytes_length (S : xio_sys_decls) (n v : Nat) : (host_bytes S n v).length = n := by
  unfold host_bytes
  split <;> simp [be_bytes_length]

theorem host_value_host_bytes (S : xio_sys_decls) (n v : Nat) :
    host_value S (host_bytes S n v) = v % 256 ^ n := by
  unfold host_value host_bytes
  split <;> simp [be_value_be_bytes]

theorem connect_msg_wire_length (msg : xio_tcp_connect_msg) : msg.wire.length = 8 := by
  unfold xio_tcp_connect_msg.wire PACK_LVAL PACK_SVAL
  simp [mem_store_length]

/-- The fields of a handshake as UNPACK_LVAL and UNPACK_SVAL read them from
the bytes on the wire. -/
theorem connect_msg_wire_fields (msg : xio_tcp_connect_msg) :
    mem_load msg.wire 0 4 = be_bytes 4 msg.sock_type ∧
    mem_load msg.wire 4 2 = be_bytes 2 msg.second_port ∧
    mem_load msg.wire 6 2 = be_bytes 2 msg.pad := by
  unfold xio_tcp_connect_msg.wire PACK_LVAL PACK_SVAL off_sock_type off_second_port off_pad
  simp only [Nat.zero_add]
  refine ⟨?_, ?_, ?_⟩
  · rw [mem_load_store_be_disjoint _ _ _ _ _ _ (by omega),
      mem_load_store_be_disjoint _ _ _ _ _ _ (by omega)]
    exact mem_load_store_be _ _ _ _ (by simp)
  · rw [mem_load_store_be_disjoint _ _ _ _ _ _ (by omega)]
    exact mem_load_store_be _ _ _ _ (by simp [mem_store_length])
  · exact mem_load_store_be _ _ _ _ (by simp [mem_store_length])

/-- An entry that has converted the bytes of a handshake where they lie
holds the fields the client gave it. -/
theorem connect_msg_of_wire (S : xio_sys_decls) (pconn : xio_tcp_pending_conn)
    (msg : xio_tcp_connect_msg)
    (h : pconn.msg = xio_tcp_unpack_connect_msg S msg.wire)
    (h1 : msg.sock_type < 2 ^ 32) (h2 : msg.second_port < 2 ^ 16) (h3 : msg.pad < 2 ^ 16) :
    pconn.connect_msg S = msg := by
  obtain ⟨w1, w2, w3⟩ := connect_msg_wire_fields msg
  have hl := connect_msg_wire_length msg
  have e1 : msg.sock_type % 256 ^ 4 = msg.sock_type := Nat.mod_eq_of_lt (by norm_num at h1 ⊢; omega)
  have e2 : msg.second_port % 256 ^ 2 = msg.second_port :=
    Nat.mod_eq_of_lt (by norm_num at h2 ⊢; omega)
  have e3 : msg.pad % 256 ^ 2 = msg.pad := Nat.mod_eq_of_lt (by norm_num at h3 ⊢; omega)
  have hb4 := host_bytes_length S 4
  have hb2 := host_bytes_length S 2
  unfold xio_tcp_pending_conn.connect_msg
  rw [h]
  unfold xio_tcp_unpack_connect_msg UNPACK_LVAL UNPACK_SVAL off_sock_type off_second_port off_pad
  simp only [Nat.zero_add]
  have s1 : mem_load (mem_store msg.wire 0 (host_bytes S 4 (be_value (mem_load msg.wire 0 4))))
      4 2 = mem_load msg.wire 4 2 :=
    mem_load_store_disjoint _ _ _ _ _ (by rw [hb4]; omega)
  rw [s1, w1, w2, be_value_be_bytes, be_value_be_bytes, e1, e2]
  have s2 : mem_load (mem_store (mem_store msg.wire 0 (host_bytes S 4 msg.sock_type)) 4
      (host_bytes S 2 msg.second_port)) 6 2 = mem_load msg.wire 6 2 := by
    rw [mem_load_store_disjoint _ _ _ _ _ (by rw [hb2]; omega),
      mem_load_store_disjoint _ _ _ _ _ (by rw [hb4]; omega)]
  rw [s2, w3, be_value_be_bytes, e3]
  have r1 : mem_load (mem_store (mem_store (mem_store msg.wire 0 (host_bytes S 4 msg.sock_type))
      4 (host_bytes S 2 msg.second_port)) 6 (host_bytes S 2 msg.pad)) 0 4 =
      host_bytes S 4 msg.sock_type := by
    rw [mem_load_store_disjoint _ _ _ _ _ (by rw [hb2]; omega),
      mem_load_store_disjoint _ _ _ _ _ (by rw [hb2]; omega)]
    have := mem_load_store_same msg.wire 0 (host_bytes S 4 msg.sock_type) (by rw [hb4, hl]; omega)
    rwa [hb4] at this
  have r2 : mem_load (mem_store (mem_store (mem_store msg.wire 0 (host_bytes S 4 msg.sock_type))
      4 (host_bytes S 2 msg.second_port)) 6 (host_bytes S 2 msg.pad)) 4 2 =
      host_bytes S 2 msg.second_port := by
    rw [mem_load_store_disjoint _ _ _ _ _ (by rw [hb2]; omega)]
    have := mem_load_store_same (mem_store msg.wire 0 (host_bytes S 4 msg.sock_type)) 4
      (host_bytes S 2 msg.second_port) (by rw [hb2, mem_store_length, hl]; omega)
    rwa [hb2] at this
  have r3 : mem_load (mem_store (mem_store (mem_store msg.wire 0 (host_bytes S 4 msg.sock_type))
      4 (host_bytes S 2 msg.second_port)) 6 (host_bytes S 2 msg.pad)) 6 2 =
      host_bytes S 2 msg.pad := by
    have := mem_load_store_same (mem_store (mem_store msg.wire 0 (host_bytes S 4 msg.sock_type))
      4 (host_bytes S 2 msg.second_port)) 6
      (host_bytes S 2 msg.pad) (by rw [hb2, mem_store_length, mem_store_length, hl])
    rwa [hb2] at this
  rw [r1, r2, r3, host_value_host_bytes, host_value_host_bytes, host_value_host_bytes,
    e1, e2, e3]

theorem add_ev_handlers_send (V : xio_sys_env) (tcp_hndl : xio_tcp_handle) :
    (tcp_hndl.add_ev_handlers V).2.filter xio_tcp_call.is_send = [] := by
  unfold xio_tcp_handle.add_ev_handlers
  split
  · unfold xio_tcp_single_sock_add_ev_handlers
    dsimp only
    split_ifs <;> rfl
  · unfold xio_tcp_dual_sock_add_ev_handlers
    dsimp only
    split_ifs <;> rfl

/-- The handshakes `xio_tcp_conn_established_helper` sends: the message it
was given, once, on the control socket, exactly when every step before the
sending succeeds, and none otherwise. -/
theorem conn_established_sends (V : xio_sys_env) (fd : Int) (tcp_hndl : xio_tcp_handle)
    (msg : xio_tcp_connect_msg) (error : Int) :
    (xio_tcp_conn_established_helper V fd tcp_hndl msg error).calls.filter
        xio_tcp_call.is_send =
      if V.sends_on_cfd tcp_hndl error then
        [xio_tcp_call.xio_tcp_send_connect_msg tcp_hndl.sock_cfd msg]
      else [] := by
  have ha := add_ev_handlers_send V tcp_hndl
  unfold xio_tcp_conn_established_helper xio_tcp_conn_cleanup xio_sys_env.sends_on_cfd
    xio_sys_env.so_error
  dsimp only
  split_ifs <;>
    simp_all [List.filter_append, List.filter_cons, xio_tcp_call.is_send]

/-- The handshakes `xio_tcp_dfd_conn_established_ev_handler` sends: DATA_SOCK
with the port of the control socket, once, on the data socket, exactly when
every step before the sending succeeds, and none otherwise. -/
theorem dfd_conn_established_sends (V : xio_sys_env) (fd : Int) (tcp_hndl : xio_tcp_handle)
    (port_cfd : Nat) (error : Int) :
    (xio_tcp_dfd_conn_established_ev_handler V fd tcp_hndl port_cfd error).calls.filter
        xio_tcp_call.is_send =
      if V.sends_on_dfd tcp_hndl error then
        [xio_tcp_call.xio_tcp_send_connect_msg tcp_hndl.sock_dfd
          (xio_tcp_dfd_connect_msg port_cfd)]
      else [] := by
  unfold xio_tcp_dfd_conn_established_ev_handler xio_tcp_conn_cleanup
    xio_sys_env.sends_on_dfd xio_sys_env.so_error
  dsimp only
  split_ifs <;>
    simp_all [List.filter_append, List.filter_cons, xio_tcp_call.is_send]

/-- The pairing scan selects the entry `q` when `q` is on the list, waits for
no byte and passes the tests, and no other entry of the list passes the first
test. -/
theorem pairing_scan_selects (S : xio_sys_decls) (p q : xio_tcp_pending_conn)
    (hw : q.waiting_for_bytes = 0) (hx : xio_tcp_cross_checked S p q)
    (l : List xio_tcp_pending_conn) (hq : q ∈ l)
    (ho : ∀ x ∈ l, x ≠ q → ¬ xio_tcp_scan_test S p x) :
    (xio_tcp_pairing_scan S p l).2 = xio_scan_end.found q := by
  induction l with
  | nil => cases hq
  | cons x rest ih =>
    by_cases hxq : x = q
    · subst hxq
      unfold xio_tcp_pairing_scan
      rw [if_neg (not_not.mpr hw)]
      rcases hx with ⟨h1, h2, h3, h4⟩ | ⟨h0, h1, h2, h3, h4⟩
      · have ht : (x.connect_msg S).second_port = ntohs S p.sa.sin_port ∧
            x.sa.sin_addr = p.sa.sin_addr := ⟨h3, h2⟩
        rw [if_pos h1, if_pos ht, if_neg (not_not.mpr h4)]
      · have ht : (x.connect_msg S).second_port = ntohs S p.sa.sin6_port ∧
            x.sa.sin6_addr = p.sa.sin6_addr := ⟨h3, h2⟩
        rw [if_neg h0, if_pos h1, if_pos ht, if_neg (not_not.mpr h4)]
    · have hrest : (xio_tcp_pairing_scan S p rest).2 = xio_scan_end.found q := by
        apply ih
        · rcases List.mem_cons.mp hq with h | h
          · exact absurd h.symm hxq
          · exact h
        · intro y hy
          exact ho y (List.mem_cons_of_mem _ hy)
      have hnt := ho x (List.mem_cons_self _ _) hxq
      unfold xio_tcp_scan_test at hnt
      unfold xio_tcp_pairing_scan
      by_cases hwx : x.waiting_for_bytes = 0
      · rw [if_neg (not_not.mpr hwx)]
        by_cases hf : x.sa.sa_family = S.AF_INET
        · rw [if_pos hf]
          have ht : ¬ ((x.connect_msg S).second_port = ntohs S p.sa.sin_port ∧
              x.sa.sin_addr = p.sa.sin_addr) :=
            fun h => hnt ⟨hwx, Or.inl ⟨hf, h.1, h.2⟩⟩
          rw [if_neg ht]
          exact hrest
        · rw [if_neg hf]
          by_cases hf6 : x.sa.sa_family = S.AF_INET6
          · rw [if_pos hf6]
            have ht : ¬ ((x.connect_msg S).second_port = ntohs S p.sa.sin6_port ∧
                x.sa.sin6_addr = p.sa.sin6_addr) :=
              fun h => hnt ⟨hwx, Or.inr ⟨hf, hf6, h.1, h.2⟩⟩
            rw [if_neg ht]
            exact hrest
          · rw [if_neg hf6]
            exact hrest
      · rw [if_pos hwx]
        exact hrest

/-- From `single_sock` on, a child is left when `ctl_conn` has not been freed,
the creation succeeds and, for two sockets, the receive buffer is
allocated. -/
theorem pending_single_sock_some (T : xio_tcp_decls) (V : xio_sys_env) (E : xio_pending_env)
    (G : xio_tcp_globals) (fd : Int) (parent_hndl : xio_tcp_handle) (transport ctx : Nat)
    (ctl_conn : xio_tcp_pending_conn) (cfd dfd : Int) (is_single : Bool)
    (freed : Option Nat) (calls : List xio_tcp_call)
    (hfreed : freed ≠ some ctl_conn.addr)
    (hcreate : (xio_tcp_transport_create T E.create G transport ctx none false).2 ≠ none)
    (hbuf : is_single = true ∨ E.tmp_rx_buf ≠ none) :
    (xio_tcp_pending_single_sock T V E G fd parent_hndl transport ctx ctl_conn cfd dfd
      is_single freed calls).child_hndl ≠ none := by
  unfold xio_tcp_pending_single_sock
  rw [if_neg hfreed]
  dsimp only
  split
  · next h => exact absurd h hcreate
  · have hn : ¬ (is_single = false ∧ E.tmp_rx_buf = none) := by
      rintro ⟨h1, h2⟩
      rcases hbuf with h | h
      · rw [h1] at h; cases h
      · exact h h2
    rw [if_neg hn]
    exact Option.some_ne_none _

/-- The function `xio_tcp_handle_pending_conn` when its entry is found, no
epoll error is reported and the handshake is read to the end. -/
theorem handle_pending_conn_complete (T : xio_tcp_decls) (S : xio_sys_decls) (V : xio_sys_env)
    (E : xio_pending_env) (G : xio_tcp_globals) (fd : Int) (parent_hndl : xio_tcp_handle)
    (transport ctx : Nat) (p0 : xio_tcp_pending_conn)
    (hfind : parent_hndl.pending_conns.find? (fun pconn => pconn.fd == fd) = some p0)
    (hend : (xio_tcp_recv_loop S fd E.recv p0).2.2 = xio_recv_end.complete) :
    xio_tcp_handle_pending_conn T S V E G fd parent_hndl transport ctx 0 =
      xio_tcp_pending_pair T S V E G fd
        { parent_hndl with
          pending_conns := xio_tcp_list_update parent_hndl.pending_conns
            (xio_tcp_read_handshake S E fd p0) }
        transport ctx (xio_tcp_read_handshake S E fd p0)
        (xio_tcp_recv_loop S fd E.recv p0).2.1 := by
  unfold xio_tcp_handle_pending_conn
  rw [hfind]
  dsimp only
  rw [if_neg (fun h => h rfl), hend]

theorem ntohs_lt (S : xio_sys_decls) (x : Nat) : ntohs S x < 2 ^ 16 := by
  unfold ntohs host_bytes
  split
  · simp only [be_bytes, be_value, List.reverse_cons, List.reverse_nil, List.nil_append,
      List.cons_append, List.foldl_cons, List.foldl_nil]
    omega
  · simp only [be_bytes, be_value, List.foldl_cons, List.foldl_nil]
    omega

theorem sockaddr_port_lt (S : xio_sys_decls) (sa : xio_sockaddr) : sa.port S < 2 ^ 16 := by
  unfold xio_sockaddr.port
  split
  · exact ntohs_lt S _
  · exact ntohs_lt S _

/-- Two entries of one family, AF_INET or AF_INET6, from one peer address,
each advertising the peer port of the other, pass the tests of the scan. -/
theorem pair_cross_checked (S : xio_sys_decls) (p q : xio_tcp_pending_conn)
    (hf : p.sa.sa_family = q.sa.sa_family)
    (hfam : p.sa.sa_family = S.AF_INET ∨ p.sa.sa_family = S.AF_INET6)
    (hip : p.sa.ip S = q.sa.ip S)
    (hp : (p.connect_msg S).second_port = q.sa.port S)
    (hq : (q.connect_msg S).second_port = p.sa.port S) :
    xio_tcp_cross_checked S p q := by
  unfold xio_sockaddr.ip xio_sockaddr.port at *
  unfold xio_tcp_cross_checked
  by_cases h4 : q.sa.sa_family = S.AF_INET
  · have h4p : p.sa.sa_family = S.AF_INET := by rw [hf]; exact h4
    rw [if_pos h4p, if_pos h4] at hip
    rw [if_pos h4] at hp
    rw [if_pos h4p] at hq
    exact Or.inl ⟨h4, hip.symm, hq, hp.symm⟩
  · have h4p : ¬ p.sa.sa_family = S.AF_INET := by rw [hf]; exact h4
    rw [if_neg h4p, if_neg h4] at hip
    rw [if_neg h4] at hp
    rw [if_neg h4p] at hq
    have h6 : q.sa.sa_family = S.AF_INET6 := by
      rw [← hf]
      exact hfam.resolve_left h4p
    exact Or.inr ⟨h4, h6, hip.symm, hq, hp.symm⟩

/-- An entry that advertises another port than its own peer port does not
select itself. -/
theorem scan_test_self (S : xio_sys_decls) (p : xio_tcp_pending_conn)
    (hne : (p.connect_msg S).second_port ≠ p.sa.port S) :
    ¬ xio_tcp_scan_test S p p := by
  unfold xio_sockaddr.port at hne
  unfold xio_tcp_scan_test
  rintro ⟨_, ⟨h4, h, _⟩ | ⟨h4, _, h, _⟩⟩
  · rw [if_pos h4] at hne
    exact hne h
  · rw [if_neg h4] at hne
    exact hne h

theorem mem_list_update_of_mem (l : List xio_tcp_pending_conn) (p x : xio_tcp_pending_conn)
    (hx : x ∈ l) (hne : x.addr ≠ p.addr) : x ∈ xio_tcp_list_update l p := by
  unfold xio_tcp_list_update
  apply List.mem_map.mpr
  exact ⟨x, hx, by rw [if_neg hne]⟩

theorem mem_list_update_cases (l : List xio_tcp_pending_conn) (p x : xio_tcp_pending_conn)
    (hx : x ∈ xio_tcp_list_update l p) : x = p ∨ (x ∈ l ∧ x.addr ≠ p.addr) := by
  unfold xio_tcp_list_update at hx
  obtain ⟨y, hy, hxy⟩ := List.mem_map.mp hx
  by_cases h : y.addr = p.addr
  · rw [if_pos h] at hxy
    exact Or.inl hxy.symm
  · rw [if_neg h] at hxy
    rw [← hxy]
    exact Or.inr ⟨hy, h⟩

/-- The pairing part publishes the child of two sockets when the scan selects
a partner at another address, the handshake says CTL_SOCK or DATA_SOCK, and
the creation and the allocation succeed. -/
theorem pending_pair_dual (T : xio_tcp_decls) (S : xio_sys_decls) (V : xio_sys_env)
    (E : xio_pending_env) (G : xio_tcp_globals) (fd : Int) (parent_hndl : xio_tcp_handle)
    (transport ctx : Nat) (p q : xio_tcp_pending_conn) (calls : List xio_tcp_call)
    (hc : xio_new_connection ∉ calls)
    (hty : (p.connect_msg S).sock_type = XIO_TCP_CTL_SOCK ∨
      (p.connect_msg S).sock_type = XIO_TCP_DATA_SOCK)
    (hscan : (xio_tcp_pairing_scan S p parent_hndl.pending_conns).2 = xio_scan_end.found q)
    (hne : q.addr ≠ p.addr)
    (hcreate : (xio_tcp_transport_create T E.create G transport ctx none false).2 ≠ none)
    (hbuf : E.tmp_rx_buf ≠ none) :
    ∃ child,
      (xio_tcp_pending_pair T S V E G fd parent_hndl transport ctx p calls).child_hndl =
        some child ∧
      xio_new_connection ∈
        (xio_tcp_pending_pair T S V E G fd parent_hndl transport ctx p calls).calls ∧
      (xio_tcp_pending_pair T S V E G fd parent_hndl transport ctx p calls).fault = none ∧
      child.hndl.sock_ops = some xio_tcp_socket_ops.dual_sock_ops ∧
      (((p.connect_msg S).sock_type = XIO_TCP_CTL_SOCK ∧
          child.sock_cfd = p.fd ∧ child.sock_dfd = q.fd) ∨
        ((p.connect_msg S).sock_type = XIO_TCP_DATA_SOCK ∧
          child.sock_cfd = q.fd ∧ child.sock_dfd = p.fd)) := by
  have hns : (p.connect_msg S).sock_type ≠ XIO_TCP_SINGLE_SOCK := by
    rcases hty with h | h <;> (rw [h]; decide)
  have hsome : (xio_tcp_pending_pair T S V E G fd parent_hndl transport ctx p
      calls).child_hndl ≠ none := by
    unfold xio_tcp_pending_pair
    rw [if_neg hns]
    dsimp only
    rw [hscan]
    dsimp only
    have hn : ¬ ((p.connect_msg S).sock_type ≠ XIO_TCP_CTL_SOCK ∧
        (p.connect_msg S).sock_type ≠ XIO_TCP_DATA_SOCK) := by
      rintro ⟨h1, h2⟩
      rcases hty with h | h
      · exact h1 h
      · exact h2 h
    rw [if_neg hn]
    rcases hty with hctl | hdata
    · simp only [if_pos hctl]
      exact pending_single_sock_some T V E G fd _ transport ctx p p.fd q.fd false
        (some q.addr) _ (fun h => hne (Option.some.inj h)) hcreate (Or.inr hbuf)
    · have hnctl : ¬ (p.connect_msg S).sock_type = XIO_TCP_CTL_SOCK := by
        rw [hdata]; decide
      simp only [if_neg hnctl]
      exact pending_single_sock_some T V E G fd _ transport ctx q q.fd p.fd false
        (some p.addr) _ (fun h => hne (Option.some.inj h).symm) hcreate (Or.inr hbuf)
  obtain ⟨child, hchild⟩ := Option.ne_none_iff_exists'.mp hsome
  obtain ⟨k1, k2, hcase⟩ :=
    (pending_pair_spec T S V E G fd parent_hndl transport ctx p calls hc).2 child hchild
  refine ⟨child, hchild, k1, k2, ?_⟩
  rcases hcase with ⟨hs, _⟩ | ⟨_, hops, q2, hq2, _, hfds, _⟩
  · exact absurd hs hns
  · have hqq : q2 = q := by
      rw [hscan] at hq2
      injection hq2 with h
      exact h.symm
    rw [hqq] at hfds
    exact ⟨hops, hfds⟩

/-- The pairing part publishes the child of one socket at once when the
handshake says SINGLE_SOCK and the creation succeeds. -/
theorem pending_pair_single (T : xio_tcp_decls) (S : xio_sys_decls) (V : xio_sys_env)
    (E : xio_pending_env) (G : xio_tcp_globals) (fd : Int) (parent_hndl : xio_tcp_handle)
    (transport ctx : Nat) (p : xio_tcp_pending_conn) (calls : List xio_tcp_call)
    (hc : xio_new_connection ∉ calls)
    (hty : (p.connect_msg S).sock_type = XIO_TCP_SINGLE_SOCK)
    (hcreate : (xio_tcp_transport_create T E.create G transport ctx none false).2 ≠ none) :
    ∃ child,
      (xio_tcp_pending_pair T S V E G fd parent_hndl transport ctx p calls).child_hndl =
        some child ∧
      xio_new_connection ∈
        (xio_tcp_pending_pair T S V E G fd parent_hndl transport ctx p calls).calls ∧
      (xio_tcp_pending_pair T S V E G fd parent_hndl transport ctx p calls).fault = none ∧
      child.hndl.sock_ops = some xio_tcp_socket_ops.single_sock_ops ∧
      child.sock_cfd = fd ∧ child.sock_dfd = fd := by
  have hsome : (xio_tcp_pending_pair T S V E G fd parent_hndl transport ctx p
      calls).child_hndl ≠ none := by
    unfold xio_tcp_pending_pair
    rw [if_pos hty]
    exact pending_single_sock_some T V E G fd _ transport ctx p 0 0 true none _
      (fun h => by cases h) hcreate (Or.inl rfl)
  obtain ⟨child, hchild⟩ := Option.ne_none_iff_exists'.mp hsome
  obtain ⟨k1, k2, hcase⟩ :=
    (pending_pair_spec T S V E G fd parent_hndl transport ctx p calls hc).2 child hchild
  refine ⟨child, hchild, k1, k2, ?_⟩
  rcases hcase with ⟨_, h1, h2, h3, _⟩ | ⟨hs, _⟩
  · exact ⟨h3, h1, h2⟩
  · exact absurd hty hs

/-- A run of `xio_tcp_handle_pending_conn` on the entry that completes last of
two entries of one client, each advertising the peer port of the other: the
partner passes the tests and the child of two sockets is published, its fds
placed by the `sock_type` of the entry that completes. -/
theorem handle_pending_conn_dual (T : xio_tcp_decls) (S : xio_sys_decls) (V : xio_sys_env)
    (E : xio_pending_env) (G : xio_tcp_globals) (fd : Int) (parent_hndl : xio_tcp_handle)
    (transport ctx : Nat) (p0 q : xio_tcp_pending_conn) (m0 mq : xio_tcp_connect_msg)
    (hfind : parent_hndl.pending_conns.find? (fun pconn => pconn.fd == fd) = some p0)
    (hend : (xio_tcp_recv_loop S fd E.recv p0).2.2 = xio_recv_end.complete)
    (hmsg : (xio_tcp_recv_loop S fd E.recv p0).1.msg = m0.wire)
    (hq : q ∈ parent_hndl.pending_conns) (hqh : q.holds S mq)
    (hty : m0.sock_type = XIO_TCP_CTL_SOCK ∨ m0.sock_type = XIO_TCP_DATA_SOCK)
    (hpad0 : m0.pad < 2 ^ 16) (htyq : mq.sock_type < 2 ^ 32) (hpadq : mq.pad < 2 ^ 16)
    (hf : p0.sa.sa_family = q.sa.sa_family)
    (hfam : p0.sa.sa_family = S.AF_INET ∨ p0.sa.sa_family = S.AF_INET6)
    (hip : p0.sa.ip S = q.sa.ip S)
    (hm0 : m0.second_port = q.sa.port S) (hmq : mq.second_port = p0.sa.port S)
    (hports : p0.sa.port S ≠ q.sa.port S) (hne : q.addr ≠ p0.addr)
    (hothers : ∀ x ∈ parent_hndl.pending_conns, x.addr ≠ p0.addr → x ≠ q →
      ¬ xio_tcp_scan_test S (xio_tcp_read_handshake S E fd p0) x)
    (hcreate : (xio_tcp_transport_create T E.create G transport ctx none false).2 ≠ none)
    (hbuf : E.tmp_rx_buf ≠ none) :
    xio_tcp_cross_checked S (xio_tcp_read_handshake S E fd p0) q ∧
    ∃ child,
      (xio_tcp_handle_pending_conn T S V E G fd parent_hndl transport ctx 0).child_hndl =
        some child ∧
      xio_new_connection ∈
        (xio_tcp_handle_pending_conn T S V E G fd parent_hndl transport ctx 0).calls ∧
      (xio_tcp_handle_pending_conn T S V E G fd parent_hndl transport ctx 0).fault = none ∧
      child.hndl.sock_ops = some xio_tcp_socket_ops.dual_sock_ops ∧
      ((m0.sock_type = XIO_TCP_CTL_SOCK ∧ child.sock_cfd = p0.fd ∧ child.sock_dfd = q.fd) ∨
        (m0.sock_type = XIO_TCP_DATA_SOCK ∧ child.sock_cfd = q.fd ∧ child.sock_dfd = p0.fd)) := by
  obtain ⟨f1, f2, f3, f4⟩ := read_handshake_frame S E fd p0
  obtain ⟨_, _, _, _, hnew⟩ := recv_loop_frame S fd E.recv p0
  have hty32 : m0.sock_type < 2 ^ 32 := by
    rcases hty with h | h <;> (rw [h]; decide)
  have hc0 : (xio_tcp_read_handshake S E fd p0).connect_msg S = m0 := by
    apply connect_msg_of_wire S _ m0 _ hty32 (by rw [hm0]; exact sockaddr_port_lt S _) hpad0
    unfold xio_tcp_read_handshake
    dsimp only
    rw [hmsg]
  have hcq : q.connect_msg S = mq :=
    connect_msg_of_wire S q mq hqh.2 htyq (by rw [hmq]; exact sockaddr_port_lt S _) hpadq
  have hx : xio_tcp_cross_checked S (xio_tcp_read_handshake S E fd p0) q := by
    apply pair_cross_checked
    · rw [f3]; exact hf
    · rw [f3]; exact hfam
    · rw [f3]; exact hip
    · rw [hc0]; exact hm0
    · rw [hcq, f3]; exact hmq
  have hself : ¬ xio_tcp_scan_test S (xio_tcp_read_handshake S E fd p0)
      (xio_tcp_read_handshake S E fd p0) := by
    apply scan_test_self
    rw [hc0, f3, hm0]
    exact fun h => hports h.symm
  have hne2 : q.addr ≠ (xio_tcp_read_handshake S E fd p0).addr := by rw [f1]; exact hne
  have hscan : (xio_tcp_pairing_scan S (xio_tcp_read_handshake S E fd p0)
      (xio_tcp_list_update parent_hndl.pending_conns
        (xio_tcp_read_handshake S E fd p0))).2 = xio_scan_end.found q := by
    apply pairing_scan_selects S _ q hqh.1 hx
    · exact mem_list_update_of_mem _ _ _ hq hne2
    · intro x hxm hxq
      rcases mem_list_update_cases _ _ _ hxm with h | ⟨h1, h2⟩
      · rw [h]; exact hself
      · exact hothers x h1 (by rw [← f1]; exact h2) hxq
  refine ⟨hx, ?_⟩
  rw [handle_pending_conn_complete T S V E G fd parent_hndl transport ctx p0 hfind hend]
  obtain ⟨child, h1, h2, h3, h4, h5⟩ := pending_pair_dual T S V E G fd
    { parent_hndl with
      pending_conns := xio_tcp_list_update parent_hndl.pending_conns
        (xio_tcp_read_handshake S E fd p0) }
    transport ctx (xio_tcp_read_handshake S E fd p0) q _ hnew (by rw [hc0]; exact hty)
    hscan hne2 hcreate hbuf
  rw [hc0, f2] at h5
  exact ⟨child, h1, h2, h3, h4, h5⟩

/-- A run of `xio_tcp_handle_pending_conn` on an entry that receives the
handshake of a client with one socket: the child is published at once. -/
theorem handle_pending_conn_single (T : xio_tcp_decls) (S : xio_sys_decls) (V : xio_sys_env)
    (E : xio_pending_env) (G : xio_tcp_globals) (fd : Int) (parent_hndl : xio_tcp_handle)
    (transport ctx : Nat) (p0 : xio_tcp_pending_conn)
    (hfind : parent_hndl.pending_conns.find? (fun pconn => pconn.fd == fd) = some p0)
    (hend : (xio_tcp_recv_loop S fd E.recv p0).2.2 = xio_recv_end.complete)
    (hmsg : (xio_tcp_recv_loop S fd E.recv p0).1.msg = xio_tcp_single_connect_msg.wire)
    (hcreate : (xio_tcp_transport_create T E.create G transport ctx none false).2 ≠ none) :
    ∃ child,
      (xio_tcp_handle_pending_conn T S V E G fd parent_hndl transport ctx 0).child_hndl =
        some child ∧
      xio_new_connection ∈
        (xio_tcp_handle_pending_conn T S V E G fd parent_hndl transport ctx 0).calls ∧
      (xio_tcp_handle_pending_conn T S V E G fd parent_hndl transport ctx 0).fault = none ∧
      child.hndl.sock_ops = some xio_tcp_socket_ops.single_sock_ops ∧
      child.sock_cfd = fd ∧ child.sock_dfd = fd := by
  obtain ⟨_, _, _, _, hnew⟩ := recv_loop_frame S fd E.recv p0
  have hc0 : (xio_tcp_read_handshake S E fd p0).connect_msg S = xio_tcp_single_connect_msg := by
    apply connect_msg_of_wire S _ xio_tcp_single_connect_msg _ (by decide) (by decide)
      (by decide)
    unfold xio_tcp_read_handshake
    dsimp only
    rw [hmsg]
  rw [handle_pending_conn_complete T S V E G fd parent_hndl transport ctx p0 hfind hend]
  exact pending_pair_single T S V E G fd _ transport ctx _ _ hnew (by rw [hc0]; rfl) hcreate

end Accelio
